import Mathlib

/-!
# Chunk mesh builder (`src/graphics/BlocksRenderer.cpp`) and draw order
(`src/frontend/world_render.cpp`)

A shallow embedding of `BlocksRenderer`, of the parts of its collaborators that it
reads and of the ordering of `WorldRenderer::drawChunks`, followed by theorems about
the embedded functions.

Modelling conventions

* `float` values are rationals (`ℚ`).  The rounding of an operation to IEEE 754
  binary32 is the function `float32`; it is applied in the sum of `pickSoftLight`
  and in the sort key of `drawChunks`, whose results depend on it.  The other
  arithmetic steps are exact.  The sixth float of a vertex is a reinterpreted
  32-bit pattern; it is kept apart from ordinary floats by the constructor
  `Cell.bits`.
* `size_t`, `blockid_t`, `ubyte` and `light_t` values are natural numbers, `int`
  values are integers.
* `vertexBuffer` and `indexBuffer` are lists of fixed length (`new float[capacity]`,
  `new int[capacity]`).  A store outside the array, the dereference of a block
  definition that does not exist and a read outside the chunk's voxel array have
  no defined behaviour in the source: here they make the function return `none`.
* Constants and collaborators that live in headers outside the excerpt
  (`CHUNK_W`, `BLOCK_VOID`, `BLOCK_DIR_X`, the block definition table, the UV
  cache, the readers of the voxel window) are fields of `Scene`.
* `VoxelsVolume`, `Lightmap::extract` and the chunk storage `Chunks` are code of the
  repository outside the excerpt; where a theorem needs them they are modelled from
  the specification, under a doc comment that says so.
* `std::sort` is rendered as an insertion sort with the comparator of the source.
-/

namespace VoxelEngine

/-! ## Vectors (`glm::vec3`, `glm::ivec3`, `glm::vec4`) -/

/-- Three floats: `glm::vec3`. -/
structure vec3 where
  x : ℚ
  y : ℚ
  z : ℚ
deriving DecidableEq

/-- Three ints: `glm::ivec3`. -/
structure ivec3 where
  x : Int
  y : Int
  z : Int
deriving DecidableEq

/-- Four floats: `glm::vec4`, components named as the renderer reads them. -/
structure vec4 where
  r : ℚ
  g : ℚ
  b : ℚ
  a : ℚ
deriving DecidableEq

namespace vec3

/-- Componentwise sum. -/
def add (p q : vec3) : vec3 := ⟨p.x + q.x, p.y + q.y, p.z + q.z⟩

/-- Product with a scalar: `axis * w`. -/
def scale (p : vec3) (k : ℚ) : vec3 := ⟨p.x * k, p.y * k, p.z * k⟩

/-- Conversion `vec3(ivec3)`. -/
def ofInt (c : ivec3) : vec3 := ⟨(c.x : ℚ), (c.y : ℚ), (c.z : ℚ)⟩

instance : Add vec3 := ⟨add⟩

end vec3

namespace ivec3

/-- Componentwise sum. -/
def add (p q : ivec3) : ivec3 := ⟨p.x + q.x, p.y + q.y, p.z + q.z⟩

/-- Componentwise difference. -/
def sub (p q : ivec3) : ivec3 := ⟨p.x - q.x, p.y - q.y, p.z - q.z⟩

/-- Componentwise negation. -/
def neg (p : ivec3) : ivec3 := ⟨-p.x, -p.y, -p.z⟩

instance : Add ivec3 := ⟨add⟩
instance : Sub ivec3 := ⟨sub⟩
instance : Neg ivec3 := ⟨neg⟩

end ivec3

/-! ## Rounding of `float` operations -/

/-- Rounding to the nearest integer, a tie going to the even neighbour. -/
def roundEven (t : ℚ) : Int :=
  if t - ⌊t⌋ < 1 / 2 then ⌊t⌋
  else if 1 / 2 < t - ⌊t⌋ then ⌊t⌋ + 1
  else if ⌊t⌋ % 2 = 0 then ⌊t⌋ else ⌊t⌋ + 1

/-- The binary exponent at which a `float` holds the value `q`: that of the binade
of `q`, and -126 for the subnormal values. -/
def float32Exp (q : ℚ) : Int := max (Int.log 2 |q|) (-126)

/-- The result of an operation on `float` whose exact value is `q`: IEEE 754 binary32,
rounded to the nearest value of 24 significant bits, a tie going to the even one.
The value `2 ^ 128` stands for infinity. -/
def float32 (q : ℚ) : ℚ :=
  let ulp : ℚ := 2 ^ (float32Exp q - 23)
  let r : ℚ := (roundEven (q / ulp) : ℚ) * ulp
  if 2 ^ 128 ≤ r then 2 ^ 128 else if r ≤ -2 ^ 128 then -2 ^ 128 else r

namespace vec4

/-- The constructor `vec4(s)`: all four components equal. -/
def splat (s : ℚ) : vec4 := ⟨s, s, s, s⟩

/-- The four components as `float` values. -/
def toFloat (p : vec4) : vec4 := ⟨float32 p.r, float32 p.g, float32 p.b, float32 p.a⟩

/-- The `operator+` of two `vec4`: one `float` addition for each component. -/
def addF (p q : vec4) : vec4 :=
  ⟨float32 (p.r + q.r), float32 (p.g + q.g), float32 (p.b + q.b), float32 (p.a + q.a)⟩

/-- The `operator*` of a `vec4` and a `float`: one `float` product for each
component. -/
def scaleF (p : vec4) (k : ℚ) : vec4 :=
  ⟨float32 (p.r * k), float32 (p.g * k), float32 (p.b * k), float32 (p.a * k)⟩

/-- Componentwise sum. -/
def add (p q : vec4) : vec4 := ⟨p.r + q.r, p.g + q.g, p.b + q.b, p.a + q.a⟩

/-- Componentwise product: `light * tint`. -/
def mul (p q : vec4) : vec4 := ⟨p.r * q.r, p.g * q.g, p.b * q.b, p.a * q.a⟩

/-- Product with a scalar. -/
def scale (p : vec4) (k : ℚ) : vec4 := ⟨p.r * k, p.g * k, p.b * k, p.a * k⟩

instance : Add vec4 := ⟨add⟩
instance : Mul vec4 := ⟨mul⟩

end vec4

/-! ## Data read by the renderer -/

/-- A rectangle of the texture atlas (`UVRegion.h`). -/
structure UVRegion where
  u1 : ℚ
  v1 : ℚ
  u2 : ℚ
  v2 : ℚ
deriving DecidableEq

/-- The shape tag of a block definition; `other` stands for every value the
`switch` of `render` sends to `default`. -/
inductive BlockModel where
  | block
  | xsprite
  | aabb
  | other
deriving DecidableEq

/-- The fields of `Block` that the renderer reads.  `solid` and `emissive` are
`rt.solid` and `rt.emissive`; `hitboxMin` and `hitboxSize` are the results of
`hitbox.min()` and `hitbox.size()`. -/
structure Block where
  drawGroup : Nat
  lightPassing : Bool
  solid : Bool
  emissive : Bool
  rotatable : Bool
  model : BlockModel
  hitboxMin : vec3
  hitboxSize : vec3
deriving DecidableEq

/-- One cell of a chunk (`voxel.h`). -/
structure voxel where
  id : Nat
  states : Nat
deriving DecidableEq

/-- The fields of `Chunk` that the renderer reads. -/
structure Chunk where
  x : Int
  z : Int
  bottom : Nat
  top : Nat
  voxels : List voxel

/-- Everything a build reads and never writes: constants of `constants.h` and
`voxel.h`, the content tables, the UV cache, the current chunk and the two
bounds-checked readers of the voxel window after it was refilled. -/
structure Scene where
  CHUNK_W : Nat
  CHUNK_D : Nat
  BLOCK_VOID : Nat
  BLOCK_DIR_X : Nat
  BLOCK_DIR_Y : Nat
  BLOCK_DIR_Z : Nat
  FACE_MX : Fin 6
  FACE_MZ : Fin 6
  blockDefsCache : Nat → Option Block
  drawGroups : List Nat
  getRegion : Nat → Fin 6 → UVRegion
  pickBlockId : Int → Int → Int → Nat
  pickLight : Int → Int → Int → Nat
  chunk : Chunk

/-- Modelled from the spec: `Lightmap::extract` of `lighting/Lightmap.h`, which is
outside the excerpt.  The light value carries four 4-bit channels, R, G, B and
Sun from the lowest bits up, read with a shift and a mask. -/
def Lightmap.extract (light : Nat) (channel : Nat) : Nat :=
  (light >>> (channel * 4)) &&& 0xF

/-! ## The renderer state -/

/-- One element of `vertexBuffer`: an ordinary float, or the float whose bit
pattern is the given 32-bit integer. -/
inductive Cell where
  | flt (q : ℚ)
  | bits (n : Nat)
deriving DecidableEq

/-- The mutable members of `BlocksRenderer`. -/
structure BlocksRenderer where
  vertexBuffer : List Cell
  indexBuffer : List Nat
  vertexOffset : Nat
  indexOffset : Nat
  indexSize : Nat
  capacity : Nat
  overflow : Bool
deriving DecidableEq

/-- The constant `VERTEX_SIZE`. -/
def VERTEX_SIZE : Nat := 6

/-- The store `buf[i] = v` into a fixed-size array. -/
def store {α : Type} (buf : List α) (i : Nat) (v : α) : Option (List α) :=
  if i < buf.length then some (buf.set i v) else none

/-- The statement `vertexBuffer[vertexOffset++] = c`. -/
def pushFloat (r : BlocksRenderer) (c : Cell) : Option BlocksRenderer :=
  (store r.vertexBuffer r.vertexOffset c).map fun b =>
    { r with vertexBuffer := b, vertexOffset := r.vertexOffset + 1 }

/-- The statement `indexBuffer[indexSize++] = v`. -/
def pushIndex (r : BlocksRenderer) (v : Nat) : Option BlocksRenderer :=
  (store r.indexBuffer r.indexSize v).map fun b =>
    { r with indexBuffer := b, indexSize := r.indexSize + 1 }

/-- The conversion `uint32_t(f)` of a float: truncation. -/
def toUint32 (f : ℚ) : Nat := (Int.toNat ⌊f⌋) % 2 ^ 32

/-- The packed light of `vertex`, lines 60-63. -/
def compress (light : vec4) : Nat :=
  (((toUint32 (light.r * 255) &&& 0xff) <<< 24)
    ||| ((toUint32 (light.g * 255) &&& 0xff) <<< 16)
    ||| ((toUint32 (light.b * 255) &&& 0xff) <<< 8)
    ||| (toUint32 (light.a * 255) &&& 0xff))

/-- `BlocksRenderer::vertex(const vec3&, float, float, const vec4&)`. -/
def vertex (r : BlocksRenderer) (coord : vec3) (u v : ℚ) (light : vec4) :
    Option BlocksRenderer := do
  let r ← pushFloat r (.flt coord.x)
  let r ← pushFloat r (.flt coord.y)
  let r ← pushFloat r (.flt coord.z)
  let r ← pushFloat r (.flt u)
  let r ← pushFloat r (.flt v)
  pushFloat r (.bits (compress light))

/-- `BlocksRenderer::index`. -/
def index (r : BlocksRenderer) (a b c d e f : Nat) : Option BlocksRenderer := do
  let r ← pushIndex r (r.indexOffset + a)
  let r ← pushIndex r (r.indexOffset + b)
  let r ← pushIndex r (r.indexOffset + c)
  let r ← pushIndex r (r.indexOffset + d)
  let r ← pushIndex r (r.indexOffset + e)
  let r ← pushIndex r (r.indexOffset + f)
  pure { r with indexOffset := r.indexOffset + 4 }

/-- `BlocksRenderer::face(coord, w, h, axisX, axisY, region, lights, tint)`,
lines 78-93. -/
def face (r : BlocksRenderer) (coord : vec3) (w h : ℚ) (axisX axisY : vec3)
    (region : UVRegion) (lights : Fin 4 → vec4) (tint : vec4) : Option BlocksRenderer :=
  if r.vertexOffset + VERTEX_SIZE * 4 > r.capacity then
    some { r with overflow := true }
  else do
    let r ← vertex r coord region.u1 region.v1 (lights 0 * tint)
    let r ← vertex r (coord + axisX.scale w) region.u2 region.v1 (lights 1 * tint)
    let r ← vertex r (coord + axisX.scale w + axisY.scale h) region.u2 region.v2 (lights 2 * tint)
    let r ← vertex r (coord + axisY.scale h) region.u1 region.v2 (lights 3 * tint)
    index r 0 1 3 1 2 3

/-- The overload of `face` declared inline in `BlocksRenderer.h`, lines 69-75:
no tint argument, tint `vec4(1.0f)`. -/
def faceUntinted (r : BlocksRenderer) (coord : vec3) (w h : ℚ) (axisX axisY : vec3)
    (region : UVRegion) (lights : Fin 4 → vec4) : Option BlocksRenderer :=
  face r coord w h axisX axisY region lights (vec4.splat 1)

/-- `BlocksRenderer::face(coord, w, h, axisX, axisY, region, lights, tint, rotated)`,
lines 95-120. -/
def faceRotated (r : BlocksRenderer) (coord : vec3) (w h : ℚ) (axisX axisY : vec3)
    (region : UVRegion) (lights : Fin 4 → vec4) (tint : vec4) (rotated : Bool) :
    Option BlocksRenderer :=
  if r.vertexOffset + VERTEX_SIZE * 4 > r.capacity then
    some { r with overflow := true }
  else if rotated then do
    let r ← vertex r coord region.u2 region.v1 (lights 0 * tint)
    let r ← vertex r (coord + axisX.scale w) region.u2 region.v2 (lights 1 * tint)
    let r ← vertex r (coord + axisX.scale w + axisY.scale h) region.u1 region.v2 (lights 2 * tint)
    let r ← vertex r (coord + axisY.scale h) region.u1 region.v1 (lights 3 * tint)
    index r 0 1 2 0 2 3
  else do
    let r ← vertex r coord region.u1 region.v1 (lights 0 * tint)
    let r ← vertex r (coord + axisX.scale w) region.u2 region.v1 (lights 1 * tint)
    let r ← vertex r (coord + axisX.scale w + axisY.scale h) region.u2 region.v2 (lights 2 * tint)
    let r ← vertex r (coord + axisY.scale h) region.u1 region.v2 (lights 3 * tint)
    index r 0 1 2 0 2 3

/-! ## Reading the voxel window -/

/-- `BlocksRenderer::isOpen`, lines 330-339. -/
def isOpen (sc : Scene) (x y z : Int) (group : Nat) : Option Bool :=
  let id := sc.pickBlockId (sc.chunk.x * sc.CHUNK_W + x) y (sc.chunk.z * sc.CHUNK_D + z)
  if id = sc.BLOCK_VOID then some false
  else do
    let block ← sc.blockDefsCache id
    if (block.drawGroup != group && block.lightPassing) || !block.solid then
      some true
    else
      some (id == 0)

/-- `BlocksRenderer::isOpenForLight`, lines 341-350. -/
def isOpenForLight (sc : Scene) (x y z : Int) : Option Bool :=
  let id := sc.pickBlockId (sc.chunk.x * sc.CHUNK_W + x) y (sc.chunk.z * sc.CHUNK_D + z)
  if id = sc.BLOCK_VOID then some false
  else do
    let block ← sc.blockDefsCache id
    if block.lightPassing then
      some true
    else
      some (id == 0)

/-- `BlocksRenderer::pickLight(int, int, int)`, lines 352-363. -/
def pickLight (sc : Scene) (x y z : Int) : Option vec4 := do
  if (← isOpenForLight sc x y z) then
    let light := sc.pickLight (sc.chunk.x * sc.CHUNK_W + x) y (sc.chunk.z * sc.CHUNK_D + z)
    some ⟨(Lightmap.extract light 0 : ℚ) / 15, (Lightmap.extract light 1 : ℚ) / 15,
          (Lightmap.extract light 2 : ℚ) / 15, (Lightmap.extract light 3 : ℚ) / 15⟩
  else
    some (vec4.splat 0)

/-- `BlocksRenderer::pickLight(const ivec3&)`. -/
def pickLightAt (sc : Scene) (coord : ivec3) : Option vec4 :=
  pickLight sc coord.x coord.y coord.z

/-- `BlocksRenderer::pickSoftLight(const ivec3&, const ivec3&, const ivec3&)`,
lines 369-376.  The four samples are `float` vectors (the quotients by `15.0f` of
`pickLight`, rounded), added from left to right and multiplied by `0.25f`; each
operation rounds. -/
def pickSoftLight (sc : Scene) (coord right up : ivec3) : Option vec4 := do
  let l0 ← pickLightAt sc coord
  let l1 ← pickLightAt sc (coord - right)
  let l2 ← pickLightAt sc (coord - right - up)
  let l3 ← pickLightAt sc (coord - up)
  some ((((l0.toFloat.addF l1.toFloat).addF l2.toFloat).addF l3.toFloat).scaleF (1 / 4))

/-- The C function `round` followed by the conversion to `int`: to the nearest
integer, halves away from zero. -/
def roundToInt (f : ℚ) : Int :=
  if 0 ≤ f then ⌊f + 1 / 2⌋ else -⌊-f + 1 / 2⌋

/-- `BlocksRenderer::pickSoftLight(float, float, float, const ivec3&, const ivec3&)`,
lines 378-381. -/
def pickSoftLightRounded (sc : Scene) (x y z : ℚ) (right up : ivec3) : Option vec4 :=
  pickSoftLight sc ⟨roundToInt x, roundToInt y, roundToInt z⟩ right up

/-! ## Faces lit by the window -/

/-- `BlocksRenderer::vertex(const ivec3&, float, float, const vec4&, axisX, axisY, axisZ)`,
lines 122-129. -/
def vertexLit (sc : Scene) (r : BlocksRenderer) (coord : ivec3) (u v : ℚ) (tint : vec4)
    (axisX axisY axisZ : ivec3) : Option BlocksRenderer := do
  let light ← pickSoftLight sc (coord + axisZ) axisX axisY
  vertex r (vec3.ofInt coord) u v (light * tint)

/-- `BlocksRenderer::face(const ivec3&, axisX, axisY, axisZ, region, tint, rotated)`,
lines 131-157. -/
def faceLit (sc : Scene) (r : BlocksRenderer) (coord axisX axisY axisZ : ivec3)
    (region : UVRegion) (tint : vec4) (rotated : Bool) : Option BlocksRenderer :=
  if r.vertexOffset + VERTEX_SIZE * 4 > r.capacity then
    some { r with overflow := true }
  else if rotated then do
    let r ← vertexLit sc r coord region.u2 region.v1 tint axisX axisY axisZ
    let r ← vertexLit sc r (coord + axisX) region.u2 region.v2 tint axisX axisY axisZ
    let r ← vertexLit sc r (coord + axisX + axisY) region.u1 region.v2 tint axisX axisY axisZ
    let r ← vertexLit sc r (coord + axisY) region.u1 region.v1 tint axisX axisY axisZ
    index r 0 1 2 0 2 3
  else do
    let r ← vertexLit sc r coord region.u1 region.v1 tint axisX axisY axisZ
    let r ← vertexLit sc r (coord + axisX) region.u2 region.v1 tint axisX axisY axisZ
    let r ← vertexLit sc r (coord + axisX + axisY) region.u2 region.v2 tint axisX axisY axisZ
    let r ← vertexLit sc r (coord + axisY) region.u1 region.v2 tint axisX axisY axisZ
    index r 0 1 2 0 2 3

/-! ## Geometry templates -/

/-- `BlocksRenderer::blockCube`, lines 172-195: the cube of an emissive block. -/
def blockCube (sc : Scene) (r : BlocksRenderer) (x y z : Int) (size : vec3)
    (texfaces : Fin 6 → UVRegion) (group : Nat) : Option BlocksRenderer := do
  let lights : Fin 4 → vec4 := fun _ => vec4.splat 1
  let b ← isOpen sc x y (z + 1) group
  let r ← (if b then
      face r ⟨x, y, z⟩ size.x size.y ⟨1, 0, 0⟩ ⟨0, 1, 0⟩ (texfaces 5) lights (vec4.splat 1)
    else some r)
  let b ← isOpen sc x y (z - 1) group
  let r ← (if b then
      face r ⟨x + size.x, y, z - size.z⟩ size.x size.y ⟨-1, 0, 0⟩ ⟨0, 1, 0⟩ (texfaces 4)
        lights (vec4.splat 1)
    else some r)
  let b ← isOpen sc x (y + 1) z group
  let r ← (if b then
      faceUntinted r ⟨x, y + size.y, z⟩ size.x size.z ⟨1, 0, 0⟩ ⟨0, 0, -1⟩ (texfaces 3)
        lights
    else some r)
  let b ← isOpen sc x (y - 1) z group
  let r ← (if b then
      face r ⟨x, y, z - size.z⟩ size.x size.z ⟨1, 0, 0⟩ ⟨0, 0, 1⟩ (texfaces 2) lights
        (vec4.splat 1)
    else some r)
  let b ← isOpen sc (x - 1) y z group
  let r ← (if b then
      face r ⟨x, y, z - size.z⟩ size.z size.y ⟨0, 0, 1⟩ ⟨0, 1, 0⟩ (texfaces 0) lights
        (vec4.splat 1)
    else some r)
  let b ← isOpen sc (x + 1) y z group
  (if b then
    face r ⟨x + size.x, y, z⟩ size.z size.y ⟨0, 0, -1⟩ ⟨0, 1, 0⟩ (texfaces 1) lights
      (vec4.splat 1)
  else some r)

/-- `BlocksRenderer::blockXSprite`, lines 197-224. -/
def blockXSprite (sc : Scene) (r : BlocksRenderer) (x y z : Int) (size : vec3)
    (texface1 texface2 : UVRegion) (spread : ℚ) : Option BlocksRenderer := do
  let la ← pickSoftLight sc ⟨x, y + 1, z⟩ ⟨1, 0, 0⟩ ⟨0, 1, 0⟩
  let lb ← pickSoftLight sc ⟨x + 1, y + 1, z⟩ ⟨1, 0, 0⟩ ⟨0, 1, 0⟩
  let lc ← pickSoftLight sc ⟨x + 1, y + 1, z⟩ ⟨1, 0, 0⟩ ⟨0, 1, 0⟩
  let ld ← pickSoftLight sc ⟨x, y + 1, z⟩ ⟨1, 0, 0⟩ ⟨0, 1, 0⟩
  let lights : Fin 4 → vec4 := ![la, lb, lc, ld]
  let rand : Int := (Int.xor (x * z + y) (z * y - x)) * (z + y)
  let xs : ℚ := ((Int.bmod rand 256 : Int) : ℚ) / 512 * spread
  let zs : ℚ := ((Int.bmod (rand >>> 8) 256 : Int) : ℚ) / 512 * spread
  let w : ℚ := size.x / (141 / 100)
  let tint : ℚ := 8 / 10
  let r ← face r ⟨x + xs + (1 - w) * (1 / 2), y, z + zs - 1 + (1 - w) * (1 / 2)⟩ w size.y
    ⟨1, 0, 1⟩ ⟨0, 1, 0⟩ texface1 lights (vec4.splat tint)
  let r ← face r ⟨x + xs - (1 - w) * (1 / 2) + 1, y, z + zs - (1 - w) * (1 / 2)⟩ w size.y
    ⟨-1, 0, -1⟩ ⟨0, 1, 0⟩ texface1 lights (vec4.splat tint)
  let r ← face r ⟨x + xs + (1 - w) * (1 / 2), y, z + zs - (1 - w) * (1 / 2)⟩ w size.y
    ⟨1, 0, -1⟩ ⟨0, 1, 0⟩ texface2 lights (vec4.splat tint)
  face r ⟨x + xs - (1 - w) * (1 / 2) + 1, y, z + zs + (1 - w) * (1 / 2) - 1⟩ w size.y
    ⟨-1, 0, 1⟩ ⟨0, 1, 0⟩ texface2 lights (vec4.splat tint)

/-- The array initialiser `vec4 lights[]{ pickSoftLight(...), ... }` of the box
path: four soft lights read at float coordinates, with the same `right` and `up`. -/
def softLights (sc : Scene) (c0 c1 c2 c3 : vec3) (right up : ivec3) :
    Option (Fin 4 → vec4) := do
  let l0 ← pickSoftLightRounded sc c0.x c0.y c0.z right up
  let l1 ← pickSoftLightRounded sc c1.x c1.y c1.z right up
  let l2 ← pickSoftLightRounded sc c2.x c2.y c2.z right up
  let l3 ← pickSoftLightRounded sc c3.x c3.y c3.z right up
  some ![l0, l1, l2, l3]

/-- `BlocksRenderer::blockCubeShaded(const vec3& pos, const vec3& size, ...)`,
lines 226-275: the box of an `aabb` block.  The local `rot` is the constant 0, so
every `rot == 1` and `rot == 3` of the source is `false`. -/
def blockCubeShadedAABB (sc : Scene) (r : BlocksRenderer) (pos size : vec3)
    (texfaces : Fin 6 → UVRegion) (_block : Block) (_states : Nat) :
    Option BlocksRenderer := do
  let rot : Nat := 0
  let x := pos.x
  let y := pos.y
  let z := pos.z
  let lights ← softLights sc ⟨x, y, z + 1⟩ ⟨x + 1, y, z + 1⟩ ⟨x + 1, y + 1, z + 1⟩ ⟨x, y + 1, z + 1⟩
    ⟨1, 0, 0⟩ ⟨0, 1, 0⟩
  let r ← faceRotated r ⟨x, y, z⟩ size.x size.y ⟨1, 0, 0⟩ ⟨0, 1, 0⟩ (texfaces 5)
    lights (vec4.splat (9 / 10)) (rot == 1)
  let lights ← softLights sc ⟨pos.x, pos.y, pos.z - 1⟩ ⟨pos.x - 1, pos.y, pos.z - 1⟩
    ⟨pos.x - 1, pos.y + 1, pos.z - 1⟩ ⟨pos.x, pos.y + 1, pos.z - 1⟩
    ⟨-1, 0, 0⟩ ⟨0, 1, 0⟩
  let r ← faceRotated r ⟨x + size.x, y, z - size.z⟩ size.x size.y ⟨-1, 0, 0⟩ ⟨0, 1, 0⟩
    (texfaces 4) lights (vec4.splat (75 / 100)) (rot == 1)
  let lights ← softLights sc ⟨x, pos.y + 1, pos.z + 1⟩ ⟨x + 1, pos.y + 1, pos.z + 1⟩
    ⟨x + 1, pos.y + 1, pos.z⟩ ⟨x, pos.y + 1, pos.z⟩
    ⟨1, 0, 0⟩ ⟨0, 0, 1⟩
  let r ← faceRotated r ⟨x, y + size.y, z⟩ size.x size.z ⟨1, 0, 0⟩ ⟨0, 0, -1⟩
    (texfaces 3) lights (vec4.splat 1) (rot == 1)
  let lights ← softLights sc ⟨pos.x, pos.y - 1, pos.z - 1⟩ ⟨pos.x + 1, y - 1, pos.z - 1⟩
    ⟨pos.x + 1, y - 1, pos.z⟩ ⟨x, y - 1, z⟩
    ⟨1, 0, 0⟩ ⟨0, 0, -1⟩
  let r ← faceRotated r ⟨x, y, z - size.z⟩ size.x size.z ⟨1, 0, 0⟩ ⟨0, 0, 1⟩
    (texfaces 2) lights (vec4.splat (6 / 10)) (rot == 1)
  let lights ← softLights sc ⟨x - 1, y, z - 1⟩ ⟨x - 1, y, z⟩ ⟨x - 1, y + 1, z⟩ ⟨x - 1, y + 1, z - 1⟩
    ⟨0, 0, -1⟩ ⟨0, 1, 0⟩
  let r ← faceRotated r ⟨x, y, z - size.z⟩ size.z size.y ⟨0, 0, 1⟩ ⟨0, 1, 0⟩
    (texfaces 0) lights (vec4.splat (7 / 10)) (rot == 3)
  let lights ← softLights sc ⟨x + 1, y, z⟩ ⟨x + 1, y, z - 1⟩ ⟨x + 1, y + 1, z - 1⟩ ⟨x + 1, y + 1, z⟩
    ⟨0, 0, -1⟩ ⟨0, 1, 0⟩
  faceRotated r ⟨x + size.x, y, z⟩ size.z size.y ⟨0, 0, -1⟩ ⟨0, 1, 0⟩
    (texfaces 1) lights (vec4.splat (8 / 10)) (rot == 3)

/-- The local `rot` of `blockCubeShaded(int, int, int, ...)`, lines 280-303. -/
def shadedRot (sc : Scene) (block : Block) (states : Nat) : Nat :=
  if block.rotatable then
    if states = sc.BLOCK_DIR_X then 1
    else if states = sc.BLOCK_DIR_Y then 2
    else if states = sc.BLOCK_DIR_Z then 3
    else 0
  else 0

/-- The local array `texfaces` of `blockCubeShaded(int, int, int, ...)` after the
copy loop and the assignments of lines 282-303. -/
def shadedTexfaces (sc : Scene) (block : Block) (states : Nat)
    (texfaces_ : Fin 6 → UVRegion) : Fin 6 → UVRegion :=
  let texfaces := texfaces_
  if block.rotatable then
    if states = sc.BLOCK_DIR_X then
      let texfaces := Function.update texfaces 0 (texfaces_ 2)
      let texfaces := Function.update texfaces 1 (texfaces_ 3)
      let texfaces := Function.update texfaces 2 (texfaces_ 0)
      Function.update texfaces 3 (texfaces_ 1)
    else if states = sc.BLOCK_DIR_Y then
      texfaces
    else if states = sc.BLOCK_DIR_Z then
      let texfaces := Function.update texfaces 2 (texfaces_ 4)
      let texfaces := Function.update texfaces 3 (texfaces_ 5)
      let texfaces := Function.update texfaces 4 (texfaces_ 2)
      Function.update texfaces 5 (texfaces_ 3)
    else texfaces
  else texfaces

/-- `BlocksRenderer::blockCubeShaded(int x, int y, int z, ...)`, lines 277-327: the
unit cube of a block that is not emissive. -/
def blockCubeShaded (sc : Scene) (r : BlocksRenderer) (x y z : Int)
    (texfaces_ : Fin 6 → UVRegion) (block : Block) (states : Nat) :
    Option BlocksRenderer := do
  let group := block.drawGroup
  let texfaces := shadedTexfaces sc block states texfaces_
  let rot := shadedRot sc block states
  let X : ivec3 := ⟨1, 0, 0⟩
  let Y : ivec3 := ⟨0, 1, 0⟩
  let Z : ivec3 := ⟨0, 0, 1⟩
  let b ← isOpen sc (x + Z.x) (y + Z.y) (z + Z.z) group
  let r ← (if b then
      faceLit sc r ⟨x, y, z⟩ X Y Z (texfaces 5) (vec4.splat (9 / 10)) (rot == 1)
    else some r)
  let b ← isOpen sc (x - Z.x) (y - Z.y) (z - Z.z) group
  let r ← (if b then
      faceLit sc r ((⟨x, y, z⟩ : ivec3) + X - Z) (-X) Y (Z - Z - X) (texfaces 4)
        (vec4.splat (75 / 100)) (rot == 1)
    else some r)
  let b ← isOpen sc (x + Y.x) (y + Y.y) (z + Y.z) group
  let r ← (if b then
      faceLit sc r ((⟨x, y, z⟩ : ivec3) + Y) X (-Z) (Y - Y) (texfaces 3) (vec4.splat 1)
        (rot == 1)
    else some r)
  let b ← isOpen sc (x - Y.x) (y - Y.y) (z - Y.z) group
  let r ← (if b then
      faceLit sc r ((⟨x, y, z⟩ : ivec3) - Z) X Z (-Y + Z) (texfaces 2) (vec4.splat (6 / 10))
        (rot == 1)
    else some r)
  let b ← isOpen sc (x + X.x) (y + X.y) (z + X.z) group
  let r ← (if b then
      faceLit sc r ((⟨x, y, z⟩ : ivec3) + X) (-Z) Y (X - X) (texfaces 1) (vec4.splat (8 / 10))
        (rot == 3)
    else some r)
  let b ← isOpen sc (x - X.x) (y - X.y) (z - X.z) group
  (if b then
    faceLit sc r ((⟨x, y, z⟩ : ivec3) - Z) Z Y (-X + Z) (texfaces 0) (vec4.splat (7 / 10))
      (rot == 3)
  else some r)

/-! ## The build -/

/-- How one iteration of the voxel loop of `render` ends: it goes on to the next
index, or it leaves `render` through `return`. -/
inductive Flow where
  | next (r : BlocksRenderer)
  | ret (r : BlocksRenderer)
deriving DecidableEq

/-- The renderer state carried by a `Flow`. -/
def Flow.state : Flow → BlocksRenderer
  | .next r => r
  | .ret r => r

/-- The body of the voxel loop of `render(const voxel*, int)`, lines 388-424, for
the index `i` in the pass of `drawGroup`. -/
def renderVoxel (sc : Scene) (drawGroup : Nat) (r : BlocksRenderer) (i : Nat) :
    Option Flow := do
  let vox ← sc.chunk.voxels[i]?
  let id := vox.id
  let bdef ← sc.blockDefsCache id
  if id = 0 ∨ bdef.drawGroup ≠ drawGroup then
    some (.next r)
  else do
    let texfaces : Fin 6 → UVRegion := fun k => sc.getRegion id k
    let x : Int := i % sc.CHUNK_W
    let y : Int := i / (sc.CHUNK_D * sc.CHUNK_W)
    let z : Int := (i / sc.CHUNK_D) % sc.CHUNK_W
    let r ← match bdef.model with
      | .block =>
        if bdef.emissive then
          blockCube sc r x y z ⟨1, 1, 1⟩ texfaces bdef.drawGroup
        else
          blockCubeShaded sc r x y z texfaces bdef vox.states
      | .xsprite =>
        blockXSprite sc r x y z ⟨1, 1, 1⟩ (texfaces sc.FACE_MX) (texfaces sc.FACE_MZ) 1
      | .aabb =>
        let size := bdef.hitboxSize
        let off := bdef.hitboxMin
        let off : vec3 := { off with z := off.z * (-1) }
        let off : vec3 := { off with z := -1 - off.z + size.z }
        blockCubeShadedAABB sc r (off + ⟨x, y, z⟩) size texfaces bdef vox.states
      | .other => some r
    if r.overflow then some (.ret r) else some (.next r)

/-- The voxel loop `for (int i = begin; i < end; i++)` over the listed indices. -/
def renderSpan (sc : Scene) (drawGroup : Nat) : List Nat → BlocksRenderer → Option Flow
  | [], r => some (.next r)
  | i :: rest, r =>
    match renderVoxel sc drawGroup r i with
    | none => none
    | some (.next r1) => renderSpan sc drawGroup rest r1
    | some (.ret r1) => some (.ret r1)

/-- The loop `for (const auto drawGroup : *content->drawGroups)` over the listed
draw groups, each pass running the voxel loop over `span`. -/
def renderGroups (sc : Scene) (span : List Nat) : List Nat → BlocksRenderer → Option Flow
  | [], r => some (.next r)
  | g :: rest, r =>
    match renderSpan sc g span r with
    | none => none
    | some (.next r1) => renderGroups sc span rest r1
    | some (.ret r1) => some (.ret r1)

/-- The indices `begin, ..., end - 1` of `render(const voxel*, int)`. -/
def renderIndices (sc : Scene) : List Nat :=
  let renderBegin := sc.chunk.bottom * (sc.CHUNK_W * sc.CHUNK_D)
  let renderEnd := sc.chunk.top * (sc.CHUNK_W * sc.CHUNK_D)
  List.range' renderBegin (renderEnd - renderBegin)

/-- `BlocksRenderer::render(const voxel* voxels, int atlas_size)`, lines 383-427. -/
def render (sc : Scene) (r : BlocksRenderer) : Option BlocksRenderer :=
  (renderGroups sc (renderIndices sc) sc.drawGroups r).map Flow.state

/-- The mesh artifact handed to the graphics backend: the vertex floats and the
indices that the `Mesh` constructor copies, with their counts. -/
structure Mesh where
  vertices : List Cell
  vertexCount : Nat
  indices : List Nat
  indexCount : Nat
deriving DecidableEq

/-- `BlocksRenderer::render(const Chunk*, int, const ChunksStorage*)`, lines 448-461.
The chunk and the refilled window are those of `sc`; the result is the mesh and
the renderer left behind. -/
def renderChunk (sc : Scene) (r : BlocksRenderer) : Option (Mesh × BlocksRenderer) := do
  let r := { r with overflow := false }
  let r := { r with vertexOffset := 0 }
  let r := { r with indexOffset := 0, indexSize := 0 }
  let r ← render sc r
  let vertexCount := r.vertexOffset / VERTEX_SIZE
  let mesh : Mesh :=
    { vertices := r.vertexBuffer.take (vertexCount * VERTEX_SIZE)
      vertexCount := vertexCount
      indices := r.indexBuffer.take r.indexSize
      indexCount := r.indexSize }
  some (mesh, r)

/-! ## Draw order (`src/frontend/world_render.cpp`) -/

/-- The camera: the ordering reads only `position`. -/
structure Camera where
  position : vec3

/-- Modelled from the spec: the world storage `Chunks`, whose header is outside the
excerpt.  `chunks` is the array of `volume` slots; an empty slot (a null pointer)
is `none`. -/
structure Chunks where
  chunks : List (Option Chunk)

/-- Modelled from the spec: `chunks->volume`, the number of slots. -/
def Chunks.volume (cs : Chunks) : Nat := cs.chunks.length

/-- The read `chunks->chunks[i]` followed by a dereference: `none` for an empty
slot and outside the array. -/
def chunkAt (cs : Chunks) (i : Nat) : Option Chunk := (cs.chunks[i]?).join

/-- The first loop of `drawChunks`, lines 77-83: the indices of the non-null slots,
pushed in ascending order. -/
def collectIndices (cs : Chunks) : List Nat :=
  (List.range cs.volume).filter fun i => (chunkAt cs i).isSome

/-- The `float` expression `c + 0.5f - p` of the comparator, for the int `c`: the
conversion of `c`, the sum and the difference each round. -/
def centreOffset (c : Int) (p : ℚ) : ℚ := float32 (float32 (float32 (c : ℚ) + 1 / 2) - p)

/-- The comparator handed to `std::sort`, lines 87-92: the `float` value of
`(a->x + 0.5f - px)*(a->x + 0.5f - px) + (a->z + 0.5f - pz)*(a->z + 0.5f - pz)` is
greater than that of the same expression for `b`. -/
def farther (cs : Chunks) (px pz : ℚ) (i j : Nat) : Option Bool := do
  let a ← chunkAt cs i
  let b ← chunkAt cs j
  some (decide (float32 (float32 (centreOffset a.x px * centreOffset a.x px)
      + float32 (centreOffset a.z pz * centreOffset a.z pz))
    > float32 (float32 (centreOffset b.x px * centreOffset b.x px)
      + float32 (centreOffset b.z pz * centreOffset b.z pz))))

/-- One insertion of the sort: `a` goes before the first element that `comp` does
not put before it. -/
def insertSorted (comp : Nat → Nat → Option Bool) (a : Nat) : List Nat → Option (List Nat)
  | [] => some [a]
  | b :: l => do
    let before ← comp b a
    if before then
      let rest ← insertSorted comp a l
      some (b :: rest)
    else some (a :: b :: l)

/-- `std::sort(first, last, comp)` of the standard library, rendered as an insertion
sort; a comparison without defined behaviour makes it return `none`. -/
def stdSort (comp : Nat → Nat → Option Bool) : List Nat → Option (List Nat)
  | [] => some []
  | a :: l => do
    let sorted ← stdSort comp l
    insertSorted comp a sorted

/-- `WorldRenderer::drawChunks`, lines 73-99: the slot indices in the order in which
the last loop hands them to `drawChunk`. -/
def drawChunks (CHUNK_W CHUNK_D : Nat) (cs : Chunks) (camera : Camera) : Option (List Nat) :=
  let indices := collectIndices cs
  let px := float32 (camera.position.x / (CHUNK_W : ℚ))
  let pz := float32 (camera.position.z / (CHUNK_D : ℚ))
  stdSort (farther cs px pz) indices

/-! ## The voxel window (`voxels/VoxelsVolume.h`, outside the excerpt) -/

/-- Modelled from the spec: `VoxelsVolume`, the window of voxel ids and light values,
whose header is outside the excerpt.  It covers the world positions with
`x <= ax < x + w`, `y <= ay < y + h` and `z <= az < z + d`; `ids` and `lights` are
what the fill copied for a world position. -/
structure VoxelsVolume where
  x : Int
  y : Int
  z : Int
  w : Nat
  h : Nat
  d : Nat
  ids : Int → Int → Int → Nat
  lights : Int → Int → Int → Nat

/-- Modelled from the spec: the bounds test of the reads of `VoxelsVolume`. -/
def VoxelsVolume.inside (v : VoxelsVolume) (ax ay az : Int) : Bool :=
  decide (v.x ≤ ax ∧ ax < v.x + v.w ∧ v.y ≤ ay ∧ ay < v.y + v.h ∧ v.z ≤ az ∧ az < v.z + v.d)

/-- Modelled from the spec: `VoxelsVolume::pickBlockId`, a bounds-checked read that
returns the sentinel id `BLOCK_VOID` outside the window. -/
def VoxelsVolume.pickBlockId (v : VoxelsVolume) (BLOCK_VOID : Nat) (ax ay az : Int) : Nat :=
  if v.inside ax ay az then v.ids ax ay az else BLOCK_VOID

/-- Modelled from the spec: `VoxelsVolume::pickLight`, a bounds-checked read that
returns zero light outside the window. -/
def VoxelsVolume.pickLight (v : VoxelsVolume) (ax ay az : Int) : Nat :=
  if v.inside ax ay az then v.lights ax ay az else 0

/-- The window as the constructor sizes it (line 35:
`new VoxelsVolume(CHUNK_W + 2, CHUNK_H, CHUNK_D + 2)`) and as `render(chunk, ...)`
positions it (line 450: `setPosition(chunk->x * CHUNK_W - 1, 0, chunk->z * CHUNK_D - 1)`). -/
def chunkWindow (CHUNK_W CHUNK_H CHUNK_D : Nat) (chunk : Chunk)
    (ids lights : Int → Int → Int → Nat) : VoxelsVolume :=
  { x := chunk.x * CHUNK_W - 1, y := 0, z := chunk.z * CHUNK_D - 1,
    w := CHUNK_W + 2, h := CHUNK_H, d := CHUNK_D + 2, ids := ids, lights := lights }

/-! ## Drawing the chunks (`src/frontend/world_render.cpp`) -/

/-- Modelled from the spec: the collaborators of `drawChunk` whose code is outside the
excerpt, as functions of the chunk: `Chunk::isLighted`, `ChunksRenderer::getOrRender`
(a null mesh is `none`) and `Frustum::IsBoxVisible` after the update of the frame. -/
structure DrawEnv where
  isLighted : Chunk → Bool
  getOrRender : Chunk → Option Mesh
  isBoxVisible : vec3 → vec3 → Bool

/-- What `drawChunk` does that can be observed from outside: the calls of
`getOrRender` and of `mesh->draw()`, with the slot index of the chunk, and the
translation of the matrix handed to `shader->uniformMatrix("u_model", model)`. -/
inductive DrawEvent where
  | getOrRender (index : Nat)
  | uniformModel (translation : vec3)
  | draw (index : Nat)
deriving DecidableEq

/-- `WorldRenderer::drawChunk`, lines 52-71: the returned flag and the calls made. -/
def drawChunk (env : DrawEnv) (CHUNK_W CHUNK_D : Nat) (cs : Chunks) (index : Nat)
    (occlusion : Bool) : Option (Bool × List DrawEvent) := do
  let chunk ← chunkAt cs index
  if !env.isLighted chunk then
    some (false, [])
  else
    match env.getOrRender chunk with
    | none => some (false, [.getOrRender index])
    | some _ =>
      if occlusion then
        let min : vec3 := ⟨chunk.x * CHUNK_W, chunk.bottom, chunk.z * CHUNK_D⟩
        let max : vec3 :=
          ⟨chunk.x * CHUNK_W + CHUNK_W, chunk.top, chunk.z * CHUNK_D + CHUNK_D⟩
        if !env.isBoxVisible min max then
          some (false, [.getOrRender index])
        else
          some (true, [.getOrRender index,
            .uniformModel ⟨chunk.x * CHUNK_W, 0, chunk.z * CHUNK_D + 1⟩, .draw index])
      else
        some (true, [.getOrRender index,
          .uniformModel ⟨chunk.x * CHUNK_W, 0, chunk.z * CHUNK_D + 1⟩, .draw index])

/-- The last loop of `drawChunks`, lines 96-98:
`chunks->visible += drawChunk(indices[i], ...)`. -/
def drawLoop (env : DrawEnv) (CHUNK_W CHUNK_D : Nat) (cs : Chunks) (occlusion : Bool) :
    List Nat → Nat → List DrawEvent → Option (Nat × List DrawEvent)
  | [], visible, log => some (visible, log)
  | i :: rest, visible, log =>
    match drawChunk env CHUNK_W CHUNK_D cs i occlusion with
    | none => none
    | some (drawn, events) =>
      drawLoop env CHUNK_W CHUNK_D cs occlusion rest (visible + (if drawn then 1 else 0))
        (log ++ events)

/-- `WorldRenderer::drawChunks`, lines 73-99, as a whole: the ordering of `drawChunks`
above, the reset `chunks->visible = 0` and the loop.  `visible` is the value of
`chunks->visible` on entry; the result is its value on return and the calls made. -/
def drawChunksFrame (env : DrawEnv) (CHUNK_W CHUNK_D : Nat) (cs : Chunks) (camera : Camera)
    (occlusion : Bool) (visible : Nat) : Option (Nat × List DrawEvent) := do
  let indices ← drawChunks CHUNK_W CHUNK_D cs camera
  let _ := visible
  let visible := 0
  drawLoop env CHUNK_W CHUNK_D cs occlusion indices visible []

/-! ## Specification vocabulary -/

/-- The effect of consecutive stores: `xs` written over `buf` from position `off`. -/
def blit {α : Type} (buf : List α) (off : Nat) (xs : List α) : List α :=
  buf.take off ++ xs ++ buf.drop (off + xs.length)

/-- The renderer after the floats `cs` were stored at `vertexOffset`. -/
def writeCells (r : BlocksRenderer) (cs : List Cell) : BlocksRenderer :=
  { r with vertexBuffer := blit r.vertexBuffer r.vertexOffset cs
           vertexOffset := r.vertexOffset + cs.length }

/-- The renderer after the values `vs` were stored at `indexSize`. -/
def writeIndices (r : BlocksRenderer) (vs : List Nat) : BlocksRenderer :=
  { r with indexBuffer := blit r.indexBuffer r.indexSize vs
           indexSize := r.indexSize + vs.length }

/-- The six floats of one vertex, in the order `vertex` stores them. -/
def vertexCells (coord : vec3) (u v : ℚ) (light : vec4) : List Cell :=
  [.flt coord.x, .flt coord.y, .flt coord.z, .flt u, .flt v, .bits (compress light)]

/-- One vertex as `vertex` receives it. -/
structure Vtx where
  coord : vec3
  u : ℚ
  v : ℚ
  light : vec4
deriving DecidableEq

/-- The six floats of a vertex. -/
def Vtx.cells (p : Vtx) : List Cell := vertexCells p.coord p.u p.v p.light

/-- One face as a `face` overload emits it: four vertices in the order of the
calls of `vertex`, and which of the two index patterns follows them
(`diag13 = true` for `index(0, 1, 3, 1, 2, 3)`, `false` for `index(0, 1, 2, 0, 2, 3)`). -/
structure Quad where
  v0 : Vtx
  v1 : Vtx
  v2 : Vtx
  v3 : Vtx
  diag13 : Bool
deriving DecidableEq

/-- The 24 floats of a face. -/
def Quad.cells (q : Quad) : List Cell := q.v0.cells ++ q.v1.cells ++ q.v2.cells ++ q.v3.cells

/-- The arguments of the call of `index` that ends a face. -/
def Quad.pattern (q : Quad) : List Nat :=
  if q.diag13 then [0, 1, 3, 1, 2, 3] else [0, 1, 2, 0, 2, 3]

/-- The six index values of a face whose first vertex has number `base`. -/
def Quad.indices (q : Quad) (base : Nat) : List Nat := q.pattern.map (base + ·)

/-- What a call of a `face` overload does with the face `q`: nothing but raising
the overflow flag when fewer than 24 floats are left, and otherwise 24 floats and 6
indices appended and `indexOffset` advanced by 4. -/
def emit (r : BlocksRenderer) (q : Quad) : BlocksRenderer :=
  if r.vertexOffset + VERTEX_SIZE * 4 > r.capacity then
    { r with overflow := true }
  else
    { writeIndices (writeCells r q.cells) (q.indices r.indexOffset) with
      indexOffset := r.indexOffset + 4 }

/-- The number of faces written since the reset. -/
def faceCount (r : BlocksRenderer) : Nat := r.indexOffset / 4

/-- The invariant of the renderer between two calls of `face`: both arrays have
`capacity` elements, and the three counters advance together. -/
structure WF (r : BlocksRenderer) : Prop where
  vlen : r.vertexBuffer.length = r.capacity
  ilen : r.indexBuffer.length = r.capacity
  voff : r.vertexOffset = 24 * faceCount r
  isz : r.indexSize = 6 * faceCount r
  ioff : r.indexOffset = 4 * faceCount r

/-- The face that `face(coord, w, h, axisX, axisY, region, lights, tint)` emits. -/
def faceQuad (coord : vec3) (w h : ℚ) (axisX axisY : vec3) (region : UVRegion)
    (lights : Fin 4 → vec4) (tint : vec4) : Quad :=
  { v0 := ⟨coord, region.u1, region.v1, lights 0 * tint⟩
    v1 := ⟨coord + axisX.scale w, region.u2, region.v1, lights 1 * tint⟩
    v2 := ⟨coord + axisX.scale w + axisY.scale h, region.u2, region.v2, lights 2 * tint⟩
    v3 := ⟨coord + axisY.scale h, region.u1, region.v2, lights 3 * tint⟩
    diag13 := true }

/-- The face that `face(coord, w, h, axisX, axisY, region, lights, tint, rotated)`
emits. -/
def faceRotatedQuad (coord : vec3) (w h : ℚ) (axisX axisY : vec3) (region : UVRegion)
    (lights : Fin 4 → vec4) (tint : vec4) (rotated : Bool) : Quad :=
  if rotated then
    { v0 := ⟨coord, region.u2, region.v1, lights 0 * tint⟩
      v1 := ⟨coord + axisX.scale w, region.u2, region.v2, lights 1 * tint⟩
      v2 := ⟨coord + axisX.scale w + axisY.scale h, region.u1, region.v2, lights 2 * tint⟩
      v3 := ⟨coord + axisY.scale h, region.u1, region.v1, lights 3 * tint⟩
      diag13 := false }
  else
    { v0 := ⟨coord, region.u1, region.v1, lights 0 * tint⟩
      v1 := ⟨coord + axisX.scale w, region.u2, region.v1, lights 1 * tint⟩
      v2 := ⟨coord + axisX.scale w + axisY.scale h, region.u2, region.v2, lights 2 * tint⟩
      v3 := ⟨coord + axisY.scale h, region.u1, region.v2, lights 3 * tint⟩
      diag13 := false }

/-- Every block id that the window can return, other than the sentinel, has a
definition. -/
def WindowDefined (sc : Scene) : Prop :=
  ∀ x y z : Int, sc.pickBlockId x y z ≠ sc.BLOCK_VOID →
    (sc.blockDefsCache (sc.pickBlockId x y z)).isSome = true

/-- The value of `isOpen`, `false` where the source has no defined behaviour. -/
def isOpenD (sc : Scene) (x y z : Int) (group : Nat) : Bool :=
  (isOpen sc x y z group).getD false

/-- The value of `pickSoftLight`, zero where the source has no defined behaviour. -/
def softLight (sc : Scene) (coord right up : ivec3) : vec4 :=
  (pickSoftLight sc coord right up).getD (vec4.splat 0)

/-- The vertex that `vertex(coord, u, v, tint, axisX, axisY, axisZ)` stores. -/
def litVtx (sc : Scene) (coord : ivec3) (u v : ℚ) (tint : vec4) (axisX axisY axisZ : ivec3) :
    Vtx :=
  ⟨vec3.ofInt coord, u, v, softLight sc (coord + axisZ) axisX axisY * tint⟩

/-- The face that `face(coord, axisX, axisY, axisZ, region, tint, rotated)` emits. -/
def litQuad (sc : Scene) (coord axisX axisY axisZ : ivec3) (region : UVRegion) (tint : vec4)
    (rotated : Bool) : Quad :=
  if rotated then
    { v0 := litVtx sc coord region.u2 region.v1 tint axisX axisY axisZ
      v1 := litVtx sc (coord + axisX) region.u2 region.v2 tint axisX axisY axisZ
      v2 := litVtx sc (coord + axisX + axisY) region.u1 region.v2 tint axisX axisY axisZ
      v3 := litVtx sc (coord + axisY) region.u1 region.v1 tint axisX axisY axisZ
      diag13 := false }
  else
    { v0 := litVtx sc coord region.u1 region.v1 tint axisX axisY axisZ
      v1 := litVtx sc (coord + axisX) region.u2 region.v1 tint axisX axisY axisZ
      v2 := litVtx sc (coord + axisX + axisY) region.u2 region.v2 tint axisX axisY axisZ
      v3 := litVtx sc (coord + axisY) region.u1 region.v2 tint axisX axisY axisZ
      diag13 := false }

/-- The faces `qs` handed to `face` one after the other. -/
def emitAll (r : BlocksRenderer) (qs : List Quad) : BlocksRenderer := qs.foldl emit r

/-- The six sides of a voxel, named by the neighbour they look at. -/
inductive Dir where
  | pz
  | nz
  | py
  | ny
  | px
  | nx
deriving DecidableEq

/-- The offset from a voxel to its neighbour on the given side. -/
def Dir.offset : Dir → ivec3
  | .pz => ⟨0, 0, 1⟩
  | .nz => ⟨0, 0, -1⟩
  | .py => ⟨0, 1, 0⟩
  | .ny => ⟨0, -1, 0⟩
  | .px => ⟨1, 0, 0⟩
  | .nx => ⟨-1, 0, 0⟩

/-- Whether `isOpen` holds for the neighbour of `(x, y, z)` on side `d`. -/
def openSide (sc : Scene) (x y z : Int) (group : Nat) (d : Dir) : Bool :=
  isOpenD sc (x + d.offset.x) (y + d.offset.y) (z + d.offset.z) group

/-- The order in which `blockCubeShaded(int, int, int, ...)` tests the sides. -/
def shadedOrder : List Dir := [.pz, .nz, .py, .ny, .px, .nx]

/-- The order in which `blockCube` tests the sides. -/
def cubeOrder : List Dir := [.pz, .nz, .py, .ny, .nx, .px]

/-- The face of `blockCubeShaded(int, int, int, ...)` on side `d`, lines 309-326. -/
def shadedQuad (sc : Scene) (x y z : Int) (texfaces_ : Fin 6 → UVRegion) (block : Block)
    (states : Nat) : Dir → Quad
  | .pz => litQuad sc ⟨x, y, z⟩ ⟨1, 0, 0⟩ ⟨0, 1, 0⟩ ⟨0, 0, 1⟩
      (shadedTexfaces sc block states texfaces_ 5) (vec4.splat (9 / 10))
      (shadedRot sc block states == 1)
  | .nz => litQuad sc ⟨x + 1, y, z - 1⟩ ⟨-1, 0, 0⟩ ⟨0, 1, 0⟩ ⟨-1, 0, 0⟩
      (shadedTexfaces sc block states texfaces_ 4) (vec4.splat (75 / 100))
      (shadedRot sc block states == 1)
  | .py => litQuad sc ⟨x, y + 1, z⟩ ⟨1, 0, 0⟩ ⟨0, 0, -1⟩ ⟨0, 0, 0⟩
      (shadedTexfaces sc block states texfaces_ 3) (vec4.splat 1)
      (shadedRot sc block states == 1)
  | .ny => litQuad sc ⟨x, y, z - 1⟩ ⟨1, 0, 0⟩ ⟨0, 0, 1⟩ ⟨0, -1, 1⟩
      (shadedTexfaces sc block states texfaces_ 2) (vec4.splat (6 / 10))
      (shadedRot sc block states == 1)
  | .px => litQuad sc ⟨x + 1, y, z⟩ ⟨0, 0, -1⟩ ⟨0, 1, 0⟩ ⟨0, 0, 0⟩
      (shadedTexfaces sc block states texfaces_ 1) (vec4.splat (8 / 10))
      (shadedRot sc block states == 3)
  | .nx => litQuad sc ⟨x, y, z - 1⟩ ⟨0, 0, 1⟩ ⟨0, 1, 0⟩ ⟨-1, 0, 1⟩
      (shadedTexfaces sc block states texfaces_ 0) (vec4.splat (7 / 10))
      (shadedRot sc block states == 3)

/-- The faces that `blockCubeShaded(int, int, int, ...)` hands to `face`: the faces
of the open sides, in the order of the tests. -/
def shadedQuads (sc : Scene) (x y z : Int) (texfaces_ : Fin 6 → UVRegion) (block : Block)
    (states : Nat) : List Quad :=
  (shadedOrder.filter (openSide sc x y z block.drawGroup)).map
    (shadedQuad sc x y z texfaces_ block states)

/-- The step `if (cond) face(...)` with the face known. -/
def emitIf (r : BlocksRenderer) (b : Bool) (q : Quad) : BlocksRenderer :=
  if b then emit r q else r

/-- The four equal lights `vec4(1.0f)` of `blockCube`. -/
def fullLights : Fin 4 → vec4 := fun _ => vec4.splat 1

/-- The face of `blockCube` on side `d`, lines 174-194. -/
def cubeQuad (x y z : Int) (size : vec3) (texfaces : Fin 6 → UVRegion) : Dir → Quad
  | .pz => faceQuad ⟨x, y, z⟩ size.x size.y ⟨1, 0, 0⟩ ⟨0, 1, 0⟩ (texfaces 5) fullLights
      (vec4.splat 1)
  | .nz => faceQuad ⟨x + size.x, y, z - size.z⟩ size.x size.y ⟨-1, 0, 0⟩ ⟨0, 1, 0⟩
      (texfaces 4) fullLights (vec4.splat 1)
  | .py => faceQuad ⟨x, y + size.y, z⟩ size.x size.z ⟨1, 0, 0⟩ ⟨0, 0, -1⟩ (texfaces 3)
      fullLights (vec4.splat 1)
  | .ny => faceQuad ⟨x, y, z - size.z⟩ size.x size.z ⟨1, 0, 0⟩ ⟨0, 0, 1⟩ (texfaces 2)
      fullLights (vec4.splat 1)
  | .px => faceQuad ⟨x + size.x, y, z⟩ size.z size.y ⟨0, 0, -1⟩ ⟨0, 1, 0⟩ (texfaces 1)
      fullLights (vec4.splat 1)
  | .nx => faceQuad ⟨x, y, z - size.z⟩ size.z size.y ⟨0, 0, 1⟩ ⟨0, 1, 0⟩ (texfaces 0)
      fullLights (vec4.splat 1)

/-- The faces that `blockCube` hands to `face`: the faces of the open sides, in
the order of the tests. -/
def cubeQuads (sc : Scene) (x y z : Int) (size : vec3) (texfaces : Fin 6 → UVRegion)
    (group : Nat) : List Quad :=
  (cubeOrder.filter (openSide sc x y z group)).map (cubeQuad x y z size texfaces)

/-- The value of the array initialiser `softLights`, zero where the source has no
defined behaviour. -/
def softLightsD (sc : Scene) (c0 c1 c2 c3 : vec3) (right up : ivec3) : Fin 4 → vec4 :=
  ![softLight sc ⟨roundToInt c0.x, roundToInt c0.y, roundToInt c0.z⟩ right up,
    softLight sc ⟨roundToInt c1.x, roundToInt c1.y, roundToInt c1.z⟩ right up,
    softLight sc ⟨roundToInt c2.x, roundToInt c2.y, roundToInt c2.z⟩ right up,
    softLight sc ⟨roundToInt c3.x, roundToInt c3.y, roundToInt c3.z⟩ right up]

/-- The four faces that `blockXSprite` hands to `face`, lines 211-223. -/
def xspriteQuads (sc : Scene) (x y z : Int) (size : vec3) (texface1 texface2 : UVRegion)
    (spread : ℚ) : List Quad :=
  let lights : Fin 4 → vec4 :=
    ![softLight sc ⟨x, y + 1, z⟩ ⟨1, 0, 0⟩ ⟨0, 1, 0⟩,
      softLight sc ⟨x + 1, y + 1, z⟩ ⟨1, 0, 0⟩ ⟨0, 1, 0⟩,
      softLight sc ⟨x + 1, y + 1, z⟩ ⟨1, 0, 0⟩ ⟨0, 1, 0⟩,
      softLight sc ⟨x, y + 1, z⟩ ⟨1, 0, 0⟩ ⟨0, 1, 0⟩]
  let rand : Int := (Int.xor (x * z + y) (z * y - x)) * (z + y)
  let xs : ℚ := ((Int.bmod rand 256 : Int) : ℚ) / 512 * spread
  let zs : ℚ := ((Int.bmod (rand >>> 8) 256 : Int) : ℚ) / 512 * spread
  let w : ℚ := size.x / (141 / 100)
  let tint : ℚ := 8 / 10
  [faceQuad ⟨x + xs + (1 - w) * (1 / 2), y, z + zs - 1 + (1 - w) * (1 / 2)⟩ w size.y
      ⟨1, 0, 1⟩ ⟨0, 1, 0⟩ texface1 lights (vec4.splat tint),
   faceQuad ⟨x + xs - (1 - w) * (1 / 2) + 1, y, z + zs - (1 - w) * (1 / 2)⟩ w size.y
      ⟨-1, 0, -1⟩ ⟨0, 1, 0⟩ texface1 lights (vec4.splat tint),
   faceQuad ⟨x + xs + (1 - w) * (1 / 2), y, z + zs - (1 - w) * (1 / 2)⟩ w size.y
      ⟨1, 0, -1⟩ ⟨0, 1, 0⟩ texface2 lights (vec4.splat tint),
   faceQuad ⟨x + xs - (1 - w) * (1 / 2) + 1, y, z + zs + (1 - w) * (1 / 2) - 1⟩ w size.y
      ⟨-1, 0, 1⟩ ⟨0, 1, 0⟩ texface2 lights (vec4.splat tint)]

/-- The six faces that `blockCubeShaded(const vec3&, const vec3&, ...)` hands to
`face`, lines 232-273. -/
def aabbQuads (sc : Scene) (pos size : vec3) (texfaces : Fin 6 → UVRegion) : List Quad :=
  let x := pos.x
  let y := pos.y
  let z := pos.z
  [faceRotatedQuad ⟨x, y, z⟩ size.x size.y ⟨1, 0, 0⟩ ⟨0, 1, 0⟩ (texfaces 5)
      (softLightsD sc ⟨x, y, z + 1⟩ ⟨x + 1, y, z + 1⟩ ⟨x + 1, y + 1, z + 1⟩ ⟨x, y + 1, z + 1⟩
        ⟨1, 0, 0⟩ ⟨0, 1, 0⟩) (vec4.splat (9 / 10)) false,
   faceRotatedQuad ⟨x + size.x, y, z - size.z⟩ size.x size.y ⟨-1, 0, 0⟩ ⟨0, 1, 0⟩
      (texfaces 4)
      (softLightsD sc ⟨x, y, z - 1⟩ ⟨x - 1, y, z - 1⟩ ⟨x - 1, y + 1, z - 1⟩ ⟨x, y + 1, z - 1⟩
        ⟨-1, 0, 0⟩ ⟨0, 1, 0⟩) (vec4.splat (75 / 100)) false,
   faceRotatedQuad ⟨x, y + size.y, z⟩ size.x size.z ⟨1, 0, 0⟩ ⟨0, 0, -1⟩ (texfaces 3)
      (softLightsD sc ⟨x, y + 1, z + 1⟩ ⟨x + 1, y + 1, z + 1⟩ ⟨x + 1, y + 1, z⟩ ⟨x, y + 1, z⟩
        ⟨1, 0, 0⟩ ⟨0, 0, 1⟩) (vec4.splat 1) false,
   faceRotatedQuad ⟨x, y, z - size.z⟩ size.x size.z ⟨1, 0, 0⟩ ⟨0, 0, 1⟩ (texfaces 2)
      (softLightsD sc ⟨x, y - 1, z - 1⟩ ⟨x + 1, y - 1, z - 1⟩ ⟨x + 1, y - 1, z⟩ ⟨x, y - 1, z⟩
        ⟨1, 0, 0⟩ ⟨0, 0, -1⟩) (vec4.splat (6 / 10)) false,
   faceRotatedQuad ⟨x, y, z - size.z⟩ size.z size.y ⟨0, 0, 1⟩ ⟨0, 1, 0⟩ (texfaces 0)
      (softLightsD sc ⟨x - 1, y, z - 1⟩ ⟨x - 1, y, z⟩ ⟨x - 1, y + 1, z⟩ ⟨x - 1, y + 1, z - 1⟩
        ⟨0, 0, -1⟩ ⟨0, 1, 0⟩) (vec4.splat (7 / 10)) false,
   faceRotatedQuad ⟨x + size.x, y, z⟩ size.z size.y ⟨0, 0, -1⟩ ⟨0, 1, 0⟩ (texfaces 1)
      (softLightsD sc ⟨x + 1, y, z⟩ ⟨x + 1, y, z - 1⟩ ⟨x + 1, y + 1, z - 1⟩ ⟨x + 1, y + 1, z⟩
        ⟨0, 0, -1⟩ ⟨0, 1, 0⟩) (vec4.splat (8 / 10)) false]

/-- The faces that the iteration `i` of the pass of `drawGroup` hands to `face`;
none where the source has no defined behaviour. -/
def voxelQuads (sc : Scene) (drawGroup : Nat) (i : Nat) : List Quad :=
  match sc.chunk.voxels[i]? with
  | none => []
  | some vox =>
    match sc.blockDefsCache vox.id with
    | none => []
    | some bdef =>
      if vox.id = 0 ∨ bdef.drawGroup ≠ drawGroup then []
      else
        let texfaces : Fin 6 → UVRegion := fun k => sc.getRegion vox.id k
        let x : Int := i % sc.CHUNK_W
        let y : Int := i / (sc.CHUNK_D * sc.CHUNK_W)
        let z : Int := (i / sc.CHUNK_D) % sc.CHUNK_W
        match bdef.model with
        | .block =>
          if bdef.emissive then cubeQuads sc x y z ⟨1, 1, 1⟩ texfaces bdef.drawGroup
          else shadedQuads sc x y z texfaces bdef vox.states
        | .xsprite =>
          xspriteQuads sc x y z ⟨1, 1, 1⟩ (texfaces sc.FACE_MX) (texfaces sc.FACE_MZ) 1
        | .aabb =>
          aabbQuads sc
            ((⟨bdef.hitboxMin.x, bdef.hitboxMin.y,
                -1 - bdef.hitboxMin.z * (-1) + bdef.hitboxSize.z⟩ : vec3) + ⟨x, y, z⟩)
            bdef.hitboxSize texfaces
        | .other => []

/-- Whether the iteration `i` of the pass of `drawGroup` reaches the `switch`,
that is, is not left through `continue`. -/
def meshed (sc : Scene) (drawGroup : Nat) (i : Nat) : Bool :=
  match sc.chunk.voxels[i]? with
  | none => false
  | some vox =>
    match sc.blockDefsCache vox.id with
    | none => false
    | some bdef => !(decide (vox.id = 0) || decide (bdef.drawGroup ≠ drawGroup))

/-- The voxel read at index `i` exists and its block id has a definition. -/
def VoxelDefined (sc : Scene) (i : Nat) : Prop :=
  ∃ vox bdef, sc.chunk.voxels[i]? = some vox ∧ sc.blockDefsCache vox.id = some bdef

/-- The invariant of a build: the renderer is well formed, and once the overflow
flag is up there is no room for another face. -/
structure Inv (r : BlocksRenderer) : Prop where
  wf : WF r
  full : r.overflow = true → r.vertexOffset + VERTEX_SIZE * 4 > r.capacity

/-- The outcome of one iteration of the voxel loop, given the renderer it leaves. -/
def flowOf (sc : Scene) (drawGroup : Nat) (i : Nat) (r : BlocksRenderer) : Flow :=
  if meshed sc drawGroup i && r.overflow then .ret r else .next r

/-- The faces that one pass of the voxel loop over the indices `span` hands to
`face` when nothing stops it. -/
def spanQuads (sc : Scene) (drawGroup : Nat) (span : List Nat) : List Quad :=
  span.flatMap (voxelQuads sc drawGroup)

/-- The faces that the passes of the draw groups `groups` hand to `face`. -/
def groupsQuads (sc : Scene) (span : List Nat) (groups : List Nat) : List Quad :=
  groups.flatMap fun g => spanQuads sc g span

/-- The faces that `render(const voxel*, int)` hands to `face` when nothing stops
it: the faces the chunk requires. -/
def renderQuads (sc : Scene) : List Quad :=
  groupsQuads sc (renderIndices sc) sc.drawGroups

/-- Every voxel that `render` reads exists and has a block definition. -/
def ChunkDefined (sc : Scene) : Prop :=
  ∀ i ∈ renderIndices sc, VoxelDefined sc i

/-- The floats written since the reset: the part of `vertexBuffer` that the mesh
is made of. -/
def written (r : BlocksRenderer) : List Cell := r.vertexBuffer.take r.vertexOffset

/-- The indices written since the reset. -/
def indexList (r : BlocksRenderer) : List Nat := r.indexBuffer.take r.indexSize

/-- The number of faces for which the vertex buffer still has room. -/
def roomFaces (r : BlocksRenderer) : Nat := (r.capacity - r.vertexOffset) / 24

/-- The floats of a sequence of faces. -/
def quadsCells (qs : List Quad) : List Cell := qs.flatMap Quad.cells

/-- The index values of a sequence of faces, the first vertex of the first face
having number `base`. -/
def quadsIndices (base : Nat) : List Quad → List Nat
  | [] => []
  | q :: qs => q.indices base ++ quadsIndices (base + 4) qs

/-- What the constructor guarantees: both arrays have `capacity` elements. -/
def Sized (r : BlocksRenderer) : Prop :=
  r.vertexBuffer.length = r.capacity ∧ r.indexBuffer.length = r.capacity

/-- The renderer after the resets of lines 452-454. -/
def reset (r : BlocksRenderer) : BlocksRenderer :=
  { r with overflow := false, vertexOffset := 0, indexOffset := 0, indexSize := 0 }

/-- The number of faces a chunk requires: the number of calls of `face` that
`render` makes when nothing stops it. -/
def requiredFaces (sc : Scene) : Nat := (renderQuads sc).length

/-- The number of faces a buffer of `capacity` floats has room for. -/
def capacityFaces (capacity : Nat) : Nat := capacity / 24

/-- The mesh that `render(const Chunk*, ...)` builds from the renderer, lines 458-459. -/
def meshOf (r : BlocksRenderer) : Mesh :=
  { vertices := r.vertexBuffer.take (r.vertexOffset / VERTEX_SIZE * VERTEX_SIZE)
    vertexCount := r.vertexOffset / VERTEX_SIZE
    indices := r.indexBuffer.take r.indexSize
    indexCount := r.indexSize }

/-- An air definition for the examples: not solid, light-passing. -/
def airBlock : Block :=
  { drawGroup := 0, lightPassing := true, solid := false, emissive := false,
    rotatable := false, model := .other, hitboxMin := ⟨0, 0, 0⟩, hitboxSize := ⟨1, 1, 1⟩ }

/-- A stone definition for the examples: a solid opaque cube of draw group 0. -/
def stoneBlock : Block :=
  { drawGroup := 0, lightPassing := false, solid := true, emissive := false,
    rotatable := false, model := .block, hitboxMin := ⟨0, 0, 0⟩, hitboxSize := ⟨1, 1, 1⟩ }

/-- A water definition for the examples: a solid light-passing cube of draw group 1. -/
def waterBlock : Block :=
  { drawGroup := 1, lightPassing := true, solid := true, emissive := false,
    rotatable := false, model := .block, hitboxMin := ⟨0, 0, 0⟩, hitboxSize := ⟨1, 1, 1⟩ }

/-- A slab definition for the examples: a solid opaque box of draw group 0, half a
cell high, drawn by the bounding-box path. -/
def slabBlock : Block :=
  { drawGroup := 0, lightPassing := false, solid := true, emissive := false,
    rotatable := false, model := .aabb, hitboxMin := ⟨0, 0, 0⟩, hitboxSize := ⟨1, 1 / 2, 1⟩ }

/-- A grass definition for the examples: a cross sprite of draw group 0. -/
def grassBlock : Block :=
  { drawGroup := 0, lightPassing := true, solid := false, emissive := false,
    rotatable := false, model := .xsprite, hitboxMin := ⟨0, 0, 0⟩, hitboxSize := ⟨1, 1, 1⟩ }

/-- The block table of the examples: 0 air, 1 stone, 2 water, 3 slab, 4 grass,
nothing else. -/
def exampleDefs : Nat → Option Block
  | 0 => some airBlock
  | 1 => some stoneBlock
  | 2 => some waterBlock
  | 3 => some slabBlock
  | 4 => some grassBlock
  | _ => none

/-- An example scene: a chunk at the origin of a 2 x 2 grid with the given voxels,
and a window whose every cell holds the block id `fill` and the light `light`. -/
def exampleScene (fill light : Nat) (voxels : List voxel) : Scene :=
  { CHUNK_W := 2, CHUNK_D := 2, BLOCK_VOID := 65535,
    BLOCK_DIR_X := 1, BLOCK_DIR_Y := 2, BLOCK_DIR_Z := 3,
    FACE_MX := 0, FACE_MZ := 4,
    blockDefsCache := exampleDefs, drawGroups := [0, 1],
    getRegion := fun _ k => ⟨k.val, 0, k.val + 1, 1⟩,
    pickBlockId := fun _ _ _ => fill, pickLight := fun _ _ _ => light,
    chunk := { x := 0, z := 0, bottom := 0, top := 1, voxels := voxels } }

/-- A renderer as the constructor leaves it, with buffers of `capacity` zeros. -/
def freshRenderer (capacity : Nat) : BlocksRenderer :=
  { vertexBuffer := List.replicate capacity (.flt 0), indexBuffer := List.replicate capacity 0,
    vertexOffset := 0, indexOffset := 0, indexSize := 0, capacity := capacity,
    overflow := false }

/-- The block id that `isOpen` and `pickLight` read for the local position
`(x, y, z)`. -/
def idAt (sc : Scene) (x y z : Int) : Nat :=
  sc.pickBlockId (sc.chunk.x * sc.CHUNK_W + x) y (sc.chunk.z * sc.CHUNK_D + z)

/-- The light that `pickLight` returns for an open cell holding the light value `l`. -/
def lightOf (l : Nat) : vec4 :=
  ⟨(Lightmap.extract l 0 : ℚ) / 15, (Lightmap.extract l 1 : ℚ) / 15,
   (Lightmap.extract l 2 : ℚ) / 15, (Lightmap.extract l 3 : ℚ) / 15⟩

/-- The assignment of state `BLOCK_DIR_X`: slot `i` shows the region `rotX i`. -/
def rotX : Fin 6 → Fin 6 := ![2, 3, 0, 1, 4, 5]

/-- The assignment of state `BLOCK_DIR_Z`: slot `i` shows the region `rotZ i`. -/
def rotZ : Fin 6 → Fin 6 := ![0, 1, 4, 5, 2, 3]

/-- The byte that `vertex` packs for one light channel: `uint32_t(c * 255) & 0xff`. -/
def channelByte (c : ℚ) : Nat := toUint32 (c * 255) % 256

/-- The index of the supplied UV region that the cube paths put on side `d`. -/
def sideRegion : Dir → Fin 6
  | .pz => 5
  | .nz => 4
  | .py => 3
  | .ny => 2
  | .px => 1
  | .nx => 0

/-- The four vertices of a face, in the order they are stored. -/
def Quad.vertices (q : Quad) : List Vtx := [q.v0, q.v1, q.v2, q.v3]

/-- The `(u, v)` pairs of the four vertices of a face. -/
def Quad.uvs (q : Quad) : List (ℚ × ℚ) := q.vertices.map fun p => (p.u, p.v)

/-- The corners of a UV region in the order an unrotated face uses them. -/
def UVRegion.corners (reg : UVRegion) : List (ℚ × ℚ) :=
  [(reg.u1, reg.v1), (reg.u2, reg.v1), (reg.u2, reg.v2), (reg.u1, reg.v2)]

/-- The floats of a vertex stream with the `u` and `v` of every vertex set to zero. -/
def eraseUV : List Cell → List Cell
  | a :: b :: c :: _ :: _ :: f :: rest => a :: b :: c :: .flt 0 :: .flt 0 :: f :: eraseUV rest
  | l => l

/-- The scene with the voxel array of the chunk replaced. -/
def withVoxels (sc : Scene) (vs : List voxel) : Scene :=
  { sc with chunk := { sc.chunk with voxels := vs } }

/-- The squared planar distance from the centre of chunk `c` to `(px, pz)`, in
chunk units. -/
def planarDist2 (c : Chunk) (px pz : ℚ) : ℚ :=
  ((c.x : ℚ) + 1 / 2 - px) ^ 2 + ((c.z : ℚ) + 1 / 2 - pz) ^ 2

/-- The value that the comparator of `drawChunks` computes for chunk `c`:
`(c.x + 0.5f - px)*(c.x + 0.5f - px) + (c.z + 0.5f - pz)*(c.z + 0.5f - pz)` in `float`
arithmetic. -/
def floatDist2 (c : Chunk) (px pz : ℚ) : ℚ :=
  float32 (float32 (centreOffset c.x px * centreOffset c.x px)
    + float32 (centreOffset c.z pz * centreOffset c.z pz))

/-- The sort key of slot `i`: the computed distance of its chunk, zero for an empty
slot. -/
def distKey (cs : Chunks) (px pz : ℚ) (i : Nat) : ℚ :=
  match chunkAt cs i with
  | some c => floatDist2 c px pz
  | none => 0

/-- Three loaded chunks and an empty slot, for the examples. -/
def exampleChunks : Chunks :=
  { chunks := [some ⟨0, 0, 0, 1, []⟩, none, some ⟨3, 0, 0, 1, []⟩, some ⟨1, 1, 0, 1, []⟩] }

/-- The local position `(x, y, z)` lies in the window of a chunk: one cell of border
in `x` and `z`, the levels `0 <= y < CHUNK_H`. -/
def InWindow (sc : Scene) (CHUNK_H : Nat) (x y z : Int) : Prop :=
  -1 ≤ x ∧ x ≤ sc.CHUNK_W ∧ 0 ≤ y ∧ y < CHUNK_H ∧ -1 ≤ z ∧ z ≤ sc.CHUNK_D

instance (sc : Scene) (CHUNK_H : Nat) (x y z : Int) : Decidable (InWindow sc CHUNK_H x y z) := by
  unfold InWindow
  infer_instance

/-- The scenario of one cube: the window of the chunk holds the block `id` at the
local position `(0, 0, 0)` and air (id 0) in every other cell in range, the span of
the chunk starts at level 0 and holds the same cube and air, the cube is an
unlit-model block (`BlockModel::block`, not emissive) of a draw group of the set. -/
structure SingleCube (sc : Scene) (CHUNK_H : Nat) (ids lights : Int → Int → Int → Nat)
    (id states : Nat) (b air : Block) : Prop where
  width : 1 ≤ sc.CHUNK_W
  depth : 1 ≤ sc.CHUNK_D
  height : 2 ≤ CHUNK_H
  void : sc.BLOCK_VOID ≠ 0
  window_ids : sc.pickBlockId
    = (chunkWindow sc.CHUNK_W CHUNK_H sc.CHUNK_D sc.chunk ids lights).pickBlockId sc.BLOCK_VOID
  window_lights : sc.pickLight
    = (chunkWindow sc.CHUNK_W CHUNK_H sc.CHUNK_D sc.chunk ids lights).pickLight
  ids_cube : ids (sc.chunk.x * sc.CHUNK_W + 0) 0 (sc.chunk.z * sc.CHUNK_D + 0) = id
  ids_air : ∀ x y z : Int, InWindow sc CHUNK_H x y z → ¬ (x = 0 ∧ y = 0 ∧ z = 0) →
    ids (sc.chunk.x * sc.CHUNK_W + x) y (sc.chunk.z * sc.CHUNK_D + z) = 0
  bottom : sc.chunk.bottom = 0
  top : 1 ≤ sc.chunk.top
  cube : sc.chunk.voxels[0]? = some ⟨id, states⟩
  rest : ∀ i ∈ renderIndices sc, i ≠ 0 → ∃ st, sc.chunk.voxels[i]? = some ⟨0, st⟩
  id_ne : id ≠ 0
  def_cube : sc.blockDefsCache id = some b
  def_air : sc.blockDefsCache 0 = some air
  model : b.model = .block
  emissive : b.emissive = false
  group : b.drawGroup ∈ sc.drawGroups
  groups : sc.drawGroups.Nodup

/-- The five sides of the cube at the bottom of the window that face a cell of the
window, in the order of the tests. -/
def bottomCubeSides : List Dir := [.pz, .nz, .py, .px, .nx]

/-- The window content of the example: stone at the world position `(0, 0, 0)`, air
elsewhere. -/
def cubeIds : Int → Int → Int → Nat :=
  fun x y z => if x = 0 ∧ y = 0 ∧ z = 0 then 1 else 0

/-- The light values of the example: full light (15, 15, 15, 15) in every air cell. -/
def cubeLights : Int → Int → Int → Nat :=
  fun x y z => if x = 0 ∧ y = 0 ∧ z = 0 then 0 else 0xFFFF

/-- The chunk of the example: 16 x 256 x 16 voxels, stone at index 0 and air
elsewhere. -/
def cubeChunk : Chunk :=
  { x := 0, z := 0, bottom := 0, top := 256,
    voxels := ⟨1, 0⟩ :: List.replicate 65535 ⟨0, 0⟩ }

/-- The example of the scenario of one cube: a chunk of 16 x 256 x 16 voxels at the
origin with its window. -/
def cubeScene : Scene :=
  { CHUNK_W := 16, CHUNK_D := 16, BLOCK_VOID := 65535,
    BLOCK_DIR_X := 1, BLOCK_DIR_Y := 2, BLOCK_DIR_Z := 3,
    FACE_MX := 0, FACE_MZ := 4,
    blockDefsCache := exampleDefs, drawGroups := [0, 1],
    getRegion := fun _ k => ⟨k.val, 0, k.val + 1, 1⟩,
    pickBlockId := (chunkWindow 16 256 16 cubeChunk cubeIds cubeLights).pickBlockId 65535,
    pickLight := (chunkWindow 16 256 16 cubeChunk cubeIds cubeLights).pickLight,
    chunk := cubeChunk }

/-- The packed lights of a vertex stream: the sixth float of every vertex. -/
def lightCells : List Cell → List Cell
  | _ :: _ :: _ :: _ :: _ :: f :: rest => f :: lightCells rest
  | _ => []

/-- The packed light whose four bytes all equal `n`. -/
def packGrey (n : Nat) : Nat := n * 2 ^ 24 + n * 2 ^ 16 + n * 2 ^ 8 + n

/-- A cell next to the cube at `(0, 0, 0)`, at level 0 or 1, other than the cube. -/
def Near (x y z : Int) : Prop :=
  -1 ≤ x ∧ x ≤ 1 ∧ 0 ≤ y ∧ y ≤ 1 ∧ -1 ≤ z ∧ z ≤ 1 ∧ ¬ (x = 0 ∧ y = 0 ∧ z = 0)

instance (x y z : Int) : Decidable (Near x y z) := by
  unfold Near
  infer_instance

/-- The packed lights of the five faces of the scenario of one cube in full light,
in the order +Z, -Z, +Y, +X, -X: the byte repeated in the four channels of each
vertex. -/
def scenarioBytes : List Nat :=
  [114, 114, 229, 229, 95, 95, 191, 191, 255, 255, 255, 255, 102, 102, 204, 204,
   89, 89, 178, 178]

/-- In the scenario of one cube every air cell in range holds full light
(15, 15, 15, 15). -/
def FullLight (sc : Scene) (CHUNK_H : Nat) (lights : Int → Int → Int → Nat) : Prop :=
  ∀ x y z : Int, InWindow sc CHUNK_H x y z → ¬ (x = 0 ∧ y = 0 ∧ z = 0) →
    lights (sc.chunk.x * sc.CHUNK_W + x) y (sc.chunk.z * sc.CHUNK_D + z) = 0xFFFF

/-- The decoding of a linear index into local coordinates `(x, y, z)`, lines 396-398
of `render(const voxel*, int)`. -/
def localCoords (sc : Scene) (i : Nat) : Int × Int × Int :=
  let x : Int := i % sc.CHUNK_W
  let y : Int := i / (sc.CHUNK_D * sc.CHUNK_W)
  let z : Int := (i / sc.CHUNK_D) % sc.CHUNK_W
  (x, y, z)

/-- Modelled from the spec: the layout of the chunk's voxel array, whose header is
outside the excerpt: the voxel at the local position `(x, y, z)` has the linear index
`(y * CHUNK_D + z) * CHUNK_W + x`. -/
def linearIndex (sc : Scene) (x y z : Nat) : Nat :=
  (y * sc.CHUNK_D + z) * sc.CHUNK_W + x

/-- Modelled from the spec: the encoder of the light codec (`Lightmap::combine` of
`lighting/Lightmap.h`, which is outside the excerpt): four 4-bit channels packed with
shifts, R in the lowest bits, then G, then B, then Sun. -/
def Lightmap.combine (r g b sun : Nat) : Nat :=
  r ||| (g <<< 4) ||| (b <<< 8) ||| (sun <<< 12)

/-- One call of a `face` overload with its arguments. -/
inductive FaceCall where
  | tinted (coord : vec3) (w h : ℚ) (axisX axisY : vec3) (region : UVRegion)
      (lights : Fin 4 → vec4) (tint : vec4)
  | untinted (coord : vec3) (w h : ℚ) (axisX axisY : vec3) (region : UVRegion)
      (lights : Fin 4 → vec4)
  | rotated (coord : vec3) (w h : ℚ) (axisX axisY : vec3) (region : UVRegion)
      (lights : Fin 4 → vec4) (tint : vec4) (rot : Bool)
  | lit (coord axisX axisY axisZ : ivec3) (region : UVRegion) (tint : vec4) (rot : Bool)

/-- The call of the `face` overload that `c` names. -/
def FaceCall.run (sc : Scene) (r : BlocksRenderer) : FaceCall → Option BlocksRenderer
  | .tinted coord w h axisX axisY region lights tint =>
    face r coord w h axisX axisY region lights tint
  | .untinted coord w h axisX axisY region lights =>
    faceUntinted r coord w h axisX axisY region lights
  | .rotated coord w h axisX axisY region lights tint rot =>
    faceRotated r coord w h axisX axisY region lights tint rot
  | .lit coord axisX axisY axisZ region tint rot =>
    faceLit sc r coord axisX axisY axisZ region tint rot

/-- A sequence of calls of `face`, one after the other. -/
def runCalls (sc : Scene) : List FaceCall → BlocksRenderer → Option BlocksRenderer
  | [], r => some r
  | c :: rest, r => (c.run sc r).bind (runCalls sc rest)

/-- The face that the call `c` hands to the buffers. -/
def FaceCall.quad (sc : Scene) : FaceCall → Quad
  | .tinted coord w h axisX axisY region lights tint =>
    faceQuad coord w h axisX axisY region lights tint
  | .untinted coord w h axisX axisY region lights =>
    faceQuad coord w h axisX axisY region lights (vec4.splat 1)
  | .rotated coord w h axisX axisY region lights tint rot =>
    faceRotatedQuad coord w h axisX axisY region lights tint rot
  | .lit coord axisX axisY axisZ region tint rot =>
    litQuad sc coord axisX axisY axisZ region tint rot

/-- The local `rand` of `blockXSprite`, line 204. -/
def xspriteRand (x y z : Int) : Int :=
  (Int.xor (x * z + y) (z * y - x)) * (z + y)

/-- The locals `xs` and `zs` of `blockXSprite`, lines 206-207: the low byte of `rand`
and the low byte of `rand >> 8`, read as signed chars, over 512, times `spread`. -/
def xspriteJitter (x y z : Int) (spread : ℚ) : ℚ × ℚ :=
  (((Int.bmod (xspriteRand x y z) 256 : Int) : ℚ) / 512 * spread,
   ((Int.bmod (xspriteRand x y z >>> 8) 256 : Int) : ℚ) / 512 * spread)

/-- The constant `BLOCK_ROT_MASK` of `voxel.h`, line 13. -/
def BLOCK_ROT_MASK : Nat := 0xF

/-- The translation of the model matrix of `WorldRenderer::drawChunk`, line 67:
`vec3(chunk->x * CHUNK_W, 0.0f, chunk->z * CHUNK_D + 1)`. -/
def modelTranslation (sc : Scene) : vec3 :=
  ⟨sc.chunk.x * sc.CHUNK_W, 0, sc.chunk.z * sc.CHUNK_D + 1⟩

/-- The mesh position `p` lies in the box `[x, x + 1] x [y, y + 1] x [z - 1, z]`. -/
def InMeshCell (x y z : Int) (p : vec3) : Prop :=
  (x : ℚ) ≤ p.x ∧ p.x ≤ x + 1 ∧ (y : ℚ) ≤ p.y ∧ p.y ≤ y + 1 ∧ (z : ℚ) - 1 ≤ p.z ∧ p.z ≤ z

/-- The mesh position `p` lies in the plane of side `d` of the box of the voxel
`(x, y, z)`. -/
def OnMeshSide (x y z : Int) (d : Dir) (p : vec3) : Prop :=
  match d with
  | .pz => p.z = z
  | .nz => p.z = z - 1
  | .py => p.y = y + 1
  | .ny => p.y = y
  | .px => p.x = x + 1
  | .nx => p.x = x

/-- The world position `q` lies in the world cell of the voxel `(x, y, z)` of the
chunk: `[chunk.x * CHUNK_W + x, + 1] x [y, y + 1] x [chunk.z * CHUNK_D + z, + 1]`. -/
def InWorldCell (sc : Scene) (x y z : Int) (q : vec3) : Prop :=
  (sc.chunk.x * sc.CHUNK_W + x : ℚ) ≤ q.x ∧ q.x ≤ sc.chunk.x * sc.CHUNK_W + x + 1
    ∧ (y : ℚ) ≤ q.y ∧ q.y ≤ y + 1
    ∧ (sc.chunk.z * sc.CHUNK_D + z : ℚ) ≤ q.z ∧ q.z ≤ sc.chunk.z * sc.CHUNK_D + z + 1

/-- The world position `q` lies in the plane of side `d` of the world cell of the
voxel `(x, y, z)` of the chunk. -/
def OnWorldSide (sc : Scene) (x y z : Int) (d : Dir) (q : vec3) : Prop :=
  match d with
  | .pz => q.z = sc.chunk.z * sc.CHUNK_D + z + 1
  | .nz => q.z = sc.chunk.z * sc.CHUNK_D + z
  | .py => q.y = y + 1
  | .ny => q.y = y
  | .px => q.x = sc.chunk.x * sc.CHUNK_W + x + 1
  | .nx => q.x = sc.chunk.x * sc.CHUNK_W + x

/-- The four cells that `pickSoftLight(coord, right, up)` reads, in the order of the
source. -/
def sampleCells (coord right up : ivec3) : List ivec3 :=
  [coord, coord - right, coord - right - up, coord - up]

/-- The value of `pickLight(coord)`, zero where the source has no defined behaviour. -/
def lightAt (sc : Scene) (coord : ivec3) : vec4 :=
  (pickLightAt sc coord).getD (vec4.splat 0)

/-- The arguments `coord, axisX, axisY, axisZ` of the call of `face` for side `d` in
`blockCubeShaded(int, int, int, ...)`, lines 309-326. -/
def shadedFrame (x y z : Int) : Dir → ivec3 × ivec3 × ivec3 × ivec3
  | .pz => (⟨x, y, z⟩, ⟨1, 0, 0⟩, ⟨0, 1, 0⟩, ⟨0, 0, 1⟩)
  | .nz => (⟨x + 1, y, z - 1⟩, ⟨-1, 0, 0⟩, ⟨0, 1, 0⟩, ⟨-1, 0, 0⟩)
  | .py => (⟨x, y + 1, z⟩, ⟨1, 0, 0⟩, ⟨0, 0, -1⟩, ⟨0, 0, 0⟩)
  | .ny => (⟨x, y, z - 1⟩, ⟨1, 0, 0⟩, ⟨0, 0, 1⟩, ⟨0, -1, 1⟩)
  | .px => (⟨x + 1, y, z⟩, ⟨0, 0, -1⟩, ⟨0, 1, 0⟩, ⟨0, 0, 0⟩)
  | .nx => (⟨x, y, z - 1⟩, ⟨0, 0, 1⟩, ⟨0, 1, 0⟩, ⟨-1, 0, 1⟩)

/-- The tint of the face of side `d` in `blockCubeShaded(int, int, int, ...)`. -/
def shadedTint : Dir → ℚ
  | .pz => 9 / 10
  | .nz => 75 / 100
  | .py => 1
  | .ny => 6 / 10
  | .px => 8 / 10
  | .nx => 7 / 10

/-- The integer positions of the four vertices of a face with the given `coord`,
`axisX` and `axisY`, in the order `face` stores them. -/
def faceCorners (coord axisX axisY : ivec3) : List ivec3 :=
  [coord, coord + axisX, coord + axisX + axisY, coord + axisY]

/-- The cell lies in the layer of neighbours on the outward side `d` of the voxel
`(x, y, z)`. -/
def InLayer (x y z : Int) (d : Dir) (cell : ivec3) : Prop :=
  match d with
  | .pz => cell.z = z + 1
  | .nz => cell.z = z - 1
  | .py => cell.y = y + 1
  | .ny => cell.y = y - 1
  | .px => cell.x = x + 1
  | .nx => cell.x = x - 1

/-- The vertex position `v` is a corner of the box
`[cell.x, cell.x + 1] x [cell.y, cell.y + 1] x [cell.z - 1, cell.z]` that the cell
occupies in mesh coordinates. -/
def MeetsCorner (cell v : ivec3) : Prop :=
  (v.x = cell.x ∨ v.x = cell.x + 1) ∧ (v.y = cell.y ∨ v.y = cell.y + 1)
    ∧ (v.z = cell.z - 1 ∨ v.z = cell.z)

/-- The four coordinates at which `blockCubeShaded(const vec3&, const vec3&, ...)`
reads the soft light of the face of side `d`, with the `right` and `up` of those calls,
for a box at the integer position `(x, y, z)`, lines 232-272. -/
def aabbLightFrame (x y z : Int) : Dir → List ivec3 × ivec3 × ivec3
  | .pz => ([⟨x, y, z + 1⟩, ⟨x + 1, y, z + 1⟩, ⟨x + 1, y + 1, z + 1⟩, ⟨x, y + 1, z + 1⟩],
      ⟨1, 0, 0⟩, ⟨0, 1, 0⟩)
  | .nz => ([⟨x, y, z - 1⟩, ⟨x - 1, y, z - 1⟩, ⟨x - 1, y + 1, z - 1⟩, ⟨x, y + 1, z - 1⟩],
      ⟨-1, 0, 0⟩, ⟨0, 1, 0⟩)
  | .py => ([⟨x, y + 1, z + 1⟩, ⟨x + 1, y + 1, z + 1⟩, ⟨x + 1, y + 1, z⟩, ⟨x, y + 1, z⟩],
      ⟨1, 0, 0⟩, ⟨0, 0, 1⟩)
  | .ny => ([⟨x, y - 1, z - 1⟩, ⟨x + 1, y - 1, z - 1⟩, ⟨x + 1, y - 1, z⟩, ⟨x, y - 1, z⟩],
      ⟨1, 0, 0⟩, ⟨0, 0, -1⟩)
  | .px => ([⟨x + 1, y, z⟩, ⟨x + 1, y, z - 1⟩, ⟨x + 1, y + 1, z - 1⟩, ⟨x + 1, y + 1, z⟩],
      ⟨0, 0, -1⟩, ⟨0, 1, 0⟩)
  | .nx => ([⟨x - 1, y, z - 1⟩, ⟨x - 1, y, z⟩, ⟨x - 1, y + 1, z⟩, ⟨x - 1, y + 1, z - 1⟩],
      ⟨0, 0, -1⟩, ⟨0, 1, 0⟩)

/-- The chunk in slot `i` is lighted. -/
def lightedAt (env : DrawEnv) (cs : Chunks) (i : Nat) : Bool :=
  match chunkAt cs i with
  | some chunk => env.isLighted chunk
  | none => false

/-- The chunk in slot `i` is loaded, lighted, has a mesh and, when `occlusion` is on,
its box from `(x * CHUNK_W, bottom, z * CHUNK_D)` to
`(x * CHUNK_W + CHUNK_W, top, z * CHUNK_D + CHUNK_D)` passes the frustum test. -/
def visibleAt (env : DrawEnv) (CHUNK_W CHUNK_D : Nat) (cs : Chunks) (occlusion : Bool)
    (i : Nat) : Bool :=
  match chunkAt cs i with
  | some chunk =>
    env.isLighted chunk && (env.getOrRender chunk).isSome
      && (!occlusion || env.isBoxVisible ⟨chunk.x * CHUNK_W, chunk.bottom, chunk.z * CHUNK_D⟩
            ⟨chunk.x * CHUNK_W + CHUNK_W, chunk.top, chunk.z * CHUNK_D + CHUNK_D⟩)
  | none => false

/-- The translation of the model matrix that `drawChunk` builds for the chunk of slot
`i`, line 67: `vec3(chunk->x * CHUNK_W, 0.0f, chunk->z * CHUNK_D + 1)`. -/
def translationAt (CHUNK_W CHUNK_D : Nat) (cs : Chunks) (i : Nat) : vec3 :=
  match chunkAt cs i with
  | some chunk => ⟨chunk.x * CHUNK_W, 0, chunk.z * CHUNK_D + 1⟩
  | none => ⟨0, 0, 0⟩

/-- The calls that `drawChunk` makes for slot `i`. -/
def eventsAt (env : DrawEnv) (CHUNK_W CHUNK_D : Nat) (cs : Chunks) (occlusion : Bool)
    (i : Nat) : List DrawEvent :=
  (if lightedAt env cs i then [DrawEvent.getOrRender i] else [])
    ++ (if visibleAt env CHUNK_W CHUNK_D cs occlusion i then
        [DrawEvent.uniformModel (translationAt CHUNK_W CHUNK_D cs i), DrawEvent.draw i]
      else [])

/-- An environment for the examples: chunks at `x = 0` are lighted, every chunk has a
mesh, every box is visible. -/
def exampleEnv : DrawEnv :=
  { isLighted := fun c => decide (c.x = 0), getOrRender := fun _ => some ⟨[], 0, [], 0⟩,
    isBoxVisible := fun _ _ => true }

/-- The computed key of chunk `c` is its exact squared planar distance: no operation
of the comparator rounded. -/
def ExactKey (c : Chunk) (px pz : ℚ) : Prop := floatDist2 c px pz = planarDist2 c px pz

instance (c : Chunk) (px pz : ℚ) : Decidable (ExactKey c px pz) := by
  unfold ExactKey
  infer_instance

/-- Two chunks far from a camera at `x = -2 ^ 30`: slot 0 holds the chunk `(3, 12000)`,
slot 1 the chunk `(4, 0)`. -/
def farChunks : Chunks :=
  { chunks := [some ⟨3, 12000, 0, 1, []⟩, some ⟨4, 0, 0, 1, []⟩] }

/-- The camera of the example `farChunks`, at `(-2 ^ 30, 0, 8)`. -/
def farCamera : Camera := ⟨⟨-1073741824, 0, 8⟩⟩

/-- The four corners of side `d` of the axis-parallel box from `lo` to `hi`. -/
def sideCorners (lo hi : vec3) : Dir → List vec3
  | .pz => [⟨lo.x, lo.y, hi.z⟩, ⟨hi.x, lo.y, hi.z⟩, ⟨hi.x, hi.y, hi.z⟩, ⟨lo.x, hi.y, hi.z⟩]
  | .nz => [⟨lo.x, lo.y, lo.z⟩, ⟨hi.x, lo.y, lo.z⟩, ⟨hi.x, hi.y, lo.z⟩, ⟨lo.x, hi.y, lo.z⟩]
  | .py => [⟨lo.x, hi.y, lo.z⟩, ⟨hi.x, hi.y, lo.z⟩, ⟨hi.x, hi.y, hi.z⟩, ⟨lo.x, hi.y, hi.z⟩]
  | .ny => [⟨lo.x, lo.y, lo.z⟩, ⟨hi.x, lo.y, lo.z⟩, ⟨hi.x, lo.y, hi.z⟩, ⟨lo.x, lo.y, hi.z⟩]
  | .px => [⟨hi.x, lo.y, lo.z⟩, ⟨hi.x, hi.y, lo.z⟩, ⟨hi.x, hi.y, hi.z⟩, ⟨hi.x, lo.y, hi.z⟩]
  | .nx => [⟨lo.x, lo.y, lo.z⟩, ⟨lo.x, hi.y, lo.z⟩, ⟨lo.x, hi.y, hi.z⟩, ⟨lo.x, lo.y, hi.z⟩]

/-- The corners of side `d` of the box `[x, x + 1] x [y, y + 1] x [z - 1, z]` that the
voxel `(x, y, z)` occupies in mesh coordinates. -/
def meshSideCorners (x y z : Int) (d : Dir) : List vec3 :=
  sideCorners ⟨x, y, (z : ℚ) - 1⟩ ⟨(x : ℚ) + 1, (y : ℚ) + 1, z⟩ d

/-- The corners of side `d` of the world cell
`[chunk.x * CHUNK_W + x, + 1] x [y, y + 1] x [chunk.z * CHUNK_D + z, + 1]` of the voxel
`(x, y, z)` of the chunk. -/
def worldSideCorners (sc : Scene) (x y z : Int) (d : Dir) : List vec3 :=
  sideCorners ⟨sc.chunk.x * sc.CHUNK_W + x, y, sc.chunk.z * sc.CHUNK_D + z⟩
    ⟨sc.chunk.x * sc.CHUNK_W + x + 1, (y : ℚ) + 1, sc.chunk.z * sc.CHUNK_D + z + 1⟩ d

/-- The `float` value of `(a + b + c + d) * 0.25f`, the four terms being the `float`s
nearest to `a`, `b`, `c` and `d`: the sums are taken from left to right and each
operation rounds. -/
def quarterSum (a b c d : ℚ) : ℚ :=
  float32 (float32 (float32 (float32 (float32 a + float32 b) + float32 c) + float32 d) * (1 / 4))

/-- The `float` value of `(a + b + c + d) * 0.25f` for four `vec4`, channel by
channel. -/
def softAverage (a b c d : vec4) : vec4 :=
  ⟨quarterSum a.r b.r c.r d.r, quarterSum a.g b.g c.g d.g, quarterSum a.b b.b c.b d.b,
   quarterSum a.a b.a c.a d.a⟩

/-- The four channels of `p` lie within `eps` of those of `q`. -/
def vec4.Within (eps : ℚ) (p q : vec4) : Prop :=
  |p.r - q.r| ≤ eps ∧ |p.g - q.g| ≤ eps ∧ |p.b - q.b| ≤ eps ∧ |p.a - q.a| ≤ eps

instance (eps : ℚ) (p q : vec4) : Decidable (vec4.Within eps p q) := by
  unfold vec4.Within
  infer_instance

/-- The four channels of `p` lie in `[0, 1]`. -/
def vec4.Unit (p : vec4) : Prop :=
  (0 ≤ p.r ∧ p.r ≤ 1) ∧ (0 ≤ p.g ∧ p.g ≤ 1) ∧ (0 ≤ p.b ∧ p.b ≤ 1) ∧ (0 ≤ p.a ∧ p.a ≤ 1)

instance (p : vec4) : Decidable p.Unit := by
  unfold vec4.Unit
  infer_instance

/-- The vertex with its light left out. -/
def Vtx.noLight (p : Vtx) : Vtx := { p with light := vec4.splat 0 }

/-- The face with the lights of its vertices left out: the positions, the `(u, v)`
pairs and the index pattern. -/
def Quad.noLight (q : Quad) : Quad :=
  { v0 := q.v0.noLight, v1 := q.v1.noLight, v2 := q.v2.noLight, v3 := q.v3.noLight,
    diag13 := q.diag13 }

/-- The exact sum of the lights of the listed cells, channel by channel. -/
def lightSum (sc : Scene) (cells : List ivec3) : vec4 :=
  ⟨(cells.map fun p => (lightAt sc p).r).sum, (cells.map fun p => (lightAt sc p).g).sum,
   (cells.map fun p => (lightAt sc p).b).sum, (cells.map fun p => (lightAt sc p).a).sum⟩

/-- The light values of the example `gradientScene`: above the voxel `(0, 0, 0)` the
cells `(0, 1)`, `(-1, 1)`, `(-1, 0)` and `(0, 0)` of the `x, z` plane hold the light
7, 8, 8 and 9 in all four channels; the other cells are dark. -/
def gradientLights (ax _ay az : Int) : Nat :=
  if ax = 0 ∧ az = 1 then 0x7777
  else if ax = -1 ∧ az = 1 then 0x8888
  else if ax = -1 ∧ az = 0 then 0x8888
  else if ax = 0 ∧ az = 0 then 0x9999
  else 0

/-- The example scene with a window of air and the light values `gradientLights`. -/
def gradientScene : Scene := { exampleScene 0 0 [] with pickLight := gradientLights }

/-! ## Theorems -/

theorem roundEven_of_lt (t : ℚ) (m : Int) (h1 : (m : ℚ) - 1 / 2 < t) (h2 : t < m + 1 / 2) :
    roundEven t = m := by
  unfold roundEven
  by_cases hm : (m : ℚ) ≤ t
  · have hf : ⌊t⌋ = m := Int.floor_eq_iff.mpr ⟨hm, by linarith⟩
    rw [hf, if_pos (by linarith)]
  · have hf : ⌊t⌋ = m - 1 := Int.floor_eq_iff.mpr ⟨by push_cast; linarith, by push_cast; linarith⟩
    rw [hf, if_neg (by push_cast; linarith), if_pos (by push_cast; linarith)]
    ring

theorem roundEven_intCast (m : Int) : roundEven (m : ℚ) = m :=
  roundEven_of_lt _ m (by linarith) (by linarith)

theorem roundEven_tie_up (m : Int) (hm : m % 2 = 0) (t : ℚ) (ht : t = m - 1 / 2) :
    roundEven t = m := by
  unfold roundEven
  have hf : ⌊t⌋ = m - 1 := Int.floor_eq_iff.mpr ⟨by push_cast; linarith, by push_cast; linarith⟩
  rw [hf, if_neg (by push_cast; linarith), if_neg (by push_cast; linarith),
    if_neg (by omega)]
  ring

theorem roundEven_tie_down (m : Int) (hm : m % 2 = 0) (t : ℚ) (ht : t = m + 1 / 2) :
    roundEven t = m := by
  unfold roundEven
  have hf : ⌊t⌋ = m := Int.floor_eq_iff.mpr ⟨by linarith, by linarith⟩
  rw [hf, if_neg (by linarith), if_neg (by linarith), if_pos hm]

theorem roundEven_le (t : ℚ) (k : Int) (h : t ≤ k) : roundEven t ≤ k := by
  unfold roundEven
  have hf : ⌊t⌋ ≤ k := Int.floor_le_iff.mpr (by linarith)
  rcases hf.lt_or_eq with hlt | heq
  · split_ifs <;> omega
  · have : t - ⌊t⌋ < 1 / 2 := by
      have := Int.floor_le t
      rw [heq] at this ⊢
      linarith
    rw [if_pos this]
    exact hf

theorem roundEven_ge (t : ℚ) (k : Int) (h : (k : ℚ) ≤ t) : k ≤ roundEven t := by
  unfold roundEven
  have hf : k ≤ ⌊t⌋ := Int.le_floor.mpr h
  split_ifs <;> omega

theorem float32Exp_eq (q : ℚ) (e : Int) (h1 : (2 : ℚ) ^ e ≤ |q|) (h2 : |q| < 2 ^ (e + 1))
    (h3 : -126 ≤ e) : float32Exp q = e := by
  unfold float32Exp
  have hpos : 0 < |q| := lt_of_lt_of_le (by positivity) h1
  have a : e ≤ Int.log 2 |q| := (Int.zpow_le_iff_le_log (by norm_num) hpos).mp (by exact_mod_cast h1)
  have b : Int.log 2 |q| < e + 1 :=
    (Int.lt_zpow_iff_log_lt (by norm_num) hpos).mp (by exact_mod_cast h2)
  omega

theorem float32_zero : float32 0 = 0 := by
  have h : roundEven 0 = 0 := by simpa using roundEven_intCast 0
  unfold float32
  simp only [zero_div]
  rw [h]
  norm_num

/-- The evaluation of `float32` at a value of the binade `e`: the nearest multiple
`m * 2 ^ (e - 23)`. -/
theorem float32_eq (q : ℚ) (e m : Int) (h1 : (2 : ℚ) ^ e ≤ |q|) (h2 : |q| < 2 ^ (e + 1))
    (h3 : -126 ≤ e) (hm : roundEven (q / 2 ^ (e - 23)) = m)
    (hfin : |(m : ℚ) * 2 ^ (e - 23)| < 2 ^ 128) :
    float32 q = m * 2 ^ (e - 23) := by
  unfold float32
  simp only [float32Exp_eq q e h1 h2 h3, hm]
  have h := abs_lt.mp hfin
  rw [if_neg (by linarith), if_neg (by linarith)]

/-- Evaluation of `float32` away from a tie. -/
theorem float32_near (q v : ℚ) (e m : Int) (h1 : (2 : ℚ) ^ e ≤ |q|) (h2 : |q| < 2 ^ (e + 1))
    (h3 : -126 ≤ e) (hv : v = m * 2 ^ (e - 23)) (hr : |q / 2 ^ (e - 23) - m| < 1 / 2)
    (hfin : |v| < 2 ^ 128) : float32 q = v := by
  have hr2 := abs_lt.mp hr
  rw [hv] at hfin ⊢
  exact float32_eq q e m h1 h2 h3
    (roundEven_of_lt _ m (by linarith) (by linarith)) hfin

/-- Evaluation of `float32` at a tie: the even neighbour. -/
theorem float32_tie (q v : ℚ) (e m : Int) (h1 : (2 : ℚ) ^ e ≤ |q|) (h2 : |q| < 2 ^ (e + 1))
    (h3 : -126 ≤ e) (hv : v = m * 2 ^ (e - 23)) (hr : |q / 2 ^ (e - 23) - m| = 1 / 2)
    (hm : m % 2 = 0) (hfin : |v| < 2 ^ 128) : float32 q = v := by
  rw [hv] at hfin ⊢
  refine float32_eq q e m h1 h2 h3 ?_ hfin
  rcases abs_eq (by norm_num : (0 : ℚ) ≤ 1 / 2) |>.mp hr with h | h
  · exact roundEven_tie_down m hm _ (by linarith)
  · exact roundEven_tie_up m hm _ (by linarith)

/-- A value of at most 24 significant bits within the exponent range is a `float`:
rounding leaves it as it is. -/
theorem float32_dyadic (m k : Int) (hm : |m| < 2 ^ 24) (hk : -149 ≤ k) (hk2 : k ≤ 104) :
    float32 ((m : ℚ) * 2 ^ k) = m * 2 ^ k := by
  by_cases h0 : m = 0
  · subst h0
    simp [float32_zero]
  have hq : 0 < |(m : ℚ) * 2 ^ k| := by
    rw [abs_pos]
    exact mul_ne_zero (by exact_mod_cast h0) (by positivity)
  have hmq : |(m : ℚ)| < 2 ^ 24 := by exact_mod_cast hm
  have hlt : |(m : ℚ) * 2 ^ k| < 2 ^ (k + 24) := by
    rw [abs_mul, abs_of_pos (by positivity : (0 : ℚ) < 2 ^ k), zpow_add₀ (by norm_num), mul_comm]
    exact mul_lt_mul_of_pos_left (by exact_mod_cast hmq) (by positivity)
  have he : float32Exp ((m : ℚ) * 2 ^ k) - 23 ≤ k := by
    unfold float32Exp
    have := (Int.lt_zpow_iff_log_lt (b := 2) (by norm_num) hq).mp (by exact_mod_cast hlt)
    omega
  obtain ⟨n, hn⟩ : ∃ n : Nat, k = float32Exp ((m : ℚ) * 2 ^ k) - 23 + n :=
    ⟨(k - (float32Exp ((m : ℚ) * 2 ^ k) - 23)).toNat, by omega⟩
  have hdiv : (m : ℚ) * 2 ^ k / 2 ^ (float32Exp ((m : ℚ) * 2 ^ k) - 23) = ((m * 2 ^ n : Int) : ℚ) := by
    have hu : (0 : ℚ) < 2 ^ (float32Exp ((m : ℚ) * 2 ^ k) - 23) := by positivity
    rw [div_eq_iff hu.ne']
    conv_lhs => rw [hn]
    rw [zpow_add₀ (by norm_num)]
    push_cast
    rw [zpow_natCast]
    ring
  have hfin : |(m : ℚ) * 2 ^ k| < 2 ^ 128 := by
    refine lt_of_lt_of_le hlt ?_
    have h128 : (2 : ℚ) ^ (128 : Int) = 2 ^ 128 := by norm_cast
    rw [← h128]
    exact zpow_le_zpow_right₀ (by norm_num) (by omega)
  have hfin2 := abs_lt.mp hfin
  unfold float32
  simp only [hdiv, roundEven_intCast]
  rw [← hdiv, div_mul_cancel₀ _ (by positivity : (2 : ℚ) ^ (float32Exp ((m : ℚ) * 2 ^ k) - 23) ≠ 0)]
  rw [if_neg (by linarith), if_neg (by linarith)]

theorem float32_nonneg (q : ℚ) (h : 0 ≤ q) : 0 ≤ float32 q := by
  unfold float32
  have hu : (0 : ℚ) < 2 ^ (float32Exp q - 23) := by positivity
  have hr : (0 : ℚ) ≤ (roundEven (q / 2 ^ (float32Exp q - 23)) : ℚ) := by
    exact_mod_cast roundEven_ge _ 0 (by push_cast; positivity)
  have : (0 : ℚ) ≤ (roundEven (q / 2 ^ (float32Exp q - 23)) : ℚ) * 2 ^ (float32Exp q - 23) :=
    mul_nonneg hr hu.le
  have hB : (0 : ℚ) < 2 ^ 128 := by positivity
  simp only []
  generalize (2 : ℚ) ^ 128 = B at hB ⊢
  split_ifs <;> linarith

/-- Rounding does not pass an integer below `2 ^ 24`. -/
theorem float32_le_nat (q : ℚ) (n : Nat) (hn : n < 2 ^ 24) (h : q ≤ n) : float32 q ≤ n := by
  have hu : (0 : ℚ) < 2 ^ (float32Exp q - 23) := by positivity
  have key : (roundEven (q / 2 ^ (float32Exp q - 23)) : ℚ) * 2 ^ (float32Exp q - 23) ≤ n := by
    by_cases hq : q ≤ 0
    · have : roundEven (q / 2 ^ (float32Exp q - 23)) ≤ 0 :=
        roundEven_le _ 0 (by push_cast; exact div_nonpos_of_nonpos_of_nonneg hq hu.le)
      have h2 : (roundEven (q / 2 ^ (float32Exp q - 23)) : ℚ) ≤ 0 := by exact_mod_cast this
      have := mul_nonpos_of_nonpos_of_nonneg h2 hu.le
      have hn0 : (0 : ℚ) ≤ n := Nat.cast_nonneg n
      linarith
    · push_neg at hq
      have he : float32Exp q ≤ 23 := by
        unfold float32Exp
        have hlt : |q| < (2 : ℚ) ^ (24 : Int) := by
          rw [abs_of_pos hq]
          have : (n : ℚ) < 2 ^ 24 := by exact_mod_cast hn
          have h24 : (2 : ℚ) ^ (24 : Int) = 2 ^ 24 := by norm_num
          linarith
        have := (Int.lt_zpow_iff_log_lt (b := 2) (x := 24) (by norm_num)
          (abs_pos.mpr hq.ne')).mp (by exact_mod_cast hlt)
        omega
      obtain ⟨j, hj⟩ : ∃ j : Nat, float32Exp q - 23 = -(j : Int) :=
        ⟨(23 - float32Exp q).toNat, by omega⟩
      have hk : (n : ℚ) = ((n * 2 ^ j : Nat) : Int) * 2 ^ (float32Exp q - 23) := by
        rw [hj, zpow_neg, zpow_natCast]
        push_cast
        field_simp
      have hle : roundEven (q / 2 ^ (float32Exp q - 23)) ≤ ((n * 2 ^ j : Nat) : Int) := by
        apply roundEven_le
        rw [div_le_iff₀ hu, ← hk]
        exact h
      have hle2 : (roundEven (q / 2 ^ (float32Exp q - 23)) : ℚ) ≤ (((n * 2 ^ j : Nat) : Int) : ℚ) := by
        exact_mod_cast hle
      calc (roundEven (q / 2 ^ (float32Exp q - 23)) : ℚ) * 2 ^ (float32Exp q - 23)
          ≤ (((n * 2 ^ j : Nat) : Int) : ℚ) * 2 ^ (float32Exp q - 23) :=
            mul_le_mul_of_nonneg_right hle2 hu.le
        _ = n := hk.symm
  have hnlt : (n : ℚ) < 2 ^ 128 := by
    have h1 : (n : ℚ) < 2 ^ 24 := by exact_mod_cast hn
    have h2 : (2 : ℚ) ^ 24 ≤ 2 ^ 128 := by norm_num
    exact lt_of_lt_of_le h1 h2
  have hn0 : (0 : ℚ) ≤ n := Nat.cast_nonneg n
  unfold float32
  simp only []
  generalize (2 : ℚ) ^ 128 = B at hnlt ⊢
  split_ifs with a b <;> linarith

theorem float32_intCast (m : Int) (hm : |m| < 2 ^ 24) : float32 (m : ℚ) = m := by
  have h := float32_dyadic m 0 hm (by norm_num) (by norm_num)
  simpa using h

theorem float32_one : float32 1 = 1 := by simpa using float32_intCast 1 (by norm_num)

theorem float32_two : float32 2 = 2 := by simpa using float32_intCast 2 (by norm_num)

theorem float32_three : float32 3 = 3 := by simpa using float32_intCast 3 (by norm_num)

theorem float32_four : float32 4 = 4 := by simpa using float32_intCast 4 (by norm_num)

theorem float32_half : float32 (1 / 2) = 1 / 2 := by
  have h := float32_dyadic 1 (-1) (by norm_num) (by norm_num) (by norm_num)
  norm_num at h ⊢
  exact h

theorem blit_length {α : Type} (buf : List α) (off : Nat) (xs : List α)
    (h : off + xs.length ≤ buf.length) : (blit buf off xs).length = buf.length := by
  simp [blit]; omega

theorem blit_nil {α : Type} (buf : List α) (off : Nat) : blit buf off [] = buf := by
  simp [blit]

theorem store_eq_blit {α : Type} (buf : List α) (i : Nat) (v : α) (h : i < buf.length) :
    store buf i v = some (blit buf i [v]) := by
  simp [store, h, blit, List.set_eq_take_append_cons_drop]

theorem blit_blit {α : Type} (buf : List α) (off : Nat) (xs ys : List α)
    (h : off + xs.length ≤ buf.length) :
    blit (blit buf off xs) (off + xs.length) ys = blit buf off (xs ++ ys) := by
  have h1 : (buf.take off ++ xs).length = off + xs.length := by
    simp; omega
  unfold blit
  rw [List.append_assoc (buf.take off) xs, ← List.append_assoc (buf.take off) xs,
    List.take_left' h1]
  have h2 : List.drop (off + xs.length + ys.length)
      ((buf.take off ++ xs) ++ List.drop (off + xs.length) buf)
      = List.drop (off + (xs ++ ys).length) buf := by
    have e : off + xs.length + ys.length = (buf.take off ++ xs).length + ys.length := by
      rw [h1]
    rw [e, List.drop_append, List.drop_drop]
    congr 1
    simp
    omega
  rw [h2]
  simp [List.append_assoc]

theorem writeCells_nil (r : BlocksRenderer) : writeCells r [] = r := by
  simp [writeCells, blit_nil]

theorem writeIndices_nil (r : BlocksRenderer) : writeIndices r [] = r := by
  simp [writeIndices, blit_nil]

theorem pushFloat_writeCells (r : BlocksRenderer) (cs : List Cell) (c : Cell)
    (h : r.vertexOffset + cs.length < r.vertexBuffer.length) :
    pushFloat (writeCells r cs) c = some (writeCells r (cs ++ [c])) := by
  have hl : (blit r.vertexBuffer r.vertexOffset cs).length = r.vertexBuffer.length :=
    blit_length _ _ _ (by omega)
  unfold pushFloat
  rw [store_eq_blit]
  · simp only [writeCells, Option.map_some', Option.some.injEq]
    rw [blit_blit _ _ _ _ (by omega)]
    simp [Nat.add_assoc]
  · simp only [writeCells]; rw [hl]; exact h

theorem pushIndex_writeIndices (r : BlocksRenderer) (vs : List Nat) (v : Nat)
    (h : r.indexSize + vs.length < r.indexBuffer.length) :
    pushIndex (writeIndices r vs) v = some (writeIndices r (vs ++ [v])) := by
  have hl : (blit r.indexBuffer r.indexSize vs).length = r.indexBuffer.length :=
    blit_length _ _ _ (by omega)
  unfold pushIndex
  rw [store_eq_blit]
  · simp only [writeIndices, Option.map_some', Option.some.injEq]
    rw [blit_blit _ _ _ _ (by omega)]
    simp [Nat.add_assoc]
  · simp only [writeIndices]; rw [hl]; exact h

theorem vertex_writeCells (r : BlocksRenderer) (cs : List Cell) (coord : vec3) (u v : ℚ)
    (light : vec4) (h : r.vertexOffset + cs.length + 6 ≤ r.vertexBuffer.length) :
    vertex (writeCells r cs) coord u v light
      = some (writeCells r (cs ++ vertexCells coord u v light)) := by
  unfold vertex
  rw [pushFloat_writeCells _ _ _ (by omega)]
  simp only [Option.bind_eq_bind, Option.some_bind]
  rw [pushFloat_writeCells _ _ _ (by simp; omega)]
  simp only [Option.some_bind]
  rw [pushFloat_writeCells _ _ _ (by simp; omega)]
  simp only [Option.some_bind]
  rw [pushFloat_writeCells _ _ _ (by simp; omega)]
  simp only [Option.some_bind]
  rw [pushFloat_writeCells _ _ _ (by simp; omega)]
  simp only [Option.some_bind]
  rw [pushFloat_writeCells _ _ _ (by simp; omega)]
  simp [vertexCells]

theorem index_eq (r : BlocksRenderer) (a b c d e f : Nat)
    (h : r.indexSize + 6 ≤ r.indexBuffer.length) :
    index r a b c d e f
      = some { writeIndices r [r.indexOffset + a, r.indexOffset + b, r.indexOffset + c,
                  r.indexOffset + d, r.indexOffset + e, r.indexOffset + f] with
               indexOffset := r.indexOffset + 4 } := by
  unfold index
  conv_lhs => rw [← writeIndices_nil r]
  rw [pushIndex_writeIndices _ _ _ (by simp; omega)]
  simp only [Option.bind_eq_bind, Option.some_bind]
  have e0 : ∀ vs, (writeIndices r vs).indexOffset = r.indexOffset := fun _ => rfl
  rw [e0, pushIndex_writeIndices _ _ _ (by simp; omega)]
  simp only [Option.some_bind]
  rw [e0, pushIndex_writeIndices _ _ _ (by simp; omega)]
  simp only [Option.some_bind]
  rw [e0, pushIndex_writeIndices _ _ _ (by simp; omega)]
  simp only [Option.some_bind]
  rw [e0, pushIndex_writeIndices _ _ _ (by simp; omega)]
  simp only [Option.some_bind]
  rw [e0, pushIndex_writeIndices _ _ _ (by simp; omega)]
  simp [e0, writeIndices_nil]

theorem vertex_eq (r : BlocksRenderer) (coord : vec3) (u v : ℚ) (light : vec4)
    (h : r.vertexOffset + 6 ≤ r.vertexBuffer.length) :
    vertex r coord u v light = some (writeCells r (vertexCells coord u v light)) := by
  have := vertex_writeCells r [] coord u v light (by simpa using h)
  simpa [writeCells_nil] using this

theorem vtxCells_length (p : Vtx) : p.cells.length = 6 := rfl

theorem quadCells_length (q : Quad) : q.cells.length = 24 := rfl

theorem quadPattern_length (q : Quad) : q.pattern.length = 6 := by
  unfold Quad.pattern; split <;> rfl

theorem quadIndices_length (q : Quad) (base : Nat) : (q.indices base).length = 6 := by
  simp [Quad.indices, quadPattern_length]

theorem quad_eq_emit (r : BlocksRenderer) (q : Quad) (hw : WF r)
    (hroom : ¬ r.vertexOffset + VERTEX_SIZE * 4 > r.capacity) :
    (do
      let r1 ← vertex r q.v0.coord q.v0.u q.v0.v q.v0.light
      let r2 ← vertex r1 q.v1.coord q.v1.u q.v1.v q.v1.light
      let r3 ← vertex r2 q.v2.coord q.v2.u q.v2.v q.v2.light
      let r4 ← vertex r3 q.v3.coord q.v3.u q.v3.v q.v3.light
      index r4 (q.pattern.getD 0 0) (q.pattern.getD 1 0) (q.pattern.getD 2 0)
        (q.pattern.getD 3 0) (q.pattern.getD 4 0) (q.pattern.getD 5 0)) = some (emit r q) := by
  have hv := hw.vlen
  have hi := hw.ilen
  have h1 := hw.voff
  have h2 := hw.isz
  simp only [VERTEX_SIZE] at hroom
  rw [vertex_eq _ _ _ _ _ (by omega)]
  simp only [Option.bind_eq_bind, Option.some_bind]
  rw [vertex_writeCells _ _ _ _ _ _ (by simp [vertexCells]; omega)]
  simp only [Option.some_bind]
  rw [vertex_writeCells _ _ _ _ _ _ (by simp [vertexCells]; omega)]
  simp only [Option.some_bind]
  rw [vertex_writeCells _ _ _ _ _ _ (by simp [vertexCells]; omega)]
  simp only [Option.some_bind]
  rw [index_eq _ _ _ _ _ _ _ (by simp only [writeCells]; omega)]
  have hp : q.pattern = [q.pattern.getD 0 0, q.pattern.getD 1 0, q.pattern.getD 2 0,
      q.pattern.getD 3 0, q.pattern.getD 4 0, q.pattern.getD 5 0] := by
    unfold Quad.pattern; split <;> rfl
  simp only [emit, VERTEX_SIZE, if_neg hroom, Quad.indices]
  conv_rhs => rw [hp]
  simp [writeCells, writeIndices, Quad.cells, Vtx.cells, List.append_assoc]

theorem emit_full (r : BlocksRenderer) (q : Quad)
    (h : r.vertexOffset + VERTEX_SIZE * 4 > r.capacity) :
    emit r q = { r with overflow := true } := by
  simp [emit, h]

theorem face_eq (r : BlocksRenderer) (coord : vec3) (w h : ℚ) (axisX axisY : vec3)
    (region : UVRegion) (lights : Fin 4 → vec4) (tint : vec4) (hw : WF r) :
    face r coord w h axisX axisY region lights tint
      = some (emit r (faceQuad coord w h axisX axisY region lights tint)) := by
  unfold face
  by_cases hroom : r.vertexOffset + VERTEX_SIZE * 4 > r.capacity
  · rw [if_pos hroom, emit_full _ _ hroom]
  · rw [if_neg hroom]
    exact quad_eq_emit r (faceQuad coord w h axisX axisY region lights tint) hw hroom

theorem faceUntinted_eq (r : BlocksRenderer) (coord : vec3) (w h : ℚ) (axisX axisY : vec3)
    (region : UVRegion) (lights : Fin 4 → vec4) (hw : WF r) :
    faceUntinted r coord w h axisX axisY region lights
      = some (emit r (faceQuad coord w h axisX axisY region lights (vec4.splat 1))) :=
  face_eq r coord w h axisX axisY region lights (vec4.splat 1) hw

theorem faceRotated_eq (r : BlocksRenderer) (coord : vec3) (w h : ℚ) (axisX axisY : vec3)
    (region : UVRegion) (lights : Fin 4 → vec4) (tint : vec4) (rotated : Bool) (hw : WF r) :
    faceRotated r coord w h axisX axisY region lights tint rotated
      = some (emit r (faceRotatedQuad coord w h axisX axisY region lights tint rotated)) := by
  unfold faceRotated
  by_cases hroom : r.vertexOffset + VERTEX_SIZE * 4 > r.capacity
  · rw [if_pos hroom, emit_full _ _ hroom]
  · rw [if_neg hroom]
    cases rotated
    · exact quad_eq_emit r
        (faceRotatedQuad coord w h axisX axisY region lights tint false) hw hroom
    · exact quad_eq_emit r
        (faceRotatedQuad coord w h axisX axisY region lights tint true) hw hroom

theorem isOpen_eq (sc : Scene) (hd : WindowDefined sc) (x y z : Int) (group : Nat) :
    isOpen sc x y z group = some (isOpenD sc x y z group) := by
  unfold isOpenD isOpen
  simp only
  split
  · rfl
  · rename_i h
    have := hd _ _ _ h
    obtain ⟨b, hb⟩ := Option.isSome_iff_exists.mp this
    rw [hb]
    simp only [Option.bind_eq_bind, Option.some_bind]
    split <;> rfl

theorem isOpenForLight_isSome (sc : Scene) (hd : WindowDefined sc) (x y z : Int) :
    (isOpenForLight sc x y z).isSome = true := by
  unfold isOpenForLight
  simp only
  split
  · rfl
  · rename_i h
    have := hd _ _ _ h
    obtain ⟨b, hb⟩ := Option.isSome_iff_exists.mp this
    rw [hb]
    simp only [Option.bind_eq_bind, Option.some_bind]
    split <;> rfl

theorem pickLight_isSome (sc : Scene) (hd : WindowDefined sc) (x y z : Int) :
    (pickLight sc x y z).isSome = true := by
  unfold pickLight
  obtain ⟨b, hb⟩ := Option.isSome_iff_exists.mp (isOpenForLight_isSome sc hd x y z)
  rw [hb]
  simp only [Option.bind_eq_bind, Option.some_bind]
  split <;> rfl

theorem pickSoftLight_eq (sc : Scene) (hd : WindowDefined sc) (coord right up : ivec3) :
    pickSoftLight sc coord right up = some (softLight sc coord right up) := by
  have key : (pickSoftLight sc coord right up).isSome = true := by
    unfold pickSoftLight pickLightAt
    obtain ⟨a, ha⟩ := Option.isSome_iff_exists.mp (pickLight_isSome sc hd coord.x coord.y coord.z)
    obtain ⟨b, hb⟩ := Option.isSome_iff_exists.mp
      (pickLight_isSome sc hd (coord - right).x (coord - right).y (coord - right).z)
    obtain ⟨c, hc⟩ := Option.isSome_iff_exists.mp
      (pickLight_isSome sc hd (coord - right - up).x (coord - right - up).y
        (coord - right - up).z)
    obtain ⟨d, hd4⟩ := Option.isSome_iff_exists.mp
      (pickLight_isSome sc hd (coord - up).x (coord - up).y (coord - up).z)
    rw [ha, hb, hc, hd4]
    rfl
  obtain ⟨v, hv⟩ := Option.isSome_iff_exists.mp key
  simp [softLight, hv]

theorem faceLit_eq (sc : Scene) (hd : WindowDefined sc) (r : BlocksRenderer)
    (coord axisX axisY axisZ : ivec3) (region : UVRegion) (tint : vec4) (rotated : Bool)
    (hw : WF r) :
    faceLit sc r coord axisX axisY axisZ region tint rotated
      = some (emit r (litQuad sc coord axisX axisY axisZ region tint rotated)) := by
  unfold faceLit
  by_cases hroom : r.vertexOffset + VERTEX_SIZE * 4 > r.capacity
  · rw [if_pos hroom, emit_full _ _ hroom]
  · rw [if_neg hroom]
    cases rotated
    · simp only [vertexLit, pickSoftLight_eq sc hd, Option.bind_eq_bind, Option.some_bind,
        Bool.false_eq_true, if_false]
      exact quad_eq_emit r (litQuad sc coord axisX axisY axisZ region tint false) hw hroom
    · simp only [vertexLit, pickSoftLight_eq sc hd, Option.bind_eq_bind, Option.some_bind,
        if_true]
      exact quad_eq_emit r (litQuad sc coord axisX axisY axisZ region tint true) hw hroom

theorem emitAll_nil (r : BlocksRenderer) : emitAll r [] = r := rfl

theorem emitAll_cons (r : BlocksRenderer) (q : Quad) (qs : List Quad) :
    emitAll r (q :: qs) = emitAll (emit r q) qs := rfl

theorem emitAll_append (r : BlocksRenderer) (qs ps : List Quad) :
    emitAll (emitAll r qs) ps = emitAll r (qs ++ ps) := by
  simp [emitAll, List.foldl_append]

theorem faceCount_emit (r : BlocksRenderer) (q : Quad)
    (hroom : ¬ r.vertexOffset + VERTEX_SIZE * 4 > r.capacity) :
    faceCount (emit r q) = faceCount r + 1 := by
  simp only [emit, if_neg hroom, faceCount, writeIndices, writeCells]
  omega

theorem WF_emit (r : BlocksRenderer) (q : Quad) (hw : WF r) : WF (emit r q) := by
  by_cases hroom : r.vertexOffset + VERTEX_SIZE * 4 > r.capacity
  · rw [emit_full _ _ hroom]
    exact ⟨hw.vlen, hw.ilen, hw.voff, hw.isz, hw.ioff⟩
  · have hf := faceCount_emit r q hroom
    have hv := hw.vlen
    have hi := hw.ilen
    have h1 := hw.voff
    have h2 := hw.isz
    have h3 := hw.ioff
    simp only [VERTEX_SIZE] at hroom
    refine ⟨?_, ?_, ?_, ?_, ?_⟩
    · simp only [emit, VERTEX_SIZE, if_neg hroom, writeIndices, writeCells]
      rw [blit_length _ _ _ (by rw [quadCells_length]; omega)]
      exact hv
    · simp only [emit, VERTEX_SIZE, if_neg hroom, writeIndices, writeCells]
      rw [blit_length _ _ _ (by rw [quadIndices_length]; omega)]
      exact hi
    · rw [hf]
      simp only [emit, VERTEX_SIZE, if_neg hroom, writeIndices, writeCells, quadCells_length]
      omega
    · rw [hf]
      simp only [emit, VERTEX_SIZE, if_neg hroom, writeIndices, writeCells,
        quadIndices_length]
      omega
    · rw [hf]
      simp only [emit, VERTEX_SIZE, if_neg hroom, writeIndices, writeCells]
      omega

theorem WF_emitAll (r : BlocksRenderer) (qs : List Quad) (hw : WF r) : WF (emitAll r qs) := by
  induction qs generalizing r with
  | nil => exact hw
  | cons q qs ih => exact ih (emit r q) (WF_emit r q hw)

theorem emitIf_eq (r : BlocksRenderer) (b : Bool) (q : Quad) :
    emitIf r b q = emitAll r (if b then [q] else []) := by
  cases b <;> rfl

theorem WF_emitIf (r : BlocksRenderer) (b : Bool) (q : Quad) (hw : WF r) :
    WF (emitIf r b q) := by
  cases b
  · exact hw
  · exact WF_emit r q hw

theorem faceLit_step (sc : Scene) (hd : WindowDefined sc) (r : BlocksRenderer) (b : Bool)
    (coord axisX axisY axisZ : ivec3) (region : UVRegion) (tint : vec4) (rotated : Bool)
    (hw : WF r) :
    (if b = true then faceLit sc r coord axisX axisY axisZ region tint rotated else some r)
      = some (emitIf r b (litQuad sc coord axisX axisY axisZ region tint rotated)) := by
  cases b
  · rfl
  · simp only [if_true, emitIf]
    exact faceLit_eq sc hd r coord axisX axisY axisZ region tint rotated hw

theorem faceLit_step_bind (sc : Scene) (hd : WindowDefined sc) (r : BlocksRenderer) (b : Bool)
    (coord axisX axisY axisZ : ivec3) (region : UVRegion) (tint : vec4) (rotated : Bool)
    (k : BlocksRenderer → Option BlocksRenderer) (hw : WF r) :
    (if b = true then faceLit sc r coord axisX axisY axisZ region tint rotated
      else some r).bind k
      = k (emitIf r b (litQuad sc coord axisX axisY axisZ region tint rotated)) := by
  rw [faceLit_step sc hd r b coord axisX axisY axisZ region tint rotated hw]
  rfl

theorem ivec3_add_def (p q : ivec3) : p + q = ⟨p.x + q.x, p.y + q.y, p.z + q.z⟩ := rfl

theorem ivec3_sub_def (p q : ivec3) : p - q = ⟨p.x - q.x, p.y - q.y, p.z - q.z⟩ := rfl

theorem ivec3_neg_def (p : ivec3) : -p = ⟨-p.x, -p.y, -p.z⟩ := rfl

theorem filter_map_six {α β : Type} (p : α → Bool) (f : α → β) (a b c d e g : α) :
    ([a, b, c, d, e, g].filter p).map f
      = (if p a then [f a] else []) ++ ((if p b then [f b] else [])
        ++ ((if p c then [f c] else []) ++ ((if p d then [f d] else [])
        ++ ((if p e then [f e] else []) ++ (if p g then [f g] else []))))) := by
  cases h1 : p a <;> cases h2 : p b <;> cases h3 : p c <;> cases h4 : p d <;>
    cases h5 : p e <;> cases h6 : p g <;> simp [List.filter, h1, h2, h3, h4, h5, h6]

theorem blockCubeShaded_eq (sc : Scene) (hd : WindowDefined sc) (r : BlocksRenderer)
    (x y z : Int) (texfaces_ : Fin 6 → UVRegion) (block : Block) (states : Nat) (hw : WF r) :
    blockCubeShaded sc r x y z texfaces_ block states
      = some (emitAll r (shadedQuads sc x y z texfaces_ block states)) := by
  unfold blockCubeShaded
  simp only [isOpen_eq sc hd, Option.bind_eq_bind, Option.some_bind]
  rw [faceLit_step_bind sc hd, faceLit_step_bind sc hd, faceLit_step_bind sc hd,
    faceLit_step_bind sc hd, faceLit_step_bind sc hd, faceLit_step sc hd]
  · unfold shadedQuads shadedOrder
    rw [filter_map_six]
    simp only [emitIf_eq, emitAll_append, openSide, Dir.offset, shadedQuad,
      ivec3_add_def, ivec3_sub_def, ivec3_neg_def, add_zero, sub_zero, neg_zero, sub_self,
      zero_sub, zero_add, Int.sub_eq_add_neg, List.append_assoc]
  all_goals first
    | exact hw
    | exact WF_emitIf _ _ _ hw
    | exact WF_emitIf _ _ _ (WF_emitIf _ _ _ hw)
    | exact WF_emitIf _ _ _ (WF_emitIf _ _ _ (WF_emitIf _ _ _ hw))
    | exact WF_emitIf _ _ _ (WF_emitIf _ _ _ (WF_emitIf _ _ _ (WF_emitIf _ _ _ hw)))
    | exact WF_emitIf _ _ _ (WF_emitIf _ _ _ (WF_emitIf _ _ _ (WF_emitIf _ _ _
        (WF_emitIf _ _ _ hw))))

theorem face_step_bind (r : BlocksRenderer) (b : Bool) (coord : vec3) (w h : ℚ)
    (axisX axisY : vec3) (region : UVRegion) (lights : Fin 4 → vec4) (tint : vec4)
    (k : BlocksRenderer → Option BlocksRenderer) (hw : WF r) :
    (if b = true then face r coord w h axisX axisY region lights tint else some r).bind k
      = k (emitIf r b (faceQuad coord w h axisX axisY region lights tint)) := by
  cases b
  · rfl
  · simp only [if_true, emitIf, face_eq r coord w h axisX axisY region lights tint hw]
    rfl

theorem faceUntinted_step_bind (r : BlocksRenderer) (b : Bool) (coord : vec3) (w h : ℚ)
    (axisX axisY : vec3) (region : UVRegion) (lights : Fin 4 → vec4)
    (k : BlocksRenderer → Option BlocksRenderer) (hw : WF r) :
    (if b = true then faceUntinted r coord w h axisX axisY region lights else some r).bind k
      = k (emitIf r b (faceQuad coord w h axisX axisY region lights (vec4.splat 1))) :=
  face_step_bind r b coord w h axisX axisY region lights (vec4.splat 1) k hw

theorem face_step (r : BlocksRenderer) (b : Bool) (coord : vec3) (w h : ℚ)
    (axisX axisY : vec3) (region : UVRegion) (lights : Fin 4 → vec4) (tint : vec4)
    (hw : WF r) :
    (if b = true then face r coord w h axisX axisY region lights tint else some r)
      = some (emitIf r b (faceQuad coord w h axisX axisY region lights tint)) := by
  cases b
  · rfl
  · simp only [if_true, emitIf, face_eq r coord w h axisX axisY region lights tint hw]

theorem blockCube_eq (sc : Scene) (hd : WindowDefined sc) (r : BlocksRenderer)
    (x y z : Int) (size : vec3) (texfaces : Fin 6 → UVRegion) (group : Nat) (hw : WF r) :
    blockCube sc r x y z size texfaces group
      = some (emitAll r (cubeQuads sc x y z size texfaces group)) := by
  unfold blockCube
  simp only [isOpen_eq sc hd, Option.bind_eq_bind, Option.some_bind]
  rw [face_step_bind, face_step_bind, faceUntinted_step_bind, face_step_bind,
    face_step_bind, face_step]
  · unfold cubeQuads cubeOrder
    rw [filter_map_six]
    simp only [emitIf_eq, emitAll_append, openSide, Dir.offset, cubeQuad,
      add_zero, Int.sub_eq_add_neg, List.append_assoc]
    rfl
  all_goals
    repeat apply WF_emitIf
    exact hw

theorem softLights_eq (sc : Scene) (hd : WindowDefined sc) (c0 c1 c2 c3 : vec3)
    (right up : ivec3) :
    softLights sc c0 c1 c2 c3 right up = some (softLightsD sc c0 c1 c2 c3 right up) := by
  simp only [softLights, pickSoftLightRounded, pickSoftLight_eq sc hd, Option.bind_eq_bind,
    Option.some_bind, softLightsD]

theorem face_bind (r : BlocksRenderer) (coord : vec3) (w h : ℚ)
    (axisX axisY : vec3) (region : UVRegion) (lights : Fin 4 → vec4) (tint : vec4)
    (k : BlocksRenderer → Option BlocksRenderer) (hw : WF r) :
    (face r coord w h axisX axisY region lights tint).bind k
      = k (emit r (faceQuad coord w h axisX axisY region lights tint)) := by
  rw [face_eq r coord w h axisX axisY region lights tint hw]
  rfl

theorem faceRotated_bind (r : BlocksRenderer) (coord : vec3) (w h : ℚ)
    (axisX axisY : vec3) (region : UVRegion) (lights : Fin 4 → vec4) (tint : vec4)
    (rotated : Bool) (k : BlocksRenderer → Option BlocksRenderer) (hw : WF r) :
    (faceRotated r coord w h axisX axisY region lights tint rotated).bind k
      = k (emit r (faceRotatedQuad coord w h axisX axisY region lights tint rotated)) := by
  rw [faceRotated_eq r coord w h axisX axisY region lights tint rotated hw]
  rfl

theorem blockXSprite_eq (sc : Scene) (hd : WindowDefined sc) (r : BlocksRenderer)
    (x y z : Int) (size : vec3) (texface1 texface2 : UVRegion) (spread : ℚ) (hw : WF r) :
    blockXSprite sc r x y z size texface1 texface2 spread
      = some (emitAll r (xspriteQuads sc x y z size texface1 texface2 spread)) := by
  unfold blockXSprite
  simp only [pickSoftLight_eq sc hd, Option.bind_eq_bind, Option.some_bind]
  rw [face_bind, face_bind, face_bind, face_eq]
  · rfl
  all_goals
    repeat apply WF_emit
    exact hw

theorem blockCubeShadedAABB_eq (sc : Scene) (hd : WindowDefined sc) (r : BlocksRenderer)
    (pos size : vec3) (texfaces : Fin 6 → UVRegion) (block : Block) (states : Nat)
    (hw : WF r) :
    blockCubeShadedAABB sc r pos size texfaces block states
      = some (emitAll r (aabbQuads sc pos size texfaces)) := by
  unfold blockCubeShadedAABB
  simp only [softLights_eq sc hd, Option.bind_eq_bind, Option.some_bind]
  have e1 : ((0 : Nat) == 1) = false := rfl
  have e3 : ((0 : Nat) == 3) = false := rfl
  have w1 := fun q1 => WF_emit r q1 hw
  have w2 := fun q1 q2 => WF_emit _ q2 (w1 q1)
  have w3 := fun q1 q2 q3 => WF_emit _ q3 (w2 q1 q2)
  have w4 := fun q1 q2 q3 q4 => WF_emit _ q4 (w3 q1 q2 q3)
  have w5 := fun q1 q2 q3 q4 q5 => WF_emit _ q5 (w4 q1 q2 q3 q4)
  rw [e1, e3]
  rw [faceRotated_bind _ _ _ _ _ _ _ _ _ _ _ hw]
  rw [faceRotated_bind _ _ _ _ _ _ _ _ _ _ _ (w1 _)]
  rw [faceRotated_bind _ _ _ _ _ _ _ _ _ _ _ (w2 _ _)]
  rw [faceRotated_bind _ _ _ _ _ _ _ _ _ _ _ (w3 _ _ _)]
  rw [faceRotated_bind _ _ _ _ _ _ _ _ _ _ _ (w4 _ _ _ _)]
  rw [faceRotated_eq _ _ _ _ _ _ _ _ _ _ (w5 _ _ _ _ _)]
  simp only [aabbQuads, emitAll, List.foldl]

theorem Inv_emit (r : BlocksRenderer) (q : Quad) (h : Inv r) : Inv (emit r q) := by
  refine ⟨WF_emit r q h.wf, ?_⟩
  by_cases hroom : r.vertexOffset + VERTEX_SIZE * 4 > r.capacity
  · rw [emit_full _ _ hroom]
    intro _
    exact hroom
  · have hov : r.overflow = false := by
      cases ho : r.overflow
      · rfl
      · exact absurd (h.full ho) hroom
    intro ho
    simp only [emit, if_neg hroom, writeIndices, writeCells] at ho
    rw [hov] at ho
    exact absurd ho (by decide)

theorem Inv_emitAll (r : BlocksRenderer) (qs : List Quad) (h : Inv r) : Inv (emitAll r qs) := by
  induction qs generalizing r with
  | nil => exact h
  | cons q qs ih => exact ih (emit r q) (Inv_emit r q h)

theorem emit_frozen (r : BlocksRenderer) (q : Quad) (h : Inv r) (ho : r.overflow = true) :
    emit r q = r := by
  rw [emit_full _ _ (h.full ho)]
  cases r
  simp only at ho
  simp [ho]

theorem emitAll_frozen (r : BlocksRenderer) (qs : List Quad) (h : Inv r)
    (ho : r.overflow = true) : emitAll r qs = r := by
  induction qs with
  | nil => rfl
  | cons q qs ih => rw [emitAll_cons, emit_frozen r q h ho, ih]

theorem renderVoxel_eq (sc : Scene) (hd : WindowDefined sc) (drawGroup : Nat)
    (r : BlocksRenderer) (i : Nat) (hv : VoxelDefined sc i) (hw : WF r) :
    renderVoxel sc drawGroup r i
      = some (flowOf sc drawGroup i (emitAll r (voxelQuads sc drawGroup i))) := by
  obtain ⟨vox, bdef, h1, h2⟩ := hv
  unfold renderVoxel flowOf meshed voxelQuads
  simp only [h1, h2, Option.bind_eq_bind, Option.some_bind]
  by_cases hc : vox.id = 0 ∨ bdef.drawGroup ≠ drawGroup
  · simp [hc, emitAll_nil]
    rcases hc with h | h
    · simp [h]
    · simp [h]
  · rw [if_neg hc, if_neg hc]
    have hm : (!(decide (vox.id = 0) || decide (bdef.drawGroup ≠ drawGroup))) = true := by
      simp only [not_or] at hc
      simp [hc.1]
      simpa using hc.2
    rw [hm]
    simp only [Bool.true_and]
    have fin : ∀ y : BlocksRenderer,
        ((some y).bind fun y =>
          if y.overflow = true then some (Flow.ret y) else some (Flow.next y))
          = some (if y.overflow = true then Flow.ret y else Flow.next y) := by
      intro y
      rw [Option.some_bind]
      split <;> rfl
    cases hmod : bdef.model
    · by_cases he : bdef.emissive = true
      · simp only [he, if_true]
        rw [blockCube_eq sc hd _ _ _ _ _ _ _ hw]
        exact fin _
      · simp only [he, if_false]
        rw [blockCubeShaded_eq sc hd _ _ _ _ _ _ _ hw]
        exact fin _
    · simp only
      rw [blockXSprite_eq sc hd _ _ _ _ _ _ _ _ hw]
      exact fin _
    · simp only
      rw [blockCubeShadedAABB_eq sc hd _ _ _ _ _ _ hw]
      exact fin _
    · simp only [emitAll_nil]
      exact fin _

theorem flowOf_state (sc : Scene) (g i : Nat) (r : BlocksRenderer) :
    (flowOf sc g i r).state = r := by
  unfold flowOf
  split <;> rfl

theorem renderSpan_eq (sc : Scene) (hd : WindowDefined sc) (g : Nat) (span : List Nat)
    (hv : ∀ i ∈ span, VoxelDefined sc i) (r : BlocksRenderer) (h : Inv r) :
    ∃ fl, renderSpan sc g span r = some fl ∧ fl.state = emitAll r (spanQuads sc g span)
      ∧ (∀ r1, fl = Flow.ret r1 → r1.overflow = true) := by
  induction span generalizing r with
  | nil => exact ⟨.next r, rfl, rfl, fun _ hh => by cases hh⟩
  | cons i rest ih =>
    have hvi := hv i (List.mem_cons_self _ _)
    have hrest : ∀ j ∈ rest, VoxelDefined sc j := fun j hj => hv j (List.mem_cons_of_mem _ hj)
    have hstep := renderVoxel_eq sc hd g r i hvi h.wf
    have hinv := Inv_emitAll r (voxelQuads sc g i) h
    have hq : spanQuads sc g (i :: rest) = voxelQuads sc g i ++ spanQuads sc g rest := by
      simp [spanQuads]
    rw [hq, ← emitAll_append]
    unfold renderSpan
    rw [hstep]
    unfold flowOf
    by_cases hc : (meshed sc g i && (emitAll r (voxelQuads sc g i)).overflow) = true
    · rw [if_pos hc]
      have ho : (emitAll r (voxelQuads sc g i)).overflow = true := by
        simp only [Bool.and_eq_true] at hc
        exact hc.2
      refine ⟨_, rfl, ?_, ?_⟩
      · rw [emitAll_frozen _ _ hinv ho]
        rfl
      · intro r1 hh
        cases hh
        exact ho
    · rw [if_neg hc]
      exact ih hrest _ hinv

theorem renderGroups_eq (sc : Scene) (hd : WindowDefined sc) (span : List Nat)
    (hv : ∀ i ∈ span, VoxelDefined sc i) (groups : List Nat) (r : BlocksRenderer)
    (h : Inv r) :
    ∃ fl, renderGroups sc span groups r = some fl
      ∧ fl.state = emitAll r (groupsQuads sc span groups)
      ∧ (∀ r1, fl = Flow.ret r1 → r1.overflow = true) := by
  induction groups generalizing r with
  | nil => exact ⟨.next r, rfl, rfl, fun _ hh => by cases hh⟩
  | cons g rest ih =>
    obtain ⟨fl, h1, h2, h3⟩ := renderSpan_eq sc hd g span hv r h
    have hq : groupsQuads sc span (g :: rest) = spanQuads sc g span ++ groupsQuads sc span rest := by
      simp [groupsQuads]
    rw [hq, ← emitAll_append]
    unfold renderGroups
    rw [h1]
    cases fl with
    | next r1 =>
      simp only [Flow.state] at h2
      subst h2
      exact ih _ (Inv_emitAll r _ h)
    | ret r1 =>
      simp only [Flow.state] at h2
      have ho := h3 r1 rfl
      refine ⟨_, rfl, ?_, ?_⟩
      · simp only [Flow.state]
        rw [← h2, emitAll_frozen r1 _ (h2 ▸ Inv_emitAll r _ h) ho]
      · intro r2 hh
        cases hh
        exact ho

theorem render_eq (sc : Scene) (hd : WindowDefined sc) (hc : ChunkDefined sc)
    (r : BlocksRenderer) (h : Inv r) :
    render sc r = some (emitAll r (renderQuads sc)) := by
  obtain ⟨fl, h1, h2, _⟩ := renderGroups_eq sc hd (renderIndices sc) hc sc.drawGroups r h
  unfold render
  rw [h1]
  simp only [Option.map_some']
  rw [h2]
  rfl

theorem blit_take {α : Type} (buf : List α) (off : Nat) (xs : List α) (h : off ≤ buf.length) :
    (blit buf off xs).take (off + xs.length) = buf.take off ++ xs := by
  unfold blit
  apply List.take_left'
  simp
  omega

theorem emit_room (r : BlocksRenderer) (q : Quad) (hw : WF r)
    (hroom : ¬ r.vertexOffset + VERTEX_SIZE * 4 > r.capacity) :
    written (emit r q) = written r ++ q.cells
      ∧ indexList (emit r q) = indexList r ++ q.indices r.indexOffset
      ∧ (emit r q).overflow = r.overflow
      ∧ (emit r q).capacity = r.capacity
      ∧ (emit r q).vertexOffset = r.vertexOffset + 24
      ∧ (emit r q).indexOffset = r.indexOffset + 4
      ∧ (emit r q).indexSize = r.indexSize + 6 := by
  have hv := hw.vlen
  have hi := hw.ilen
  have h1 := hw.voff
  have h2 := hw.isz
  have hr := hroom
  simp only [VERTEX_SIZE] at hr
  simp only [emit, if_neg hroom, writeIndices, writeCells, written, indexList,
    quadCells_length, quadIndices_length, and_true]
  refine ⟨?_, ?_⟩
  · have := blit_take r.vertexBuffer r.vertexOffset q.cells (by omega)
    rw [quadCells_length] at this
    exact this
  · have := blit_take r.indexBuffer r.indexSize (q.indices r.indexOffset) (by omega)
    rw [quadIndices_length] at this
    exact this

theorem roomFaces_pos (r : BlocksRenderer)
    (hroom : ¬ r.vertexOffset + VERTEX_SIZE * 4 > r.capacity) : 0 < roomFaces r := by
  simp only [VERTEX_SIZE] at hroom
  unfold roomFaces
  omega

theorem roomFaces_zero (r : BlocksRenderer)
    (hroom : r.vertexOffset + VERTEX_SIZE * 4 > r.capacity) : roomFaces r = 0 := by
  simp only [VERTEX_SIZE] at hroom
  unfold roomFaces
  omega

theorem emitAll_spec (qs : List Quad) (r : BlocksRenderer) (h : Inv r)
    (ho : r.overflow = false) :
    written (emitAll r qs) = written r ++ quadsCells (qs.take (roomFaces r))
      ∧ indexList (emitAll r qs)
          = indexList r ++ quadsIndices r.indexOffset (qs.take (roomFaces r))
      ∧ faceCount (emitAll r qs) = faceCount r + min (roomFaces r) qs.length
      ∧ (emitAll r qs).overflow = decide (roomFaces r < qs.length)
      ∧ (emitAll r qs).capacity = r.capacity := by
  induction qs generalizing r with
  | nil => simp [emitAll_nil, quadsCells, quadsIndices, ho]
  | cons q qs ih =>
    rw [emitAll_cons]
    by_cases hroom : r.vertexOffset + VERTEX_SIZE * 4 > r.capacity
    · have hz := roomFaces_zero r hroom
      have hi1 : Inv (emit r q) := Inv_emit r q h
      have ho1 : (emit r q).overflow = true := by rw [emit_full _ _ hroom]
      rw [emitAll_frozen _ _ hi1 ho1, hz, emit_full _ _ hroom]
      simp [written, indexList, faceCount, quadsCells, quadsIndices]
    · obtain ⟨e1, e2, e3, e4, e5, e6, _⟩ := emit_room r q h.wf hroom
      have hp := roomFaces_pos r hroom
      have hi1 : Inv (emit r q) := Inv_emit r q h
      have ho1 : (emit r q).overflow = false := by rw [e3]; exact ho
      have hk : roomFaces (emit r q) = roomFaces r - 1 := by
        simp only [VERTEX_SIZE] at hroom
        unfold roomFaces
        rw [e4, e5]
        omega
      obtain ⟨i1, i2, i3, i4, i5⟩ := ih (emit r q) hi1 ho1
      have hf := faceCount_emit r q hroom
      have ht : (q :: qs).take (roomFaces r) = q :: qs.take (roomFaces r - 1) := by
        cases hk2 : roomFaces r with
        | zero => omega
        | succ n => simp
      rw [i1, i2, i3, i4, i5, hk, ht, e1, e2, e4, e6, hf]
      refine ⟨?_, ?_, ?_, ?_, rfl⟩
      · simp [quadsCells, List.append_assoc]
      · simp [quadsIndices, List.append_assoc]
      · simp only [List.length_cons]
        omega
      · simp only [List.length_cons, decide_eq_decide]
        omega

theorem emitAll_full (qs : List Quad) (r : BlocksRenderer)
    (hroom : r.vertexOffset + VERTEX_SIZE * 4 > r.capacity) :
    emitAll r qs = { r with overflow := r.overflow || !qs.isEmpty } := by
  induction qs generalizing r with
  | nil => simp [emitAll_nil]
  | cons q qs ih =>
    rw [emitAll_cons, emit_full _ _ hroom]
    have := ih { r with overflow := true } hroom
    rw [this]
    simp

theorem emitAll_wf (qs : List Quad) (r : BlocksRenderer) (hw : WF r) :
    written (emitAll r qs) = written r ++ quadsCells (qs.take (roomFaces r))
      ∧ indexList (emitAll r qs)
          = indexList r ++ quadsIndices r.indexOffset (qs.take (roomFaces r))
      ∧ faceCount (emitAll r qs) = faceCount r + min (roomFaces r) qs.length
      ∧ (emitAll r qs).overflow = (r.overflow || decide (roomFaces r < qs.length))
      ∧ (emitAll r qs).capacity = r.capacity := by
  induction qs generalizing r with
  | nil => simp [emitAll_nil, quadsCells, quadsIndices]
  | cons q qs ih =>
    by_cases hroom : r.vertexOffset + VERTEX_SIZE * 4 > r.capacity
    · have hz := roomFaces_zero r hroom
      rw [emitAll_full _ _ hroom, hz]
      simp [written, indexList, faceCount, quadsCells, quadsIndices]
    · rw [emitAll_cons]
      obtain ⟨e1, e2, e3, e4, e5, e6, _⟩ := emit_room r q hw hroom
      have hp := roomFaces_pos r hroom
      have hk : roomFaces (emit r q) = roomFaces r - 1 := by
        simp only [VERTEX_SIZE] at hroom
        unfold roomFaces
        rw [e4, e5]
        omega
      obtain ⟨i1, i2, i3, i4, i5⟩ := ih (emit r q) (WF_emit r q hw)
      have hf := faceCount_emit r q hroom
      have ht : (q :: qs).take (roomFaces r) = q :: qs.take (roomFaces r - 1) := by
        cases hk2 : roomFaces r with
        | zero => omega
        | succ n => simp
      rw [i1, i2, i3, i4, i5, hk, ht, e1, e2, e3, e4, e6, hf]
      refine ⟨?_, ?_, ?_, ?_, rfl⟩
      · simp [quadsCells, List.append_assoc]
      · simp [quadsIndices, List.append_assoc]
      · simp only [List.length_cons]
        omega
      · congr 1
        simp only [List.length_cons, decide_eq_decide]
        omega

theorem emitAll_room (qs : List Quad) (r : BlocksRenderer) (hw : WF r)
    (hroom : r.vertexOffset + 24 * qs.length ≤ r.capacity) :
    written (emitAll r qs) = written r ++ quadsCells qs
      ∧ indexList (emitAll r qs) = indexList r ++ quadsIndices r.indexOffset qs
      ∧ faceCount (emitAll r qs) = faceCount r + qs.length
      ∧ (emitAll r qs).overflow = r.overflow
      ∧ (emitAll r qs).capacity = r.capacity := by
  obtain ⟨i1, i2, i3, i4, i5⟩ := emitAll_wf qs r hw
  have hk : qs.length ≤ roomFaces r := by
    unfold roomFaces
    omega
  rw [List.take_of_length_le hk] at i1 i2
  refine ⟨i1, i2, ?_, ?_, i5⟩
  · rw [i3]; omega
  · rw [i4]
    have : decide (roomFaces r < qs.length) = false := by
      simp only [decide_eq_false_iff_not]
      omega
    rw [this, Bool.or_false]

theorem quadsCells_length (qs : List Quad) : (quadsCells qs).length = 24 * qs.length := by
  induction qs with
  | nil => rfl
  | cons q qs ih =>
    simp only [quadsCells, List.flatMap_cons, List.length_append, List.length_cons] at ih ⊢
    rw [ih, quadCells_length]
    omega

theorem quadsIndices_length (base : Nat) (qs : List Quad) :
    (quadsIndices base qs).length = 6 * qs.length := by
  induction qs generalizing base with
  | nil => rfl
  | cons q qs ih =>
    simp only [quadsIndices, List.length_append, List.length_cons, ih, quadIndices_length]
    omega

theorem quadsCells_append (qs ps : List Quad) :
    quadsCells (qs ++ ps) = quadsCells qs ++ quadsCells ps := by
  simp [quadsCells]

theorem quadsCells_take (qs : List Quad) (k : Nat) :
    quadsCells (qs.take k) = (quadsCells qs).take (24 * k) := by
  induction qs generalizing k with
  | nil => simp [quadsCells]
  | cons q qs ih =>
    cases k with
    | zero => simp [quadsCells]
    | succ k =>
      have e : quadsCells (q :: qs) = q.cells ++ quadsCells qs := by simp [quadsCells]
      have e2 : quadsCells (q :: List.take k qs) = q.cells ++ quadsCells (List.take k qs) := by
        simp [quadsCells]
      rw [List.take_succ_cons, e, e2, ih, List.take_append_eq_append_take, quadCells_length]
      have h1 : List.take (24 * (k + 1)) q.cells = q.cells :=
        List.take_of_length_le (by rw [quadCells_length]; omega)
      have h2 : 24 * (k + 1) - 24 = 24 * k := by omega
      rw [h1, h2]

theorem quadsIndices_take (base : Nat) (qs : List Quad) (k : Nat) :
    quadsIndices base (qs.take k) = (quadsIndices base qs).take (6 * k) := by
  induction qs generalizing k base with
  | nil => simp [quadsIndices]
  | cons q qs ih =>
    cases k with
    | zero => simp [quadsIndices]
    | succ k =>
      rw [List.take_succ_cons]
      simp only [quadsIndices]
      rw [ih, List.take_append_eq_append_take, quadIndices_length]
      have h1 : List.take (6 * (k + 1)) (q.indices base) = q.indices base :=
        List.take_of_length_le (by rw [quadIndices_length]; omega)
      have h2 : 6 * (k + 1) - 6 = 6 * k := by omega
      rw [h1, h2]

theorem Inv_reset (r : BlocksRenderer) (hs : Sized r) : Inv (reset r) := by
  refine ⟨⟨hs.1, hs.2, ?_, ?_, ?_⟩, ?_⟩
  · simp [reset, faceCount]
  · simp [reset, faceCount]
  · simp [reset, faceCount]
  · intro h
    simp [reset] at h

theorem renderChunk_eq (sc : Scene) (hd : WindowDefined sc) (hc : ChunkDefined sc)
    (r : BlocksRenderer) (hs : Sized r) :
    renderChunk sc r = some (meshOf (emitAll (reset r) (renderQuads sc)),
      emitAll (reset r) (renderQuads sc)) := by
  have hr := render_eq sc hd hc (reset r) (Inv_reset r hs)
  unfold renderChunk
  have : ({ r with overflow := false, vertexOffset := 0, indexOffset := 0, indexSize := 0 }
      : BlocksRenderer) = reset r := rfl
  simp only [this, hr, Option.bind_eq_bind, Option.some_bind]
  rfl

theorem renderChunk_spec (sc : Scene) (r : BlocksRenderer) (hs : Sized r) :
    (meshOf (emitAll (reset r) (renderQuads sc))).vertices
        = quadsCells ((renderQuads sc).take (capacityFaces r.capacity))
      ∧ (meshOf (emitAll (reset r) (renderQuads sc))).indices
        = quadsIndices 0 ((renderQuads sc).take (capacityFaces r.capacity))
      ∧ faceCount (emitAll (reset r) (renderQuads sc))
        = min (capacityFaces r.capacity) (requiredFaces sc)
      ∧ (meshOf (emitAll (reset r) (renderQuads sc))).vertexCount
        = 4 * faceCount (emitAll (reset r) (renderQuads sc))
      ∧ (meshOf (emitAll (reset r) (renderQuads sc))).indexCount
        = 6 * faceCount (emitAll (reset r) (renderQuads sc))
      ∧ (emitAll (reset r) (renderQuads sc)).overflow
        = decide (capacityFaces r.capacity < requiredFaces sc)
      ∧ (emitAll (reset r) (renderQuads sc)).capacity = r.capacity := by
  have hi := Inv_reset r hs
  have hw := WF_emitAll (reset r) (renderQuads sc) hi.wf
  obtain ⟨i1, i2, i3, i4, i5⟩ := emitAll_wf (renderQuads sc) (reset r) hi.wf
  have hk : roomFaces (reset r) = capacityFaces r.capacity := by
    simp [roomFaces, reset, capacityFaces]
  have hf0 : faceCount (reset r) = 0 := by simp [faceCount, reset]
  have hwr : written (reset r) = [] := by simp [written, reset]
  have hir : indexList (reset r) = [] := by simp [indexList, reset]
  rw [hk] at i1 i2 i3 i4
  rw [hwr, List.nil_append] at i1
  rw [hir, List.nil_append] at i2
  rw [hf0, Nat.zero_add] at i3
  have hvo := hw.voff
  have hio := hw.isz
  refine ⟨?_, ?_, i3, ?_, ?_, ?_, ?_⟩
  · rw [← i1]
    unfold written meshOf
    simp only [VERTEX_SIZE]
    congr 1
    rw [hvo]
    omega
  · have h0 : (reset r).indexOffset = 0 := rfl
    rw [h0] at i2
    rw [← i2]
    rfl
  · simp only [meshOf, VERTEX_SIZE]
    rw [hvo]
    omega
  · simp only [meshOf]
    exact hio
  · rw [i4]
    simp [reset, requiredFaces]
  · rw [i5]
    rfl

/-- C2: for a neighbour inside the window whose id has the definition `b`, `isOpen`
is true exactly when the neighbour is air, or light-passing and of another draw
group, or not solid; so water next to water is closed and water seen from another
draw group is open. -/
theorem isOpen_iff_air_or_passing_or_nonsolid (sc : Scene) (x y z : Int) (group : Nat)
    (b : Block) (hin : idAt sc x y z ≠ sc.BLOCK_VOID)
    (hdef : sc.blockDefsCache (idAt sc x y z) = some b) :
    (isOpen sc x y z group = some true
        ↔ (idAt sc x y z = 0 ∨ (b.lightPassing = true ∧ b.drawGroup ≠ group)
            ∨ b.solid = false))
      ∧ (isOpen sc x y z group = some true ∨ isOpen sc x y z group = some false)
      ∧ (b.lightPassing = true → b.solid = true → idAt sc x y z ≠ 0 →
          isOpen sc x y z b.drawGroup = some false)
      ∧ (b.lightPassing = true → b.drawGroup ≠ group → isOpen sc x y z group = some true) := by
  unfold idAt at hin hdef
  have key : isOpen sc x y z group
      = some (decide (idAt sc x y z = 0) || (b.lightPassing && decide (b.drawGroup ≠ group))
          || !b.solid) := by
    unfold isOpen idAt
    simp only [hin, if_false, hdef, Option.bind_eq_bind, Option.some_bind]
    cases hl : b.lightPassing <;> cases hs : b.solid <;>
      by_cases hg : b.drawGroup = group <;>
      by_cases h0 : sc.pickBlockId (sc.chunk.x * sc.CHUNK_W + x) y (sc.chunk.z * sc.CHUNK_D + z) = 0 <;>
      simp [hg, h0]
  have key2 : isOpen sc x y z b.drawGroup
      = some (decide (idAt sc x y z = 0) || (b.lightPassing && decide (b.drawGroup ≠ b.drawGroup))
          || !b.solid) := by
    unfold isOpen idAt
    simp only [hin, if_false, hdef, Option.bind_eq_bind, Option.some_bind]
    cases hl : b.lightPassing <;> cases hs : b.solid <;>
      by_cases h0 : sc.pickBlockId (sc.chunk.x * sc.CHUNK_W + x) y (sc.chunk.z * sc.CHUNK_D + z) = 0 <;>
      simp [h0]
  refine ⟨?_, ?_, ?_, ?_⟩
  · rw [key]
    simp
    tauto
  · rw [key]
    cases (decide (idAt sc x y z = 0) || (b.lightPassing && decide (b.drawGroup ≠ group))
          || !b.solid) <;> simp
  · intro hl hs h0
    rw [key2]
    simp [hl, hs, h0]
  · intro hl hg
    rw [key]
    simp [hl, hg]

/-- Witness of C2: water (id 2) as the neighbour, seen from the draw group of stone. -/
theorem isOpen_iff_air_or_passing_or_nonsolid_witness :
    (isOpen (exampleScene 2 0 []) 0 0 1 0 = some true
        ↔ (idAt (exampleScene 2 0 []) 0 0 1 = 0
            ∨ (waterBlock.lightPassing = true ∧ waterBlock.drawGroup ≠ 0)
            ∨ waterBlock.solid = false))
      ∧ (isOpen (exampleScene 2 0 []) 0 0 1 0 = some true
          ∨ isOpen (exampleScene 2 0 []) 0 0 1 0 = some false)
      ∧ (waterBlock.lightPassing = true → waterBlock.solid = true →
          idAt (exampleScene 2 0 []) 0 0 1 ≠ 0 →
          isOpen (exampleScene 2 0 []) 0 0 1 waterBlock.drawGroup = some false)
      ∧ (waterBlock.lightPassing = true → waterBlock.drawGroup ≠ 0 →
          isOpen (exampleScene 2 0 []) 0 0 1 0 = some true) :=
  isOpen_iff_air_or_passing_or_nonsolid (exampleScene 2 0 []) 0 0 1 0 waterBlock
    (by decide) (by rfl)

theorem isOpen_void (sc : Scene) (x y z : Int) (group : Nat)
    (hout : idAt sc x y z = sc.BLOCK_VOID) : isOpen sc x y z group = some false := by
  unfold idAt at hout
  unfold isOpen
  simp only [hout, if_true]

theorem exampleScene_windowDefined (fill light : Nat) (voxels : List voxel)
    (h : fill = 65535 ∨ fill ≤ 4) : WindowDefined (exampleScene fill light voxels) := by
  intro x y z hne
  simp only [exampleScene] at hne ⊢
  rcases h with h | h
  · exact absurd h hne
  · interval_cases fill <;> rfl

theorem WF_freshRenderer (capacity : Nat) : WF (freshRenderer capacity) := by
  refine ⟨?_, ?_, ?_, ?_, ?_⟩ <;> simp [freshRenderer, faceCount]

/-- C11, as the code has it: when the neighbour tested by `isOpen` is outside the
window, so that the id read is `BLOCK_VOID`, `isOpen` is false for every draw group,
and the shaded cube emits no face towards that neighbour. -/
theorem isOpen_false_outside_window (sc : Scene) (hd : WindowDefined sc) (x y z : Int)
    (d : Dir) (texfaces_ : Fin 6 → UVRegion) (block : Block) (states : Nat)
    (r : BlocksRenderer) (hw : WF r)
    (hout : idAt sc (x + d.offset.x) (y + d.offset.y) (z + d.offset.z) = sc.BLOCK_VOID) :
    (∀ group, isOpen sc (x + d.offset.x) (y + d.offset.y) (z + d.offset.z) group = some false)
      ∧ ∃ ds : List Dir, d ∉ ds
          ∧ blockCubeShaded sc r x y z texfaces_ block states
            = some (emitAll r (ds.map (shadedQuad sc x y z texfaces_ block states))) := by
  refine ⟨fun group => isOpen_void sc _ _ _ group hout, ?_⟩
  refine ⟨shadedOrder.filter (openSide sc x y z block.drawGroup), ?_, ?_⟩
  · intro hmem
    have := (List.mem_filter.mp hmem).2
    unfold openSide isOpenD at this
    rw [isOpen_void sc _ _ _ _ hout] at this
    simp at this
  · exact blockCubeShaded_eq sc hd r x y z texfaces_ block states hw

/-- Witness of C11 as amended: a window that returns the sentinel everywhere. -/
theorem isOpen_false_outside_window_witness :
    (∀ group, isOpen (exampleScene 65535 0 []) (0 + Dir.pz.offset.x) (0 + Dir.pz.offset.y)
        (0 + Dir.pz.offset.z) group = some false)
      ∧ ∃ ds : List Dir, Dir.pz ∉ ds
          ∧ blockCubeShaded (exampleScene 65535 0 []) (freshRenderer 144) 0 0 0
              (fun _ => ⟨0, 0, 1, 1⟩) stoneBlock 0
            = some (emitAll (freshRenderer 144)
                (ds.map (shadedQuad (exampleScene 65535 0 []) 0 0 0
                  (fun _ => ⟨0, 0, 1, 1⟩) stoneBlock 0))) :=
  isOpen_false_outside_window (exampleScene 65535 0 [])
    (exampleScene_windowDefined 65535 0 [] (Or.inl rfl)) 0 0 0 Dir.pz
    (fun _ => ⟨0, 0, 1, 1⟩) stoneBlock 0 (freshRenderer 144) (WF_freshRenderer 144) (by decide)

/-- Counterexample to C11 as stated: with every neighbour outside the window,
`isOpen` is false and the stone cube at `(0, 0, 0)` emits nothing at all. -/
theorem isOpen_outside_window_counterexample :
    idAt (exampleScene 65535 0 []) 0 0 1 = (exampleScene 65535 0 []).BLOCK_VOID
      ∧ isOpen (exampleScene 65535 0 []) 0 0 1 0 = some false
      ∧ blockCubeShaded (exampleScene 65535 0 []) (freshRenderer 144) 0 0 0
          (fun _ => ⟨0, 0, 1, 1⟩) stoneBlock 0 = some (freshRenderer 144) := by
  refine ⟨rfl, rfl, ?_⟩
  rw [blockCubeShaded_eq _ (exampleScene_windowDefined 65535 0 [] (Or.inl rfl)) _ _ _ _ _ _ _
    (WF_freshRenderer 144)]
  have : shadedQuads (exampleScene 65535 0 []) 0 0 0 (fun _ => ⟨0, 0, 1, 1⟩) stoneBlock 0 = [] := by
    simp [shadedQuads, shadedOrder, openSide, isOpenD, isOpen, exampleScene, Dir.offset]
  rw [this]
  rfl

theorem extract_le (light channel : Nat) : Lightmap.extract light channel ≤ 15 := by
  unfold Lightmap.extract
  exact Nat.and_le_right

theorem channel_bounds (n : Nat) (h : n ≤ 15) : (0 : ℚ) ≤ (n : ℚ) / 15 ∧ (n : ℚ) / 15 ≤ 1 := by
  constructor
  · positivity
  · rw [div_le_one (by norm_num)]
    exact_mod_cast h

theorem isOpenForLight_eq (sc : Scene) (x y z : Int) (b : Block)
    (hin : idAt sc x y z ≠ sc.BLOCK_VOID)
    (hdef : sc.blockDefsCache (idAt sc x y z) = some b) :
    isOpenForLight sc x y z = some (b.lightPassing || decide (idAt sc x y z = 0)) := by
  unfold isOpenForLight
  have e : sc.pickBlockId (sc.chunk.x * sc.CHUNK_W + x) y (sc.chunk.z * sc.CHUNK_D + z)
      = idAt sc x y z := rfl
  simp only [e, hin, if_false, hdef, Option.bind_eq_bind, Option.some_bind]
  cases b.lightPassing <;> simp [Nat.beq_eq_true_eq, beq_eq_decide]

theorem pickLight_eq (sc : Scene) (x y z : Int) :
    pickLight sc x y z = (isOpenForLight sc x y z).map fun o =>
      if o = true then
        lightOf (sc.pickLight (sc.chunk.x * sc.CHUNK_W + x) y (sc.chunk.z * sc.CHUNK_D + z))
      else vec4.splat 0 := by
  unfold pickLight
  cases isOpenForLight sc x y z with
  | none => rfl
  | some o => cases o <;> rfl

theorem vec4_unit_zero (v : vec4) (hv : v = vec4.splat 0) :
    (0 ≤ v.r ∧ v.r ≤ 1) ∧ (0 ≤ v.g ∧ v.g ≤ 1) ∧ (0 ≤ v.b ∧ v.b ≤ 1) ∧ (0 ≤ v.a ∧ v.a ≤ 1) := by
  subst hv
  simp [vec4.splat]

theorem vec4_unit_lightOf (l : Nat) (v : vec4) (hv : v = lightOf l) :
    (0 ≤ v.r ∧ v.r ≤ 1) ∧ (0 ≤ v.g ∧ v.g ≤ 1) ∧ (0 ≤ v.b ∧ v.b ≤ 1) ∧ (0 ≤ v.a ∧ v.a ≤ 1) := by
  subst hv
  exact ⟨channel_bounds _ (extract_le l 0), channel_bounds _ (extract_le l 1),
    channel_bounds _ (extract_le l 2), channel_bounds _ (extract_le l 3)⟩

theorem pickLight_unit (sc : Scene) (x y z : Int) (v : vec4)
    (hv : pickLight sc x y z = some v) :
    (0 ≤ v.r ∧ v.r ≤ 1) ∧ (0 ≤ v.g ∧ v.g ≤ 1) ∧ (0 ≤ v.b ∧ v.b ≤ 1) ∧ (0 ≤ v.a ∧ v.a ≤ 1) := by
  rw [pickLight_eq] at hv
  cases ho : isOpenForLight sc x y z with
  | none => rw [ho] at hv; cases hv
  | some o =>
    rw [ho] at hv
    simp only [Option.map_some', Option.some.injEq] at hv
    cases o
    · exact vec4_unit_zero v hv.symm
    · exact vec4_unit_lightOf _ v hv.symm

/-- C12: `pickLight` is zero outside the window and on a non-air block that is not
light-passing; on air and on light-passing blocks it is the four extracted
channels of the stored light divided by 15; every channel it returns lies in
`[0, 1]`. -/
theorem pickLight_cases (sc : Scene) (x y z : Int) :
    (idAt sc x y z = sc.BLOCK_VOID → pickLight sc x y z = some (vec4.splat 0))
      ∧ (∀ b, idAt sc x y z ≠ sc.BLOCK_VOID → sc.blockDefsCache (idAt sc x y z) = some b →
          idAt sc x y z ≠ 0 → b.lightPassing = false →
          pickLight sc x y z = some (vec4.splat 0))
      ∧ (∀ b, idAt sc x y z ≠ sc.BLOCK_VOID → sc.blockDefsCache (idAt sc x y z) = some b →
          (idAt sc x y z = 0 ∨ b.lightPassing = true) →
          pickLight sc x y z = some (lightOf
            (sc.pickLight (sc.chunk.x * sc.CHUNK_W + x) y (sc.chunk.z * sc.CHUNK_D + z))))
      ∧ (∀ l, lightOf l = ⟨(Lightmap.extract l 0 : ℚ) / 15, (Lightmap.extract l 1 : ℚ) / 15,
          (Lightmap.extract l 2 : ℚ) / 15, (Lightmap.extract l 3 : ℚ) / 15⟩)
      ∧ (∀ v, pickLight sc x y z = some v →
          (0 ≤ v.r ∧ v.r ≤ 1) ∧ (0 ≤ v.g ∧ v.g ≤ 1) ∧ (0 ≤ v.b ∧ v.b ≤ 1)
            ∧ (0 ≤ v.a ∧ v.a ≤ 1)) := by
  refine ⟨?_, ?_, ?_, fun _ => rfl, pickLight_unit sc x y z⟩
  · intro hout
    unfold idAt at hout
    simp [pickLight, isOpenForLight, hout]
  · intro b hin hdef h0 hl
    rw [pickLight_eq, isOpenForLight_eq sc x y z b hin hdef]
    simp [hl, h0]
  · intro b hin hdef hor
    rw [pickLight_eq, isOpenForLight_eq sc x y z b hin hdef]
    rcases hor with h0 | hl
    · simp [h0]
    · simp [hl]

/-- C7: for a rotatable block the six slots of `texfaces` show a fixed permutation of
the six supplied regions: state `BLOCK_DIR_X` swaps 0 with 2 and 1 with 3, state
`BLOCK_DIR_Z` swaps 2 with 4 and 3 with 5, every other state (`BLOCK_DIR_Y` among
them) leaves them in place; each assignment is its own inverse and a bijection; a
block that is not rotatable keeps the supplied order in every state. -/
theorem shadedTexfaces_permutation (sc : Scene) (block : Block) (states : Nat)
    (texfaces_ : Fin 6 → UVRegion)
    (hxy : sc.BLOCK_DIR_X ≠ sc.BLOCK_DIR_Y) (hxz : sc.BLOCK_DIR_X ≠ sc.BLOCK_DIR_Z)
    (hyz : sc.BLOCK_DIR_Y ≠ sc.BLOCK_DIR_Z) :
    (block.rotatable = true → states = sc.BLOCK_DIR_X →
        shadedTexfaces sc block states texfaces_ = texfaces_ ∘ rotX)
      ∧ (block.rotatable = true → states = sc.BLOCK_DIR_Z →
        shadedTexfaces sc block states texfaces_ = texfaces_ ∘ rotZ)
      ∧ (block.rotatable = true → states = sc.BLOCK_DIR_Y →
        shadedTexfaces sc block states texfaces_ = texfaces_)
      ∧ (block.rotatable = true → states ≠ sc.BLOCK_DIR_X → states ≠ sc.BLOCK_DIR_Z →
        shadedTexfaces sc block states texfaces_ = texfaces_)
      ∧ (block.rotatable = false → shadedTexfaces sc block states texfaces_ = texfaces_)
      ∧ (rotX 0 = 2 ∧ rotX 2 = 0 ∧ rotX 1 = 3 ∧ rotX 3 = 1 ∧ rotX 4 = 4 ∧ rotX 5 = 5)
      ∧ (rotZ 2 = 4 ∧ rotZ 4 = 2 ∧ rotZ 3 = 5 ∧ rotZ 5 = 3 ∧ rotZ 0 = 0 ∧ rotZ 1 = 1)
      ∧ Function.Involutive rotX ∧ Function.Involutive rotZ
      ∧ Function.Bijective rotX ∧ Function.Bijective rotZ := by
  have ix : Function.Involutive rotX := by
    intro i
    fin_cases i <;> rfl
  have iz : Function.Involutive rotZ := by
    intro i
    fin_cases i <;> rfl
  refine ⟨?_, ?_, ?_, ?_, ?_, by decide, by decide, ix, iz, ix.bijective, iz.bijective⟩
  · intro hr hs
    funext i
    simp only [shadedTexfaces, hr, hs, if_true, Function.comp]
    fin_cases i <;> (simp [Function.update, rotX]; try rfl)
  · intro hr hs
    funext i
    have h1 : ¬ sc.BLOCK_DIR_Z = sc.BLOCK_DIR_X := fun h => hxz h.symm
    have h2 : ¬ sc.BLOCK_DIR_Z = sc.BLOCK_DIR_Y := fun h => hyz h.symm
    simp only [shadedTexfaces, hr, hs, if_true, h1, h2, if_false, Function.comp]
    fin_cases i <;> (simp [Function.update, rotZ]; try rfl)
  · intro hr hs
    have h1 : ¬ sc.BLOCK_DIR_Y = sc.BLOCK_DIR_X := fun h => hxy h.symm
    simp only [shadedTexfaces, hr, hs, if_true, h1, if_false]
  · intro hr h1 h2
    simp only [shadedTexfaces, hr, if_true, h1, h2, if_false]
    split <;> rfl
  · intro hr
    simp [shadedTexfaces, hr]

/-- Witness of C7: the three orientation constants 1, 2, 3 of the example scene. -/
theorem shadedTexfaces_permutation_witness :
    (exampleScene 0 0 []).BLOCK_DIR_X ≠ (exampleScene 0 0 []).BLOCK_DIR_Y
      ∧ (exampleScene 0 0 []).BLOCK_DIR_X ≠ (exampleScene 0 0 []).BLOCK_DIR_Z
      ∧ (exampleScene 0 0 []).BLOCK_DIR_Y ≠ (exampleScene 0 0 []).BLOCK_DIR_Z
      ∧ (({ stoneBlock with rotatable := true } : Block).rotatable = true →
          3 = (exampleScene 0 0 []).BLOCK_DIR_Z →
          shadedTexfaces (exampleScene 0 0 []) { stoneBlock with rotatable := true } 3
            (fun k => ⟨k.val, 0, k.val + 1, 1⟩)
            = (fun k : Fin 6 => (⟨k.val, 0, k.val + 1, 1⟩ : UVRegion)) ∘ rotZ) :=
  ⟨by decide, by decide, by decide,
    (shadedTexfaces_permutation (exampleScene 0 0 []) { stoneBlock with rotatable := true } 3
      (fun k => ⟨k.val, 0, k.val + 1, 1⟩) (by decide) (by decide) (by decide)).2.1⟩

theorem pack_bytes (r g b a : Nat) (hg : g < 256) (hb : b < 256) (ha : a < 256) :
    (r <<< 24) ||| (g <<< 16) ||| (b <<< 8) ||| a = r * 2^24 + g * 2^16 + b * 2^8 + a := by
  simp only [Nat.shiftLeft_eq]
  have e1 : r * 2^24 ||| g * 2^16 = r * 2^24 + g * 2^16 := by
    have := Nat.mul_add_lt_is_or (i := 24) (b := g * 2^16) (by omega) r
    rw [Nat.mul_comm (2^24) r] at this
    exact this.symm
  have e2 : (r * 2^24 + g * 2^16) ||| b * 2^8 = r * 2^24 + g * 2^16 + b * 2^8 := by
    have := Nat.mul_add_lt_is_or (i := 16) (b := b * 2^8) (by omega) (r * 2^8 + g)
    have h : 2^16 * (r * 2^8 + g) = r * 2^24 + g * 2^16 := by ring
    rw [h] at this
    exact this.symm
  have e3 : (r * 2^24 + g * 2^16 + b * 2^8) ||| a = r * 2^24 + g * 2^16 + b * 2^8 + a := by
    have := Nat.mul_add_lt_is_or (i := 8) (b := a) (by omega) (r * 2^16 + g * 2^8 + b)
    have h : 2^8 * (r * 2^16 + g * 2^8 + b) = r * 2^24 + g * 2^16 + b * 2^8 := by ring
    rw [h] at this
    exact this.symm
  rw [e1, e2, e3]

theorem and_ff (n : Nat) : n &&& 0xff = n % 256 :=
  Nat.and_pow_two_sub_one_eq_mod n 8

theorem compress_eq (light : vec4) :
    compress light = channelByte light.r * 2 ^ 24 + channelByte light.g * 2 ^ 16
      + channelByte light.b * 2 ^ 8 + channelByte light.a := by
  unfold compress channelByte
  rw [and_ff, and_ff, and_ff, and_ff]
  exact pack_bytes _ _ _ _ (Nat.mod_lt _ (by norm_num)) (Nat.mod_lt _ (by norm_num))
    (Nat.mod_lt _ (by norm_num))

theorem renderChunk_unfold (sc : Scene) (r : BlocksRenderer) :
    renderChunk sc r = (render sc (reset r)).bind fun r1 => some (meshOf r1, r1) := rfl

theorem renderChunk_vertexCount (sc : Scene) (r : BlocksRenderer) (m : Mesh)
    (r2 : BlocksRenderer) (h : renderChunk sc r = some (m, r2)) :
    m.vertexCount = r2.vertexOffset / 6 ∧ m.indexCount = r2.indexSize := by
  rw [renderChunk_unfold] at h
  cases hr : render sc (reset r) with
  | none => rw [hr] at h; cases h
  | some r3 =>
    rw [hr] at h
    simp only [Option.some_bind, Option.some.injEq, Prod.mk.injEq] at h
    obtain ⟨h1, h2⟩ := h
    subst h1 h2
    exact ⟨rfl, rfl⟩

/-- C14: `vertex` stores exactly six floats, in the order x, y, z, u, v, packed light,
and leaves the rest of the buffer as it was; the packed light holds the byte of
R in bits 24-31, of G in bits 16-23, of B in bits 8-15 and of Sun in bits 0-7, each
byte being `uint32_t(channel * 255) mod 256` and a function of its own channel only;
the mesh handed out has `vertexCount = vertexOffset / 6`. -/
theorem vertex_layout (r : BlocksRenderer) (coord : vec3) (u v : ℚ) (light : vec4)
    (h : r.vertexOffset + 6 ≤ r.vertexBuffer.length) :
    (∃ r1, vertex r coord u v light = some r1
        ∧ r1.vertexOffset = r.vertexOffset + 6
        ∧ r1.vertexBuffer = r.vertexBuffer.take r.vertexOffset
            ++ [.flt coord.x, .flt coord.y, .flt coord.z, .flt u, .flt v,
                .bits (compress light)]
            ++ r.vertexBuffer.drop (r.vertexOffset + 6)
        ∧ r1.indexBuffer = r.indexBuffer ∧ r1.indexSize = r.indexSize
        ∧ r1.indexOffset = r.indexOffset ∧ r1.overflow = r.overflow)
      ∧ compress light = channelByte light.r * 2 ^ 24 + channelByte light.g * 2 ^ 16
          + channelByte light.b * 2 ^ 8 + channelByte light.a
      ∧ compress light / 2 ^ 24 % 256 = toUint32 (light.r * 255) % 256
      ∧ compress light / 2 ^ 16 % 256 = toUint32 (light.g * 255) % 256
      ∧ compress light / 2 ^ 8 % 256 = toUint32 (light.b * 255) % 256
      ∧ compress light % 256 = toUint32 (light.a * 255) % 256
      ∧ (∀ sc m r2, renderChunk sc r = some (m, r2) → m.vertexCount = r2.vertexOffset / 6) := by
  have hc := compress_eq light
  have hr : channelByte light.r < 256 := Nat.mod_lt _ (by norm_num)
  have hg : channelByte light.g < 256 := Nat.mod_lt _ (by norm_num)
  have hb : channelByte light.b < 256 := Nat.mod_lt _ (by norm_num)
  have ha : channelByte light.a < 256 := Nat.mod_lt _ (by norm_num)
  refine ⟨⟨_, vertex_eq r coord u v light h, rfl, rfl, rfl, rfl, rfl, rfl⟩, hc, ?_, ?_, ?_, ?_,
    fun sc m r2 hh => (renderChunk_vertexCount sc r m r2 hh).1⟩
  · rw [hc]; unfold channelByte at *; omega
  · rw [hc]; unfold channelByte at *; omega
  · rw [hc]; unfold channelByte at *; omega
  · rw [hc]; unfold channelByte at *; omega

/-- Witness of C14: one vertex stored into a fresh buffer of six floats. -/
theorem vertex_layout_witness :
    (freshRenderer 6).vertexOffset + 6 ≤ (freshRenderer 6).vertexBuffer.length
      ∧ ∃ r1, vertex (freshRenderer 6) ⟨1, 2, 3⟩ 0 1 (vec4.splat 1) = some r1
        ∧ r1.vertexOffset = (freshRenderer 6).vertexOffset + 6
        ∧ r1.vertexBuffer = (freshRenderer 6).vertexBuffer.take (freshRenderer 6).vertexOffset
            ++ [.flt 1, .flt 2, .flt 3, .flt 0, .flt 1, .bits (compress (vec4.splat 1))]
            ++ (freshRenderer 6).vertexBuffer.drop ((freshRenderer 6).vertexOffset + 6)
        ∧ r1.indexBuffer = (freshRenderer 6).indexBuffer
        ∧ r1.indexSize = (freshRenderer 6).indexSize
        ∧ r1.indexOffset = (freshRenderer 6).indexOffset
        ∧ r1.overflow = (freshRenderer 6).overflow :=
  ⟨by decide, (vertex_layout (freshRenderer 6) ⟨1, 2, 3⟩ 0 1 (vec4.splat 1) (by decide)).1⟩

theorem litQuad_pattern (sc : Scene) (coord axisX axisY axisZ : ivec3) (region : UVRegion)
    (tint : vec4) (rotated : Bool) :
    (litQuad sc coord axisX axisY axisZ region tint rotated).pattern = [0, 1, 2, 0, 2, 3] := by
  cases rotated <;> rfl

theorem isOpen_value (sc : Scene) (x y z : Int) (group : Nat) (b : Block)
    (hin : idAt sc x y z ≠ sc.BLOCK_VOID)
    (hdef : sc.blockDefsCache (idAt sc x y z) = some b) :
    isOpen sc x y z group
      = some (decide (idAt sc x y z = 0) || (b.lightPassing && decide (b.drawGroup ≠ group))
          || !b.solid) := by
  unfold isOpen
  have e : sc.pickBlockId (sc.chunk.x * sc.CHUNK_W + x) y (sc.chunk.z * sc.CHUNK_D + z)
      = idAt sc x y z := rfl
  simp only [e, hin, if_false, hdef, Option.bind_eq_bind, Option.some_bind]
  cases hl : b.lightPassing <;> cases hs : b.solid <;>
    by_cases hg : b.drawGroup = group <;>
    by_cases h0 : idAt sc x y z = 0 <;>
    simp [hg, h0]

theorem isOpen_air (sc : Scene) (hd : WindowDefined sc) (x y z : Int) (group : Nat)
    (h0 : idAt sc x y z = 0) (hv : sc.BLOCK_VOID ≠ 0) :
    isOpen sc x y z group = some true := by
  have hne : idAt sc x y z ≠ sc.BLOCK_VOID := by
    rw [h0]; exact fun h => hv h.symm
  obtain ⟨b, hb⟩ := Option.isSome_iff_exists.mp (hd _ _ _ hne)
  rw [isOpen_value sc x y z group b hne hb]
  simp [h0]

theorem renderVoxel_air (sc : Scene) (g : Nat) (r : BlocksRenderer) (i : Nat) (vox : voxel)
    (bdef : Block) (h1 : sc.chunk.voxels[i]? = some vox)
    (h2 : sc.blockDefsCache vox.id = some bdef) (h0 : vox.id = 0) :
    renderVoxel sc g r i = some (.next r) := by
  unfold renderVoxel
  simp only [h1, h2, Option.bind_eq_bind, Option.some_bind]
  rw [if_pos (Or.inl h0)]

/-- C13, as the code has it: the lookups of `render` succeed when every voxel of the
span and every id the window returns has a definition; then a voxel with id 0 emits
nothing and a neighbour with id 0 is open.  The code has no test for an id without
a definition. -/
theorem render_defined_when_ids_defined (sc : Scene) (hd : WindowDefined sc)
    (hc : ChunkDefined sc) (r : BlocksRenderer) (hs : Sized r) :
    (∃ m r1, renderChunk sc r = some (m, r1))
      ∧ (∀ g r0 i vox bdef, sc.chunk.voxels[i]? = some vox →
          sc.blockDefsCache vox.id = some bdef → vox.id = 0 →
          renderVoxel sc g r0 i = some (.next r0))
      ∧ (∀ x y z group, idAt sc x y z = 0 → sc.BLOCK_VOID ≠ 0 →
          isOpen sc x y z group = some true) :=
  ⟨⟨_, _, renderChunk_eq sc hd hc r hs⟩,
    fun g r0 i vox bdef h1 h2 h0 => renderVoxel_air sc g r0 i vox bdef h1 h2 h0,
    fun x y z group h0 hv => isOpen_air sc hd x y z group h0 hv⟩

theorem exampleScene_chunkDefined (fill light : Nat) (voxels : List voxel)
    (hl : voxels.length = 4) (hv : ∀ v ∈ voxels, v.id ≤ 4) :
    ChunkDefined (exampleScene fill light voxels) := by
  intro i hi
  simp only [renderIndices, exampleScene, List.mem_range'_1] at hi
  have hlt : i < voxels.length := by omega
  refine ⟨voxels[i], ?_⟩
  have hm : voxels[i] ∈ voxels := List.getElem_mem _
  have hle := hv _ hm
  have hdef : ∃ b, exampleDefs (voxels[i]).id = some b := by
    generalize (voxels[i]).id = n at hle
    interval_cases n <;> exact ⟨_, rfl⟩
  obtain ⟨b, hb⟩ := hdef
  exact ⟨b, by simp [exampleScene, hlt], hb⟩

theorem Sized_freshRenderer (capacity : Nat) : Sized (freshRenderer capacity) := by
  constructor <;> simp [freshRenderer]

/-- Witness of C13 as amended: a chunk of four air voxels in a window of air. -/
theorem render_defined_when_ids_defined_witness :
    ∃ m r1, renderChunk (exampleScene 0 0 [⟨0, 0⟩, ⟨0, 0⟩, ⟨0, 0⟩, ⟨0, 0⟩])
      (freshRenderer 24) = some (m, r1) :=
  (render_defined_when_ids_defined (exampleScene 0 0 [⟨0, 0⟩, ⟨0, 0⟩, ⟨0, 0⟩, ⟨0, 0⟩])
    (exampleScene_windowDefined 0 0 _ (Or.inr (by decide)))
    (exampleScene_chunkDefined 0 0 _ rfl (by decide)) (freshRenderer 24)
    (Sized_freshRenderer 24)).1

/-- Counterexample to C13 as stated: a voxel whose id 7 has no definition makes the
lookup of `render` fail, and a neighbour with that id makes the lookup of `isOpen`
fail. -/
theorem unknown_id_counterexample :
    exampleDefs 7 = none
      ∧ renderChunk (exampleScene 0 0 [⟨7, 0⟩, ⟨0, 0⟩, ⟨0, 0⟩, ⟨0, 0⟩]) (freshRenderer 24) = none
      ∧ isOpen (exampleScene 7 0 []) 0 0 1 0 = none := by
  refine ⟨rfl, ?_, rfl⟩
  rfl

theorem channelByte_one : channelByte (1 * 1) = 255 := by
  unfold channelByte toUint32
  norm_num
  rfl

theorem compress_full : compress (vec4.splat 1 * vec4.splat 1) = 0xFFFFFFFF := by
  rw [compress_eq]
  have hr : (vec4.splat 1 * vec4.splat 1).r = 1 * 1 := rfl
  have hg : (vec4.splat 1 * vec4.splat 1).g = 1 * 1 := rfl
  have hb : (vec4.splat 1 * vec4.splat 1).b = 1 * 1 := rfl
  have ha : (vec4.splat 1 * vec4.splat 1).a = 1 * 1 := rfl
  rw [hr, hg, hb, ha, channelByte_one]
  norm_num

theorem mem_shadedOrder (d : Dir) : d ∈ shadedOrder := by
  cases d <;> simp [shadedOrder]

theorem mem_cubeOrder (d : Dir) : d ∈ cubeOrder := by
  cases d <;> simp [cubeOrder]

theorem shadedOrder_nodup : shadedOrder.Nodup := by decide

theorem cubeOrder_nodup : cubeOrder.Nodup := by decide

theorem openSide_iff (sc : Scene) (hd : WindowDefined sc) (x y z : Int) (group : Nat)
    (d : Dir) :
    openSide sc x y z group d = true
      ↔ isOpen sc (x + d.offset.x) (y + d.offset.y) (z + d.offset.z) group = some true := by
  unfold openSide
  rw [isOpen_eq sc hd]
  simp

theorem openSide_closed (sc : Scene) (x y z : Int) (group : Nat) (d : Dir) (b : Block)
    (hin : idAt sc (x + d.offset.x) (y + d.offset.y) (z + d.offset.z) ≠ sc.BLOCK_VOID)
    (hdef : sc.blockDefsCache (idAt sc (x + d.offset.x) (y + d.offset.y) (z + d.offset.z))
      = some b)
    (h0 : idAt sc (x + d.offset.x) (y + d.offset.y) (z + d.offset.z) ≠ 0)
    (hs : b.solid = true) (hl : b.lightPassing = false) :
    openSide sc x y z group d = false := by
  unfold openSide isOpenD
  rw [isOpen_value sc _ _ _ group b hin hdef]
  simp [h0, hs, hl]

theorem openSide_air (sc : Scene) (hd : WindowDefined sc) (x y z : Int) (group : Nat)
    (d : Dir) (h0 : idAt sc (x + d.offset.x) (y + d.offset.y) (z + d.offset.z) = 0)
    (hv : sc.BLOCK_VOID ≠ 0) : openSide sc x y z group d = true := by
  unfold openSide isOpenD
  rw [isOpen_air sc hd _ _ _ group h0 hv]
  rfl

/-- C1: with room in the buffer, the shaded unit cube emits one face for each of
its six neighbours for which `isOpen` holds and none for the others, in the order of
the tests; a solid neighbour that is not light-passing gets no face on the shared
side, and an air neighbour gets exactly one. -/
theorem blockCubeShaded_faces_open_sides (sc : Scene) (hd : WindowDefined sc)
    (r : BlocksRenderer) (hw : WF r) (x y z : Int) (texfaces_ : Fin 6 → UVRegion)
    (block : Block) (states : Nat)
    (hroom : r.vertexOffset
        + 24 * (shadedOrder.filter (openSide sc x y z block.drawGroup)).length
      ≤ r.capacity) :
    ∃ r1, blockCubeShaded sc r x y z texfaces_ block states = some r1
      ∧ faceCount r1
        = faceCount r + (shadedOrder.filter (openSide sc x y z block.drawGroup)).length
      ∧ written r1 = written r ++ quadsCells
          ((shadedOrder.filter (openSide sc x y z block.drawGroup)).map
            (shadedQuad sc x y z texfaces_ block states))
      ∧ r1.overflow = r.overflow
      ∧ (∀ d, d ∈ shadedOrder)
      ∧ (∀ d, d ∈ shadedOrder.filter (openSide sc x y z block.drawGroup)
          ↔ isOpen sc (x + d.offset.x) (y + d.offset.y) (z + d.offset.z) block.drawGroup
              = some true)
      ∧ (∀ d b, idAt sc (x + d.offset.x) (y + d.offset.y) (z + d.offset.z) ≠ sc.BLOCK_VOID →
          sc.blockDefsCache (idAt sc (x + d.offset.x) (y + d.offset.y) (z + d.offset.z))
            = some b →
          idAt sc (x + d.offset.x) (y + d.offset.y) (z + d.offset.z) ≠ 0 →
          b.solid = true → b.lightPassing = false →
          (shadedOrder.filter (openSide sc x y z block.drawGroup)).count d = 0)
      ∧ (∀ d, idAt sc (x + d.offset.x) (y + d.offset.y) (z + d.offset.z) = 0 →
          sc.BLOCK_VOID ≠ 0 →
          (shadedOrder.filter (openSide sc x y z block.drawGroup)).count d = 1) := by
  have heq := blockCubeShaded_eq sc hd r x y z texfaces_ block states hw
  have hlen : (shadedQuads sc x y z texfaces_ block states).length
      = (shadedOrder.filter (openSide sc x y z block.drawGroup)).length := by
    simp [shadedQuads]
  obtain ⟨i1, _, i3, i4, _⟩ := emitAll_room (shadedQuads sc x y z texfaces_ block states) r hw
    (by rw [hlen]; exact hroom)
  refine ⟨_, heq, ?_, i1, i4, mem_shadedOrder, ?_, ?_, ?_⟩
  · rw [i3, hlen]
  · intro d
    rw [List.mem_filter, ← openSide_iff sc hd]
    exact ⟨fun h => h.2, fun h => ⟨mem_shadedOrder d, h⟩⟩
  · intro d b hin hdef h0 hs hl
    apply List.count_eq_zero_of_not_mem
    intro hmem
    have := (List.mem_filter.mp hmem).2
    rw [openSide_closed sc x y z _ d b hin hdef h0 hs hl] at this
    exact absurd this (by decide)
  · intro d h0 hv
    apply List.count_eq_one_of_mem (shadedOrder_nodup.filter _)
    exact List.mem_filter.mpr ⟨mem_shadedOrder d, openSide_air sc hd x y z _ d h0 hv⟩

/-- Witness of C1: a stone cube in a window of air, with room for six faces. -/
theorem blockCubeShaded_faces_open_sides_witness :
    ∃ r1, blockCubeShaded (exampleScene 0 0 []) (freshRenderer 144) 0 1 0
        (fun _ => ⟨0, 0, 1, 1⟩) stoneBlock 0 = some r1
      ∧ faceCount r1 = faceCount (freshRenderer 144)
          + (shadedOrder.filter (openSide (exampleScene 0 0 []) 0 1 0 stoneBlock.drawGroup)).length :=
  have h := blockCubeShaded_faces_open_sides (exampleScene 0 0 [])
    (exampleScene_windowDefined 0 0 [] (Or.inr (by decide))) (freshRenderer 144)
    (WF_freshRenderer 144) 0 1 0 (fun _ => ⟨0, 0, 1, 1⟩) stoneBlock 0
    (Nat.le_trans (Nat.add_le_add_left (Nat.mul_le_mul_left 24 (List.length_filter_le _ _)) _)
      (by decide))
  ⟨h.choose, h.choose_spec.1, h.choose_spec.2.1⟩

theorem cubeQuad_uvs (x y z : Int) (size : vec3) (texfaces : Fin 6 → UVRegion) (d : Dir) :
    (cubeQuad x y z size texfaces d).uvs = (texfaces (sideRegion d)).corners := by
  cases d <;> rfl

theorem cubeQuad_light (x y z : Int) (size : vec3) (texfaces : Fin 6 → UVRegion) (d : Dir)
    (p : Vtx) (hp : p ∈ (cubeQuad x y z size texfaces d).vertices) :
    compress p.light = 0xFFFFFFFF := by
  have : p.light = vec4.splat 1 * vec4.splat 1 := by
    cases d <;>
      simp only [cubeQuad, faceQuad, Quad.vertices, List.mem_cons, List.mem_singleton,
        List.not_mem_nil, or_false] at hp <;>
      rcases hp with h | h | h | h <;> subst h <;> rfl
  rw [this, compress_full]

theorem shadedQuad_uvs (sc : Scene) (x y z : Int) (texfaces_ : Fin 6 → UVRegion)
    (block : Block) (states : Nat) (hrot : block.rotatable = false) (d : Dir) :
    (shadedQuad sc x y z texfaces_ block states d).uvs = (texfaces_ (sideRegion d)).corners := by
  have h1 : shadedRot sc block states = 0 := by simp [shadedRot, hrot]
  have h2 : shadedTexfaces sc block states texfaces_ = texfaces_ := by
    simp [shadedTexfaces, hrot]
  cases d <;> simp only [shadedQuad, h1, h2] <;> rfl

/-- C10: with room in the buffer, `blockCube` emits one face for each side whose
neighbour is open under `isOpen` and none for the others; each side shows the same
supplied UV region as in the shaded cube of an unrotated block; every vertex
carries the packed light `0xFFFFFFFF`, whatever the window holds. -/
theorem blockCube_open_sides_full_bright (sc : Scene) (hd : WindowDefined sc)
    (r : BlocksRenderer) (hw : WF r) (x y z : Int) (size : vec3)
    (texfaces : Fin 6 → UVRegion) (group : Nat)
    (hroom : r.vertexOffset + 24 * (cubeOrder.filter (openSide sc x y z group)).length
      ≤ r.capacity) :
    ∃ r1, blockCube sc r x y z size texfaces group = some r1
      ∧ faceCount r1 = faceCount r + (cubeOrder.filter (openSide sc x y z group)).length
      ∧ written r1 = written r ++ quadsCells
          ((cubeOrder.filter (openSide sc x y z group)).map (cubeQuad x y z size texfaces))
      ∧ r1.overflow = r.overflow
      ∧ (∀ d, (cubeOrder.filter (openSide sc x y z group)).count d
          = if isOpen sc (x + d.offset.x) (y + d.offset.y) (z + d.offset.z) group = some true
            then 1 else 0)
      ∧ (∀ d, (cubeQuad x y z size texfaces d).uvs = (texfaces (sideRegion d)).corners)
      ∧ (∀ block states, block.rotatable = false → ∀ d,
          (shadedQuad sc x y z texfaces block states d).uvs
            = (texfaces (sideRegion d)).corners)
      ∧ (∀ d, ∀ p ∈ (cubeQuad x y z size texfaces d).vertices,
          compress p.light = 0xFFFFFFFF) := by
  have heq := blockCube_eq sc hd r x y z size texfaces group hw
  have hlen : (cubeQuads sc x y z size texfaces group).length
      = (cubeOrder.filter (openSide sc x y z group)).length := by
    simp [cubeQuads]
  obtain ⟨i1, _, i3, i4, _⟩ := emitAll_room (cubeQuads sc x y z size texfaces group) r hw
    (by rw [hlen]; exact hroom)
  refine ⟨_, heq, ?_, i1, i4, ?_, cubeQuad_uvs x y z size texfaces,
    fun block states hrot => shadedQuad_uvs sc x y z texfaces block states hrot,
    cubeQuad_light x y z size texfaces⟩
  · rw [i3, hlen]
  · intro d
    by_cases ho : isOpen sc (x + d.offset.x) (y + d.offset.y) (z + d.offset.z) group = some true
    · rw [if_pos ho]
      apply List.count_eq_one_of_mem (cubeOrder_nodup.filter _)
      exact List.mem_filter.mpr ⟨mem_cubeOrder d, (openSide_iff sc hd x y z group d).mpr ho⟩
    · rw [if_neg ho]
      apply List.count_eq_zero_of_not_mem
      intro hmem
      exact ho ((openSide_iff sc hd x y z group d).mp (List.mem_filter.mp hmem).2)

/-- Witness of C10: an emissive cube in a window of air, with room for six faces. -/
theorem blockCube_open_sides_full_bright_witness :
    ∃ r1, blockCube (exampleScene 0 0 []) (freshRenderer 144) 0 1 0 ⟨1, 1, 1⟩
        (fun _ => ⟨0, 0, 1, 1⟩) 0 = some r1
      ∧ faceCount r1 = faceCount (freshRenderer 144)
          + (cubeOrder.filter (openSide (exampleScene 0 0 []) 0 1 0 0)).length :=
  have h := blockCube_open_sides_full_bright (exampleScene 0 0 [])
    (exampleScene_windowDefined 0 0 [] (Or.inr (by decide))) (freshRenderer 144)
    (WF_freshRenderer 144) 0 1 0 ⟨1, 1, 1⟩ (fun _ => ⟨0, 0, 1, 1⟩) 0
    (Nat.le_trans (Nat.add_le_add_left (Nat.mul_le_mul_left 24 (List.length_filter_le _ _)) _)
      (by decide))
  ⟨h.choose, h.choose_spec.1, h.choose_spec.2.1⟩

theorem blockXSprite_counts (sc1 sc2 : Scene) (hd1 : WindowDefined sc1)
    (hd2 : WindowDefined sc2) (r : BlocksRenderer) (hw : WF r) (x y z : Int) (size : vec3)
    (texface1 texface2 : UVRegion) (spread : ℚ)
    (hroom : r.vertexOffset + 24 * 4 ≤ r.capacity) :
    ∃ r1 r2, blockXSprite sc1 r x y z size texface1 texface2 spread = some r1
      ∧ blockXSprite sc2 r x y z size texface1 texface2 spread = some r2
      ∧ faceCount r1 = faceCount r + 4 ∧ faceCount r2 = faceCount r + 4
      ∧ r1.overflow = r.overflow ∧ r2.overflow = r.overflow
      ∧ r1.vertexOffset = r.vertexOffset + 96 ∧ r2.vertexOffset = r.vertexOffset + 96 := by
  have h1 := blockXSprite_eq sc1 hd1 r x y z size texface1 texface2 spread hw
  have h2 := blockXSprite_eq sc2 hd2 r x y z size texface1 texface2 spread hw
  have l1 : (xspriteQuads sc1 x y z size texface1 texface2 spread).length = 4 := rfl
  have l2 : (xspriteQuads sc2 x y z size texface1 texface2 spread).length = 4 := rfl
  obtain ⟨_, _, a3, a4, _⟩ := emitAll_room _ r hw (by rw [l1]; exact hroom)
  obtain ⟨_, _, b3, b4, _⟩ := emitAll_room _ r hw (by rw [l2]; exact hroom)
  have w1 := (WF_emitAll r (xspriteQuads sc1 x y z size texface1 texface2 spread) hw).voff
  have w2 := (WF_emitAll r (xspriteQuads sc2 x y z size texface1 texface2 spread) hw).voff
  have w0 := hw.voff
  rw [l1] at a3
  rw [l2] at b3
  refine ⟨_, _, h1, h2, a3, b3, a4, b4, ?_, ?_⟩
  · rw [w1, a3, w0]; omega
  · rw [w2, b3, w0]; omega

/-- C9, as the code has it: given room for six faces, the bounding-box path emits all
six faces of the box whatever the neighbours are; `isOpen` is not consulted on this
path. -/
theorem blockCubeShadedAABB_six_faces (sc1 sc2 : Scene) (hd1 : WindowDefined sc1)
    (hd2 : WindowDefined sc2) (r : BlocksRenderer) (hw : WF r) (pos size : vec3)
    (texfaces : Fin 6 → UVRegion) (block : Block) (states : Nat)
    (hroom : r.vertexOffset + 24 * 6 ≤ r.capacity) :
    ∃ r1 r2, blockCubeShadedAABB sc1 r pos size texfaces block states = some r1
      ∧ blockCubeShadedAABB sc2 r pos size texfaces block states = some r2
      ∧ faceCount r1 = faceCount r + 6 ∧ faceCount r2 = faceCount r + 6
      ∧ r1.overflow = r.overflow ∧ r2.overflow = r.overflow := by
  have h1 := blockCubeShadedAABB_eq sc1 hd1 r pos size texfaces block states hw
  have h2 := blockCubeShadedAABB_eq sc2 hd2 r pos size texfaces block states hw
  have l1 : (aabbQuads sc1 pos size texfaces).length = 6 := rfl
  have l2 : (aabbQuads sc2 pos size texfaces).length = 6 := rfl
  obtain ⟨_, _, a3, a4, _⟩ := emitAll_room _ r hw (by rw [l1]; exact hroom)
  obtain ⟨_, _, b3, b4, _⟩ := emitAll_room _ r hw (by rw [l2]; exact hroom)
  rw [l1] at a3
  rw [l2] at b3
  exact ⟨_, _, h1, h2, a3, b3, a4, b4⟩

/-- Witness of C9 as amended: a slab among air and the same slab among stone. -/
theorem blockCubeShadedAABB_six_faces_witness :
    ∃ r1 r2, blockCubeShadedAABB (exampleScene 0 0 []) (freshRenderer 144) ⟨0, 1, -1⟩
          ⟨1, 1 / 2, 1⟩ (fun _ => ⟨0, 0, 1, 1⟩) slabBlock 0 = some r1
      ∧ blockCubeShadedAABB (exampleScene 1 0 []) (freshRenderer 144) ⟨0, 1, -1⟩
          ⟨1, 1 / 2, 1⟩ (fun _ => ⟨0, 0, 1, 1⟩) slabBlock 0 = some r2
      ∧ faceCount r1 = faceCount (freshRenderer 144) + 6
      ∧ faceCount r2 = faceCount (freshRenderer 144) + 6 :=
  have h := blockCubeShadedAABB_six_faces (exampleScene 0 0 []) (exampleScene 1 0 [])
    (exampleScene_windowDefined 0 0 [] (Or.inr (by decide)))
    (exampleScene_windowDefined 1 0 [] (Or.inr (by decide))) (freshRenderer 144)
    (WF_freshRenderer 144) ⟨0, 1, -1⟩ ⟨1, 1 / 2, 1⟩ (fun _ => ⟨0, 0, 1, 1⟩) slabBlock 0
    (by decide)
  ⟨h.choose, h.choose_spec.choose, h.choose_spec.choose_spec.1,
    h.choose_spec.choose_spec.2.1, h.choose_spec.choose_spec.2.2.1,
    h.choose_spec.choose_spec.2.2.2.1⟩

theorem faceCount_freshRenderer (capacity : Nat) : faceCount (freshRenderer capacity) = 0 := by
  simp [faceCount, freshRenderer]

theorem voxelQuads_aabb_length (sc : Scene) (g i : Nat) (vox : voxel) (bdef : Block)
    (h1 : sc.chunk.voxels[i]? = some vox) (h2 : sc.blockDefsCache vox.id = some bdef)
    (h0 : vox.id ≠ 0) (hg : bdef.drawGroup = g) (hm : bdef.model = .aabb) :
    (voxelQuads sc g i).length = 6 := by
  unfold voxelQuads
  simp only [h1, h2]
  rw [if_neg (by simp [h0, hg])]
  simp only [hm]
  rfl

theorem voxelQuads_xsprite_length (sc : Scene) (g i : Nat) (vox : voxel) (bdef : Block)
    (h1 : sc.chunk.voxels[i]? = some vox) (h2 : sc.blockDefsCache vox.id = some bdef)
    (h0 : vox.id ≠ 0) (hg : bdef.drawGroup = g) (hm : bdef.model = .xsprite) :
    (voxelQuads sc g i).length = 4 := by
  unfold voxelQuads
  simp only [h1, h2]
  rw [if_neg (by simp [h0, hg])]
  simp only [hm]
  rfl

theorem renderVoxel_room (sc : Scene) (hd : WindowDefined sc) (g : Nat) (r : BlocksRenderer)
    (i : Nat) (hv : VoxelDefined sc i) (hw : WF r) (ho : r.overflow = false)
    (hroom : r.vertexOffset + 24 * (voxelQuads sc g i).length ≤ r.capacity) :
    ∃ r1, renderVoxel sc g r i = some (.next r1)
      ∧ faceCount r1 = faceCount r + (voxelQuads sc g i).length
      ∧ written r1 = written r ++ quadsCells (voxelQuads sc g i)
      ∧ r1.overflow = false := by
  obtain ⟨a1, _, a3, a4, _⟩ := emitAll_room (voxelQuads sc g i) r hw hroom
  rw [ho] at a4
  refine ⟨_, ?_, a3, a1, a4⟩
  rw [renderVoxel_eq sc hd g r i hv hw]
  unfold flowOf
  rw [a4]
  simp

/-- Counterexample to C9 as stated: a slab (model `aabb`) whose six neighbours are all
stone, solid and not light-passing and of its own draw group, so that `isOpen` is
false on every side, still emits six faces. -/
theorem aabb_culling_counterexample :
    (∀ d : Dir, isOpen (exampleScene 1 0 [⟨3, 0⟩, ⟨1, 0⟩, ⟨1, 0⟩, ⟨1, 0⟩])
        (0 + d.offset.x) (0 + d.offset.y) (0 + d.offset.z) slabBlock.drawGroup = some false)
      ∧ ∃ r1, renderVoxel (exampleScene 1 0 [⟨3, 0⟩, ⟨1, 0⟩, ⟨1, 0⟩, ⟨1, 0⟩]) 0
          (freshRenderer 144) 0 = some (.next r1) ∧ faceCount r1 = 6 := by
  constructor
  · intro d
    cases d <;> rfl
  · have hd := exampleScene_windowDefined 1 0 [⟨3, 0⟩, ⟨1, 0⟩, ⟨1, 0⟩, ⟨1, 0⟩]
      (Or.inr (by decide))
    have hv : VoxelDefined (exampleScene 1 0 [⟨3, 0⟩, ⟨1, 0⟩, ⟨1, 0⟩, ⟨1, 0⟩]) 0 :=
      ⟨⟨3, 0⟩, slabBlock, rfl, rfl⟩
    have hl := voxelQuads_aabb_length (exampleScene 1 0 [⟨3, 0⟩, ⟨1, 0⟩, ⟨1, 0⟩, ⟨1, 0⟩]) 0 0
      ⟨3, 0⟩ slabBlock rfl rfl (by decide) rfl rfl
    obtain ⟨r1, e1, e2, _⟩ := renderVoxel_room _ hd 0 (freshRenderer 144) 0 hv
      (WF_freshRenderer 144) rfl (by rw [hl]; decide)
    rw [hl, faceCount_freshRenderer] at e2
    exact ⟨r1, e1, e2⟩

/-- C6: given room for four faces, `render` emits exactly four faces for a voxel
whose model is `xsprite`, whatever the window holds: in two scenes that differ in
any way, all neighbours air or all neighbours solid, the voxel gives the same face
count, and `isOpen` plays no part. -/
theorem xsprite_four_faces (sc1 sc2 : Scene) (hd1 : WindowDefined sc1)
    (hd2 : WindowDefined sc2) (r : BlocksRenderer) (hw : WF r) (ho : r.overflow = false)
    (g i : Nat) (vox : voxel) (bdef : Block)
    (hv1 : sc1.chunk.voxels[i]? = some vox) (hv2 : sc2.chunk.voxels[i]? = some vox)
    (hb1 : sc1.blockDefsCache vox.id = some bdef) (hb2 : sc2.blockDefsCache vox.id = some bdef)
    (h0 : vox.id ≠ 0) (hg : bdef.drawGroup = g) (hm : bdef.model = .xsprite)
    (hroom : r.vertexOffset + 24 * 4 ≤ r.capacity) :
    ∃ r1 r2, renderVoxel sc1 g r i = some (.next r1)
      ∧ renderVoxel sc2 g r i = some (.next r2)
      ∧ faceCount r1 = faceCount r + 4 ∧ faceCount r2 = faceCount r + 4
      ∧ r1.overflow = false ∧ r2.overflow = false := by
  have l1 := voxelQuads_xsprite_length sc1 g i vox bdef hv1 hb1 h0 hg hm
  have l2 := voxelQuads_xsprite_length sc2 g i vox bdef hv2 hb2 h0 hg hm
  obtain ⟨r1, a1, a2, _, a4⟩ := renderVoxel_room sc1 hd1 g r i ⟨vox, bdef, hv1, hb1⟩ hw ho
    (by rw [l1]; exact hroom)
  obtain ⟨r2, b1, b2, _, b4⟩ := renderVoxel_room sc2 hd2 g r i ⟨vox, bdef, hv2, hb2⟩ hw ho
    (by rw [l2]; exact hroom)
  rw [l1] at a2
  rw [l2] at b2
  exact ⟨r1, r2, a1, b1, a2, b2, a4, b4⟩

/-- Witness of C6: a grass sprite among air and the same sprite among stone. -/
theorem xsprite_four_faces_witness :
    ∃ r1 r2, renderVoxel (exampleScene 0 0 [⟨4, 0⟩, ⟨0, 0⟩, ⟨0, 0⟩, ⟨0, 0⟩]) 0
          (freshRenderer 96) 0 = some (.next r1)
      ∧ renderVoxel (exampleScene 1 0 [⟨4, 0⟩, ⟨0, 0⟩, ⟨0, 0⟩, ⟨0, 0⟩]) 0
          (freshRenderer 96) 0 = some (.next r2)
      ∧ faceCount r1 = faceCount (freshRenderer 96) + 4
      ∧ faceCount r2 = faceCount (freshRenderer 96) + 4 :=
  have h := xsprite_four_faces (exampleScene 0 0 [⟨4, 0⟩, ⟨0, 0⟩, ⟨0, 0⟩, ⟨0, 0⟩])
    (exampleScene 1 0 [⟨4, 0⟩, ⟨0, 0⟩, ⟨0, 0⟩, ⟨0, 0⟩])
    (exampleScene_windowDefined 0 0 _ (Or.inr (by decide)))
    (exampleScene_windowDefined 1 0 _ (Or.inr (by decide))) (freshRenderer 96)
    (WF_freshRenderer 96) rfl 0 0 ⟨4, 0⟩ grassBlock rfl rfl rfl rfl (by decide) rfl rfl
    (by decide)
  ⟨h.choose, h.choose_spec.choose, h.choose_spec.choose_spec.1,
    h.choose_spec.choose_spec.2.1, h.choose_spec.choose_spec.2.2.1,
    h.choose_spec.choose_spec.2.2.2.1⟩

theorem eraseUV_cells_append (q : Quad) (rest : List Cell) :
    eraseUV (q.cells ++ rest) = eraseUV q.cells ++ eraseUV rest := by
  simp [Quad.cells, Vtx.cells, vertexCells, eraseUV]

theorem eraseUV_quadsCells (f g : Dir → Quad)
    (h : ∀ d, eraseUV (f d).cells = eraseUV (g d).cells) (ds : List Dir) :
    eraseUV (quadsCells (ds.map f)) = eraseUV (quadsCells (ds.map g)) := by
  induction ds with
  | nil => rfl
  | cons d ds ih =>
    have ef : quadsCells ((d :: ds).map f) = (f d).cells ++ quadsCells (ds.map f) := by
      simp [quadsCells]
    have eg : quadsCells ((d :: ds).map g) = (g d).cells ++ quadsCells (ds.map g) := by
      simp [quadsCells]
    rw [ef, eg, eraseUV_cells_append, eraseUV_cells_append, ih, h]

theorem quadsIndices_map (f g : Dir → Quad) (h : ∀ d, (f d).pattern = (g d).pattern)
    (ds : List Dir) (base : Nat) :
    quadsIndices base (ds.map f) = quadsIndices base (ds.map g) := by
  induction ds generalizing base with
  | nil => rfl
  | cons d ds ih =>
    simp only [List.map_cons, quadsIndices, Quad.indices, h, ih]

theorem litQuad_eraseUV (sc : Scene) (coord axisX axisY axisZ : ivec3)
    (region1 region2 : UVRegion) (tint : vec4) (rot1 rot2 : Bool) :
    eraseUV (litQuad sc coord axisX axisY axisZ region1 tint rot1).cells
      = eraseUV (litQuad sc coord axisX axisY axisZ region2 tint rot2).cells := by
  cases rot1 <;> cases rot2 <;> rfl

theorem shadedQuad_eraseUV (sc : Scene) (x y z : Int) (tf1 tf2 : Fin 6 → UVRegion)
    (block1 block2 : Block) (states1 states2 : Nat) (d : Dir) :
    eraseUV (shadedQuad sc x y z tf1 block1 states1 d).cells
      = eraseUV (shadedQuad sc x y z tf2 block2 states2 d).cells := by
  cases d <;> exact litQuad_eraseUV _ _ _ _ _ _ _ _ _ _

theorem shadedQuad_pattern (sc : Scene) (x y z : Int) (tf : Fin 6 → UVRegion)
    (block : Block) (states : Nat) (d : Dir) :
    (shadedQuad sc x y z tf block states d).pattern = [0, 1, 2, 0, 2, 3] := by
  cases d <;> exact litQuad_pattern _ _ _ _ _ _ _ _

/-- C8: for a fixed position, window and renderer, the state byte and the rotatable
flag change no face count, no order, no vertex position, no packed light and no
index of what `blockCubeShaded(int, int, int, ...)` emits; the two runs write the
same floats except for the `u` and `v` of the vertices. -/
theorem rotation_leaves_geometry (sc : Scene) (hd : WindowDefined sc) (r : BlocksRenderer)
    (hw : WF r) (x y z : Int) (texfaces_ : Fin 6 → UVRegion) (block : Block)
    (states1 states2 : Nat) (rotatable1 rotatable2 : Bool) :
    ∃ r1 r2 cells1 cells2,
      blockCubeShaded sc r x y z texfaces_ { block with rotatable := rotatable1 } states1
          = some r1
        ∧ blockCubeShaded sc r x y z texfaces_ { block with rotatable := rotatable2 } states2
          = some r2
        ∧ written r1 = written r ++ cells1 ∧ written r2 = written r ++ cells2
        ∧ eraseUV cells1 = eraseUV cells2
        ∧ indexList r1 = indexList r2
        ∧ faceCount r1 = faceCount r2
        ∧ r1.vertexOffset = r2.vertexOffset ∧ r1.indexSize = r2.indexSize
        ∧ r1.indexOffset = r2.indexOffset ∧ r1.overflow = r2.overflow := by
  have h1 := blockCubeShaded_eq sc hd r x y z texfaces_ { block with rotatable := rotatable1 }
    states1 hw
  have h2 := blockCubeShaded_eq sc hd r x y z texfaces_ { block with rotatable := rotatable2 }
    states2 hw
  obtain ⟨a1, a2, a3, a4, _⟩ := emitAll_wf
    (shadedQuads sc x y z texfaces_ { block with rotatable := rotatable1 } states1) r hw
  obtain ⟨b1, b2, b3, b4, _⟩ := emitAll_wf
    (shadedQuads sc x y z texfaces_ { block with rotatable := rotatable2 } states2) r hw
  have w1 := WF_emitAll r
    (shadedQuads sc x y z texfaces_ { block with rotatable := rotatable1 } states1) hw
  have w2 := WF_emitAll r
    (shadedQuads sc x y z texfaces_ { block with rotatable := rotatable2 } states2) hw
  have hlen : (shadedQuads sc x y z texfaces_ { block with rotatable := rotatable1 } states1).length
      = (shadedQuads sc x y z texfaces_ { block with rotatable := rotatable2 } states2).length := by
    simp [shadedQuads]
  have hf : faceCount (emitAll r
        (shadedQuads sc x y z texfaces_ { block with rotatable := rotatable1 } states1))
      = faceCount (emitAll r
        (shadedQuads sc x y z texfaces_ { block with rotatable := rotatable2 } states2)) := by
    rw [a3, b3, hlen]
  refine ⟨_, _, _, _, h1, h2, a1, b1, ?_, ?_, hf, ?_, ?_, ?_, ?_⟩
  · simp only [shadedQuads, ← List.map_take]
    exact eraseUV_quadsCells _ _ (fun d => shadedQuad_eraseUV sc x y z _ _ _ _ _ _ d) _
  · rw [a2, b2]
    simp only [shadedQuads, ← List.map_take]
    congr 1
    exact quadsIndices_map
      (shadedQuad sc x y z texfaces_ { block with rotatable := rotatable1 } states1)
      (shadedQuad sc x y z texfaces_ { block with rotatable := rotatable2 } states2)
      (fun d => (shadedQuad_pattern sc x y z _ _ _ d).trans
        (shadedQuad_pattern sc x y z _ _ _ d).symm) _ _
  · rw [w1.voff, w2.voff, hf]
  · rw [w1.isz, w2.isz, hf]
  · rw [w1.ioff, w2.ioff, hf]
  · rw [a4, b4, hlen]

/-- Witness of C8: the stone cube of the example, unrotated and as a rotatable block
in state 1. -/
theorem rotation_leaves_geometry_witness :
    ∃ r1 r2 cells1 cells2,
      blockCubeShaded (exampleScene 0 0 []) (freshRenderer 144) 0 1 0
          (fun k => ⟨k.val, 0, k.val + 1, 1⟩) { stoneBlock with rotatable := false } 0 = some r1
        ∧ blockCubeShaded (exampleScene 0 0 []) (freshRenderer 144) 0 1 0
          (fun k => ⟨k.val, 0, k.val + 1, 1⟩) { stoneBlock with rotatable := true } 1 = some r2
        ∧ written r1 = written (freshRenderer 144) ++ cells1
        ∧ written r2 = written (freshRenderer 144) ++ cells2
        ∧ eraseUV cells1 = eraseUV cells2
        ∧ indexList r1 = indexList r2
        ∧ faceCount r1 = faceCount r2
        ∧ r1.vertexOffset = r2.vertexOffset ∧ r1.indexSize = r2.indexSize
        ∧ r1.indexOffset = r2.indexOffset ∧ r1.overflow = r2.overflow :=
  rotation_leaves_geometry (exampleScene 0 0 [])
    (exampleScene_windowDefined 0 0 [] (Or.inr (by decide))) (freshRenderer 144)
    (WF_freshRenderer 144) 0 1 0 (fun k => ⟨k.val, 0, k.val + 1, 1⟩) stoneBlock 0 1 false true

theorem renderChunk_big (sc : Scene) (hd : WindowDefined sc) (hc : ChunkDefined sc)
    (rb : BlocksRenderer) (hs : Sized rb) (hbig : 24 * requiredFaces sc ≤ rb.capacity) :
    ∃ mb rb1, renderChunk sc rb = some (mb, rb1) ∧ rb1.overflow = false
      ∧ faceCount rb1 = requiredFaces sc
      ∧ mb.vertices = quadsCells (renderQuads sc)
      ∧ mb.indices = quadsIndices 0 (renderQuads sc)
      ∧ mb.vertexCount = 4 * requiredFaces sc ∧ mb.indexCount = 6 * requiredFaces sc := by
  obtain ⟨a1, a2, a3, a4, a5, a6, _⟩ := renderChunk_spec sc rb hs
  have hk : requiredFaces sc ≤ capacityFaces rb.capacity := by
    unfold capacityFaces; omega
  have hf : faceCount (emitAll (reset rb) (renderQuads sc)) = requiredFaces sc := by
    rw [a3]; omega
  rw [List.take_of_length_le hk] at a1 a2
  refine ⟨_, _, renderChunk_eq sc hd hc rb hs, ?_, hf, a1, a2, ?_, ?_⟩
  · rw [a6]
    simp only [decide_eq_false_iff_not]
    omega
  · rw [a4, hf]
  · rw [a5, hf]

/-- C3: a build ends with the overflow flag set exactly when the chunk requires more
faces than the capacity has room for, `capacity / 24`; with a capacity of `24 * N`
floats a chunk that requires `N` faces ends without overflow and with `N` faces, and a
chunk that requires `N + 1` faces ends with the flag set and at most `N` faces.  The
required number is what any build with enough room writes. -/
theorem overflow_boundary (sc : Scene) (hd : WindowDefined sc) (hc : ChunkDefined sc)
    (r : BlocksRenderer) (hs : Sized r) :
    ∃ m r1, renderChunk sc r = some (m, r1)
      ∧ (r1.overflow = true ↔ r.capacity / 24 < requiredFaces sc)
      ∧ faceCount r1 = min (r.capacity / 24) (requiredFaces sc)
      ∧ m.vertexCount = 4 * faceCount r1 ∧ m.indexCount = 6 * faceCount r1
      ∧ (∀ N, r.capacity = 24 * N → requiredFaces sc = N →
          r1.overflow = false ∧ faceCount r1 = N)
      ∧ (∀ N, r.capacity = 24 * N → requiredFaces sc = N + 1 →
          r1.overflow = true ∧ faceCount r1 ≤ N)
      ∧ (∀ rb, Sized rb → 24 * requiredFaces sc ≤ rb.capacity →
          ∃ mb rb1, renderChunk sc rb = some (mb, rb1) ∧ rb1.overflow = false
            ∧ faceCount rb1 = requiredFaces sc) := by
  obtain ⟨_, _, a3, a4, a5, a6, _⟩ := renderChunk_spec sc r hs
  unfold capacityFaces at a3 a6
  refine ⟨_, _, renderChunk_eq sc hd hc r hs, ?_, a3, a4, a5, ?_, ?_, ?_⟩
  · rw [a6]
    simp
  · intro N hN hreq
    rw [a6, a3]
    constructor
    · simp only [decide_eq_false_iff_not]; omega
    · omega
  · intro N hN hreq
    rw [a6, a3]
    constructor
    · simp only [decide_eq_true_eq]; omega
    · omega
  · intro rb hsb hbig
    obtain ⟨mb, rb1, h1, h2, h3, _⟩ := renderChunk_big sc hd hc rb hsb hbig
    exact ⟨mb, rb1, h1, h2, h3⟩

/-- Witness of C3: a chunk with one stone cube built with room for one face. -/
theorem overflow_boundary_witness :
    ∃ m r1, renderChunk (exampleScene 0 0 [⟨1, 0⟩, ⟨0, 0⟩, ⟨0, 0⟩, ⟨0, 0⟩])
        (freshRenderer 24) = some (m, r1)
      ∧ (r1.overflow = true ↔ (freshRenderer 24).capacity / 24
          < requiredFaces (exampleScene 0 0 [⟨1, 0⟩, ⟨0, 0⟩, ⟨0, 0⟩, ⟨0, 0⟩])) :=
  have h := overflow_boundary (exampleScene 0 0 [⟨1, 0⟩, ⟨0, 0⟩, ⟨0, 0⟩, ⟨0, 0⟩])
    (exampleScene_windowDefined 0 0 _ (Or.inr (by decide)))
    (exampleScene_chunkDefined 0 0 _ rfl (by decide)) (freshRenderer 24)
    (Sized_freshRenderer 24)
  ⟨h.choose, h.choose_spec.choose, h.choose_spec.choose_spec.1,
    h.choose_spec.choose_spec.2.1⟩

theorem face_full (r : BlocksRenderer) (coord : vec3) (w h : ℚ) (axisX axisY : vec3)
    (region : UVRegion) (lights : Fin 4 → vec4) (tint : vec4)
    (hfull : r.vertexOffset + 24 > r.capacity) :
    face r coord w h axisX axisY region lights tint = some { r with overflow := true } := by
  unfold face
  rw [if_pos (by simpa [VERTEX_SIZE] using hfull)]

theorem faceRotated_full (r : BlocksRenderer) (coord : vec3) (w h : ℚ) (axisX axisY : vec3)
    (region : UVRegion) (lights : Fin 4 → vec4) (tint : vec4) (rotated : Bool)
    (hfull : r.vertexOffset + 24 > r.capacity) :
    faceRotated r coord w h axisX axisY region lights tint rotated
      = some { r with overflow := true } := by
  unfold faceRotated
  rw [if_pos (by simpa [VERTEX_SIZE] using hfull)]

theorem faceLit_full (sc : Scene) (r : BlocksRenderer) (coord axisX axisY axisZ : ivec3)
    (region : UVRegion) (tint : vec4) (rotated : Bool)
    (hfull : r.vertexOffset + 24 > r.capacity) :
    faceLit sc r coord axisX axisY axisZ region tint rotated
      = some { r with overflow := true } := by
  unfold faceLit
  rw [if_pos (by simpa [VERTEX_SIZE] using hfull)]

/-- C4: a call of `face` that finds no room only raises the overflow flag, so that the
counters and both buffers stay as they are for every later call of the build; the
mesh built with capacity `c` is the first `c / 24` faces, in emission order, of the
mesh that a build with enough room produces for the same chunk. -/
theorem overflow_truncates (sc : Scene) (hd : WindowDefined sc) (hc : ChunkDefined sc)
    (r rb : BlocksRenderer) (hs : Sized r) (hsb : Sized rb)
    (hbig : 24 * requiredFaces sc ≤ rb.capacity) :
    (∃ m r1 mb rb1, renderChunk sc r = some (m, r1) ∧ renderChunk sc rb = some (mb, rb1)
        ∧ rb1.overflow = false
        ∧ m.vertices = mb.vertices.take (24 * (r.capacity / 24))
        ∧ m.indices = mb.indices.take (6 * (r.capacity / 24))
        ∧ faceCount r1 = min (r.capacity / 24) (faceCount rb1)
        ∧ m.vertexCount = 4 * faceCount r1 ∧ m.indexCount = 6 * faceCount r1)
      ∧ (∀ r0 : BlocksRenderer, r0.vertexOffset + 24 > r0.capacity →
          (∀ coord w h axisX axisY region lights tint,
              face r0 coord w h axisX axisY region lights tint
                = some { r0 with overflow := true })
            ∧ (∀ coord w h axisX axisY region lights tint rotated,
              faceRotated r0 coord w h axisX axisY region lights tint rotated
                = some { r0 with overflow := true })
            ∧ (∀ coord axisX axisY axisZ region tint rotated,
              faceLit sc r0 coord axisX axisY axisZ region tint rotated
                = some { r0 with overflow := true })) := by
  constructor
  · obtain ⟨a1, a2, a3, a4, a5, _, _⟩ := renderChunk_spec sc r hs
    obtain ⟨mb, rb1, b1, b2, b3, b4, b5, _, _⟩ := renderChunk_big sc hd hc rb hsb hbig
    unfold capacityFaces at a1 a2 a3
    refine ⟨_, _, mb, rb1, renderChunk_eq sc hd hc r hs, b1, b2, ?_, ?_, ?_, a4, a5⟩
    · rw [a1, b4, quadsCells_take]
    · rw [a2, b5, quadsIndices_take]
    · rw [a3, b3]
  · intro r0 hfull
    exact ⟨fun coord w h axisX axisY region lights tint =>
        face_full r0 coord w h axisX axisY region lights tint hfull,
      fun coord w h axisX axisY region lights tint rotated =>
        faceRotated_full r0 coord w h axisX axisY region lights tint rotated hfull,
      fun coord axisX axisY axisZ region tint rotated =>
        faceLit_full sc r0 coord axisX axisY axisZ region tint rotated hfull⟩

/-- Witness of C4: the chunk with one stone cube built with room for one face and
with room for all the faces it requires. -/
theorem overflow_truncates_witness :
    ∃ m r1 mb rb1,
      renderChunk (exampleScene 0 0 [⟨1, 0⟩, ⟨0, 0⟩, ⟨0, 0⟩, ⟨0, 0⟩]) (freshRenderer 24)
          = some (m, r1)
        ∧ renderChunk (exampleScene 0 0 [⟨1, 0⟩, ⟨0, 0⟩, ⟨0, 0⟩, ⟨0, 0⟩])
            (freshRenderer (24 * requiredFaces
              (exampleScene 0 0 [⟨1, 0⟩, ⟨0, 0⟩, ⟨0, 0⟩, ⟨0, 0⟩]))) = some (mb, rb1)
        ∧ rb1.overflow = false
        ∧ m.vertices = mb.vertices.take (24 * ((freshRenderer 24).capacity / 24))
        ∧ m.indices = mb.indices.take (6 * ((freshRenderer 24).capacity / 24))
        ∧ faceCount r1 = min ((freshRenderer 24).capacity / 24) (faceCount rb1)
        ∧ m.vertexCount = 4 * faceCount r1 ∧ m.indexCount = 6 * faceCount r1 :=
  (overflow_truncates (exampleScene 0 0 [⟨1, 0⟩, ⟨0, 0⟩, ⟨0, 0⟩, ⟨0, 0⟩])
    (exampleScene_windowDefined 0 0 _ (Or.inr (by decide)))
    (exampleScene_chunkDefined 0 0 _ rfl (by decide)) (freshRenderer 24)
    (freshRenderer (24 * requiredFaces (exampleScene 0 0 [⟨1, 0⟩, ⟨0, 0⟩, ⟨0, 0⟩, ⟨0, 0⟩])))
    (Sized_freshRenderer 24) (Sized_freshRenderer _) (Nat.le_refl _)).1

theorem pattern_cases (q : Quad) :
    q.pattern = [0, 1, 3, 1, 2, 3] ∨ q.pattern = [0, 1, 2, 0, 2, 3] := by
  unfold Quad.pattern
  split
  · exact Or.inl rfl
  · exact Or.inr rfl

theorem quadsIndices_face (qs : List Quad) (base k : Nat) (hk : k < qs.length) :
    ((quadsIndices base qs).drop (6 * k)).take 6
        = [base + 4 * k, base + 4 * k + 1, base + 4 * k + 3, base + 4 * k + 1,
            base + 4 * k + 2, base + 4 * k + 3]
      ∨ ((quadsIndices base qs).drop (6 * k)).take 6
        = [base + 4 * k, base + 4 * k + 1, base + 4 * k + 2, base + 4 * k,
            base + 4 * k + 2, base + 4 * k + 3] := by
  induction qs generalizing base k with
  | nil => simp at hk
  | cons q qs ih =>
    simp only [quadsIndices]
    cases k with
    | zero =>
      have hl := quadIndices_length q base
      simp only [Nat.mul_zero, List.drop_zero, Nat.add_zero]
      rw [List.take_append_of_le_length (by omega), List.take_of_length_le (by omega)]
      rcases pattern_cases q with h | h
      · left; simp [Quad.indices, h]
      · right; simp [Quad.indices, h]
    | succ k =>
      have hl := quadIndices_length q base
      have e : 6 * (k + 1) = (q.indices base).length + 6 * k := by omega
      rw [e, List.drop_append]
      have := ih (base + 4) k (by simpa using hk)
      have e2 : base + 4 * (k + 1) = base + 4 + 4 * k := by omega
      rw [e2]
      exact this

theorem quadsIndices_bounds (qs : List Quad) (base j v : Nat)
    (h : (quadsIndices base qs)[j]? = some v) :
    base + 4 * (j / 6) ≤ v ∧ v ≤ base + 4 * (j / 6) + 3 := by
  induction qs generalizing base j with
  | nil => simp [quadsIndices] at h
  | cons q qs ih =>
    simp only [quadsIndices] at h
    have hl := quadIndices_length q base
    by_cases hj : j < 6
    · rw [List.getElem?_append_left (by omega)] at h
      have hj0 : j / 6 = 0 := by omega
      rw [hj0]
      rcases pattern_cases q with hp | hp <;>
        simp only [Quad.indices, hp, List.map_cons, List.map_nil] at h <;>
        interval_cases j <;> simp at h <;> omega
    · rw [List.getElem?_append_right (by omega), hl] at h
      have := ih (base + 4) (j - 6) h
      have e : j / 6 = (j - 6) / 6 + 1 := by omega
      omega

theorem emit_counters (r : BlocksRenderer) (q : Quad) (hw : WF r)
    (hroom : r.vertexOffset + 24 ≤ r.capacity) :
    (emit r q).vertexOffset = r.vertexOffset + 24 ∧ (emit r q).indexSize = r.indexSize + 6
      ∧ (emit r q).indexOffset = r.indexOffset + 4
      ∧ written (emit r q) = written r ++ q.cells
      ∧ indexList (emit r q) = indexList r ++ q.indices r.indexOffset := by
  have hr : ¬ r.vertexOffset + VERTEX_SIZE * 4 > r.capacity := by
    simp only [VERTEX_SIZE]; omega
  obtain ⟨e1, e2, _, _, e5, e6, e7⟩ := emit_room r q hw hr
  exact ⟨e5, e7, e6, e1, e2⟩

/-- C5: every face appends four vertices (24 floats) and six indices, and the six
indices of the `k`-th face of a build are `4k` plus one of the two patterns
`(0, 1, 3, 1, 2, 3)` and `(0, 1, 2, 0, 2, 3)`: two triangles on the four vertices of
that face, sharing a diagonal.  So the mesh has `vertexCount = 4 * faces`,
`indexCount = 6 * faces`, and every index is below `vertexCount`. -/
theorem faces_reference_own_vertices (sc : Scene) (hd : WindowDefined sc)
    (hc : ChunkDefined sc) (r : BlocksRenderer) (hs : Sized r) :
    (∃ m r1, renderChunk sc r = some (m, r1)
        ∧ m.vertexCount = 4 * faceCount r1 ∧ m.indexCount = 6 * faceCount r1
        ∧ m.vertices.length = 6 * m.vertexCount ∧ m.indices.length = m.indexCount
        ∧ (∀ j v, m.indices[j]? = some v →
            4 * (j / 6) ≤ v ∧ v ≤ 4 * (j / 6) + 3 ∧ v < m.vertexCount)
        ∧ (∀ k, k < faceCount r1 →
            (m.indices.drop (6 * k)).take 6
                = [4 * k, 4 * k + 1, 4 * k + 3, 4 * k + 1, 4 * k + 2,
                    4 * k + 3]
              ∨ (m.indices.drop (6 * k)).take 6
                = [4 * k, 4 * k + 1, 4 * k + 2, 4 * k, 4 * k + 2,
                    4 * k + 3]))
      ∧ (∀ r0 : BlocksRenderer, WF r0 → r0.vertexOffset + 24 ≤ r0.capacity →
          (∀ coord w h axisX axisY region lights tint,
              ∃ r2, face r0 coord w h axisX axisY region lights tint = some r2
                ∧ r2.vertexOffset = r0.vertexOffset + 24 ∧ r2.indexSize = r0.indexSize + 6
                ∧ r2.indexOffset = r0.indexOffset + 4)
            ∧ (∀ coord w h axisX axisY region lights tint rotated,
              ∃ r2, faceRotated r0 coord w h axisX axisY region lights tint rotated = some r2
                ∧ r2.vertexOffset = r0.vertexOffset + 24 ∧ r2.indexSize = r0.indexSize + 6
                ∧ r2.indexOffset = r0.indexOffset + 4)
            ∧ (∀ coord axisX axisY axisZ region tint rotated,
              ∃ r2, faceLit sc r0 coord axisX axisY axisZ region tint rotated = some r2
                ∧ r2.vertexOffset = r0.vertexOffset + 24 ∧ r2.indexSize = r0.indexSize + 6
                ∧ r2.indexOffset = r0.indexOffset + 4)) := by
  constructor
  · obtain ⟨a1, a2, a3, a4, a5, _, _⟩ := renderChunk_spec sc r hs
    have hlen : ((renderQuads sc).take (capacityFaces r.capacity)).length
        = faceCount (emitAll (reset r) (renderQuads sc)) := by
      rw [a3, List.length_take]
      rfl
    have hil : (meshOf (emitAll (reset r) (renderQuads sc))).indices.length
        = 6 * faceCount (emitAll (reset r) (renderQuads sc)) := by
      rw [a2, quadsIndices_length, hlen]
    refine ⟨_, _, renderChunk_eq sc hd hc r hs, a4, a5, ?_, ?_, ?_, ?_⟩
    · rw [a1, quadsCells_length, hlen, a4]
      omega
    · rw [hil, a5]
    · intro j v hj
      have hjl : j < (meshOf (emitAll (reset r) (renderQuads sc))).indices.length := by
        by_contra hcon
        rw [List.getElem?_eq_none (by omega)] at hj
        cases hj
      rw [a2] at hj
      have hb := quadsIndices_bounds _ 0 j v hj
      rw [hil] at hjl
      rw [a4]
      omega
    · intro k hk
      rw [a2]
      have hface := quadsIndices_face ((renderQuads sc).take (capacityFaces r.capacity)) 0 k
        (by rw [hlen]; exact hk)
      simp only [Nat.zero_add] at hface
      exact hface
  · intro r0 hw hroom
    refine ⟨?_, ?_, ?_⟩
    · intro coord w h axisX axisY region lights tint
      obtain ⟨e1, e2, e3, _⟩ := emit_counters r0
        (faceQuad coord w h axisX axisY region lights tint) hw hroom
      exact ⟨_, face_eq r0 coord w h axisX axisY region lights tint hw, e1, e2, e3⟩
    · intro coord w h axisX axisY region lights tint rotated
      obtain ⟨e1, e2, e3, _⟩ := emit_counters r0
        (faceRotatedQuad coord w h axisX axisY region lights tint rotated) hw hroom
      exact ⟨_, faceRotated_eq r0 coord w h axisX axisY region lights tint rotated hw,
        e1, e2, e3⟩
    · intro coord axisX axisY axisZ region tint rotated
      obtain ⟨e1, e2, e3, _⟩ := emit_counters r0
        (litQuad sc coord axisX axisY axisZ region tint rotated) hw hroom
      exact ⟨_, faceLit_eq sc hd r0 coord axisX axisY axisZ region tint rotated hw,
        e1, e2, e3⟩

/-- Witness of C5: the chunk with one stone cube built with room for six faces. -/
theorem faces_reference_own_vertices_witness :
    ∃ m r1, renderChunk (exampleScene 0 0 [⟨1, 0⟩, ⟨0, 0⟩, ⟨0, 0⟩, ⟨0, 0⟩])
        (freshRenderer 144) = some (m, r1)
      ∧ m.vertexCount = 4 * faceCount r1 ∧ m.indexCount = 6 * faceCount r1
      ∧ m.vertices.length = 6 * m.vertexCount ∧ m.indices.length = m.indexCount
      ∧ (∀ j v, m.indices[j]? = some v →
          4 * (j / 6) ≤ v ∧ v ≤ 4 * (j / 6) + 3 ∧ v < m.vertexCount)
      ∧ (∀ k, k < faceCount r1 →
          (m.indices.drop (6 * k)).take 6
              = [4 * k, 4 * k + 1, 4 * k + 3, 4 * k + 1, 4 * k + 2,
                  4 * k + 3]
            ∨ (m.indices.drop (6 * k)).take 6
              = [4 * k, 4 * k + 1, 4 * k + 2, 4 * k, 4 * k + 2,
                  4 * k + 3]) :=
  (faces_reference_own_vertices (exampleScene 0 0 [⟨1, 0⟩, ⟨0, 0⟩, ⟨0, 0⟩, ⟨0, 0⟩])
    (exampleScene_windowDefined 0 0 _ (Or.inr (by decide)))
    (exampleScene_chunkDefined 0 0 _ rfl (by decide)) (freshRenderer 144)
    (Sized_freshRenderer 144)).1

theorem renderVoxel_withVoxels (sc : Scene) (vs : List voxel) (g : Nat) (r : BlocksRenderer)
    (i : Nat) (h : vs[i]? = sc.chunk.voxels[i]?) :
    renderVoxel (withVoxels sc vs) g r i = renderVoxel sc g r i := by
  unfold renderVoxel
  have e : (withVoxels sc vs).chunk.voxels[i]? = sc.chunk.voxels[i]? := h
  rw [e]
  rfl

theorem renderSpan_withVoxels (sc : Scene) (vs : List voxel) (g : Nat) (span : List Nat)
    (h : ∀ i ∈ span, vs[i]? = sc.chunk.voxels[i]?) (r : BlocksRenderer) :
    renderSpan (withVoxels sc vs) g span r = renderSpan sc g span r := by
  induction span generalizing r with
  | nil => rfl
  | cons i rest ih =>
    unfold renderSpan
    rw [renderVoxel_withVoxels sc vs g r i (h i (List.mem_cons_self _ _))]
    cases renderVoxel sc g r i with
    | none => rfl
    | some fl =>
      cases fl with
      | next r1 => exact ih (fun j hj => h j (List.mem_cons_of_mem _ hj)) r1
      | ret r1 => rfl

theorem renderGroups_withVoxels (sc : Scene) (vs : List voxel) (span : List Nat)
    (h : ∀ i ∈ span, vs[i]? = sc.chunk.voxels[i]?) (groups : List Nat) (r : BlocksRenderer) :
    renderGroups (withVoxels sc vs) span groups r = renderGroups sc span groups r := by
  induction groups generalizing r with
  | nil => rfl
  | cons g rest ih =>
    unfold renderGroups
    rw [renderSpan_withVoxels sc vs g span h r]
    cases renderSpan sc g span r with
    | none => rfl
    | some fl =>
      cases fl with
      | next r1 => exact ih r1
      | ret r1 => rfl

theorem renderChunk_withVoxels (sc : Scene) (vs : List voxel)
    (h : ∀ i ∈ renderIndices sc, vs[i]? = sc.chunk.voxels[i]?) (r : BlocksRenderer) :
    renderChunk (withVoxels sc vs) r = renderChunk sc r := by
  rw [renderChunk_unfold, renderChunk_unfold]
  unfold render
  have e : renderIndices (withVoxels sc vs) = renderIndices sc := rfl
  have e2 : (withVoxels sc vs).drawGroups = sc.drawGroups := rfl
  rw [e, e2, renderGroups_withVoxels sc vs _ h]

theorem renderGroups_nil_span (sc : Scene) (groups : List Nat) (r : BlocksRenderer) :
    renderGroups sc [] groups r = some (.next r) := by
  induction groups with
  | nil => rfl
  | cons g rest ih =>
    unfold renderGroups
    simp only [renderSpan]
    exact ih

theorem mem_renderIndices (sc : Scene) (i : Nat) (h : i ∈ renderIndices sc) :
    sc.chunk.bottom * (sc.CHUNK_W * sc.CHUNK_D) ≤ i
      ∧ i < sc.chunk.top * (sc.CHUNK_W * sc.CHUNK_D) := by
  simp only [renderIndices, List.mem_range'_1] at h
  omega

/-- C16: `render` visits exactly the linear indices `i` with
`bottom * CHUNK_W * CHUNK_D <= i < top * CHUNK_W * CHUNK_D`, in ascending order, and
the level `y = i / (CHUNK_D * CHUNK_W)` of each lies in `[bottom, top)`; with the
window of neighbours fixed, replacing the voxels outside that span by any others
leaves the result of `render(chunk, ...)` unchanged; and when `top <= bottom` the
mesh is empty (0 vertices, 0 indices) and the overflow flag is false. -/
theorem vertical_span (sc : Scene) :
    (∀ i ∈ renderIndices sc, sc.chunk.bottom * (sc.CHUNK_W * sc.CHUNK_D) ≤ i
        ∧ i < sc.chunk.top * (sc.CHUNK_W * sc.CHUNK_D))
      ∧ (∀ i ∈ renderIndices sc, sc.chunk.bottom ≤ i / (sc.CHUNK_D * sc.CHUNK_W)
        ∧ i / (sc.CHUNK_D * sc.CHUNK_W) < sc.chunk.top)
      ∧ (∀ i, sc.chunk.bottom * (sc.CHUNK_W * sc.CHUNK_D) ≤ i →
          i < sc.chunk.top * (sc.CHUNK_W * sc.CHUNK_D) → i ∈ renderIndices sc)
      ∧ (∀ (vs : List voxel) (r : BlocksRenderer),
          (∀ i ∈ renderIndices sc, vs[i]? = sc.chunk.voxels[i]?) →
          renderChunk (withVoxels sc vs) r = renderChunk sc r)
      ∧ (sc.chunk.top ≤ sc.chunk.bottom → ∀ r : BlocksRenderer,
          renderChunk sc r = some (⟨[], 0, [], 0⟩, reset r)
            ∧ (reset r).overflow = false) := by
  refine ⟨mem_renderIndices sc, ?_, ?_, fun vs r h => renderChunk_withVoxels sc vs h r, ?_⟩
  · intro i hi
    obtain ⟨h1, h2⟩ := mem_renderIndices sc i hi
    have hpos : 0 < sc.CHUNK_D * sc.CHUNK_W := by
      rcases Nat.eq_zero_or_pos (sc.CHUNK_D * sc.CHUNK_W) with h0 | h0
      · rw [Nat.mul_comm sc.CHUNK_W sc.CHUNK_D, h0] at h2
        simp at h2
      · exact h0
    rw [Nat.mul_comm sc.CHUNK_W sc.CHUNK_D] at h1 h2
    constructor
    · exact (Nat.le_div_iff_mul_le hpos).mpr h1
    · exact (Nat.div_lt_iff_lt_mul hpos).mpr h2
  · intro i h1 h2
    simp only [renderIndices, List.mem_range'_1]
    omega
  · intro htb r
    have hnil : renderIndices sc = [] := by
      unfold renderIndices
      have : sc.chunk.top * (sc.CHUNK_W * sc.CHUNK_D)
          - sc.chunk.bottom * (sc.CHUNK_W * sc.CHUNK_D) = 0 :=
        Nat.sub_eq_zero_of_le (Nat.mul_le_mul_right _ htb)
      simp only [this]
      rfl
    constructor
    · rw [renderChunk_unfold]
      unfold render
      rw [hnil, renderGroups_nil_span]
      simp [meshOf, reset, Flow.state, VERTEX_SIZE]
    · rfl

theorem renderIndices_pairwise (sc : Scene) : (renderIndices sc).Pairwise (· < ·) := by
  unfold renderIndices
  exact List.pairwise_lt_range' _ _ 

theorem meshed_filter_length (sc : Scene) (groups : List Nat) (hnd : groups.Nodup) (i : Nat)
    (vox : voxel) (bdef : Block) (h1 : sc.chunk.voxels[i]? = some vox)
    (h2 : sc.blockDefsCache vox.id = some bdef) :
    (groups.filter (fun g => meshed sc g i)).length
      = if vox.id ≠ 0 ∧ bdef.drawGroup ∈ groups then 1 else 0 := by
  have hm : ∀ g, meshed sc g i = (decide (vox.id ≠ 0) && decide (g = bdef.drawGroup)) := by
    intro g
    unfold meshed
    simp only [h1, h2]
    by_cases a : vox.id = 0
    · simp [a]
    · by_cases b : bdef.drawGroup = g
      · simp [a, b]
      · have b2 : ¬ g = bdef.drawGroup := fun h => b h.symm
        simp [a, b, b2]
  simp only [hm]
  by_cases a : vox.id = 0
  · simp [a]
  · have e : (fun g => (decide (vox.id ≠ 0) && decide (g = bdef.drawGroup)))
        = fun g => g == bdef.drawGroup := by
      funext g
      simp [a, beq_eq_decide]
    rw [e, ← List.countP_eq_length_filter]
    have : List.countP (fun g => g == bdef.drawGroup) groups = List.count bdef.drawGroup groups :=
      rfl
    rw [this]
    by_cases hmem : bdef.drawGroup ∈ groups
    · rw [List.count_eq_one_of_mem hnd hmem]
      simp [a, hmem]
    · rw [List.count_eq_zero_of_not_mem hmem]
      simp [hmem]

/-- C15: with sufficient capacity, the faces of the mesh that `render(chunk, ...)`
returns are the concatenation, over the draw groups in their iteration order, of
the faces of the voxels of that group taken in ascending linear index; so the
faces of the groups iterated earlier come before those of the groups iterated
later; a voxel that is air or whose draw group differs from the pass contributes
nothing to that pass; and, the draw groups being a set, a voxel of the span is
meshed in exactly one pass when it is not air and its draw group is in the set, and
in none otherwise. -/
theorem draw_group_passes (sc : Scene) (hd : WindowDefined sc) (hc : ChunkDefined sc)
    (r : BlocksRenderer) (hs : Sized r) (hroom : 24 * requiredFaces sc ≤ r.capacity)
    (hnd : sc.drawGroups.Nodup) :
    ∃ m r1, renderChunk sc r = some (m, r1) ∧ r1.overflow = false
      ∧ m.vertices = quadsCells (sc.drawGroups.flatMap fun g =>
          (renderIndices sc).flatMap fun i => voxelQuads sc g i)
      ∧ m.indices = quadsIndices 0 (sc.drawGroups.flatMap fun g =>
          (renderIndices sc).flatMap fun i => voxelQuads sc g i)
      ∧ (renderIndices sc).Pairwise (· < ·)
      ∧ (∀ pre post : List Nat, sc.drawGroups = pre ++ post →
          m.vertices
            = quadsCells (pre.flatMap fun g =>
                (renderIndices sc).flatMap fun i => voxelQuads sc g i)
              ++ quadsCells (post.flatMap fun g =>
                (renderIndices sc).flatMap fun i => voxelQuads sc g i))
      ∧ (∀ i ∈ renderIndices sc, ∃ vox bdef, sc.chunk.voxels[i]? = some vox
          ∧ sc.blockDefsCache vox.id = some bdef
          ∧ (∀ g, vox.id = 0 ∨ bdef.drawGroup ≠ g →
              voxelQuads sc g i = [] ∧ meshed sc g i = false)
          ∧ (∀ g, vox.id ≠ 0 → bdef.drawGroup = g → meshed sc g i = true)
          ∧ (sc.drawGroups.filter (fun g => meshed sc g i)).length
              = if vox.id ≠ 0 ∧ bdef.drawGroup ∈ sc.drawGroups then 1 else 0) := by
  obtain ⟨m, r1, h1, h2, _, h4, h5, _, _⟩ := renderChunk_big sc hd hc r hs hroom
  have hq : renderQuads sc = sc.drawGroups.flatMap fun g =>
      (renderIndices sc).flatMap fun i => voxelQuads sc g i := rfl
  refine ⟨m, r1, h1, h2, ?_, ?_, renderIndices_pairwise sc, ?_, ?_⟩
  · rw [h4, hq]
  · rw [h5, hq]
  · intro pre post hpp
    rw [h4, hq, hpp, List.flatMap_append, quadsCells_append]
  · intro i hi
    obtain ⟨vox, bdef, e1, e2⟩ := hc i hi
    refine ⟨vox, bdef, e1, e2, ?_, ?_, meshed_filter_length sc _ hnd i vox bdef e1 e2⟩
    · intro g hg
      constructor
      · unfold voxelQuads
        simp only [e1, e2]
        rw [if_pos hg]
      · unfold meshed
        simp only [e1, e2]
        rcases hg with a | b
        · simp [a]
        · simp [b]
    · intro g a b
      unfold meshed
      simp only [e1, e2]
      simp [a, b]

/-- Witness of C15: a chunk with a stone cube (group 0) and a water cube (group 1),
built with room for every face. -/
theorem draw_group_passes_witness :
    (exampleScene 0 0 [⟨2, 0⟩, ⟨1, 0⟩, ⟨0, 0⟩, ⟨0, 0⟩]).drawGroups.Nodup
      ∧ ∃ m r1, renderChunk (exampleScene 0 0 [⟨2, 0⟩, ⟨1, 0⟩, ⟨0, 0⟩, ⟨0, 0⟩])
          (freshRenderer
            (24 * requiredFaces (exampleScene 0 0 [⟨2, 0⟩, ⟨1, 0⟩, ⟨0, 0⟩, ⟨0, 0⟩])))
          = some (m, r1) ∧ r1.overflow = false
        ∧ m.vertices = quadsCells
            ((exampleScene 0 0 [⟨2, 0⟩, ⟨1, 0⟩, ⟨0, 0⟩, ⟨0, 0⟩]).drawGroups.flatMap fun g =>
              (renderIndices (exampleScene 0 0 [⟨2, 0⟩, ⟨1, 0⟩, ⟨0, 0⟩, ⟨0, 0⟩])).flatMap
                fun i => voxelQuads (exampleScene 0 0 [⟨2, 0⟩, ⟨1, 0⟩, ⟨0, 0⟩, ⟨0, 0⟩]) g i) :=
  have hnd : (exampleScene 0 0 [⟨2, 0⟩, ⟨1, 0⟩, ⟨0, 0⟩, ⟨0, 0⟩]).drawGroups.Nodup := by
    decide
  have h := draw_group_passes (exampleScene 0 0 [⟨2, 0⟩, ⟨1, 0⟩, ⟨0, 0⟩, ⟨0, 0⟩])
    (exampleScene_windowDefined 0 0 _ (Or.inr (by decide)))
    (exampleScene_chunkDefined 0 0 _ rfl (by decide))
    (freshRenderer (24 * requiredFaces (exampleScene 0 0 [⟨2, 0⟩, ⟨1, 0⟩, ⟨0, 0⟩, ⟨0, 0⟩])))
    (Sized_freshRenderer _) (Nat.le_refl _) hnd
  ⟨hnd, h.choose, h.choose_spec.choose, h.choose_spec.choose_spec.1,
    h.choose_spec.choose_spec.2.1, h.choose_spec.choose_spec.2.2.1⟩

theorem farther_eq (cs : Chunks) (px pz : ℚ) (i j : Nat) (hi : (chunkAt cs i).isSome = true)
    (hj : (chunkAt cs j).isSome = true) :
    farther cs px pz i j = some (decide (distKey cs px pz j < distKey cs px pz i)) := by
  obtain ⟨a, ha⟩ := Option.isSome_iff_exists.mp hi
  obtain ⟨b, hb⟩ := Option.isSome_iff_exists.mp hj
  unfold farther distKey floatDist2
  simp only [ha, hb, Option.bind_eq_bind, Option.some_bind, Option.some.injEq, gt_iff_lt]

theorem insertSorted_eq (cs : Chunks) (px pz : ℚ) (a : Nat)
    (ha : (chunkAt cs a).isSome = true) (l : List Nat)
    (hl : ∀ b ∈ l, (chunkAt cs b).isSome = true) :
    insertSorted (farther cs px pz) a l
      = some (List.orderedInsert (fun i j => distKey cs px pz j ≤ distKey cs px pz i) a l) := by
  induction l with
  | nil => rfl
  | cons b l ih =>
    have hb := hl b (List.mem_cons_self _ _)
    have ih2 := ih (fun c hc => hl c (List.mem_cons_of_mem _ hc))
    unfold insertSorted
    rw [farther_eq cs px pz b a hb ha]
    simp only [Option.bind_eq_bind, Option.some_bind, List.orderedInsert]
    by_cases h : distKey cs px pz a < distKey cs px pz b
    · rw [if_neg (not_le.mpr h)]
      simp only [h, decide_True, if_true, ih2, Option.some_bind]
    · rw [if_pos (not_lt.mp h)]
      simp only [h, decide_False]
      rfl

theorem stdSort_eq (cs : Chunks) (px pz : ℚ) (l : List Nat)
    (hl : ∀ b ∈ l, (chunkAt cs b).isSome = true) :
    stdSort (farther cs px pz) l
      = some (List.insertionSort (fun i j => distKey cs px pz j ≤ distKey cs px pz i) l) := by
  induction l with
  | nil => rfl
  | cons a l ih =>
    have ih2 := ih (fun c hc => hl c (List.mem_cons_of_mem _ hc))
    unfold stdSort
    rw [ih2]
    simp only [Option.bind_eq_bind, Option.some_bind, List.insertionSort]
    apply insertSorted_eq cs px pz a (hl a (List.mem_cons_self _ _))
    intro b hb
    have hp := List.perm_insertionSort (fun i j => distKey cs px pz j ≤ distKey cs px pz i) l
    exact hl b (List.mem_cons_of_mem _ (hp.subset hb))

theorem mem_collectIndices (cs : Chunks) (i : Nat) :
    i ∈ collectIndices cs ↔ i < cs.chunks.length ∧ ∃ c, cs.chunks[i]? = some (some c) := by
  unfold collectIndices Chunks.volume chunkAt
  simp only [List.mem_filter, List.mem_range]
  constructor
  · rintro ⟨h1, h2⟩
    refine ⟨h1, ?_⟩
    obtain ⟨c, hc⟩ := Option.isSome_iff_exists.mp h2
    exact ⟨c, Option.join_eq_some.mp hc⟩
  · rintro ⟨h1, c, hc⟩
    refine ⟨h1, ?_⟩
    rw [hc]
    rfl


theorem centreOffset_small (c : Int) (h1 : 0 ≤ c) (h2 : c < 2 ^ 22) :
    centreOffset c (1 / 2) = c := by
  unfold centreOffset
  have e1 : float32 (c : ℚ) = c := float32_intCast c (by rw [abs_of_nonneg h1]; omega)
  have e2 : float32 ((c : ℚ) + 1 / 2) = (c : ℚ) + 1 / 2 := by
    have h := float32_dyadic (2 * c + 1) (-1) (by rw [abs_of_nonneg (by omega)]; omega)
      (by norm_num) (by norm_num)
    have e : (((2 * c + 1 : Int) : ℚ)) * 2 ^ (-1 : Int) = (c : ℚ) + 1 / 2 := by
      push_cast
      rw [zpow_neg_one]
      ring
    rw [e] at h
    exact h
  rw [e1, e2]
  have e3 : (c : ℚ) + 1 / 2 - 1 / 2 = c := by ring
  rw [e3, e1]

theorem floatDist2_small (c : Chunk) (hx1 : 0 ≤ c.x) (hx2 : c.x < 2 ^ 11) (hz1 : 0 ≤ c.z)
    (hz2 : c.z < 2 ^ 11) : ExactKey c (1 / 2) (1 / 2) := by
  unfold ExactKey floatDist2 planarDist2
  rw [centreOffset_small c.x hx1 (by omega), centreOffset_small c.z hz1 (by omega)]
  have bx : c.x * c.x < 2 ^ 22 := by nlinarith
  have bz : c.z * c.z < 2 ^ 22 := by nlinarith
  have e1 : float32 ((c.x : ℚ) * c.x) = (c.x : ℚ) * c.x := by
    have h := float32_intCast (c.x * c.x)
      (by rw [abs_of_nonneg (mul_nonneg hx1 hx1)]; omega)
    push_cast at h
    exact h
  have e2 : float32 ((c.z : ℚ) * c.z) = (c.z : ℚ) * c.z := by
    have h := float32_intCast (c.z * c.z)
      (by rw [abs_of_nonneg (mul_nonneg hz1 hz1)]; omega)
    push_cast at h
    exact h
  have e3 : float32 ((c.x : ℚ) * c.x + (c.z : ℚ) * c.z) = (c.x : ℚ) * c.x + (c.z : ℚ) * c.z := by
    have h := float32_intCast (c.x * c.x + c.z * c.z)
      (by rw [abs_of_nonneg (add_nonneg (mul_nonneg hx1 hx1) (mul_nonneg hz1 hz1))]; omega)
    push_cast at h
    exact h
  rw [e1, e2, e3]
  ring

theorem float32_cameraHalf : float32 (8 / ((16 : Nat) : ℚ)) = 1 / 2 := by
  have h := float32_half
  norm_num at h ⊢
  exact h

theorem distKey_example (i : Nat) (c : Chunk) (hc : chunkAt exampleChunks i = some c)
    (hx1 : 0 ≤ c.x) (hx2 : c.x < 2 ^ 11) (hz1 : 0 ≤ c.z) (hz2 : c.z < 2 ^ 11) :
    distKey exampleChunks (1 / 2) (1 / 2) i = planarDist2 c (1 / 2) (1 / 2) := by
  unfold distKey
  rw [hc]
  exact floatDist2_small c hx1 hx2 hz1 hz2

/-- The order on three loaded chunks and an empty slot, the camera standing in the
first chunk. -/
theorem drawChunks_example :
    drawChunks 16 16 exampleChunks ⟨⟨8, 0, 8⟩⟩ = some [2, 3, 0] := by
  have hc : collectIndices exampleChunks = [0, 2, 3] := by decide
  have h0 : chunkAt exampleChunks 0 = some ⟨0, 0, 0, 1, []⟩ := rfl
  have h2 : chunkAt exampleChunks 2 = some ⟨3, 0, 0, 1, []⟩ := rfl
  have h3 : chunkAt exampleChunks 3 = some ⟨1, 1, 0, 1, []⟩ := rfl
  have k0 := distKey_example 0 _ h0 (by norm_num) (by norm_num) (by norm_num) (by norm_num)
  have k2 := distKey_example 2 _ h2 (by norm_num) (by norm_num) (by norm_num) (by norm_num)
  have k3 := distKey_example 3 _ h3 (by norm_num) (by norm_num) (by norm_num) (by norm_num)
  unfold drawChunks
  simp only [hc]
  rw [float32_cameraHalf]
  rw [stdSort_eq _ _ _ _ (by
    intro b hb
    simp only [List.mem_cons, List.mem_singleton, List.not_mem_nil, or_false] at hb
    rcases hb with rfl | rfl | rfl
    · rw [h0]; rfl
    · rw [h2]; rfl
    · rw [h3]; rfl)]
  simp only [List.insertionSort, List.orderedInsert]
  rw [k2, k3]
  norm_num [planarDist2, List.orderedInsert]
  rw [k0, k2, k3]
  norm_num [planarDist2]

/-- C20, as the code has it: `drawChunks` hands to `drawChunk` a sequence of slot
indices that is a permutation of the non-null slots of `chunks->chunks` taken once
each (every loaded chunk once, no empty slot), in which the value of
`(c.x + 0.5f - px)*(c.x + 0.5f - px) + (c.z + 0.5f - pz)*(c.z + 0.5f - pz)` that the
comparator computes in `float` arithmetic, with `px = camera.x / CHUNK_W` and
`pz = camera.z / CHUNK_D` as `float`s, never increases from an earlier chunk to a
later one; between two chunks whose computed value is exact, the exact squared planar
distance never increases either. -/
theorem drawChunks_back_to_front (CHUNK_W CHUNK_D : Nat) (cs : Chunks) (camera : Camera) :
    ∃ order, drawChunks CHUNK_W CHUNK_D cs camera = some order
      ∧ order.Perm ((List.range cs.chunks.length).filter fun i => (chunkAt cs i).isSome)
      ∧ order.Nodup
      ∧ (∀ i, i ∈ order ↔ i < cs.chunks.length ∧ ∃ c, cs.chunks[i]? = some (some c))
      ∧ order.Pairwise (fun i j => ∃ a b, chunkAt cs i = some a ∧ chunkAt cs j = some b
          ∧ floatDist2 b (float32 (camera.position.x / (CHUNK_W : ℚ)))
              (float32 (camera.position.z / (CHUNK_D : ℚ)))
            ≤ floatDist2 a (float32 (camera.position.x / (CHUNK_W : ℚ)))
              (float32 (camera.position.z / (CHUNK_D : ℚ)))
          ∧ (ExactKey a (float32 (camera.position.x / (CHUNK_W : ℚ)))
                (float32 (camera.position.z / (CHUNK_D : ℚ))) →
              ExactKey b (float32 (camera.position.x / (CHUNK_W : ℚ)))
                (float32 (camera.position.z / (CHUNK_D : ℚ))) →
              planarDist2 b (float32 (camera.position.x / (CHUNK_W : ℚ)))
                  (float32 (camera.position.z / (CHUNK_D : ℚ)))
                ≤ planarDist2 a (float32 (camera.position.x / (CHUNK_W : ℚ)))
                  (float32 (camera.position.z / (CHUNK_D : ℚ))))) := by
  have hdraw : drawChunks CHUNK_W CHUNK_D cs camera
      = stdSort (farther cs (float32 (camera.position.x / (CHUNK_W : ℚ)))
          (float32 (camera.position.z / (CHUNK_D : ℚ)))) (collectIndices cs) := rfl
  rw [hdraw]
  generalize float32 (camera.position.x / (CHUNK_W : ℚ)) = px
  generalize float32 (camera.position.z / (CHUNK_D : ℚ)) = pz
  have hsome : ∀ b ∈ collectIndices cs, (chunkAt cs b).isSome = true := by
    intro b hb
    unfold collectIndices at hb
    exact (List.mem_filter.mp hb).2
  have hperm := List.perm_insertionSort
    (fun i j => distKey cs px pz j ≤ distKey cs px pz i) (collectIndices cs)
  haveI : IsTotal Nat (fun i j => distKey cs px pz j ≤ distKey cs px pz i) :=
    ⟨fun a b => le_total _ _⟩
  haveI : IsTrans Nat (fun i j => distKey cs px pz j ≤ distKey cs px pz i) :=
    ⟨fun a b c h1 h2 => le_trans h2 h1⟩
  have hsorted := List.sorted_insertionSort
    (fun i j => distKey cs px pz j ≤ distKey cs px pz i) (collectIndices cs)
  refine ⟨_, stdSort_eq cs _ _ (collectIndices cs) hsome, hperm, ?_, ?_, ?_⟩
  · apply hperm.nodup_iff.mpr
    exact (List.nodup_range _).filter _
  · intro i
    rw [hperm.mem_iff]
    exact mem_collectIndices cs i
  · have hp : List.Pairwise _ _ := hsorted
    refine (List.Pairwise.and_mem.mp hp).imp ?_
    rintro i j ⟨hi, hj, hij⟩
    obtain ⟨a, ha⟩ := Option.isSome_iff_exists.mp (hsome i (hperm.subset hi))
    obtain ⟨b, hb⟩ := Option.isSome_iff_exists.mp (hsome j (hperm.subset hj))
    simp only [distKey, ha, hb] at hij
    refine ⟨a, b, ha, hb, hij, ?_⟩
    intro ea eb
    unfold ExactKey at ea eb
    rw [← ea, ← eb]
    exact hij

theorem centreOffset_far_three : centreOffset 3 (-67108864) = 67108864 := by
  have a1 : float32 (((3 : Int) : ℚ)) = 3 := by
    refine float32_near _ _ 1 12582912 ?_ ?_ ?_ ?_ ?_ ?_ <;> norm_num [abs_lt, le_abs]
  have a2 : float32 (3 + 1 / 2) = (7 / 2) := by
    refine float32_near _ _ 1 14680064 ?_ ?_ ?_ ?_ ?_ ?_ <;> norm_num [abs_lt, le_abs]
  have a3 : float32 ((7 / 2) - (-67108864)) = 67108864 := by
    refine float32_near _ _ 26 8388608 ?_ ?_ ?_ ?_ ?_ ?_ <;> norm_num [abs_lt, le_abs]
  unfold centreOffset
  rw [a1, a2, a3]

theorem centreOffset_far_four : centreOffset 4 (-67108864) = 67108872 := by
  have a1 : float32 (((4 : Int) : ℚ)) = 4 := by
    refine float32_near _ _ 2 8388608 ?_ ?_ ?_ ?_ ?_ ?_ <;> norm_num [abs_lt, le_abs]
  have a2 : float32 (4 + 1 / 2) = (9 / 2) := by
    refine float32_near _ _ 2 9437184 ?_ ?_ ?_ ?_ ?_ ?_ <;> norm_num [abs_lt, le_abs]
  have a3 : float32 ((9 / 2) - (-67108864)) = 67108872 := by
    refine float32_near _ _ 26 8388609 ?_ ?_ ?_ ?_ ?_ ?_ <;> norm_num [abs_lt, le_abs]
  unfold centreOffset
  rw [a1, a2, a3]

theorem floatDist2_far_slot0 :
    floatDist2 ⟨3, 12000, 0, 1, []⟩ (-67108864) (1 / 2) = 4503599627370496 := by
  have c1 : float32 (67108864 * 67108864) = 4503599627370496 := by
    refine float32_near _ _ 52 8388608 ?_ ?_ ?_ ?_ ?_ ?_ <;> norm_num [abs_lt, le_abs]
  have c2 : float32 (12000 * 12000) = 144000000 := by
    refine float32_near _ _ 27 9000000 ?_ ?_ ?_ ?_ ?_ ?_ <;> norm_num [abs_lt, le_abs]
  have c3 : float32 (4503599627370496 + 144000000) = 4503599627370496 := by
    refine float32_near _ _ 52 8388608 ?_ ?_ ?_ ?_ ?_ ?_ <;> norm_num [abs_lt, le_abs]
  have hz := centreOffset_small 12000 (by norm_num) (by norm_num)
  simp only [Int.cast_ofNat] at hz
  unfold floatDist2
  dsimp only
  rw [centreOffset_far_three, hz, c1, c2, c3]

theorem floatDist2_far_slot1 :
    floatDist2 ⟨4, 0, 0, 1, []⟩ (-67108864) (1 / 2) = 4503600701112320 := by
  have c1 : float32 (67108872 * 67108872) = 4503600701112320 := by
    refine float32_near _ _ 52 8388610 ?_ ?_ ?_ ?_ ?_ ?_ <;> norm_num [abs_lt, le_abs]
  have c2 : float32 (0 * 0) = 0 := by
    have h := float32_zero
    norm_num at h ⊢
    exact h
  have c3 : float32 (4503600701112320 + 0) = 4503600701112320 := by
    refine float32_near _ _ 52 8388610 ?_ ?_ ?_ ?_ ?_ ?_ <;> norm_num [abs_lt, le_abs]
  have hz := centreOffset_small 0 (by norm_num) (by norm_num)
  simp only [Int.cast_zero] at hz
  unfold floatDist2
  dsimp only
  rw [centreOffset_far_four, hz, c1, c2, c3]

theorem float32_farCamera :
    float32 (farCamera.position.x / ((16 : Nat) : ℚ)) = -67108864
      ∧ float32 (farCamera.position.z / ((16 : Nat) : ℚ)) = 1 / 2 := by
  have e1 : farCamera.position.x / ((16 : Nat) : ℚ) = -67108864 := by
    show (-1073741824 : ℚ) / ((16 : Nat) : ℚ) = -67108864
    norm_num
  have e2 : farCamera.position.z / ((16 : Nat) : ℚ) = 1 / 2 := by
    show (8 : ℚ) / ((16 : Nat) : ℚ) = 1 / 2
    norm_num
  rw [e1, e2]
  constructor
  · refine float32_near _ _ 26 (-8388608) ?_ ?_ ?_ ?_ ?_ ?_ <;> norm_num [abs_lt, le_abs]
  · exact float32_half

/-- Counterexample to C20 as stated: with the camera at `(-2 ^ 30, 0, 8)`, the chunk
`(3, 12000)` in slot 0 and the chunk `(4, 0)` in slot 1, the comparator computes
`2 ^ 52` for slot 0 and `2 ^ 52 + 2 ^ 30` for slot 1, so `drawChunks` hands slot 1 to
`drawChunk` first; the exact squared planar distance of the chunk of slot 1 is the
smaller one, so it increases along the order. -/
theorem drawChunks_exact_distance_counterexample :
    drawChunks 16 16 farChunks farCamera = some [1, 0]
      ∧ chunkAt farChunks 1 = some ⟨4, 0, 0, 1, []⟩
      ∧ chunkAt farChunks 0 = some ⟨3, 12000, 0, 1, []⟩
      ∧ floatDist2 ⟨4, 0, 0, 1, []⟩ (float32 (farCamera.position.x / ((16 : Nat) : ℚ)))
          (float32 (farCamera.position.z / ((16 : Nat) : ℚ))) = 4503600701112320
      ∧ floatDist2 ⟨3, 12000, 0, 1, []⟩ (float32 (farCamera.position.x / ((16 : Nat) : ℚ)))
          (float32 (farCamera.position.z / ((16 : Nat) : ℚ))) = 4503599627370496
      ∧ planarDist2 ⟨4, 0, 0, 1, []⟩ (farCamera.position.x / ((16 : Nat) : ℚ))
          (farCamera.position.z / ((16 : Nat) : ℚ))
        < planarDist2 ⟨3, 12000, 0, 1, []⟩ (farCamera.position.x / ((16 : Nat) : ℚ))
          (farCamera.position.z / ((16 : Nat) : ℚ)) := by
  have hc : collectIndices farChunks = [0, 1] := by decide
  have h0 : chunkAt farChunks 0 = some ⟨3, 12000, 0, 1, []⟩ := rfl
  have h1 : chunkAt farChunks 1 = some ⟨4, 0, 0, 1, []⟩ := rfl
  have k0 : distKey farChunks (-67108864) (1 / 2) 0 = 4503599627370496 := by
    unfold distKey
    rw [h0]
    exact floatDist2_far_slot0
  have k1 : distKey farChunks (-67108864) (1 / 2) 1 = 4503600701112320 := by
    unfold distKey
    rw [h1]
    exact floatDist2_far_slot1
  obtain ⟨ex, ez⟩ := float32_farCamera
  refine ⟨?_, h1, h0, ?_, ?_, ?_⟩
  · unfold drawChunks
    simp only [hc]
    rw [ex, ez]
    rw [stdSort_eq _ _ _ _ (by
      intro b hb
      simp only [List.mem_cons, List.mem_singleton, List.not_mem_nil, or_false] at hb
      rcases hb with rfl | rfl
      · rw [h0]; rfl
      · rw [h1]; rfl)]
    simp only [List.insertionSort, List.orderedInsert]
    rw [k0, k1]
    norm_num
  · rw [ex, ez]
    exact floatDist2_far_slot1
  · rw [ex, ez]
    exact floatDist2_far_slot0
  · show planarDist2 ⟨4, 0, 0, 1, []⟩ ((-1073741824 : ℚ) / ((16 : Nat) : ℚ))
        ((8 : ℚ) / ((16 : Nat) : ℚ))
      < planarDist2 ⟨3, 12000, 0, 1, []⟩ ((-1073741824 : ℚ) / ((16 : Nat) : ℚ))
        ((8 : ℚ) / ((16 : Nat) : ℚ))
    unfold planarDist2
    norm_num


theorem idAt_window (sc : Scene) (H : Nat) (ids lights : Int → Int → Int → Nat)
    (hwin : sc.pickBlockId
      = (chunkWindow sc.CHUNK_W H sc.CHUNK_D sc.chunk ids lights).pickBlockId sc.BLOCK_VOID)
    (x y z : Int) :
    idAt sc x y z = if InWindow sc H x y z
      then ids (sc.chunk.x * sc.CHUNK_W + x) y (sc.chunk.z * sc.CHUNK_D + z)
      else sc.BLOCK_VOID := by
  unfold idAt
  rw [hwin]
  unfold VoxelsVolume.pickBlockId VoxelsVolume.inside chunkWindow InWindow
  simp only [decide_eq_true_eq, Nat.cast_add, Nat.cast_ofNat]
  by_cases h : -1 ≤ x ∧ x ≤ sc.CHUNK_W ∧ 0 ≤ y ∧ y < H ∧ -1 ≤ z ∧ z ≤ sc.CHUNK_D
  · rw [if_pos h, if_pos]
    obtain ⟨h1, h2, h3, h4, h5, h6⟩ := h
    refine ⟨by omega, by omega, h3, by omega, by omega, by omega⟩
  · rw [if_neg h, if_neg]
    rintro ⟨h1, h2, h3, h4, h5, h6⟩
    exact h ⟨by omega, by omega, h3, by omega, by omega, by omega⟩

theorem idAt_air (sc : Scene) (H : Nat) (ids lights : Int → Int → Int → Nat)
    (id states : Nat) (b air : Block) (hs : SingleCube sc H ids lights id states b air)
    (x y z : Int) (hin : InWindow sc H x y z) (hne : ¬ (x = 0 ∧ y = 0 ∧ z = 0)) :
    idAt sc x y z = 0 := by
  rw [idAt_window sc H ids lights hs.window_ids, if_pos hin]
  exact hs.ids_air x y z hin hne

theorem idAt_below (sc : Scene) (H : Nat) (ids lights : Int → Int → Int → Nat)
    (id states : Nat) (b air : Block) (hs : SingleCube sc H ids lights id states b air)
    (x y z : Int) (hy : y < 0) : idAt sc x y z = sc.BLOCK_VOID := by
  rw [idAt_window sc H ids lights hs.window_ids, if_neg]
  rintro ⟨_, _, h3, _⟩
  omega

theorem singleCube_windowDefined (sc : Scene) (H : Nat) (ids lights : Int → Int → Int → Nat)
    (id states : Nat) (b air : Block) (hs : SingleCube sc H ids lights id states b air) :
    WindowDefined sc := by
  intro X Y Z hne
  have e : sc.pickBlockId X Y Z
      = idAt sc (X - sc.chunk.x * sc.CHUNK_W) Y (Z - sc.chunk.z * sc.CHUNK_D) := by
    unfold idAt
    congr 1 <;> ring
  rw [e] at hne ⊢
  rw [idAt_window sc H ids lights hs.window_ids] at hne ⊢
  by_cases hin : InWindow sc H (X - sc.chunk.x * sc.CHUNK_W) Y (Z - sc.chunk.z * sc.CHUNK_D)
  · rw [if_pos hin]
    by_cases h0 : X - sc.chunk.x * sc.CHUNK_W = 0 ∧ Y = 0 ∧ Z - sc.chunk.z * sc.CHUNK_D = 0
    · obtain ⟨a, b2, c⟩ := h0
      rw [a, b2, c, hs.ids_cube, hs.def_cube]
      rfl
    · rw [hs.ids_air _ _ _ hin h0, hs.def_air]
      rfl
  · rw [if_neg hin] at hne
    exact absurd rfl hne

theorem singleCube_chunkDefined (sc : Scene) (H : Nat) (ids lights : Int → Int → Int → Nat)
    (id states : Nat) (b air : Block) (hs : SingleCube sc H ids lights id states b air) :
    ChunkDefined sc := by
  intro i hi
  by_cases h0 : i = 0
  · subst h0
    exact ⟨_, b, hs.cube, hs.def_cube⟩
  · obtain ⟨st, hst⟩ := hs.rest i hi h0
    exact ⟨_, air, hst, hs.def_air⟩

theorem flatMap_single {α β : Type} (l : List α) (f : α → List β) (a : α) (hnd : l.Nodup)
    (ha : a ∈ l) (h : ∀ x ∈ l, x ≠ a → f x = []) : l.flatMap f = f a := by
  induction l with
  | nil => cases ha
  | cons x l ih =>
    rw [List.flatMap_cons]
    have hnd2 := List.nodup_cons.mp hnd
    rcases List.mem_cons.mp ha with e | hmem
    · subst e
      have hnil : l.flatMap f = [] := by
        rw [List.flatMap_eq_nil_iff]
        intro y hy
        apply h y (List.mem_cons_of_mem _ hy)
        rintro rfl
        exact hnd2.1 hy
      rw [hnil, List.append_nil]
    · have hx : x ≠ a := by
        rintro rfl
        exact hnd2.1 hmem
      rw [h x (List.mem_cons_self _ _) hx, List.nil_append]
      exact ih hnd2.2 hmem (fun y hy => h y (List.mem_cons_of_mem _ hy))

theorem singleCube_openSides (sc : Scene) (H : Nat) (ids lights : Int → Int → Int → Nat)
    (id states : Nat) (b air : Block) (hs : SingleCube sc H ids lights id states b air)
    (group : Nat) :
    shadedOrder.filter (openSide sc 0 0 0 group) = bottomCubeSides := by
  have hd := singleCube_windowDefined sc H ids lights id states b air hs
  have hw := hs.width
  have hdp := hs.depth
  have hh := hs.height
  have air_open : ∀ d : Dir, InWindow sc H (0 + d.offset.x) (0 + d.offset.y) (0 + d.offset.z) →
      ¬ (0 + d.offset.x = 0 ∧ 0 + d.offset.y = 0 ∧ 0 + d.offset.z = 0) →
      openSide sc 0 0 0 group d = true := by
    intro d hin hne
    exact openSide_air sc hd 0 0 0 group d
      (idAt_air sc H ids lights id states b air hs _ _ _ hin hne) hs.void
  have hpz : openSide sc 0 0 0 group .pz = true := by
    apply air_open
    · simp only [InWindow, Dir.offset]; omega
    · simp [Dir.offset]
  have hnz : openSide sc 0 0 0 group .nz = true := by
    apply air_open
    · simp only [InWindow, Dir.offset]; omega
    · simp [Dir.offset]
  have hpy : openSide sc 0 0 0 group .py = true := by
    apply air_open
    · simp only [InWindow, Dir.offset]; omega
    · simp [Dir.offset]
  have hpx : openSide sc 0 0 0 group .px = true := by
    apply air_open
    · simp only [InWindow, Dir.offset]; omega
    · simp [Dir.offset]
  have hnx : openSide sc 0 0 0 group .nx = true := by
    apply air_open
    · simp only [InWindow, Dir.offset]; omega
    · simp [Dir.offset]
  have hny : openSide sc 0 0 0 group .ny = false := by
    unfold openSide isOpenD
    rw [isOpen_void sc _ _ _ group
      (idAt_below sc H ids lights id states b air hs _ _ _ (by simp [Dir.offset]))]
    rfl
  simp [shadedOrder, bottomCubeSides, List.filter, hpz, hnz, hpy, hpx, hnx, hny]

theorem singleCube_renderQuads (sc : Scene) (H : Nat) (ids lights : Int → Int → Int → Nat)
    (id states : Nat) (b air : Block) (hs : SingleCube sc H ids lights id states b air) :
    renderQuads sc
      = bottomCubeSides.map (shadedQuad sc 0 0 0 (fun k => sc.getRegion id k) b states) := by
  have hspan0 : 0 ∈ renderIndices sc := by
    simp only [renderIndices, List.mem_range'_1, hs.bottom]
    have h1 := hs.top
    have h2 := hs.width
    have h3 := hs.depth
    have : 1 ≤ sc.chunk.top * (sc.CHUNK_W * sc.CHUNK_D) :=
      Nat.mul_pos h1 (Nat.mul_pos h2 h3)
    omega
  have hnd : (renderIndices sc).Nodup := by
    unfold renderIndices
    exact List.nodup_range' _ _
  have hrest : ∀ g, ∀ i ∈ renderIndices sc, i ≠ 0 → voxelQuads sc g i = [] := by
    intro g i hi h0
    obtain ⟨st, hst⟩ := hs.rest i hi h0
    unfold voxelQuads
    simp only [hst, hs.def_air]
    simp
  have hother : ∀ g ∈ sc.drawGroups, g ≠ b.drawGroup →
      spanQuads sc g (renderIndices sc) = [] := by
    intro g _ hg
    unfold spanQuads
    rw [List.flatMap_eq_nil_iff]
    intro i hi
    by_cases h0 : i = 0
    · subst h0
      unfold voxelQuads
      simp only [hs.cube, hs.def_cube]
      rw [if_pos (Or.inr (fun e => hg e.symm))]
    · exact hrest g i hi h0
  unfold renderQuads groupsQuads
  rw [flatMap_single sc.drawGroups _ b.drawGroup hs.groups hs.group hother]
  unfold spanQuads
  rw [flatMap_single (renderIndices sc) _ 0 hnd hspan0 (hrest b.drawGroup)]
  unfold voxelQuads
  simp only [hs.cube, hs.def_cube]
  rw [if_neg (by simp [hs.id_ne])]
  simp only [hs.model, hs.emissive]
  unfold shadedQuads
  have e1 : (((0 : Nat) : Int) % (sc.CHUNK_W : Int)) = 0 := by simp
  have e2 : (((0 : Nat) : Int) / ((sc.CHUNK_D : Int) * (sc.CHUNK_W : Int))) = 0 := by simp
  have e3 : (((0 : Nat) : Int) / (sc.CHUNK_D : Int) % (sc.CHUNK_W : Int)) = 0 := by simp
  rw [e1, e2, e3, singleCube_openSides sc H ids lights id states b air hs]
  simp

/-- The scenario of one cube, stated for any renderer with room for five faces: the
build succeeds without overflow and the mesh consists of the faces of the five
sides of the cube that face a cell of the window. -/
theorem singleCube_mesh (sc : Scene) (H : Nat) (ids lights : Int → Int → Int → Nat)
    (id states : Nat) (b air : Block) (hs : SingleCube sc H ids lights id states b air)
    (r : BlocksRenderer) (hr : Sized r) (hroom : 120 ≤ r.capacity) :
    ∃ m r1, renderChunk sc r = some (m, r1) ∧ r1.overflow = false
      ∧ faceCount r1 = 5
      ∧ m.vertices = quadsCells
          (bottomCubeSides.map (shadedQuad sc 0 0 0 (fun k => sc.getRegion id k) b states))
      ∧ m.indices = quadsIndices 0
          (bottomCubeSides.map (shadedQuad sc 0 0 0 (fun k => sc.getRegion id k) b states))
      ∧ m.vertexCount = 20 ∧ m.indexCount = 30 := by
  have hd := singleCube_windowDefined sc H ids lights id states b air hs
  have hc := singleCube_chunkDefined sc H ids lights id states b air hs
  have hq := singleCube_renderQuads sc H ids lights id states b air hs
  have hn : requiredFaces sc = 5 := by
    unfold requiredFaces
    rw [hq]
    rfl
  obtain ⟨m, r1, h1, h2, h3, h4, h5, h6, h7⟩ :=
    renderChunk_big sc hd hc r hr (by rw [hn]; omega)
  rw [hn] at h3 h6 h7
  rw [hq] at h4 h5
  exact ⟨m, r1, h1, h2, h3, h4, h5, h6, h7⟩

theorem cubeScene_singleCube :
    SingleCube cubeScene 256 cubeIds cubeLights 1 0 stoneBlock airBlock where
  width := by decide
  depth := by decide
  height := by decide
  void := by decide
  window_ids := rfl
  window_lights := rfl
  ids_cube := rfl
  ids_air := by
    intro x y z _ hne
    have e1 : cubeScene.chunk.x * (cubeScene.CHUNK_W : Int) + x = x := by
      show (0 : Int) * ((16 : Nat) : Int) + x = x
      simp
    have e2 : cubeScene.chunk.z * (cubeScene.CHUNK_D : Int) + z = z := by
      show (0 : Int) * ((16 : Nat) : Int) + z = z
      simp
    rw [e1, e2]
    unfold cubeIds
    rw [if_neg hne]
  bottom := rfl
  top := by decide
  cube := by
    have e : cubeScene.chunk.voxels = ⟨1, 0⟩ :: List.replicate 65535 ⟨0, 0⟩ := rfl
    rw [e, List.getElem?_cons_zero]
  rest := by
    intro i hi h0
    refine ⟨0, ?_⟩
    have hlt : i < 65536 := by
      have := (mem_renderIndices cubeScene i hi).2
      exact this
    obtain ⟨j, rfl⟩ := Nat.exists_eq_succ_of_ne_zero h0
    have e : cubeScene.chunk.voxels = ⟨1, 0⟩ :: List.replicate 65535 ⟨0, 0⟩ := rfl
    rw [e, List.getElem?_cons_succ, List.getElem?_replicate, if_pos (by omega)]
  id_ne := by decide
  def_cube := rfl
  def_air := rfl
  model := rfl
  emissive := rfl
  group := by decide
  groups := by decide

/-- C17, as the code has it: for a chunk whose window holds one non-emissive cube at
the local position `(0, 0, 0)` and air in every other cell in range, with room for
the faces, `render(chunk, ...)` returns a mesh of exactly 5 faces, 20 vertices and 30
indices: the faces of the sides +Z, -Z, +Y, +X and -X.  The neighbour below the cube
is at level -1, outside the window, so that `isOpen` is false there and the bottom
face is not emitted. -/
theorem single_cube_five_faces (sc : Scene) (CHUNK_H : Nat)
    (ids lights : Int → Int → Int → Nat) (id states : Nat) (b air : Block)
    (hs : SingleCube sc CHUNK_H ids lights id states b air)
    (r : BlocksRenderer) (hr : Sized r) (hroom : 120 ≤ r.capacity) :
    ∃ m r1, renderChunk sc r = some (m, r1) ∧ r1.overflow = false
      ∧ faceCount r1 = 5 ∧ m.vertexCount = 20 ∧ m.indexCount = 30
      ∧ m.vertices.length = 120 ∧ m.indices.length = 30
      ∧ m.vertices = quadsCells
          ([Dir.pz, Dir.nz, Dir.py, Dir.px, Dir.nx].map
            (shadedQuad sc 0 0 0 (fun k => sc.getRegion id k) b states))
      ∧ idAt sc 0 (-1) 0 = sc.BLOCK_VOID
      ∧ isOpen sc 0 (-1) 0 b.drawGroup = some false := by
  obtain ⟨m, r1, h1, h2, h3, h4, h5, h6, h7⟩ :=
    singleCube_mesh sc CHUNK_H ids lights id states b air hs r hr hroom
  have hb := idAt_below sc CHUNK_H ids lights id states b air hs 0 (-1) 0 (by decide)
  refine ⟨m, r1, h1, h2, h3, h6, h7, ?_, ?_, h4, hb, isOpen_void sc _ _ _ _ hb⟩
  · rw [h4, quadsCells_length]
    rfl
  · rw [h5, quadsIndices_length]
    rfl

/-- Witness of C17 as amended: the chunk of 16 x 256 x 16 voxels with one stone cube,
built with room for six faces. -/
theorem single_cube_five_faces_witness :
    ∃ m r1, renderChunk cubeScene (freshRenderer 144) = some (m, r1) ∧ r1.overflow = false
      ∧ faceCount r1 = 5 ∧ m.vertexCount = 20 ∧ m.indexCount = 30 :=
  have h := single_cube_five_faces cubeScene 256 cubeIds cubeLights 1 0 stoneBlock airBlock
    cubeScene_singleCube (freshRenderer 144) (Sized_freshRenderer 144) (by decide)
  ⟨h.choose, h.choose_spec.choose, h.choose_spec.choose_spec.1,
    h.choose_spec.choose_spec.2.1, h.choose_spec.choose_spec.2.2.1,
    h.choose_spec.choose_spec.2.2.2.1, h.choose_spec.choose_spec.2.2.2.2.1⟩

/-- Counterexample to C17 as stated: the chunk with one stone cube at `(0, 0, 0)` in
air, built with room for six faces, gives 20 vertices and 30 indices, not 24 and
36. -/
theorem single_cube_six_faces_counterexample :
    ∃ m r1, renderChunk cubeScene (freshRenderer 144) = some (m, r1) ∧ r1.overflow = false
      ∧ m.vertexCount = 20 ∧ m.indexCount = 30
      ∧ ¬ (m.vertexCount = 24 ∧ m.indexCount = 36) := by
  obtain ⟨m, r1, h1, h2, _, _, _, h6, h7⟩ :=
    singleCube_mesh cubeScene 256 cubeIds cubeLights 1 0 stoneBlock airBlock
      cubeScene_singleCube (freshRenderer 144) (Sized_freshRenderer 144) (by decide)
  refine ⟨m, r1, h1, h2, h6, h7, ?_⟩
  rintro ⟨h, _⟩
  omega

theorem lightCells_cells_append (q : Quad) (rest : List Cell) :
    lightCells (q.cells ++ rest)
      = q.vertices.map (fun p => Cell.bits (compress p.light)) ++ lightCells rest := by
  simp [Quad.cells, Vtx.cells, vertexCells, lightCells, Quad.vertices]

theorem lightCells_quadsCells (qs : List Quad) :
    lightCells (quadsCells qs)
      = qs.flatMap fun q => q.vertices.map (fun p => Cell.bits (compress p.light)) := by
  induction qs with
  | nil => rfl
  | cons q qs ih =>
    have e : quadsCells (q :: qs) = q.cells ++ quadsCells qs := by simp [quadsCells]
    rw [e, lightCells_cells_append, ih, List.flatMap_cons]

theorem litQuad_lights (sc : Scene) (coord axisX axisY axisZ : ivec3) (region : UVRegion)
    (tint : vec4) (rotated : Bool) :
    (litQuad sc coord axisX axisY axisZ region tint rotated).vertices.map
        (fun p => Cell.bits (compress p.light))
      = [Cell.bits (compress (softLight sc (coord + axisZ) axisX axisY * tint)),
         Cell.bits (compress (softLight sc (coord + axisX + axisZ) axisX axisY * tint)),
         Cell.bits (compress (softLight sc (coord + axisX + axisY + axisZ) axisX axisY * tint)),
         Cell.bits (compress (softLight sc (coord + axisY + axisZ) axisX axisY * tint))] := by
  cases rotated <;> rfl

theorem lightAt_window (sc : Scene) (H : Nat) (ids lights : Int → Int → Int → Nat)
    (hwin : sc.pickLight
      = (chunkWindow sc.CHUNK_W H sc.CHUNK_D sc.chunk ids lights).pickLight)
    (x y z : Int) (hin : InWindow sc H x y z) :
    sc.pickLight (sc.chunk.x * sc.CHUNK_W + x) y (sc.chunk.z * sc.CHUNK_D + z)
      = lights (sc.chunk.x * sc.CHUNK_W + x) y (sc.chunk.z * sc.CHUNK_D + z) := by
  rw [hwin]
  unfold VoxelsVolume.pickLight VoxelsVolume.inside chunkWindow
  unfold InWindow at hin
  simp only [decide_eq_true_eq, Nat.cast_add, Nat.cast_ofNat]
  rw [if_pos]
  obtain ⟨h1, h2, h3, h4, h5, h6⟩ := hin
  refine ⟨by omega, by omega, h3, by omega, by omega, by omega⟩

theorem lightOf_full : lightOf 0xFFFF = vec4.splat 1 := by
  have e0 : Lightmap.extract 0xFFFF 0 = 15 := by decide
  have e1 : Lightmap.extract 0xFFFF 1 = 15 := by decide
  have e2 : Lightmap.extract 0xFFFF 2 = 15 := by decide
  have e3 : Lightmap.extract 0xFFFF 3 = 15 := by decide
  unfold lightOf vec4.splat
  rw [e0, e1, e2, e3]
  norm_num

theorem isOpenForLight_void (sc : Scene) (x y z : Int)
    (hout : idAt sc x y z = sc.BLOCK_VOID) : isOpenForLight sc x y z = some false := by
  unfold idAt at hout
  unfold isOpenForLight
  simp only [hout, if_true]

theorem pickLight_air_full (sc : Scene) (H : Nat) (ids lights : Int → Int → Int → Nat)
    (id states : Nat) (b air : Block) (hs : SingleCube sc H ids lights id states b air)
    (hlit : ∀ x y z : Int, InWindow sc H x y z → ¬ (x = 0 ∧ y = 0 ∧ z = 0) →
      lights (sc.chunk.x * sc.CHUNK_W + x) y (sc.chunk.z * sc.CHUNK_D + z) = 0xFFFF)
    (x y z : Int) (hn : Near x y z) : pickLight sc x y z = some (vec4.splat 1) := by
  obtain ⟨n1, n2, n3, n4, n5, n6, n7⟩ := hn
  have hw := hs.width
  have hdp := hs.depth
  have hh := hs.height
  have hin : InWindow sc H x y z := by
    unfold InWindow
    refine ⟨n1, by omega, n3, by omega, n5, by omega⟩
  have h0 := idAt_air sc H ids lights id states b air hs x y z hin n7
  have hne : idAt sc x y z ≠ sc.BLOCK_VOID := by
    rw [h0]
    exact fun h => hs.void h.symm
  have hdef : sc.blockDefsCache (idAt sc x y z) = some air := by
    rw [h0]
    exact hs.def_air
  rw [pickLight_eq, isOpenForLight_eq sc x y z air hne hdef, h0,
    lightAt_window sc H ids lights hs.window_lights x y z hin, hlit x y z hin n7]
  simp [lightOf_full]

theorem pickLight_below (sc : Scene) (H : Nat) (ids lights : Int → Int → Int → Nat)
    (id states : Nat) (b air : Block) (hs : SingleCube sc H ids lights id states b air)
    (x y z : Int) (hy : y < 0) : pickLight sc x y z = some (vec4.splat 0) := by
  rw [pickLight_eq, isOpenForLight_void sc x y z
    (idAt_below sc H ids lights id states b air hs x y z hy)]
  rfl

theorem softLight_samples (sc : Scene) (c right up : ivec3) (a0 a1 a2 a3 : vec4)
    (h0 : pickLight sc c.x c.y c.z = some a0)
    (h1 : pickLight sc (c.x - right.x) (c.y - right.y) (c.z - right.z) = some a1)
    (h2 : pickLight sc (c.x - right.x - up.x) (c.y - right.y - up.y) (c.z - right.z - up.z)
      = some a2)
    (h3 : pickLight sc (c.x - up.x) (c.y - up.y) (c.z - up.z) = some a3) :
    softLight sc c right up
      = (((a0.toFloat.addF a1.toFloat).addF a2.toFloat).addF a3.toFloat).scaleF (1 / 4) := by
  unfold softLight pickSoftLight pickLightAt
  have e1 : pickLight sc (c - right).x (c - right).y (c - right).z = some a1 := h1
  have e2 : pickLight sc (c - right - up).x (c - right - up).y (c - right - up).z = some a2 := h2
  have e3 : pickLight sc (c - up).x (c - up).y (c - up).z = some a3 := h3
  rw [h0, e1, e2, e3]
  rfl

theorem vec4_average_full :
    ((((vec4.splat 1).toFloat.addF (vec4.splat 1).toFloat).addF (vec4.splat 1).toFloat).addF
        (vec4.splat 1).toFloat).scaleF (1 / 4) = vec4.splat 1 := by
  have e2 : float32 (1 + 1) = 2 := by norm_num [float32_two]
  have e3 : float32 (2 + 1) = 3 := by norm_num [float32_three]
  have e4 : float32 (3 + 1) = 4 := by norm_num [float32_four]
  have e1 : float32 (4 * (1 / 4)) = 1 := by norm_num [float32_one]
  simp only [vec4.splat, vec4.toFloat, vec4.addF, vec4.scaleF, float32_one, e2, e3, e4, e1]

theorem vec4_average_half :
    ((((vec4.splat 1).toFloat.addF (vec4.splat 1).toFloat).addF (vec4.splat 0).toFloat).addF
        (vec4.splat 0).toFloat).scaleF (1 / 4) = vec4.splat (1 / 2) := by
  have e2 : float32 (1 + 1) = 2 := by norm_num [float32_two]
  have e3 : float32 (2 + 0) = 2 := by norm_num [float32_two]
  have e1 : float32 (2 * (1 / 4)) = 1 / 2 := by
    have h := float32_half
    norm_num at h ⊢
    exact h
  simp only [vec4.splat, vec4.toFloat, vec4.addF, vec4.scaleF, float32_one, float32_zero, e2, e3,
    e1]

theorem channelByte_of (c : ℚ) (n : Nat) (h1 : (n : ℚ) ≤ c * 255) (h2 : c * 255 < (n : ℚ) + 1)
    (h3 : n < 256) : channelByte c = n := by
  unfold channelByte toUint32
  have hf : ⌊c * 255⌋ = (n : Int) := by
    rw [Int.floor_eq_iff]
    constructor
    · exact_mod_cast h1
    · exact_mod_cast h2
  rw [hf, Int.toNat_ofNat]
  omega

theorem compress_grey (k t : ℚ) (n : Nat) (h1 : (n : ℚ) ≤ k * t * 255)
    (h2 : k * t * 255 < (n : ℚ) + 1) (h3 : n < 256) :
    compress (vec4.splat k * vec4.splat t) = packGrey n := by
  rw [compress_eq]
  have hr : (vec4.splat k * vec4.splat t).r = k * t := rfl
  have hg : (vec4.splat k * vec4.splat t).g = k * t := rfl
  have hb : (vec4.splat k * vec4.splat t).b = k * t := rfl
  have ha : (vec4.splat k * vec4.splat t).a = k * t := rfl
  rw [hr, hg, hb, ha, channelByte_of (k * t) n h1 h2 h3]
  rfl

theorem softLight_hi (sc : Scene) (H : Nat) (ids lights : Int → Int → Int → Nat)
    (id states : Nat) (b air : Block) (hs : SingleCube sc H ids lights id states b air)
    (hlit : FullLight sc H lights) (c right up : ivec3)
    (n0 : Near c.x c.y c.z)
    (n1 : Near (c.x - right.x) (c.y - right.y) (c.z - right.z))
    (n2 : Near (c.x - right.x - up.x) (c.y - right.y - up.y) (c.z - right.z - up.z))
    (n3 : Near (c.x - up.x) (c.y - up.y) (c.z - up.z)) :
    softLight sc c right up = vec4.splat 1 := by
  rw [softLight_samples sc c right up _ _ _ _
    (pickLight_air_full sc H ids lights id states b air hs hlit _ _ _ n0)
    (pickLight_air_full sc H ids lights id states b air hs hlit _ _ _ n1)
    (pickLight_air_full sc H ids lights id states b air hs hlit _ _ _ n2)
    (pickLight_air_full sc H ids lights id states b air hs hlit _ _ _ n3)]
  exact vec4_average_full

theorem softLight_lo (sc : Scene) (H : Nat) (ids lights : Int → Int → Int → Nat)
    (id states : Nat) (b air : Block) (hs : SingleCube sc H ids lights id states b air)
    (hlit : FullLight sc H lights) (c right up : ivec3)
    (n0 : Near c.x c.y c.z)
    (n1 : Near (c.x - right.x) (c.y - right.y) (c.z - right.z))
    (b2 : c.y - right.y - up.y < 0)
    (b3 : c.y - up.y < 0) :
    softLight sc c right up = vec4.splat (1 / 2) := by
  rw [softLight_samples sc c right up _ _ _ _
    (pickLight_air_full sc H ids lights id states b air hs hlit _ _ _ n0)
    (pickLight_air_full sc H ids lights id states b air hs hlit _ _ _ n1)
    (pickLight_below sc H ids lights id states b air hs _ _ _ b2)
    (pickLight_below sc H ids lights id states b air hs _ _ _ b3)]
  exact vec4_average_half

theorem scenario_lights (sc : Scene) (H : Nat) (ids lights : Int → Int → Int → Nat)
    (id states : Nat) (b air : Block) (hs : SingleCube sc H ids lights id states b air)
    (hlit : FullLight sc H lights) (tf : Fin 6 → UVRegion) :
    lightCells (quadsCells (bottomCubeSides.map (shadedQuad sc 0 0 0 tf b states)))
      = scenarioBytes.map fun n => Cell.bits (packGrey n) := by
  have lo := softLight_lo sc H ids lights id states b air hs hlit
  have hi := softLight_hi sc H ids lights id states b air hs hlit
  have pz : (shadedQuad sc 0 0 0 tf b states .pz).vertices.map
      (fun p => Cell.bits (compress p.light))
      = [Cell.bits (packGrey 114), Cell.bits (packGrey 114), Cell.bits (packGrey 229),
         Cell.bits (packGrey 229)] := by
    refine (litQuad_lights sc _ _ _ _ _ _ _).trans ?_
    show [Cell.bits (compress (softLight sc ⟨0, 0, 1⟩ ⟨1, 0, 0⟩ ⟨0, 1, 0⟩ * vec4.splat (9 / 10))),
      Cell.bits (compress (softLight sc ⟨1, 0, 1⟩ ⟨1, 0, 0⟩ ⟨0, 1, 0⟩ * vec4.splat (9 / 10))),
      Cell.bits (compress (softLight sc ⟨1, 1, 1⟩ ⟨1, 0, 0⟩ ⟨0, 1, 0⟩ * vec4.splat (9 / 10))),
      Cell.bits (compress (softLight sc ⟨0, 1, 1⟩ ⟨1, 0, 0⟩ ⟨0, 1, 0⟩ * vec4.splat (9 / 10)))]
      = _
    rw [lo ⟨0, 0, 1⟩ ⟨1, 0, 0⟩ ⟨0, 1, 0⟩ (by decide) (by decide) (by decide) (by decide),
      lo ⟨1, 0, 1⟩ ⟨1, 0, 0⟩ ⟨0, 1, 0⟩ (by decide) (by decide) (by decide) (by decide),
      hi ⟨1, 1, 1⟩ ⟨1, 0, 0⟩ ⟨0, 1, 0⟩ (by decide) (by decide) (by decide) (by decide),
      hi ⟨0, 1, 1⟩ ⟨1, 0, 0⟩ ⟨0, 1, 0⟩ (by decide) (by decide) (by decide) (by decide),
      compress_grey (1 / 2) (9 / 10) 114 (by norm_num) (by norm_num) (by norm_num),
      compress_grey 1 (9 / 10) 229 (by norm_num) (by norm_num) (by norm_num)]
  have nz : (shadedQuad sc 0 0 0 tf b states .nz).vertices.map
      (fun p => Cell.bits (compress p.light))
      = [Cell.bits (packGrey 95), Cell.bits (packGrey 95), Cell.bits (packGrey 191),
         Cell.bits (packGrey 191)] := by
    refine (litQuad_lights sc _ _ _ _ _ _ _).trans ?_
    show [Cell.bits (compress (softLight sc ⟨0, 0, -1⟩ ⟨-1, 0, 0⟩ ⟨0, 1, 0⟩
        * vec4.splat (75 / 100))),
      Cell.bits (compress (softLight sc ⟨-1, 0, -1⟩ ⟨-1, 0, 0⟩ ⟨0, 1, 0⟩
        * vec4.splat (75 / 100))),
      Cell.bits (compress (softLight sc ⟨-1, 1, -1⟩ ⟨-1, 0, 0⟩ ⟨0, 1, 0⟩
        * vec4.splat (75 / 100))),
      Cell.bits (compress (softLight sc ⟨0, 1, -1⟩ ⟨-1, 0, 0⟩ ⟨0, 1, 0⟩
        * vec4.splat (75 / 100)))]
      = _
    rw [lo ⟨0, 0, -1⟩ ⟨-1, 0, 0⟩ ⟨0, 1, 0⟩ (by decide) (by decide) (by decide) (by decide),
      lo ⟨-1, 0, -1⟩ ⟨-1, 0, 0⟩ ⟨0, 1, 0⟩ (by decide) (by decide) (by decide) (by decide),
      hi ⟨-1, 1, -1⟩ ⟨-1, 0, 0⟩ ⟨0, 1, 0⟩ (by decide) (by decide) (by decide) (by decide),
      hi ⟨0, 1, -1⟩ ⟨-1, 0, 0⟩ ⟨0, 1, 0⟩ (by decide) (by decide) (by decide) (by decide),
      compress_grey (1 / 2) (75 / 100) 95 (by norm_num) (by norm_num) (by norm_num),
      compress_grey 1 (75 / 100) 191 (by norm_num) (by norm_num) (by norm_num)]
  have py : (shadedQuad sc 0 0 0 tf b states .py).vertices.map
      (fun p => Cell.bits (compress p.light))
      = [Cell.bits (packGrey 255), Cell.bits (packGrey 255), Cell.bits (packGrey 255),
         Cell.bits (packGrey 255)] := by
    refine (litQuad_lights sc _ _ _ _ _ _ _).trans ?_
    show [Cell.bits (compress (softLight sc ⟨0, 1, 0⟩ ⟨1, 0, 0⟩ ⟨0, 0, -1⟩ * vec4.splat 1)),
      Cell.bits (compress (softLight sc ⟨1, 1, 0⟩ ⟨1, 0, 0⟩ ⟨0, 0, -1⟩ * vec4.splat 1)),
      Cell.bits (compress (softLight sc ⟨1, 1, -1⟩ ⟨1, 0, 0⟩ ⟨0, 0, -1⟩ * vec4.splat 1)),
      Cell.bits (compress (softLight sc ⟨0, 1, -1⟩ ⟨1, 0, 0⟩ ⟨0, 0, -1⟩ * vec4.splat 1))]
      = _
    rw [hi ⟨0, 1, 0⟩ ⟨1, 0, 0⟩ ⟨0, 0, -1⟩ (by decide) (by decide) (by decide) (by decide),
      hi ⟨1, 1, 0⟩ ⟨1, 0, 0⟩ ⟨0, 0, -1⟩ (by decide) (by decide) (by decide) (by decide),
      hi ⟨1, 1, -1⟩ ⟨1, 0, 0⟩ ⟨0, 0, -1⟩ (by decide) (by decide) (by decide) (by decide),
      hi ⟨0, 1, -1⟩ ⟨1, 0, 0⟩ ⟨0, 0, -1⟩ (by decide) (by decide) (by decide) (by decide),
      compress_grey 1 1 255 (by norm_num) (by norm_num) (by norm_num)]
  have px : (shadedQuad sc 0 0 0 tf b states .px).vertices.map
      (fun p => Cell.bits (compress p.light))
      = [Cell.bits (packGrey 102), Cell.bits (packGrey 102), Cell.bits (packGrey 204),
         Cell.bits (packGrey 204)] := by
    refine (litQuad_lights sc _ _ _ _ _ _ _).trans ?_
    show [Cell.bits (compress (softLight sc ⟨1, 0, 0⟩ ⟨0, 0, -1⟩ ⟨0, 1, 0⟩ * vec4.splat (8 / 10))),
      Cell.bits (compress (softLight sc ⟨1, 0, -1⟩ ⟨0, 0, -1⟩ ⟨0, 1, 0⟩ * vec4.splat (8 / 10))),
      Cell.bits (compress (softLight sc ⟨1, 1, -1⟩ ⟨0, 0, -1⟩ ⟨0, 1, 0⟩ * vec4.splat (8 / 10))),
      Cell.bits (compress (softLight sc ⟨1, 1, 0⟩ ⟨0, 0, -1⟩ ⟨0, 1, 0⟩ * vec4.splat (8 / 10)))]
      = _
    rw [lo ⟨1, 0, 0⟩ ⟨0, 0, -1⟩ ⟨0, 1, 0⟩ (by decide) (by decide) (by decide) (by decide),
      lo ⟨1, 0, -1⟩ ⟨0, 0, -1⟩ ⟨0, 1, 0⟩ (by decide) (by decide) (by decide) (by decide),
      hi ⟨1, 1, -1⟩ ⟨0, 0, -1⟩ ⟨0, 1, 0⟩ (by decide) (by decide) (by decide) (by decide),
      hi ⟨1, 1, 0⟩ ⟨0, 0, -1⟩ ⟨0, 1, 0⟩ (by decide) (by decide) (by decide) (by decide),
      compress_grey (1 / 2) (8 / 10) 102 (by norm_num) (by norm_num) (by norm_num),
      compress_grey 1 (8 / 10) 204 (by norm_num) (by norm_num) (by norm_num)]
  have nx : (shadedQuad sc 0 0 0 tf b states .nx).vertices.map
      (fun p => Cell.bits (compress p.light))
      = [Cell.bits (packGrey 89), Cell.bits (packGrey 89), Cell.bits (packGrey 178),
         Cell.bits (packGrey 178)] := by
    refine (litQuad_lights sc _ _ _ _ _ _ _).trans ?_
    show [Cell.bits (compress (softLight sc ⟨-1, 0, 0⟩ ⟨0, 0, 1⟩ ⟨0, 1, 0⟩ * vec4.splat (7 / 10))),
      Cell.bits (compress (softLight sc ⟨-1, 0, 1⟩ ⟨0, 0, 1⟩ ⟨0, 1, 0⟩ * vec4.splat (7 / 10))),
      Cell.bits (compress (softLight sc ⟨-1, 1, 1⟩ ⟨0, 0, 1⟩ ⟨0, 1, 0⟩ * vec4.splat (7 / 10))),
      Cell.bits (compress (softLight sc ⟨-1, 1, 0⟩ ⟨0, 0, 1⟩ ⟨0, 1, 0⟩ * vec4.splat (7 / 10)))]
      = _
    rw [lo ⟨-1, 0, 0⟩ ⟨0, 0, 1⟩ ⟨0, 1, 0⟩ (by decide) (by decide) (by decide) (by decide),
      lo ⟨-1, 0, 1⟩ ⟨0, 0, 1⟩ ⟨0, 1, 0⟩ (by decide) (by decide) (by decide) (by decide),
      hi ⟨-1, 1, 1⟩ ⟨0, 0, 1⟩ ⟨0, 1, 0⟩ (by decide) (by decide) (by decide) (by decide),
      hi ⟨-1, 1, 0⟩ ⟨0, 0, 1⟩ ⟨0, 1, 0⟩ (by decide) (by decide) (by decide) (by decide),
      compress_grey (1 / 2) (7 / 10) 89 (by norm_num) (by norm_num) (by norm_num),
      compress_grey 1 (7 / 10) 178 (by norm_num) (by norm_num) (by norm_num)]
  rw [lightCells_quadsCells]
  simp only [bottomCubeSides, List.map_cons, List.map_nil, List.flatMap_cons, List.flatMap_nil,
    pz, nz, py, px, nx, scenarioBytes, List.cons_append, List.nil_append, List.append_nil]

theorem cubeScene_fullLight : FullLight cubeScene 256 cubeLights := by
  intro x y z _ hne
  have e1 : cubeScene.chunk.x * (cubeScene.CHUNK_W : Int) + x = x := by
    show (0 : Int) * ((16 : Nat) : Int) + x = x
    simp
  have e2 : cubeScene.chunk.z * (cubeScene.CHUNK_D : Int) + z = z := by
    show (0 : Int) * ((16 : Nat) : Int) + z = z
    simp
  rw [e1, e2]
  unfold cubeLights
  rw [if_neg hne]

theorem lightCells_head (l : List Cell) (h : 6 ≤ l.length) : (lightCells l)[0]? = l[5]? := by
  match l, h with
  | _ :: _ :: _ :: _ :: _ :: f :: rest, _ => simp [lightCells]

/-- C18, as the code has it: in the scenario of one cube with full light
(15, 15, 15, 15) in every air cell in range, the packed lights of the 20 vertices of
the mesh have four equal bytes each, which are, face by face in the order +Z, -Z,
+Y, +X, -X: 114, 114, 229, 229; 95, 95, 191, 191; 255, 255, 255, 255;
102, 102, 204, 204; 89, 89, 178, 178.  Only the four vertices of the top face carry
the packed value of full light, `0xFFFFFFFF`; the side faces carry the sampled
light times the tint of the face (0.9, 0.75, 0.8, 0.7), and their two lower
vertices sample two cells below the window, whose light is zero. -/
theorem single_cube_lights (sc : Scene) (CHUNK_H : Nat)
    (ids lights : Int → Int → Int → Nat) (id states : Nat) (b air : Block)
    (hs : SingleCube sc CHUNK_H ids lights id states b air)
    (hlit : FullLight sc CHUNK_H lights)
    (r : BlocksRenderer) (hr : Sized r) (hroom : 120 ≤ r.capacity) :
    ∃ m r1, renderChunk sc r = some (m, r1) ∧ r1.overflow = false ∧ m.vertexCount = 20
      ∧ lightCells m.vertices = scenarioBytes.map (fun n => Cell.bits (packGrey n))
      ∧ ((lightCells m.vertices).drop 8).take 4 = List.replicate 4 (Cell.bits 0xFFFFFFFF)
      ∧ (∀ k, k < 20 → k < 8 ∨ 12 ≤ k →
          (lightCells m.vertices)[k]? ≠ some (Cell.bits 0xFFFFFFFF)) := by
  obtain ⟨m, r1, h1, h2, _, h4, _, h6, _⟩ :=
    singleCube_mesh sc CHUNK_H ids lights id states b air hs r hr hroom
  have hl : lightCells m.vertices = scenarioBytes.map (fun n => Cell.bits (packGrey n)) := by
    rw [h4]
    exact scenario_lights sc CHUNK_H ids lights id states b air hs hlit _
  refine ⟨m, r1, h1, h2, h6, hl, ?_, ?_⟩
  · rw [hl]
    decide
  · intro k hk hside
    rw [hl]
    interval_cases k <;> first | omega | decide

/-- Witness of C18 as amended: the chunk of 16 x 256 x 16 voxels with one stone cube
in full light, built with room for six faces. -/
theorem single_cube_lights_witness :
    ∃ m r1, renderChunk cubeScene (freshRenderer 144) = some (m, r1) ∧ r1.overflow = false
      ∧ m.vertexCount = 20
      ∧ lightCells m.vertices = scenarioBytes.map (fun n => Cell.bits (packGrey n)) :=
  have h := single_cube_lights cubeScene 256 cubeIds cubeLights 1 0 stoneBlock airBlock
    cubeScene_singleCube cubeScene_fullLight (freshRenderer 144) (Sized_freshRenderer 144)
    (by decide)
  ⟨h.choose, h.choose_spec.choose, h.choose_spec.choose_spec.1,
    h.choose_spec.choose_spec.2.1, h.choose_spec.choose_spec.2.2.1,
    h.choose_spec.choose_spec.2.2.2.1⟩

/-- Counterexample to C18 as stated: in the chunk with one stone cube in full light,
the first vertex of the mesh (a lower vertex of the +Z face) carries the packed light
`0x72727272`, all four bytes 114, not `0xFFFFFFFF`. -/
theorem single_cube_light_counterexample :
    ∃ m r1, renderChunk cubeScene (freshRenderer 144) = some (m, r1)
      ∧ m.vertices[5]? = some (Cell.bits 0x72727272)
      ∧ m.vertices[5]? ≠ some (Cell.bits 0xFFFFFFFF) := by
  obtain ⟨m, r1, h1, _, _, h4, _, _, _⟩ :=
    singleCube_mesh cubeScene 256 cubeIds cubeLights 1 0 stoneBlock airBlock
      cubeScene_singleCube (freshRenderer 144) (Sized_freshRenderer 144) (by decide)
  have hl : lightCells m.vertices = scenarioBytes.map (fun n => Cell.bits (packGrey n)) := by
    rw [h4]
    exact scenario_lights cubeScene 256 cubeIds cubeLights 1 0 stoneBlock airBlock
      cubeScene_singleCube cubeScene_fullLight _
  have hlen : 6 ≤ m.vertices.length := by
    rw [h4, quadsCells_length]
    decide
  have h5 : m.vertices[5]? = some (Cell.bits 0x72727272) := by
    rw [← lightCells_head m.vertices hlen, hl]
    decide
  refine ⟨m, r1, h1, h5, ?_⟩
  rw [h5]
  decide

theorem localCoords_nat (sc : Scene) (i : Nat) :
    localCoords sc i
      = (((i % sc.CHUNK_W : Nat) : Int), ((i / (sc.CHUNK_D * sc.CHUNK_W) : Nat) : Int),
          (((i / sc.CHUNK_D) % sc.CHUNK_W : Nat) : Int)) := by
  unfold localCoords
  simp only [Int.natCast_mod, Int.natCast_div, Nat.cast_mul]

theorem decode_encode (n x y z : Nat) (hx : x < n) (hz : z < n) :
    ((y * n + z) * n + x) % n = x
      ∧ ((y * n + z) * n + x) / (n * n) = y
      ∧ (((y * n + z) * n + x) / n) % n = z := by
  have hn : 0 < n := by omega
  refine ⟨?_, ?_, ?_⟩
  · rw [Nat.mul_comm, Nat.mul_add_mod]
    exact Nat.mod_eq_of_lt hx
  · have e : (y * n + z) * n + x = z * n + x + (n * n) * y := by ring
    rw [e, Nat.add_mul_div_left _ _ (Nat.mul_pos hn hn)]
    have hlt : z * n + x < n * n := by
      calc z * n + x < z * n + n := by omega
        _ = (z + 1) * n := by ring
        _ ≤ n * n := Nat.mul_le_mul_right n hz
    rw [Nat.div_eq_of_lt hlt]
    omega
  · have e : (y * n + z) * n + x = x + n * (y * n + z) := by ring
    rw [e, Nat.add_mul_div_left _ _ hn, Nat.div_eq_of_lt hx, Nat.zero_add]
    rw [Nat.add_comm, Nat.mul_comm, Nat.add_mul_mod_self_left]
    exact Nat.mod_eq_of_lt hz

theorem encode_decode (n h i : Nat) (hi : i < n * n * h) :
    i % n < n ∧ i / (n * n) < h ∧ (i / n) % n < n
      ∧ (i / (n * n) * n + (i / n) % n) * n + i % n = i := by
  have hn : 0 < n := by
    rcases Nat.eq_zero_or_pos n with h0 | h0
    · subst h0
      simp at hi
    · exact h0
  refine ⟨Nat.mod_lt _ hn, ?_, Nat.mod_lt _ hn, ?_⟩
  · exact (Nat.div_lt_iff_lt_mul (Nat.mul_pos hn hn)).mpr (by rw [Nat.mul_comm]; exact hi)
  · have e1 : i / (n * n) = i / n / n := (Nat.div_div_eq_div_mul i n n).symm
    have e2 := Nat.div_add_mod (i / n) n
    have e3 := Nat.div_add_mod i n
    rw [e1]
    have : i / n / n * n + (i / n) % n = i / n := by
      rw [Nat.mul_comm]
      exact e2
    rw [this, Nat.mul_comm]
    exact e3

theorem renderVoxel_block (sc : Scene) (g : Nat) (r : BlocksRenderer) (i : Nat) (vox : voxel)
    (bdef : Block) (h1 : sc.chunk.voxels[i]? = some vox)
    (h2 : sc.blockDefsCache vox.id = some bdef) (h0 : vox.id ≠ 0) (hg : bdef.drawGroup = g)
    (hm : bdef.model = .block) (he : bdef.emissive = false) :
    renderVoxel sc g r i
      = (blockCubeShaded sc r (localCoords sc i).1 (localCoords sc i).2.1
          (localCoords sc i).2.2 (fun k => sc.getRegion vox.id k) bdef vox.states).bind
        fun r1 => if r1.overflow then some (.ret r1) else some (.next r1) := by
  unfold renderVoxel
  simp only [h1, h2, Option.bind_eq_bind, Option.some_bind]
  rw [if_neg (by simp [h0, hg])]
  simp only [hm, he]
  rfl

/-- C29: when `CHUNK_W = CHUNK_D`, the decoding `x = i % CHUNK_W`,
`y = i / (CHUNK_D * CHUNK_W)`, `z = (i / CHUNK_D) % CHUNK_W` that `render` applies to
the linear index returns `(x, y, z)` on `i = (y * CHUNK_D + z) * CHUNK_W + x` for every
local position in range, and every index below `CHUNK_W * CHUNK_D * CHUNK_H` decodes
to a position in range that encodes to it again; the decoded position is the one at
which `render` meshes the voxel. -/
theorem index_decoding_round_trip (sc : Scene) (CHUNK_H : Nat)
    (hwd : sc.CHUNK_W = sc.CHUNK_D) :
    (∀ x y z : Nat, x < sc.CHUNK_W → z < sc.CHUNK_D → y < CHUNK_H →
        localCoords sc (linearIndex sc x y z) = ((x : Int), (y : Int), (z : Int))
          ∧ linearIndex sc x y z < sc.CHUNK_W * sc.CHUNK_D * CHUNK_H)
      ∧ (∀ i, i < sc.CHUNK_W * sc.CHUNK_D * CHUNK_H →
          ∃ x y z : Nat, localCoords sc i = ((x : Int), (y : Int), (z : Int))
            ∧ x < sc.CHUNK_W ∧ y < CHUNK_H ∧ z < sc.CHUNK_D ∧ linearIndex sc x y z = i)
      ∧ (∀ (g : Nat) (r : BlocksRenderer) (i : Nat) (vox : voxel) (bdef : Block),
          sc.chunk.voxels[i]? = some vox → sc.blockDefsCache vox.id = some bdef →
          vox.id ≠ 0 → bdef.drawGroup = g → bdef.model = .block → bdef.emissive = false →
          renderVoxel sc g r i
            = (blockCubeShaded sc r (localCoords sc i).1 (localCoords sc i).2.1
                (localCoords sc i).2.2 (fun k => sc.getRegion vox.id k) bdef vox.states).bind
              fun r1 => if r1.overflow then some (.ret r1) else some (.next r1)) := by
  refine ⟨?_, ?_, fun g r i vox bdef => renderVoxel_block sc g r i vox bdef⟩
  · intro x y z hx hz hy
    rw [← hwd] at hz
    obtain ⟨a, b, c⟩ := decode_encode sc.CHUNK_W x y z hx hz
    constructor
    · rw [localCoords_nat]
      unfold linearIndex
      rw [← hwd, a, b, c]
    · unfold linearIndex
      rw [← hwd]
      have h1 : (y * sc.CHUNK_W + z) * sc.CHUNK_W + x
          < (y * sc.CHUNK_W + z) * sc.CHUNK_W + sc.CHUNK_W := by omega
      have h2 : (y * sc.CHUNK_W + z) * sc.CHUNK_W + sc.CHUNK_W
          = (y * sc.CHUNK_W + z + 1) * sc.CHUNK_W := by ring
      have h3 : y * sc.CHUNK_W + z + 1 ≤ (y + 1) * sc.CHUNK_W := by
        have : (y + 1) * sc.CHUNK_W = y * sc.CHUNK_W + sc.CHUNK_W := by ring
        omega
      have h4 : (y + 1) * sc.CHUNK_W ≤ CHUNK_H * sc.CHUNK_W := Nat.mul_le_mul_right _ hy
      calc (y * sc.CHUNK_W + z) * sc.CHUNK_W + x
          < (y * sc.CHUNK_W + z + 1) * sc.CHUNK_W := by omega
        _ ≤ (CHUNK_H * sc.CHUNK_W) * sc.CHUNK_W := Nat.mul_le_mul_right _ (le_trans h3 h4)
        _ = sc.CHUNK_W * sc.CHUNK_W * CHUNK_H := by ring
  · intro i hi
    rw [← hwd] at hi
    obtain ⟨a, b, c, d⟩ := encode_decode sc.CHUNK_W CHUNK_H i hi
    refine ⟨i % sc.CHUNK_W, i / (sc.CHUNK_W * sc.CHUNK_W), (i / sc.CHUNK_W) % sc.CHUNK_W,
      ?_, a, b, ?_, ?_⟩
    · rw [localCoords_nat, ← hwd]
    · rw [← hwd]; exact c
    · unfold linearIndex
      rw [← hwd]
      exact d

/-- Witness of C29: the 2 x 2 grid of the example scene with two levels. -/
theorem index_decoding_round_trip_witness :
    (exampleScene 0 0 []).CHUNK_W = (exampleScene 0 0 []).CHUNK_D
      ∧ (∀ x y z : Nat, x < 2 → z < 2 → y < 2 →
        localCoords (exampleScene 0 0 []) (linearIndex (exampleScene 0 0 []) x y z)
          = ((x : Int), (y : Int), (z : Int))
          ∧ linearIndex (exampleScene 0 0 []) x y z < 2 * 2 * 2) :=
  ⟨rfl, (index_decoding_round_trip (exampleScene 0 0 []) 2 rfl).1⟩

theorem combine_eq (r g b s : Nat) (hr : r ≤ 15) (hg : g ≤ 15) (hb : b ≤ 15) :
    Lightmap.combine r g b s = r + 16 * g + 256 * b + 4096 * s := by
  unfold Lightmap.combine
  simp only [Nat.shiftLeft_eq]
  have e1 : r ||| g * 2 ^ 4 = 2 ^ 4 * g + r := by
    rw [Nat.lor_comm, Nat.mul_comm]
    exact (Nat.mul_add_lt_is_or (by omega) g).symm
  have e2 : (2 ^ 4 * g + r) ||| b * 2 ^ 8 = 2 ^ 8 * b + (2 ^ 4 * g + r) := by
    rw [Nat.lor_comm, Nat.mul_comm]
    exact (Nat.mul_add_lt_is_or (by omega) b).symm
  have e3 : (2 ^ 8 * b + (2 ^ 4 * g + r)) ||| s * 2 ^ 12
      = 2 ^ 12 * s + (2 ^ 8 * b + (2 ^ 4 * g + r)) := by
    rw [Nat.lor_comm, Nat.mul_comm]
    exact (Nat.mul_add_lt_is_or (by omega) s).symm
  rw [e1, e2, e3]
  omega

theorem extract_eq (light channel : Nat) :
    Lightmap.extract light channel = light / 2 ^ (channel * 4) % 16 := by
  unfold Lightmap.extract
  rw [Nat.shiftRight_eq_div_pow]
  exact Nat.and_pow_two_sub_one_eq_mod _ 4

/-- C24: for all `r, g, b, sun` in `0..15`, decoding channel 0, 1, 2 or 3 of the value
that encodes `(r, g, b, sun)` returns `r`, `g`, `b` or `sun`: no channel is corrupted by
another; and `pickLight` on an open cell that holds the encoded value returns the
four channels divided by 15. -/
theorem light_codec_round_trip (r g b sun : Nat) (hr : r ≤ 15) (hg : g ≤ 15) (hb : b ≤ 15)
    (hs : sun ≤ 15) :
    Lightmap.extract (Lightmap.combine r g b sun) 0 = r
      ∧ Lightmap.extract (Lightmap.combine r g b sun) 1 = g
      ∧ Lightmap.extract (Lightmap.combine r g b sun) 2 = b
      ∧ Lightmap.extract (Lightmap.combine r g b sun) 3 = sun
      ∧ (∀ c, c < 4 → Lightmap.extract (Lightmap.combine r g b sun) c = [r, g, b, sun].getD c 0)
      ∧ lightOf (Lightmap.combine r g b sun)
          = ⟨(r : ℚ) / 15, (g : ℚ) / 15, (b : ℚ) / 15, (sun : ℚ) / 15⟩ := by
  have e := combine_eq r g b sun hr hg hb
  have h0 : Lightmap.extract (Lightmap.combine r g b sun) 0 = r := by
    rw [extract_eq, e]
    norm_num
    omega
  have h1 : Lightmap.extract (Lightmap.combine r g b sun) 1 = g := by
    rw [extract_eq, e]
    norm_num
    omega
  have h2 : Lightmap.extract (Lightmap.combine r g b sun) 2 = b := by
    rw [extract_eq, e]
    norm_num
    omega
  have h3 : Lightmap.extract (Lightmap.combine r g b sun) 3 = sun := by
    rw [extract_eq, e]
    norm_num
    omega
  refine ⟨h0, h1, h2, h3, ?_, ?_⟩
  · intro c hc
    interval_cases c
    · simpa using h0
    · simpa using h1
    · simpa using h2
    · simpa using h3
  · unfold lightOf
    rw [h0, h1, h2, h3]

/-- Witness of C24: the value that encodes `(1, 2, 3, 15)`. -/
theorem light_codec_round_trip_witness :
    Lightmap.extract (Lightmap.combine 1 2 3 15) 0 = 1
      ∧ Lightmap.extract (Lightmap.combine 1 2 3 15) 1 = 2
      ∧ Lightmap.extract (Lightmap.combine 1 2 3 15) 2 = 3
      ∧ Lightmap.extract (Lightmap.combine 1 2 3 15) 3 = 15 :=
  have h := light_codec_round_trip 1 2 3 15 (by decide) (by decide) (by decide) (by decide)
  ⟨h.1, h.2.1, h.2.2.1, h.2.2.2.1⟩

theorem mesh_eq (m1 m2 : Mesh) (h1 : m1.vertices = m2.vertices)
    (h2 : m1.vertexCount = m2.vertexCount) (h3 : m1.indices = m2.indices)
    (h4 : m1.indexCount = m2.indexCount) : m1 = m2 := by
  cases m1
  cases m2
  simp only [Mesh.mk.injEq]
  exact ⟨h1, h2, h3, h4⟩

theorem renderChunk_sized (sc : Scene) (hd : WindowDefined sc) (hc : ChunkDefined sc)
    (r : BlocksRenderer) (hs : Sized r) :
    ∃ m r1, renderChunk sc r = some (m, r1) ∧ Sized r1 ∧ r1.capacity = r.capacity := by
  refine ⟨_, _, renderChunk_eq sc hd hc r hs, ?_, ?_⟩
  · have hw := WF_emitAll (reset r) (renderQuads sc) (Inv_reset r hs).wf
    exact ⟨hw.vlen, hw.ilen⟩
  · exact (renderChunk_spec sc r hs).2.2.2.2.2.2

theorem renderChunk_capacity_only (sc : Scene) (hd : WindowDefined sc) (hc : ChunkDefined sc)
    (r1 r2 : BlocksRenderer) (hs1 : Sized r1) (hs2 : Sized r2)
    (hcap : r1.capacity = r2.capacity) :
    ∃ m q1 q2, renderChunk sc r1 = some (m, q1) ∧ renderChunk sc r2 = some (m, q2)
      ∧ q1.overflow = q2.overflow ∧ q1.vertexOffset = q2.vertexOffset
      ∧ q1.indexSize = q2.indexSize ∧ q1.indexOffset = q2.indexOffset := by
  obtain ⟨a1, a2, a3, a4, a5, a6, _⟩ := renderChunk_spec sc r1 hs1
  obtain ⟨b1, b2, b3, b4, b5, b6, _⟩ := renderChunk_spec sc r2 hs2
  have w1 := WF_emitAll (reset r1) (renderQuads sc) (Inv_reset r1 hs1).wf
  have w2 := WF_emitAll (reset r2) (renderQuads sc) (Inv_reset r2 hs2).wf
  have hf : faceCount (emitAll (reset r1) (renderQuads sc))
      = faceCount (emitAll (reset r2) (renderQuads sc)) := by
    rw [a3, b3, hcap]
  have hm : meshOf (emitAll (reset r1) (renderQuads sc))
      = meshOf (emitAll (reset r2) (renderQuads sc)) := by
    apply mesh_eq
    · rw [a1, b1, hcap]
    · rw [a4, b4, hf]
    · rw [a2, b2, hcap]
    · rw [a5, b5, hf]
  refine ⟨meshOf (emitAll (reset r1) (renderQuads sc)), emitAll (reset r1) (renderQuads sc),
    emitAll (reset r2) (renderQuads sc), renderChunk_eq sc hd hc r1 hs1, ?_, ?_, ?_, ?_, ?_⟩
  · rw [hm]
    exact renderChunk_eq sc hd hc r2 hs2
  · rw [a6, b6, hcap]
  · rw [w1.voff, w2.voff, hf]
  · rw [w1.isz, w2.isz, hf]
  · rw [w1.ioff, w2.ioff, hf]

/-- C28: `render(chunk, ...)` resets the overflow flag and the three counters before
meshing, so that the mesh it returns and the final overflow flag depend on the
renderer only through its capacity: the build of chunk B on the renderer that a
build of chunk A left behind, overflowed or not, returns the same mesh (vertex count,
index count, floats and indices) and the same flag and counters as the build of B on
a fresh renderer of the same capacity. -/
theorem reuse_does_not_leak (scA scB : Scene) (hdA : WindowDefined scA)
    (hcA : ChunkDefined scA) (hdB : WindowDefined scB) (hcB : ChunkDefined scB)
    (r : BlocksRenderer) (hs : Sized r) :
    ∃ mA rA mB rB rF, renderChunk scA r = some (mA, rA)
      ∧ renderChunk scB rA = some (mB, rB)
      ∧ renderChunk scB (freshRenderer r.capacity) = some (mB, rF)
      ∧ rB.overflow = rF.overflow ∧ rB.vertexOffset = rF.vertexOffset
      ∧ rB.indexSize = rF.indexSize ∧ rB.indexOffset = rF.indexOffset
      ∧ (∀ r1 r2 : BlocksRenderer, Sized r1 → Sized r2 → r1.capacity = r2.capacity →
          ∃ m q1 q2, renderChunk scB r1 = some (m, q1) ∧ renderChunk scB r2 = some (m, q2)
            ∧ q1.overflow = q2.overflow) := by
  obtain ⟨mA, rA, hA, hsA, hcapA⟩ := renderChunk_sized scA hdA hcA r hs
  have hcap : rA.capacity = (freshRenderer r.capacity).capacity := by
    rw [hcapA]
    rfl
  obtain ⟨m, q1, q2, e1, e2, e3, e4, e5, e6⟩ :=
    renderChunk_capacity_only scB hdB hcB rA (freshRenderer r.capacity) hsA
      (Sized_freshRenderer _) hcap
  refine ⟨mA, rA, m, q1, q2, hA, e1, e2, e3, e4, e5, e6, ?_⟩
  intro r1 r2 h1 h2 h12
  obtain ⟨m', p1, p2, f1, f2, f3, _⟩ := renderChunk_capacity_only scB hdB hcB r1 r2 h1 h2 h12
  exact ⟨m', p1, p2, f1, f2, f3⟩

/-- Witness of C28: a build of a chunk with a stone and a water cube that overflows
a buffer of 24 floats, followed by the build of a chunk with one stone cube. -/
theorem reuse_does_not_leak_witness :
    ∃ mA rA mB rB rF,
      renderChunk (exampleScene 0 0 [⟨2, 0⟩, ⟨1, 0⟩, ⟨0, 0⟩, ⟨0, 0⟩]) (freshRenderer 24)
        = some (mA, rA)
      ∧ renderChunk (exampleScene 0 0 [⟨1, 0⟩, ⟨0, 0⟩, ⟨0, 0⟩, ⟨0, 0⟩]) rA = some (mB, rB)
      ∧ renderChunk (exampleScene 0 0 [⟨1, 0⟩, ⟨0, 0⟩, ⟨0, 0⟩, ⟨0, 0⟩])
          (freshRenderer (freshRenderer 24).capacity) = some (mB, rF)
      ∧ rB.overflow = rF.overflow :=
  have h := reuse_does_not_leak (exampleScene 0 0 [⟨2, 0⟩, ⟨1, 0⟩, ⟨0, 0⟩, ⟨0, 0⟩])
    (exampleScene 0 0 [⟨1, 0⟩, ⟨0, 0⟩, ⟨0, 0⟩, ⟨0, 0⟩])
    (exampleScene_windowDefined 0 0 _ (Or.inr (by decide)))
    (exampleScene_chunkDefined 0 0 _ rfl (by decide))
    (exampleScene_windowDefined 0 0 _ (Or.inr (by decide)))
    (exampleScene_chunkDefined 0 0 _ rfl (by decide))
    (freshRenderer 24) (Sized_freshRenderer 24)
  ⟨h.choose, h.choose_spec.choose, h.choose_spec.choose_spec.choose,
    h.choose_spec.choose_spec.choose_spec.choose,
    h.choose_spec.choose_spec.choose_spec.choose_spec.choose,
    h.choose_spec.choose_spec.choose_spec.choose_spec.choose_spec.1,
    h.choose_spec.choose_spec.choose_spec.choose_spec.choose_spec.2.1,
    h.choose_spec.choose_spec.choose_spec.choose_spec.choose_spec.2.2.1,
    h.choose_spec.choose_spec.choose_spec.choose_spec.choose_spec.2.2.2.1⟩

theorem FaceCall_run_eq (sc : Scene) (hd : WindowDefined sc) (r : BlocksRenderer)
    (hw : WF r) (c : FaceCall) : c.run sc r = some (emit r (c.quad sc)) := by
  cases c with
  | tinted coord w h axisX axisY region lights tint =>
    exact face_eq r coord w h axisX axisY region lights tint hw
  | untinted coord w h axisX axisY region lights =>
    exact faceUntinted_eq r coord w h axisX axisY region lights hw
  | rotated coord w h axisX axisY region lights tint rot =>
    exact faceRotated_eq r coord w h axisX axisY region lights tint rot hw
  | lit coord axisX axisY axisZ region tint rot =>
    exact faceLit_eq sc hd r coord axisX axisY axisZ region tint rot hw

theorem runCalls_eq (sc : Scene) (hd : WindowDefined sc) (calls : List FaceCall)
    (r : BlocksRenderer) (hw : WF r) :
    runCalls sc calls r = some (emitAll r (calls.map (FaceCall.quad sc))) := by
  induction calls generalizing r with
  | nil => rfl
  | cons c rest ih =>
    unfold runCalls
    rw [FaceCall_run_eq sc hd r hw c, Option.some_bind, ih (emit r (c.quad sc)) (WF_emit r _ hw)]
    rfl

theorem store_isSome {α : Type} (buf : List α) (i : Nat) (v : α) :
    (store buf i v).isSome = true ↔ i < buf.length := by
  unfold store
  split <;> simp [*]

/-- C27: for every capacity and every sequence of calls of `face` after the reset
that starts a build, no store leaves the two arrays of `capacity` elements (a store
outside an array would make the run undefined); after the `n` faces that found room
`vertexOffset = 24 * n`, `indexSize = 6 * n` and `indexOffset = 4 * n` with
`24 * n <= capacity`, where `n` is the smaller of `capacity / 24` and the number of
calls; the arrays keep their length. -/
theorem buffer_safety (sc : Scene) (hd : WindowDefined sc) (r : BlocksRenderer)
    (hs : Sized r) (calls : List FaceCall) :
    (∃ r1, runCalls sc calls (reset r) = some r1
        ∧ r1.vertexBuffer.length = r.capacity ∧ r1.indexBuffer.length = r.capacity
        ∧ r1.capacity = r.capacity
        ∧ faceCount r1 = min (r.capacity / 24) calls.length
        ∧ r1.vertexOffset = 24 * faceCount r1 ∧ r1.indexSize = 6 * faceCount r1
        ∧ r1.indexOffset = 4 * faceCount r1
        ∧ 24 * faceCount r1 ≤ r.capacity ∧ r1.vertexOffset ≤ r1.vertexBuffer.length
        ∧ r1.indexSize ≤ r1.indexBuffer.length
        ∧ (r1.overflow = true ↔ r.capacity / 24 < calls.length))
      ∧ (∀ (buf : List Cell) (i : Nat) (v : Cell),
          (store buf i v).isSome = true ↔ i < buf.length)
      ∧ (∀ (buf : List Nat) (i : Nat) (v : Nat),
          (store buf i v).isSome = true ↔ i < buf.length) := by
  refine ⟨?_, fun buf i v => store_isSome buf i v, fun buf i v => store_isSome buf i v⟩
  have hi := Inv_reset r hs
  have hw := WF_emitAll (reset r) (calls.map (FaceCall.quad sc)) hi.wf
  obtain ⟨_, _, e3, e4, e5⟩ :=
    emitAll_spec (calls.map (FaceCall.quad sc)) (reset r) hi rfl
  have hroom : roomFaces (reset r) = r.capacity / 24 := by
    simp [roomFaces, reset]
  have hf0 : faceCount (reset r) = 0 := by
    simp [faceCount, reset]
  have hcap : (emitAll (reset r) (calls.map (FaceCall.quad sc))).capacity = r.capacity := e5
  have hf : faceCount (emitAll (reset r) (calls.map (FaceCall.quad sc)))
      = min (r.capacity / 24) calls.length := by
    rw [e3, hf0, hroom, List.length_map]
    omega
  have hle : 24 * faceCount (emitAll (reset r) (calls.map (FaceCall.quad sc))) ≤ r.capacity := by
    rw [hf]
    have := Nat.div_mul_le_self r.capacity 24
    have h2 : min (r.capacity / 24) calls.length ≤ r.capacity / 24 := Nat.min_le_left _ _
    omega
  refine ⟨_, runCalls_eq sc hd calls (reset r) hi.wf, ?_, ?_, hcap, hf, hw.voff, hw.isz,
    hw.ioff, hle, ?_, ?_, ?_⟩
  · rw [hw.vlen, hcap]
  · rw [hw.ilen, hcap]
  · rw [hw.vlen, hcap, hw.voff]
    exact hle
  · rw [hw.ilen, hcap, hw.isz]
    omega
  · rw [e4, hroom, List.length_map]
    simp

/-- Witness of C27: three calls of `face` on a buffer of 30 floats, which has room
for one face. -/
theorem buffer_safety_witness :
    ∃ r1, runCalls (exampleScene 0 0 [])
        [.lit ⟨0, 0, 0⟩ ⟨1, 0, 0⟩ ⟨0, 1, 0⟩ ⟨0, 0, 1⟩ ⟨0, 0, 1, 1⟩ (vec4.splat 1) false,
         .untinted ⟨0, 0, 0⟩ 1 1 ⟨1, 0, 0⟩ ⟨0, 1, 0⟩ ⟨0, 0, 1, 1⟩ fullLights,
         .rotated ⟨0, 0, 0⟩ 1 1 ⟨1, 0, 0⟩ ⟨0, 1, 0⟩ ⟨0, 0, 1, 1⟩ fullLights (vec4.splat 1) true]
        (reset (freshRenderer 30)) = some r1
      ∧ r1.vertexBuffer.length = (freshRenderer 30).capacity
      ∧ r1.indexBuffer.length = (freshRenderer 30).capacity
      ∧ r1.capacity = (freshRenderer 30).capacity
      ∧ faceCount r1 = min ((freshRenderer 30).capacity / 24) 3 :=
  have h := (buffer_safety (exampleScene 0 0 [])
    (exampleScene_windowDefined 0 0 [] (Or.inr (by decide))) (freshRenderer 30)
    (Sized_freshRenderer 30)
    [.lit ⟨0, 0, 0⟩ ⟨1, 0, 0⟩ ⟨0, 1, 0⟩ ⟨0, 0, 1⟩ ⟨0, 0, 1, 1⟩ (vec4.splat 1) false,
     .untinted ⟨0, 0, 0⟩ 1 1 ⟨1, 0, 0⟩ ⟨0, 1, 0⟩ ⟨0, 0, 1, 1⟩ fullLights,
     .rotated ⟨0, 0, 0⟩ 1 1 ⟨1, 0, 0⟩ ⟨0, 1, 0⟩ ⟨0, 0, 1, 1⟩ fullLights (vec4.splat 1)
       true]).1
  ⟨h.choose, h.choose_spec.1, h.choose_spec.2.1, h.choose_spec.2.2.1,
    h.choose_spec.2.2.2.1, h.choose_spec.2.2.2.2.1⟩

theorem signedByte_bounds (n : Int) : -128 ≤ Int.bmod n 256 ∧ Int.bmod n 256 ≤ 127 := by
  have h1 := Int.le_bmod (x := n) (m := 256) (by decide)
  have h2 := Int.bmod_lt (x := n) (m := 256) (by decide)
  constructor
  · simpa using h1
  · have : Int.bmod n 256 < 128 := by simpa using h2
    omega

theorem jitter_component_bounds (b : Int) (spread : ℚ) (h1 : -128 ≤ b) (h2 : b ≤ 127) :
    |(b : ℚ) / 512 * spread| ≤ 1 / 4 * |spread|
      ∧ (0 < spread → -(1 / 4) * spread ≤ (b : ℚ) / 512 * spread
          ∧ (b : ℚ) / 512 * spread < 1 / 4 * spread) := by
  have hb1 : (-128 : ℚ) ≤ (b : ℚ) := by exact_mod_cast h1
  have hb2 : (b : ℚ) ≤ 127 := by exact_mod_cast h2
  constructor
  · rw [abs_mul]
    apply mul_le_mul_of_nonneg_right _ (abs_nonneg _)
    rw [abs_le]
    constructor <;> linarith
  · intro hs
    constructor
    · have : -(1 / 4 : ℚ) ≤ (b : ℚ) / 512 := by linarith
      exact mul_le_mul_of_nonneg_right this (le_of_lt hs)
    · have : (b : ℚ) / 512 < 1 / 4 := by linarith
      exact mul_lt_mul_of_pos_right this hs

theorem xspriteQuads_origins (sc : Scene) (x y z : Int) (size : vec3)
    (texface1 texface2 : UVRegion) (spread : ℚ) :
    (xspriteQuads sc x y z size texface1 texface2 spread).map (fun q => q.v0.coord)
      = [⟨x + (xspriteJitter x y z spread).1 + (1 - size.x / (141 / 100)) * (1 / 2), y,
            z + (xspriteJitter x y z spread).2 - 1 + (1 - size.x / (141 / 100)) * (1 / 2)⟩,
         ⟨x + (xspriteJitter x y z spread).1 - (1 - size.x / (141 / 100)) * (1 / 2) + 1, y,
            z + (xspriteJitter x y z spread).2 - (1 - size.x / (141 / 100)) * (1 / 2)⟩,
         ⟨x + (xspriteJitter x y z spread).1 + (1 - size.x / (141 / 100)) * (1 / 2), y,
            z + (xspriteJitter x y z spread).2 - (1 - size.x / (141 / 100)) * (1 / 2)⟩,
         ⟨x + (xspriteJitter x y z spread).1 - (1 - size.x / (141 / 100)) * (1 / 2) + 1, y,
            z + (xspriteJitter x y z spread).2 + (1 - size.x / (141 / 100)) * (1 / 2) - 1⟩] := by
  simp only [xspriteQuads, xspriteJitter, xspriteRand, faceQuad, List.map_cons, List.map_nil]

theorem xspriteQuads_positions (sc sc2 : Scene) (x y z : Int) (size : vec3)
    (texface1 texface2 : UVRegion) (spread : ℚ) :
    (xspriteQuads sc2 x y z size texface1 texface2 spread).map
        (fun q => q.vertices.map (fun p => p.coord))
      = (xspriteQuads sc x y z size texface1 texface2 spread).map
        (fun q => q.vertices.map (fun p => p.coord)) := by
  simp only [xspriteQuads, faceQuad, Quad.vertices, List.map_cons, List.map_nil]

/-- C26: the offsets `xs` and `zs` of `blockXSprite` are computed from the voxel
coordinates and `spread` alone, as the signed low byte of
`rand = ((x * z + y) XOR (z * y - x)) * (z + y)` and of `rand >> 8`, over 512, times
`spread`; for a positive `spread` each lies in `[-0.25 * spread, 0.25 * spread)`; the
four faces of the voxel are placed with the same `(xs, zs)`, and the positions of
their vertices are the same in every scene. -/
theorem xsprite_jitter (sc : Scene) (hd : WindowDefined sc) (r : BlocksRenderer) (hw : WF r)
    (x y z : Int) (size : vec3) (texface1 texface2 : UVRegion) (spread : ℚ) :
    blockXSprite sc r x y z size texface1 texface2 spread
        = some (emitAll r (xspriteQuads sc x y z size texface1 texface2 spread))
      ∧ (xspriteQuads sc x y z size texface1 texface2 spread).map (fun q => q.v0.coord)
        = [⟨x + (xspriteJitter x y z spread).1 + (1 - size.x / (141 / 100)) * (1 / 2), y,
              z + (xspriteJitter x y z spread).2 - 1 + (1 - size.x / (141 / 100)) * (1 / 2)⟩,
           ⟨x + (xspriteJitter x y z spread).1 - (1 - size.x / (141 / 100)) * (1 / 2) + 1, y,
              z + (xspriteJitter x y z spread).2 - (1 - size.x / (141 / 100)) * (1 / 2)⟩,
           ⟨x + (xspriteJitter x y z spread).1 + (1 - size.x / (141 / 100)) * (1 / 2), y,
              z + (xspriteJitter x y z spread).2 - (1 - size.x / (141 / 100)) * (1 / 2)⟩,
           ⟨x + (xspriteJitter x y z spread).1 - (1 - size.x / (141 / 100)) * (1 / 2) + 1, y,
              z + (xspriteJitter x y z spread).2 + (1 - size.x / (141 / 100)) * (1 / 2) - 1⟩]
      ∧ (xspriteJitter x y z spread).1
          = ((Int.bmod (xspriteRand x y z) 256 : Int) : ℚ) / 512 * spread
      ∧ (xspriteJitter x y z spread).2
          = ((Int.bmod (xspriteRand x y z >>> 8) 256 : Int) : ℚ) / 512 * spread
      ∧ (-128 ≤ Int.bmod (xspriteRand x y z) 256 ∧ Int.bmod (xspriteRand x y z) 256 ≤ 127)
      ∧ (-128 ≤ Int.bmod (xspriteRand x y z >>> 8) 256
          ∧ Int.bmod (xspriteRand x y z >>> 8) 256 ≤ 127)
      ∧ |(xspriteJitter x y z spread).1| ≤ 1 / 4 * |spread|
      ∧ |(xspriteJitter x y z spread).2| ≤ 1 / 4 * |spread|
      ∧ (0 < spread →
          (-(1 / 4) * spread ≤ (xspriteJitter x y z spread).1
            ∧ (xspriteJitter x y z spread).1 < 1 / 4 * spread)
          ∧ (-(1 / 4) * spread ≤ (xspriteJitter x y z spread).2
            ∧ (xspriteJitter x y z spread).2 < 1 / 4 * spread))
      ∧ (∀ sc2 : Scene,
          (xspriteQuads sc2 x y z size texface1 texface2 spread).map
              (fun q => q.vertices.map (fun p => p.coord))
            = (xspriteQuads sc x y z size texface1 texface2 spread).map
              (fun q => q.vertices.map (fun p => p.coord))) := by
  have b1 := signedByte_bounds (xspriteRand x y z)
  have b2 := signedByte_bounds (xspriteRand x y z >>> 8)
  have j1 := jitter_component_bounds _ spread b1.1 b1.2
  have j2 := jitter_component_bounds _ spread b2.1 b2.2
  refine ⟨blockXSprite_eq sc hd r x y z size texface1 texface2 spread hw,
    xspriteQuads_origins sc x y z size texface1 texface2 spread, rfl, rfl,
    b1, b2, j1.1, j2.1, fun hs => ⟨j1.2 hs, j2.2 hs⟩,
    fun sc2 => xspriteQuads_positions sc sc2 x y z size texface1 texface2 spread⟩

/-- Witness of C26: the sprite at `(1, 0, 1)` in the example scene, with the
`spread` of the call in `render`. -/
theorem xsprite_jitter_witness :
    (xspriteJitter 1 0 1 1).1 = ((Int.bmod (xspriteRand 1 0 1) 256 : Int) : ℚ) / 512 * 1
      ∧ (0 < (1 : ℚ) →
          (-(1 / 4) * 1 ≤ (xspriteJitter 1 0 1 1).1 ∧ (xspriteJitter 1 0 1 1).1 < 1 / 4 * 1)
          ∧ (-(1 / 4) * 1 ≤ (xspriteJitter 1 0 1 1).2
            ∧ (xspriteJitter 1 0 1 1).2 < 1 / 4 * 1)) :=
  have h := xsprite_jitter (exampleScene 0 0 [])
    (exampleScene_windowDefined 0 0 [] (Or.inr (by decide))) (freshRenderer 144)
    (WF_freshRenderer 144) 1 0 1 ⟨1, 1, 1⟩ ⟨0, 0, 1, 1⟩ ⟨0, 0, 1, 1⟩ 1
  ⟨h.2.2.1, h.2.2.2.2.2.2.2.2.1⟩

theorem blockCubeShaded_congr (sc : Scene) (r : BlocksRenderer) (x y z : Int)
    (texfaces_ : Fin 6 → UVRegion) (block : Block) (s1 s2 : Nat)
    (h1 : shadedTexfaces sc block s1 texfaces_ = shadedTexfaces sc block s2 texfaces_)
    (h2 : shadedRot sc block s1 = shadedRot sc block s2) :
    blockCubeShaded sc r x y z texfaces_ block s1
      = blockCubeShaded sc r x y z texfaces_ block s2 := by
  unfold blockCubeShaded
  rw [h1, h2]

theorem shaded_state_tests (sc : Scene) (block : Block) (texfaces_ : Fin 6 → UVRegion)
    (s1 s2 : Nat) (hx : s1 = sc.BLOCK_DIR_X ↔ s2 = sc.BLOCK_DIR_X)
    (hy : s1 = sc.BLOCK_DIR_Y ↔ s2 = sc.BLOCK_DIR_Y)
    (hz : s1 = sc.BLOCK_DIR_Z ↔ s2 = sc.BLOCK_DIR_Z) :
    shadedTexfaces sc block s1 texfaces_ = shadedTexfaces sc block s2 texfaces_
      ∧ shadedRot sc block s1 = shadedRot sc block s2 := by
  have ex : (s1 = sc.BLOCK_DIR_X) = (s2 = sc.BLOCK_DIR_X) := propext hx
  have ey : (s1 = sc.BLOCK_DIR_Y) = (s2 = sc.BLOCK_DIR_Y) := propext hy
  have ez : (s1 = sc.BLOCK_DIR_Z) = (s2 = sc.BLOCK_DIR_Z) := propext hz
  unfold shadedTexfaces shadedRot
  simp only [ex, ey, ez]
  exact ⟨trivial, trivial⟩

/-- C23, as the code has it: `blockCubeShaded(int, ...)` reads the orientation by
comparing the whole state byte with `BLOCK_DIR_X`, `BLOCK_DIR_Y` and `BLOCK_DIR_Z`;
`BLOCK_ROT_MASK` is not applied.  Two state bytes that agree in these three
comparisons give the same UV-to-face assignment, the same rotated marks and the same
mesh; so do two state bytes below 16 with equal masked values, which are equal. -/
theorem orientation_by_state_comparison (sc : Scene) (r : BlocksRenderer) (x y z : Int)
    (texfaces_ : Fin 6 → UVRegion) (block : Block) (s1 s2 : Nat)
    (hx : s1 = sc.BLOCK_DIR_X ↔ s2 = sc.BLOCK_DIR_X)
    (hy : s1 = sc.BLOCK_DIR_Y ↔ s2 = sc.BLOCK_DIR_Y)
    (hz : s1 = sc.BLOCK_DIR_Z ↔ s2 = sc.BLOCK_DIR_Z) :
    shadedTexfaces sc block s1 texfaces_ = shadedTexfaces sc block s2 texfaces_
      ∧ shadedRot sc block s1 = shadedRot sc block s2
      ∧ blockCubeShaded sc r x y z texfaces_ block s1
        = blockCubeShaded sc r x y z texfaces_ block s2
      ∧ (∀ t1 t2 : Nat, t1 < 16 → t2 < 16 → t1 &&& BLOCK_ROT_MASK = t2 &&& BLOCK_ROT_MASK →
          blockCubeShaded sc r x y z texfaces_ block t1
            = blockCubeShaded sc r x y z texfaces_ block t2) := by
  obtain ⟨h1, h2⟩ := shaded_state_tests sc block texfaces_ s1 s2 hx hy hz
  refine ⟨h1, h2, blockCubeShaded_congr sc r x y z texfaces_ block s1 s2 h1 h2, ?_⟩
  intro t1 t2 l1 l2 hm
  have e1 : t1 &&& BLOCK_ROT_MASK = t1 := by
    have := Nat.and_pow_two_sub_one_eq_mod t1 4
    unfold BLOCK_ROT_MASK
    rw [show (0xF : Nat) = 2 ^ 4 - 1 from rfl, this]
    exact Nat.mod_eq_of_lt l1
  have e2 : t2 &&& BLOCK_ROT_MASK = t2 := by
    have := Nat.and_pow_two_sub_one_eq_mod t2 4
    unfold BLOCK_ROT_MASK
    rw [show (0xF : Nat) = 2 ^ 4 - 1 from rfl, this]
    exact Nat.mod_eq_of_lt l2
  rw [e1, e2] at hm
  rw [hm]

/-- Witness of C23 as amended: the states 0 and 16, neither of which is one of the
three directions of the example scene. -/
theorem orientation_by_state_comparison_witness :
    shadedTexfaces (exampleScene 0 0 []) { stoneBlock with rotatable := true } 0
        (fun k => ⟨k.val, 0, k.val + 1, 1⟩)
      = shadedTexfaces (exampleScene 0 0 []) { stoneBlock with rotatable := true } 16
        (fun k => ⟨k.val, 0, k.val + 1, 1⟩)
      ∧ shadedRot (exampleScene 0 0 []) { stoneBlock with rotatable := true } 0
        = shadedRot (exampleScene 0 0 []) { stoneBlock with rotatable := true } 16
      ∧ blockCubeShaded (exampleScene 0 0 []) (freshRenderer 144) 0 0 0
          (fun k => ⟨k.val, 0, k.val + 1, 1⟩) { stoneBlock with rotatable := true } 0
        = blockCubeShaded (exampleScene 0 0 []) (freshRenderer 144) 0 0 0
          (fun k => ⟨k.val, 0, k.val + 1, 1⟩) { stoneBlock with rotatable := true } 16 :=
  have h := orientation_by_state_comparison (exampleScene 0 0 []) (freshRenderer 144) 0 0 0
    (fun k => ⟨k.val, 0, k.val + 1, 1⟩) { stoneBlock with rotatable := true } 0 16
    (by decide) (by decide) (by decide)
  ⟨h.1, h.2.1, h.2.2.1⟩

theorem quadsCells_fourth (q : Quad) (rest : List Quad) :
    (quadsCells (q :: rest))[3]? = some (Cell.flt q.v0.u) := by
  simp [quadsCells, Quad.cells, Vtx.cells, vertexCells]

theorem shadedQuads_length_le (sc : Scene) (x y z : Int) (tf : Fin 6 → UVRegion)
    (block : Block) (states : Nat) : (shadedQuads sc x y z tf block states).length ≤ 6 := by
  unfold shadedQuads
  rw [List.length_map]
  exact List.length_filter_le _ _

theorem litQuad_first_u (sc : Scene) (coord axisX axisY axisZ : ivec3) (region : UVRegion)
    (tint : vec4) (rotated : Bool) :
    (litQuad sc coord axisX axisY axisZ region tint rotated).v0.u
      = if rotated then region.u2 else region.u1 := by
  cases rotated <;> rfl

/-- Counterexample to C23 as stated: in the example scene, where `BLOCK_DIR_X = 1`,
the state bytes 1 and 17 have the same four low bits, yet for a rotatable cube the
first is meshed as rotated about X (`rot = 1`, regions 0..3 exchanged) and the second
as unrotated, and the two meshes differ. -/
theorem orientation_mask_counterexample :
    (1 : Nat) &&& BLOCK_ROT_MASK = 17 &&& BLOCK_ROT_MASK
      ∧ shadedRot (exampleScene 0 0 []) { stoneBlock with rotatable := true } 1 = 1
      ∧ shadedRot (exampleScene 0 0 []) { stoneBlock with rotatable := true } 17 = 0
      ∧ shadedTexfaces (exampleScene 0 0 []) { stoneBlock with rotatable := true } 1
          (fun k => ⟨k.val, 0, k.val + 1, 1⟩) 0 = ⟨2, 0, 3, 1⟩
      ∧ shadedTexfaces (exampleScene 0 0 []) { stoneBlock with rotatable := true } 17
          (fun k => ⟨k.val, 0, k.val + 1, 1⟩) 0 = ⟨0, 0, 1, 1⟩
      ∧ blockCubeShaded (exampleScene 0 0 []) (freshRenderer 144) 0 0 0
          (fun k => ⟨k.val, 0, k.val + 1, 1⟩) { stoneBlock with rotatable := true } 1
        ≠ blockCubeShaded (exampleScene 0 0 []) (freshRenderer 144) 0 0 0
          (fun k => ⟨k.val, 0, k.val + 1, 1⟩) { stoneBlock with rotatable := true } 17 := by
  have hd := exampleScene_windowDefined 0 0 [] (Or.inr (by decide))
  have hw := WF_freshRenderer 144
  have hr1 : shadedRot (exampleScene 0 0 []) { stoneBlock with rotatable := true } 1 = 1 := rfl
  have hr2 : shadedRot (exampleScene 0 0 []) { stoneBlock with rotatable := true } 17 = 0 := rfl
  refine ⟨by decide, hr1, hr2, ?_, ?_, ?_⟩
  · simp only [shadedTexfaces, exampleScene, stoneBlock, if_true]
    norm_num [Function.update_apply, eq_false (show ¬ (0 : Fin 6) = 3 by decide),
      eq_false (show ¬ (0 : Fin 6) = 2 by decide)]
  · norm_num [shadedTexfaces, exampleScene, stoneBlock]
  · intro heq
    rw [blockCubeShaded_eq _ hd _ _ _ _ _ _ _ hw, blockCubeShaded_eq _ hd _ _ _ _ _ _ _ hw]
      at heq
    have heq2 := Option.some.inj heq
    have hpz : openSide (exampleScene 0 0 []) 0 0 0 stoneBlock.drawGroup .pz = true :=
      openSide_air _ hd 0 0 0 _ .pz rfl (by decide)
    have room : ∀ s, (freshRenderer 144).vertexOffset
        + 24 * (shadedQuads (exampleScene 0 0 []) 0 0 0 (fun k => ⟨k.val, 0, k.val + 1, 1⟩)
            { stoneBlock with rotatable := true } s).length
        ≤ (freshRenderer 144).capacity := by
      intro s
      have := shadedQuads_length_le (exampleScene 0 0 []) 0 0 0
        (fun k => ⟨k.val, 0, k.val + 1, 1⟩) { stoneBlock with rotatable := true } s
      show 0 + 24 * _ ≤ 144
      omega
    have w1 := (emitAll_room _ _ hw (room 1)).1
    have w2 := (emitAll_room _ _ hw (room 17)).1
    rw [heq2, w2] at w1
    have hc := List.append_cancel_left w1
    have split : ∀ s, shadedQuads (exampleScene 0 0 []) 0 0 0 (fun k => ⟨k.val, 0, k.val + 1, 1⟩)
        { stoneBlock with rotatable := true } s
        = shadedQuad (exampleScene 0 0 []) 0 0 0 (fun k => ⟨k.val, 0, k.val + 1, 1⟩)
            { stoneBlock with rotatable := true } s .pz
          :: (([Dir.nz, Dir.py, Dir.ny, Dir.px, Dir.nx].filter
              (openSide (exampleScene 0 0 []) 0 0 0 stoneBlock.drawGroup)).map
                (shadedQuad (exampleScene 0 0 []) 0 0 0 (fun k => ⟨k.val, 0, k.val + 1, 1⟩)
                  { stoneBlock with rotatable := true } s)) := by
      intro s
      unfold shadedQuads shadedOrder
      have e : ({ stoneBlock with rotatable := true } : Block).drawGroup
          = stoneBlock.drawGroup := rfl
      rw [e, List.filter_cons_of_pos hpz, List.map_cons]
    have c1 := quadsCells_fourth
      (shadedQuad (exampleScene 0 0 []) 0 0 0 (fun k => ⟨k.val, 0, k.val + 1, 1⟩)
        { stoneBlock with rotatable := true } 1 .pz)
      (([Dir.nz, Dir.py, Dir.ny, Dir.px, Dir.nx].filter
          (openSide (exampleScene 0 0 []) 0 0 0 stoneBlock.drawGroup)).map
            (shadedQuad (exampleScene 0 0 []) 0 0 0 (fun k => ⟨k.val, 0, k.val + 1, 1⟩)
              { stoneBlock with rotatable := true } 1))
    have c2 := quadsCells_fourth
      (shadedQuad (exampleScene 0 0 []) 0 0 0 (fun k => ⟨k.val, 0, k.val + 1, 1⟩)
        { stoneBlock with rotatable := true } 17 .pz)
      (([Dir.nz, Dir.py, Dir.ny, Dir.px, Dir.nx].filter
          (openSide (exampleScene 0 0 []) 0 0 0 stoneBlock.drawGroup)).map
            (shadedQuad (exampleScene 0 0 []) 0 0 0 (fun k => ⟨k.val, 0, k.val + 1, 1⟩)
              { stoneBlock with rotatable := true } 17))
    rw [← split 1] at c1
    rw [← split 17] at c2
    rw [hc, c1] at c2
    have hu := Cell.flt.inj (Option.some.inj c2)
    simp only [shadedQuad, litQuad_first_u, hr1, hr2] at hu
    simp only [shadedTexfaces, exampleScene, stoneBlock, if_true] at hu
    simp only [Function.update_apply, eq_false (show ¬ (5 : Fin 6) = 3 by decide),
      eq_false (show ¬ (5 : Fin 6) = 2 by decide), eq_false (show ¬ (5 : Fin 6) = 1 by decide),
      eq_false (show ¬ (5 : Fin 6) = 0 by decide), if_false] at hu
    have hu2 : ((5 : Nat) : ℚ) + 1 = ((5 : Nat) : ℚ) := hu
    norm_num at hu2

theorem litQuad_coords (sc : Scene) (coord axisX axisY axisZ : ivec3) (region : UVRegion)
    (tint : vec4) (rotated : Bool) :
    (litQuad sc coord axisX axisY axisZ region tint rotated).vertices.map (fun p => p.coord)
      = [vec3.ofInt coord, vec3.ofInt (coord + axisX), vec3.ofInt (coord + axisX + axisY),
         vec3.ofInt (coord + axisY)] := by
  cases rotated <;> rfl

theorem faceQuad_coords (coord : vec3) (w h : ℚ) (axisX axisY : vec3) (region : UVRegion)
    (lights : Fin 4 → vec4) (tint : vec4) :
    (faceQuad coord w h axisX axisY region lights tint).vertices.map (fun p => p.coord)
      = [coord, coord + axisX.scale w, coord + axisX.scale w + axisY.scale h,
         coord + axisY.scale h] := rfl

theorem vec3_add_def (p q : vec3) : p + q = ⟨p.x + q.x, p.y + q.y, p.z + q.z⟩ := rfl

theorem vec3_eq_iff (p q : vec3) : p = q ↔ p.x = q.x ∧ p.y = q.y ∧ p.z = q.z := by
  cases p
  cases q
  simp

theorem world_of_mesh (sc : Scene) (x y z : Int) (d : Dir) (p : vec3)
    (h : InMeshCell x y z p ∧ OnMeshSide x y z d p) :
    InWorldCell sc x y z (p + modelTranslation sc)
      ∧ OnWorldSide sc x y z d (p + modelTranslation sc) := by
  obtain ⟨⟨h1, h2, h3, h4, h5, h6⟩, hs⟩ := h
  constructor
  · simp only [InWorldCell, modelTranslation, vec3_add_def]
    refine ⟨by linarith, by linarith, by linarith, by linarith, by linarith, by linarith⟩
  · cases d <;> simp only [OnMeshSide] at hs <;>
      simp only [OnWorldSide, modelTranslation, vec3_add_def] <;> linarith

theorem shadedQuad_coords (sc : Scene) (x y z : Int) (tf : Fin 6 → UVRegion)
    (block : Block) (states : Nat) (d : Dir) :
    ((shadedQuad sc x y z tf block states d).vertices.map (fun p => p.coord)).Nodup
      ∧ ∀ p, p ∈ (shadedQuad sc x y z tf block states d).vertices.map (fun p => p.coord)
          ↔ p ∈ meshSideCorners x y z d := by
  cases d <;>
    simp only [shadedQuad, litQuad_coords, meshSideCorners, sideCorners, vec3.ofInt,
      ivec3_add_def, List.nodup_cons, List.mem_cons, List.mem_singleton, List.not_mem_nil,
      List.nodup_nil, vec3_eq_iff, or_false, not_false_eq_true, and_true] <;>
    push_cast <;>
    refine ⟨by norm_num <;> (intro h; linarith), fun p => by constructor <;> intro h <;> rcases h with h | h | h | h
       <;> obtain ⟨h1, h2, h3⟩ := h <;> simp only [h1, h2, h3] <;> norm_num [sub_eq_add_neg]⟩

theorem cubeQuad_coords (x y z : Int) (tf : Fin 6 → UVRegion) (d : Dir) :
    ((cubeQuad x y z ⟨1, 1, 1⟩ tf d).vertices.map (fun p => p.coord)).Nodup
      ∧ ∀ p, p ∈ (cubeQuad x y z ⟨1, 1, 1⟩ tf d).vertices.map (fun p => p.coord)
          ↔ p ∈ meshSideCorners x y z d := by
  cases d <;>
    simp only [cubeQuad, faceQuad_coords, meshSideCorners, sideCorners, vec3_add_def,
      vec3.scale, List.nodup_cons, List.mem_cons, List.mem_singleton, List.not_mem_nil,
      List.nodup_nil, vec3_eq_iff, or_false, not_false_eq_true, and_true] <;>
    refine ⟨by norm_num <;> (intro h; linarith), fun p => by constructor <;> intro h <;> rcases h with h | h | h | h
       <;> obtain ⟨h1, h2, h3⟩ := h <;> simp only [h1, h2, h3] <;> norm_num [sub_eq_add_neg]⟩

theorem meshSideCorners_placement (x y z : Int) (d : Dir) :
    ∀ p ∈ meshSideCorners x y z d, InMeshCell x y z p ∧ OnMeshSide x y z d p := by
  cases d <;>
    simp only [meshSideCorners, sideCorners, List.forall_mem_cons, List.not_mem_nil,
      IsEmpty.forall_iff, implies_true, and_true, InMeshCell, OnMeshSide] <;>
    norm_num

theorem worldSideCorners_eq (sc : Scene) (x y z : Int) (d : Dir) :
    (meshSideCorners x y z d).map (fun p => p + modelTranslation sc)
      = worldSideCorners sc x y z d := by
  cases d <;>
    simp only [meshSideCorners, worldSideCorners, sideCorners, modelTranslation, vec3_add_def,
      List.map_cons, List.map_nil, List.cons.injEq, vec3.mk.injEq, and_true] <;>
    refine ⟨⟨?_, ?_, ?_⟩, ⟨?_, ?_, ?_⟩, ⟨?_, ?_, ?_⟩, ⟨?_, ?_, ?_⟩⟩ <;> ring

theorem drawChunk_drawn (env : DrawEnv) (W D : Nat) (cs : Chunks) (index : Nat)
    (occlusion : Bool) (chunk : Chunk) (events : List DrawEvent)
    (hc : chunkAt cs index = some chunk)
    (h : drawChunk env W D cs index occlusion = some (true, events)) :
    events = [.getOrRender index, .uniformModel ⟨chunk.x * W, 0, chunk.z * D + 1⟩,
      .draw index] := by
  unfold drawChunk at h
  simp only [hc, Option.bind_eq_bind, Option.some_bind] at h
  cases hl : env.isLighted chunk
  · simp [hl] at h
  · cases hm : env.getOrRender chunk with
    | none => simp [hl, hm] at h
    | some m =>
      cases occlusion
      · simp [hl, hm] at h
        exact h.symm
      · cases hv : env.isBoxVisible ⟨chunk.x * W, chunk.bottom, chunk.z * D⟩
            ⟨chunk.x * W + W, chunk.top, chunk.z * D + D⟩
        · simp [hl, hm, hv] at h
        · simp [hl, hm, hv] at h
          exact h.symm

/-- C22: `blockCubeShaded(int, ...)` and `blockCube` hand to `face`, for the unit cube
at the local voxel `(x, y, z)`, exactly the faces of the sides whose neighbour is
open, in the order of the tests; with room in the buffer these are the floats they
append.  The four vertices of the face of side `d` are four different points, exactly
the four corners of side `d` of the box `[x, x + 1] x [y, y + 1] x [z - 1, z]`: they lie
in that box and in the plane of its side `d`.  `drawChunk`, when it draws the chunk,
hands to the shader the translation `(chunk.x * CHUNK_W, 0, chunk.z * CHUNK_D + 1)`,
which moves the corners of side `d` of the mesh box onto the corners of side `d` of
the world cell `[chunk.x * CHUNK_W + x, + 1] x [y, y + 1] x [chunk.z * CHUNK_D + z, + 1]`. -/
theorem world_placement (sc : Scene) (hd : WindowDefined sc) (r : BlocksRenderer)
    (hw : WF r) (x y z : Int) (texfaces : Fin 6 → UVRegion) (block : Block)
    (states group : Nat) :
    blockCubeShaded sc r x y z texfaces block states
        = some (emitAll r ((shadedOrder.filter (openSide sc x y z block.drawGroup)).map
            (shadedQuad sc x y z texfaces block states)))
      ∧ blockCube sc r x y z ⟨1, 1, 1⟩ texfaces group
        = some (emitAll r ((cubeOrder.filter (openSide sc x y z group)).map
            (cubeQuad x y z ⟨1, 1, 1⟩ texfaces)))
      ∧ (r.vertexOffset + 24 * (shadedOrder.filter (openSide sc x y z block.drawGroup)).length
            ≤ r.capacity →
          ∃ r1, blockCubeShaded sc r x y z texfaces block states = some r1
            ∧ written r1 = written r ++ quadsCells
              ((shadedOrder.filter (openSide sc x y z block.drawGroup)).map
                (shadedQuad sc x y z texfaces block states)))
      ∧ (r.vertexOffset + 24 * (cubeOrder.filter (openSide sc x y z group)).length
            ≤ r.capacity →
          ∃ r1, blockCube sc r x y z ⟨1, 1, 1⟩ texfaces group = some r1
            ∧ written r1 = written r ++ quadsCells
              ((cubeOrder.filter (openSide sc x y z group)).map
                (cubeQuad x y z ⟨1, 1, 1⟩ texfaces)))
      ∧ (∀ d, ((shadedQuad sc x y z texfaces block states d).vertices.map
              (fun p => p.coord)).Nodup
          ∧ (∀ p, p ∈ (shadedQuad sc x y z texfaces block states d).vertices.map
              (fun p => p.coord) ↔ p ∈ meshSideCorners x y z d)
          ∧ ((cubeQuad x y z ⟨1, 1, 1⟩ texfaces d).vertices.map (fun p => p.coord)).Nodup
          ∧ (∀ p, p ∈ (cubeQuad x y z ⟨1, 1, 1⟩ texfaces d).vertices.map (fun p => p.coord)
              ↔ p ∈ meshSideCorners x y z d)
          ∧ (∀ p ∈ meshSideCorners x y z d,
              InMeshCell x y z p ∧ OnMeshSide x y z d p
                ∧ InWorldCell sc x y z (p + modelTranslation sc)
                ∧ OnWorldSide sc x y z d (p + modelTranslation sc))
          ∧ (meshSideCorners x y z d).map (fun p => p + modelTranslation sc)
              = worldSideCorners sc x y z d)
      ∧ (∀ (env : DrawEnv) (cs : Chunks) (index : Nat) (occlusion : Bool)
            (events : List DrawEvent), chunkAt cs index = some sc.chunk →
          drawChunk env sc.CHUNK_W sc.CHUNK_D cs index occlusion = some (true, events) →
          events = [DrawEvent.getOrRender index, DrawEvent.uniformModel (modelTranslation sc),
            DrawEvent.draw index])
      ∧ modelTranslation sc = ⟨sc.chunk.x * sc.CHUNK_W, 0, sc.chunk.z * sc.CHUNK_D + 1⟩ := by
  have hs := blockCubeShaded_eq sc hd r x y z texfaces block states hw
  have hc := blockCube_eq sc hd r x y z ⟨1, 1, 1⟩ texfaces group hw
  refine ⟨hs, hc, ?_, ?_, ?_, ?_, rfl⟩
  · intro hroom
    refine ⟨_, hs, ?_⟩
    exact (emitAll_room _ r hw (by simpa [shadedQuads] using hroom)).1
  · intro hroom
    refine ⟨_, hc, ?_⟩
    exact (emitAll_room _ r hw (by simpa [cubeQuads] using hroom)).1
  · intro d
    obtain ⟨s1, s2⟩ := shadedQuad_coords sc x y z texfaces block states d
    obtain ⟨c1, c2⟩ := cubeQuad_coords x y z texfaces d
    refine ⟨s1, s2, c1, c2, ?_, worldSideCorners_eq sc x y z d⟩
    intro p hp
    have h := meshSideCorners_placement x y z d p hp
    have hwd := world_of_mesh sc x y z d p h
    exact ⟨h.1, h.2, hwd.1, hwd.2⟩
  · intro env cs index occlusion events hch hdraw
    exact drawChunk_drawn env sc.CHUNK_W sc.CHUNK_D cs index occlusion sc.chunk events hch hdraw

/-- Witness of C22: the stone cube at `(1, 0, 1)` of the example scene, whose chunk
is drawn with the translation `(0, 0, 1)`. -/
theorem world_placement_witness :
    blockCubeShaded (exampleScene 0 0 []) (freshRenderer 144) 1 0 1
        (fun k => ⟨k.val, 0, k.val + 1, 1⟩) stoneBlock 0
      = some (emitAll (freshRenderer 144)
          ((shadedOrder.filter (openSide (exampleScene 0 0 []) 1 0 1 stoneBlock.drawGroup)).map
            (shadedQuad (exampleScene 0 0 []) 1 0 1 (fun k => ⟨k.val, 0, k.val + 1, 1⟩)
              stoneBlock 0)))
      ∧ drawChunk exampleEnv 2 2 ⟨[some (exampleScene 0 0 []).chunk]⟩ 0 true
        = some (true, [DrawEvent.getOrRender 0,
            DrawEvent.uniformModel (modelTranslation (exampleScene 0 0 [])),
            DrawEvent.draw 0]) :=
  have h := world_placement (exampleScene 0 0 [])
    (exampleScene_windowDefined 0 0 [] (Or.inr (by decide))) (freshRenderer 144)
    (WF_freshRenderer 144) 1 0 1 (fun k => ⟨k.val, 0, k.val + 1, 1⟩) stoneBlock 0 0
  ⟨h.1, by
    have e : drawChunk exampleEnv 2 2 ⟨[some (exampleScene 0 0 []).chunk]⟩ 0 true
        = some (true, [DrawEvent.getOrRender 0, DrawEvent.uniformModel ⟨0 * 2, 0, 0 * 2 + 1⟩,
            DrawEvent.draw 0]) := by
      simp [drawChunk, chunkAt, exampleEnv, exampleScene]
    rw [h.2.2.2.2.2.1 exampleEnv ⟨[some (exampleScene 0 0 []).chunk]⟩ 0 true _ rfl e] at e
    exact e⟩


theorem quarterSum_same_zero :
    quarterSum (0 / 15) (0 / 15) (0 / 15) (0 / 15) = float32 (0 / 15) := by
  have f0 : float32 (0 / 15) = 0 := by
    rw [zero_div]
    exact float32_zero
  have f1 : float32 (0 + 0) = 0 := by
    rw [add_zero]
    exact float32_zero
  have f2 : float32 (0 * (1 / 4)) = 0 := by
    rw [zero_mul]
    exact float32_zero
  unfold quarterSum
  rw [f0, f1, f1, f1, f2]

theorem quarterSum_same_one :
    quarterSum (1 / 15) (1 / 15) (1 / 15) (1 / 15) = float32 (1 / 15) := by
  have f0 : float32 (1 / 15) = (8947849 / 134217728) := by
    refine float32_near _ _ (-4) 8947849 ?_ ?_ ?_ ?_ ?_ ?_ <;> norm_num [abs_lt, le_abs]
  have f1 : float32 ((8947849 / 134217728) + (8947849 / 134217728)) = (8947849 / 67108864) := by
    refine float32_near _ _ (-3) 8947849 ?_ ?_ ?_ ?_ ?_ ?_ <;> norm_num [abs_lt, le_abs]
  have f2 : float32 ((8947849 / 67108864) + (8947849 / 134217728)) = (6710887 / 33554432) := by
    refine float32_tie _ _ (-3) 13421774 ?_ ?_ ?_ ?_ ?_ ?_ ?_ <;> norm_num [abs_lt, le_abs, abs_eq]
  have f3 : float32 ((6710887 / 33554432) + (8947849 / 134217728)) = (8947849 / 33554432) := by
    refine float32_near _ _ (-2) 8947849 ?_ ?_ ?_ ?_ ?_ ?_ <;> norm_num [abs_lt, le_abs]
  have f4 : float32 ((8947849 / 33554432) * (1 / 4)) = (8947849 / 134217728) := by
    refine float32_near _ _ (-4) 8947849 ?_ ?_ ?_ ?_ ?_ ?_ <;> norm_num [abs_lt, le_abs]
  unfold quarterSum
  rw [f0, f1, f2, f3, f4]

theorem quarterSum_same_two :
    quarterSum (2 / 15) (2 / 15) (2 / 15) (2 / 15) = float32 (2 / 15) := by
  have f0 : float32 (2 / 15) = (8947849 / 67108864) := by
    refine float32_near _ _ (-3) 8947849 ?_ ?_ ?_ ?_ ?_ ?_ <;> norm_num [abs_lt, le_abs]
  have f1 : float32 ((8947849 / 67108864) + (8947849 / 67108864)) = (8947849 / 33554432) := by
    refine float32_near _ _ (-2) 8947849 ?_ ?_ ?_ ?_ ?_ ?_ <;> norm_num [abs_lt, le_abs]
  have f2 : float32 ((8947849 / 33554432) + (8947849 / 67108864)) = (6710887 / 16777216) := by
    refine float32_tie _ _ (-2) 13421774 ?_ ?_ ?_ ?_ ?_ ?_ ?_ <;> norm_num [abs_lt, le_abs, abs_eq]
  have f3 : float32 ((6710887 / 16777216) + (8947849 / 67108864)) = (8947849 / 16777216) := by
    refine float32_near _ _ (-1) 8947849 ?_ ?_ ?_ ?_ ?_ ?_ <;> norm_num [abs_lt, le_abs]
  have f4 : float32 ((8947849 / 16777216) * (1 / 4)) = (8947849 / 67108864) := by
    refine float32_near _ _ (-3) 8947849 ?_ ?_ ?_ ?_ ?_ ?_ <;> norm_num [abs_lt, le_abs]
  unfold quarterSum
  rw [f0, f1, f2, f3, f4]

theorem quarterSum_same_three :
    quarterSum (3 / 15) (3 / 15) (3 / 15) (3 / 15) = float32 (3 / 15) := by
  have f0 : float32 (3 / 15) = (13421773 / 67108864) := by
    refine float32_near _ _ (-3) 13421773 ?_ ?_ ?_ ?_ ?_ ?_ <;> norm_num [abs_lt, le_abs]
  have f1 : float32 ((13421773 / 67108864) + (13421773 / 67108864)) = (13421773 / 33554432) := by
    refine float32_near _ _ (-2) 13421773 ?_ ?_ ?_ ?_ ?_ ?_ <;> norm_num [abs_lt, le_abs]
  have f2 : float32 ((13421773 / 33554432) + (13421773 / 67108864)) = (5033165 / 8388608) := by
    refine float32_near _ _ (-1) 10066330 ?_ ?_ ?_ ?_ ?_ ?_ <;> norm_num [abs_lt, le_abs]
  have f3 : float32 ((5033165 / 8388608) + (13421773 / 67108864)) = (13421773 / 16777216) := by
    refine float32_near _ _ (-1) 13421773 ?_ ?_ ?_ ?_ ?_ ?_ <;> norm_num [abs_lt, le_abs]
  have f4 : float32 ((13421773 / 16777216) * (1 / 4)) = (13421773 / 67108864) := by
    refine float32_near _ _ (-3) 13421773 ?_ ?_ ?_ ?_ ?_ ?_ <;> norm_num [abs_lt, le_abs]
  unfold quarterSum
  rw [f0, f1, f2, f3, f4]

theorem quarterSum_same_four :
    quarterSum (4 / 15) (4 / 15) (4 / 15) (4 / 15) = float32 (4 / 15) := by
  have f0 : float32 (4 / 15) = (8947849 / 33554432) := by
    refine float32_near _ _ (-2) 8947849 ?_ ?_ ?_ ?_ ?_ ?_ <;> norm_num [abs_lt, le_abs]
  have f1 : float32 ((8947849 / 33554432) + (8947849 / 33554432)) = (8947849 / 16777216) := by
    refine float32_near _ _ (-1) 8947849 ?_ ?_ ?_ ?_ ?_ ?_ <;> norm_num [abs_lt, le_abs]
  have f2 : float32 ((8947849 / 16777216) + (8947849 / 33554432)) = (6710887 / 8388608) := by
    refine float32_tie _ _ (-1) 13421774 ?_ ?_ ?_ ?_ ?_ ?_ ?_ <;> norm_num [abs_lt, le_abs, abs_eq]
  have f3 : float32 ((6710887 / 8388608) + (8947849 / 33554432)) = (8947849 / 8388608) := by
    refine float32_near _ _ 0 8947849 ?_ ?_ ?_ ?_ ?_ ?_ <;> norm_num [abs_lt, le_abs]
  have f4 : float32 ((8947849 / 8388608) * (1 / 4)) = (8947849 / 33554432) := by
    refine float32_near _ _ (-2) 8947849 ?_ ?_ ?_ ?_ ?_ ?_ <;> norm_num [abs_lt, le_abs]
  unfold quarterSum
  rw [f0, f1, f2, f3, f4]

theorem quarterSum_same_five :
    quarterSum (5 / 15) (5 / 15) (5 / 15) (5 / 15) = float32 (5 / 15) := by
  have f0 : float32 (5 / 15) = (11184811 / 33554432) := by
    refine float32_near _ _ (-2) 11184811 ?_ ?_ ?_ ?_ ?_ ?_ <;> norm_num [abs_lt, le_abs]
  have f1 : float32 ((11184811 / 33554432) + (11184811 / 33554432)) = (11184811 / 16777216) := by
    refine float32_near _ _ (-1) 11184811 ?_ ?_ ?_ ?_ ?_ ?_ <;> norm_num [abs_lt, le_abs]
  have f2 : float32 ((11184811 / 16777216) + (11184811 / 33554432)) = 1 := by
    refine float32_near _ _ 0 8388608 ?_ ?_ ?_ ?_ ?_ ?_ <;> norm_num [abs_lt, le_abs]
  have f3 : float32 (1 + (11184811 / 33554432)) = (11184811 / 8388608) := by
    refine float32_near _ _ 0 11184811 ?_ ?_ ?_ ?_ ?_ ?_ <;> norm_num [abs_lt, le_abs]
  have f4 : float32 ((11184811 / 8388608) * (1 / 4)) = (11184811 / 33554432) := by
    refine float32_near _ _ (-2) 11184811 ?_ ?_ ?_ ?_ ?_ ?_ <;> norm_num [abs_lt, le_abs]
  unfold quarterSum
  rw [f0, f1, f2, f3, f4]

theorem quarterSum_same_six :
    quarterSum (6 / 15) (6 / 15) (6 / 15) (6 / 15) = float32 (6 / 15) := by
  have f0 : float32 (6 / 15) = (13421773 / 33554432) := by
    refine float32_near _ _ (-2) 13421773 ?_ ?_ ?_ ?_ ?_ ?_ <;> norm_num [abs_lt, le_abs]
  have f1 : float32 ((13421773 / 33554432) + (13421773 / 33554432)) = (13421773 / 16777216) := by
    refine float32_near _ _ (-1) 13421773 ?_ ?_ ?_ ?_ ?_ ?_ <;> norm_num [abs_lt, le_abs]
  have f2 : float32 ((13421773 / 16777216) + (13421773 / 33554432)) = (5033165 / 4194304) := by
    refine float32_near _ _ 0 10066330 ?_ ?_ ?_ ?_ ?_ ?_ <;> norm_num [abs_lt, le_abs]
  have f3 : float32 ((5033165 / 4194304) + (13421773 / 33554432)) = (13421773 / 8388608) := by
    refine float32_near _ _ 0 13421773 ?_ ?_ ?_ ?_ ?_ ?_ <;> norm_num [abs_lt, le_abs]
  have f4 : float32 ((13421773 / 8388608) * (1 / 4)) = (13421773 / 33554432) := by
    refine float32_near _ _ (-2) 13421773 ?_ ?_ ?_ ?_ ?_ ?_ <;> norm_num [abs_lt, le_abs]
  unfold quarterSum
  rw [f0, f1, f2, f3, f4]

theorem quarterSum_same_seven :
    quarterSum (7 / 15) (7 / 15) (7 / 15) (7 / 15) = float32 (7 / 15) := by
  have f0 : float32 (7 / 15) = (15658735 / 33554432) := by
    refine float32_near _ _ (-2) 15658735 ?_ ?_ ?_ ?_ ?_ ?_ <;> norm_num [abs_lt, le_abs]
  have f1 : float32 ((15658735 / 33554432) + (15658735 / 33554432)) = (15658735 / 16777216) := by
    refine float32_near _ _ (-1) 15658735 ?_ ?_ ?_ ?_ ?_ ?_ <;> norm_num [abs_lt, le_abs]
  have f2 : float32 ((15658735 / 16777216) + (15658735 / 33554432)) = (11744051 / 8388608) := by
    refine float32_near _ _ 0 11744051 ?_ ?_ ?_ ?_ ?_ ?_ <;> norm_num [abs_lt, le_abs]
  have f3 : float32 ((11744051 / 8388608) + (15658735 / 33554432)) = (15658735 / 8388608) := by
    refine float32_near _ _ 0 15658735 ?_ ?_ ?_ ?_ ?_ ?_ <;> norm_num [abs_lt, le_abs]
  have f4 : float32 ((15658735 / 8388608) * (1 / 4)) = (15658735 / 33554432) := by
    refine float32_near _ _ (-2) 15658735 ?_ ?_ ?_ ?_ ?_ ?_ <;> norm_num [abs_lt, le_abs]
  unfold quarterSum
  rw [f0, f1, f2, f3, f4]

theorem quarterSum_same_eight :
    quarterSum (8 / 15) (8 / 15) (8 / 15) (8 / 15) = float32 (8 / 15) := by
  have f0 : float32 (8 / 15) = (8947849 / 16777216) := by
    refine float32_near _ _ (-1) 8947849 ?_ ?_ ?_ ?_ ?_ ?_ <;> norm_num [abs_lt, le_abs]
  have f1 : float32 ((8947849 / 16777216) + (8947849 / 16777216)) = (8947849 / 8388608) := by
    refine float32_near _ _ 0 8947849 ?_ ?_ ?_ ?_ ?_ ?_ <;> norm_num [abs_lt, le_abs]
  have f2 : float32 ((8947849 / 8388608) + (8947849 / 16777216)) = (6710887 / 4194304) := by
    refine float32_tie _ _ 0 13421774 ?_ ?_ ?_ ?_ ?_ ?_ ?_ <;> norm_num [abs_lt, le_abs, abs_eq]
  have f3 : float32 ((6710887 / 4194304) + (8947849 / 16777216)) = (8947849 / 4194304) := by
    refine float32_near _ _ 1 8947849 ?_ ?_ ?_ ?_ ?_ ?_ <;> norm_num [abs_lt, le_abs]
  have f4 : float32 ((8947849 / 4194304) * (1 / 4)) = (8947849 / 16777216) := by
    refine float32_near _ _ (-1) 8947849 ?_ ?_ ?_ ?_ ?_ ?_ <;> norm_num [abs_lt, le_abs]
  unfold quarterSum
  rw [f0, f1, f2, f3, f4]

theorem quarterSum_same_nine :
    quarterSum (9 / 15) (9 / 15) (9 / 15) (9 / 15) = float32 (9 / 15) := by
  have f0 : float32 (9 / 15) = (5033165 / 8388608) := by
    refine float32_near _ _ (-1) 10066330 ?_ ?_ ?_ ?_ ?_ ?_ <;> norm_num [abs_lt, le_abs]
  have f1 : float32 ((5033165 / 8388608) + (5033165 / 8388608)) = (5033165 / 4194304) := by
    refine float32_near _ _ 0 10066330 ?_ ?_ ?_ ?_ ?_ ?_ <;> norm_num [abs_lt, le_abs]
  have f2 : float32 ((5033165 / 4194304) + (5033165 / 8388608)) = (15099495 / 8388608) := by
    refine float32_near _ _ 0 15099495 ?_ ?_ ?_ ?_ ?_ ?_ <;> norm_num [abs_lt, le_abs]
  have f3 : float32 ((15099495 / 8388608) + (5033165 / 8388608)) = (5033165 / 2097152) := by
    refine float32_near _ _ 1 10066330 ?_ ?_ ?_ ?_ ?_ ?_ <;> norm_num [abs_lt, le_abs]
  have f4 : float32 ((5033165 / 2097152) * (1 / 4)) = (5033165 / 8388608) := by
    refine float32_near _ _ (-1) 10066330 ?_ ?_ ?_ ?_ ?_ ?_ <;> norm_num [abs_lt, le_abs]
  unfold quarterSum
  rw [f0, f1, f2, f3, f4]

theorem quarterSum_same_ten :
    quarterSum (10 / 15) (10 / 15) (10 / 15) (10 / 15) = float32 (10 / 15) := by
  have f0 : float32 (10 / 15) = (11184811 / 16777216) := by
    refine float32_near _ _ (-1) 11184811 ?_ ?_ ?_ ?_ ?_ ?_ <;> norm_num [abs_lt, le_abs]
  have f1 : float32 ((11184811 / 16777216) + (11184811 / 16777216)) = (11184811 / 8388608) := by
    refine float32_near _ _ 0 11184811 ?_ ?_ ?_ ?_ ?_ ?_ <;> norm_num [abs_lt, le_abs]
  have f2 : float32 ((11184811 / 8388608) + (11184811 / 16777216)) = 2 := by
    refine float32_near _ _ 1 8388608 ?_ ?_ ?_ ?_ ?_ ?_ <;> norm_num [abs_lt, le_abs]
  have f3 : float32 (2 + (11184811 / 16777216)) = (11184811 / 4194304) := by
    refine float32_near _ _ 1 11184811 ?_ ?_ ?_ ?_ ?_ ?_ <;> norm_num [abs_lt, le_abs]
  have f4 : float32 ((11184811 / 4194304) * (1 / 4)) = (11184811 / 16777216) := by
    refine float32_near _ _ (-1) 11184811 ?_ ?_ ?_ ?_ ?_ ?_ <;> norm_num [abs_lt, le_abs]
  unfold quarterSum
  rw [f0, f1, f2, f3, f4]

theorem quarterSum_same_eleven :
    quarterSum (11 / 15) (11 / 15) (11 / 15) (11 / 15) = float32 (11 / 15) := by
  have f0 : float32 (11 / 15) = (3075823 / 4194304) := by
    refine float32_near _ _ (-1) 12303292 ?_ ?_ ?_ ?_ ?_ ?_ <;> norm_num [abs_lt, le_abs]
  have f1 : float32 ((3075823 / 4194304) + (3075823 / 4194304)) = (3075823 / 2097152) := by
    refine float32_near _ _ 0 12303292 ?_ ?_ ?_ ?_ ?_ ?_ <;> norm_num [abs_lt, le_abs]
  have f2 : float32 ((3075823 / 2097152) + (3075823 / 4194304)) = (9227469 / 4194304) := by
    refine float32_near _ _ 1 9227469 ?_ ?_ ?_ ?_ ?_ ?_ <;> norm_num [abs_lt, le_abs]
  have f3 : float32 ((9227469 / 4194304) + (3075823 / 4194304)) = (3075823 / 1048576) := by
    refine float32_near _ _ 1 12303292 ?_ ?_ ?_ ?_ ?_ ?_ <;> norm_num [abs_lt, le_abs]
  have f4 : float32 ((3075823 / 1048576) * (1 / 4)) = (3075823 / 4194304) := by
    refine float32_near _ _ (-1) 12303292 ?_ ?_ ?_ ?_ ?_ ?_ <;> norm_num [abs_lt, le_abs]
  unfold quarterSum
  rw [f0, f1, f2, f3, f4]

theorem quarterSum_same_twelve :
    quarterSum (12 / 15) (12 / 15) (12 / 15) (12 / 15) = float32 (12 / 15) := by
  have f0 : float32 (12 / 15) = (13421773 / 16777216) := by
    refine float32_near _ _ (-1) 13421773 ?_ ?_ ?_ ?_ ?_ ?_ <;> norm_num [abs_lt, le_abs]
  have f1 : float32 ((13421773 / 16777216) + (13421773 / 16777216)) = (13421773 / 8388608) := by
    refine float32_near _ _ 0 13421773 ?_ ?_ ?_ ?_ ?_ ?_ <;> norm_num [abs_lt, le_abs]
  have f2 : float32 ((13421773 / 8388608) + (13421773 / 16777216)) = (5033165 / 2097152) := by
    refine float32_near _ _ 1 10066330 ?_ ?_ ?_ ?_ ?_ ?_ <;> norm_num [abs_lt, le_abs]
  have f3 : float32 ((5033165 / 2097152) + (13421773 / 16777216)) = (13421773 / 4194304) := by
    refine float32_near _ _ 1 13421773 ?_ ?_ ?_ ?_ ?_ ?_ <;> norm_num [abs_lt, le_abs]
  have f4 : float32 ((13421773 / 4194304) * (1 / 4)) = (13421773 / 16777216) := by
    refine float32_near _ _ (-1) 13421773 ?_ ?_ ?_ ?_ ?_ ?_ <;> norm_num [abs_lt, le_abs]
  unfold quarterSum
  rw [f0, f1, f2, f3, f4]

theorem quarterSum_same_thirteen :
    quarterSum (13 / 15) (13 / 15) (13 / 15) (13 / 15) = float32 (13 / 15) := by
  have f0 : float32 (13 / 15) = (7270127 / 8388608) := by
    refine float32_near _ _ (-1) 14540254 ?_ ?_ ?_ ?_ ?_ ?_ <;> norm_num [abs_lt, le_abs]
  have f1 : float32 ((7270127 / 8388608) + (7270127 / 8388608)) = (7270127 / 4194304) := by
    refine float32_near _ _ 0 14540254 ?_ ?_ ?_ ?_ ?_ ?_ <;> norm_num [abs_lt, le_abs]
  have f2 : float32 ((7270127 / 4194304) + (7270127 / 8388608)) = (5452595 / 2097152) := by
    refine float32_tie _ _ 1 10905190 ?_ ?_ ?_ ?_ ?_ ?_ ?_ <;> norm_num [abs_lt, le_abs, abs_eq]
  have f3 : float32 ((5452595 / 2097152) + (7270127 / 8388608)) = (7270127 / 2097152) := by
    refine float32_tie _ _ 1 14540254 ?_ ?_ ?_ ?_ ?_ ?_ ?_ <;> norm_num [abs_lt, le_abs, abs_eq]
  have f4 : float32 ((7270127 / 2097152) * (1 / 4)) = (7270127 / 8388608) := by
    refine float32_near _ _ (-1) 14540254 ?_ ?_ ?_ ?_ ?_ ?_ <;> norm_num [abs_lt, le_abs]
  unfold quarterSum
  rw [f0, f1, f2, f3, f4]

theorem quarterSum_same_fourteen :
    quarterSum (14 / 15) (14 / 15) (14 / 15) (14 / 15) = float32 (14 / 15) := by
  have f0 : float32 (14 / 15) = (15658735 / 16777216) := by
    refine float32_near _ _ (-1) 15658735 ?_ ?_ ?_ ?_ ?_ ?_ <;> norm_num [abs_lt, le_abs]
  have f1 : float32 ((15658735 / 16777216) + (15658735 / 16777216)) = (15658735 / 8388608) := by
    refine float32_near _ _ 0 15658735 ?_ ?_ ?_ ?_ ?_ ?_ <;> norm_num [abs_lt, le_abs]
  have f2 : float32 ((15658735 / 8388608) + (15658735 / 16777216)) = (11744051 / 4194304) := by
    refine float32_near _ _ 1 11744051 ?_ ?_ ?_ ?_ ?_ ?_ <;> norm_num [abs_lt, le_abs]
  have f3 : float32 ((11744051 / 4194304) + (15658735 / 16777216)) = (15658735 / 4194304) := by
    refine float32_near _ _ 1 15658735 ?_ ?_ ?_ ?_ ?_ ?_ <;> norm_num [abs_lt, le_abs]
  have f4 : float32 ((15658735 / 4194304) * (1 / 4)) = (15658735 / 16777216) := by
    refine float32_near _ _ (-1) 15658735 ?_ ?_ ?_ ?_ ?_ ?_ <;> norm_num [abs_lt, le_abs]
  unfold quarterSum
  rw [f0, f1, f2, f3, f4]

theorem quarterSum_same_fifteen :
    quarterSum (15 / 15) (15 / 15) (15 / 15) (15 / 15) = float32 (15 / 15) := by
  have f0 : float32 (15 / 15) = 1 := by
    refine float32_near _ _ 0 8388608 ?_ ?_ ?_ ?_ ?_ ?_ <;> norm_num [abs_lt, le_abs]
  have f1 : float32 (1 + 1) = 2 := by
    refine float32_near _ _ 1 8388608 ?_ ?_ ?_ ?_ ?_ ?_ <;> norm_num [abs_lt, le_abs]
  have f2 : float32 (2 + 1) = 3 := by
    refine float32_near _ _ 1 12582912 ?_ ?_ ?_ ?_ ?_ ?_ <;> norm_num [abs_lt, le_abs]
  have f3 : float32 (3 + 1) = 4 := by
    refine float32_near _ _ 2 8388608 ?_ ?_ ?_ ?_ ?_ ?_ <;> norm_num [abs_lt, le_abs]
  have f4 : float32 (4 * (1 / 4)) = 1 := by
    refine float32_near _ _ 0 8388608 ?_ ?_ ?_ ?_ ?_ ?_ <;> norm_num [abs_lt, le_abs]
  unfold quarterSum
  rw [f0, f1, f2, f3, f4]

theorem quarterSum_same (k : Nat) (hk : k ≤ 15) :
    quarterSum ((k : ℚ) / 15) ((k : ℚ) / 15) ((k : ℚ) / 15) ((k : ℚ) / 15)
      = float32 ((k : ℚ) / 15) := by
  interval_cases k
  · simpa only [Nat.cast_zero] using quarterSum_same_zero
  · simpa only [Nat.cast_one] using quarterSum_same_one
  · simpa only [Nat.cast_ofNat] using quarterSum_same_two
  · simpa only [Nat.cast_ofNat] using quarterSum_same_three
  · simpa only [Nat.cast_ofNat] using quarterSum_same_four
  · simpa only [Nat.cast_ofNat] using quarterSum_same_five
  · simpa only [Nat.cast_ofNat] using quarterSum_same_six
  · simpa only [Nat.cast_ofNat] using quarterSum_same_seven
  · simpa only [Nat.cast_ofNat] using quarterSum_same_eight
  · simpa only [Nat.cast_ofNat] using quarterSum_same_nine
  · simpa only [Nat.cast_ofNat] using quarterSum_same_ten
  · simpa only [Nat.cast_ofNat] using quarterSum_same_eleven
  · simpa only [Nat.cast_ofNat] using quarterSum_same_twelve
  · simpa only [Nat.cast_ofNat] using quarterSum_same_thirteen
  · simpa only [Nat.cast_ofNat] using quarterSum_same_fourteen
  · simpa only [Nat.cast_ofNat] using quarterSum_same_fifteen

theorem roundEven_abs_sub_le (t : ℚ) : |(roundEven t : ℚ) - t| ≤ 1 / 2 := by
  unfold roundEven
  have h1 := Int.floor_le t
  have h2 := Int.lt_floor_add_one t
  rw [abs_le]
  split_ifs with a b c
  · constructor <;> linarith
  · push_cast
    constructor <;> linarith
  · constructor <;> linarith
  · push_cast
    push_neg at a b
    constructor <;> linarith

/-- The rounding error of a value below `2 ^ (e + 1)` is at most half a unit in the
last place of the binade `e`. -/
theorem float32_abs_sub_le (q : ℚ) (e : Int) (he : -126 ≤ e) (he2 : e ≤ 126)
    (h : |q| < 2 ^ (e + 1)) : |float32 q - q| ≤ 2 ^ (e - 24) := by
  by_cases h0 : q = 0
  · subst h0
    rw [float32_zero, sub_zero, abs_zero]
    positivity
  have hE : float32Exp q ≤ e := by
    unfold float32Exp
    have := (Int.lt_zpow_iff_log_lt (b := 2) (x := e + 1) (by norm_num)
      (abs_pos.mpr h0)).mp (by exact_mod_cast h)
    omega
  have hu : (0 : ℚ) < 2 ^ (float32Exp q - 23) := by positivity
  have hule : (2 : ℚ) ^ (float32Exp q - 23) ≤ 2 ^ (e - 23) :=
    zpow_le_zpow_right₀ (by norm_num) (by omega)
  have hhalf : (2 : ℚ) ^ (e - 24) = 2 ^ (e - 23) * (1 / 2) := by
    have : e - 23 = e - 24 + 1 := by ring
    rw [this, zpow_add_one₀ (by norm_num)]
    ring
  have hr : |(roundEven (q / 2 ^ (float32Exp q - 23)) : ℚ) * 2 ^ (float32Exp q - 23) - q|
      ≤ 2 ^ (e - 24) := by
    have e1 : (roundEven (q / 2 ^ (float32Exp q - 23)) : ℚ) * 2 ^ (float32Exp q - 23) - q
        = ((roundEven (q / 2 ^ (float32Exp q - 23)) : ℚ) - q / 2 ^ (float32Exp q - 23))
          * 2 ^ (float32Exp q - 23) := by
      field_simp
    rw [e1, abs_mul, abs_of_pos hu, hhalf]
    have := roundEven_abs_sub_le (q / 2 ^ (float32Exp q - 23))
    calc |(roundEven (q / 2 ^ (float32Exp q - 23)) : ℚ) - q / 2 ^ (float32Exp q - 23)|
          * 2 ^ (float32Exp q - 23)
        ≤ 1 / 2 * 2 ^ (float32Exp q - 23) := mul_le_mul_of_nonneg_right this hu.le
      _ ≤ 1 / 2 * 2 ^ (e - 23) := mul_le_mul_of_nonneg_left hule (by norm_num)
      _ = 2 ^ (e - 23) * (1 / 2) := by ring
  have hb1 : (2 : ℚ) ^ (e + 1) ≤ 2 ^ (127 : Int) := zpow_le_zpow_right₀ (by norm_num) (by omega)
  have hb2 : (2 : ℚ) ^ (e - 24) ≤ 2 ^ (102 : Int) := zpow_le_zpow_right₀ (by norm_num) (by omega)
  have h127 : (2 : ℚ) ^ (127 : Int) + 2 ^ (102 : Int) < 2 ^ 128 := by norm_num
  have hq := abs_lt.mp h
  have hr2 := abs_le.mp hr
  unfold float32
  simp only []
  generalize (2 : ℚ) ^ 128 = B at h127 ⊢
  rw [if_neg (by linarith), if_neg (by linarith)]
  exact hr

theorem float32_le_of_le (q : ℚ) (n : Nat) (hn : n < 2 ^ 24) (h0 : 0 ≤ q) (h : q ≤ n) :
    0 ≤ float32 q ∧ float32 q ≤ n :=
  ⟨float32_nonneg q h0, float32_le_nat q n hn h⟩

/-- The `float` value of `(a + b + c + d) * 0.25f` for four values of `[0, 1]` lies in
`[0, 1]` and within `2 ^ (-22)` of the exact quarter of the sum. -/
theorem quarterSum_bounds (a b c d : ℚ) (ha : 0 ≤ a ∧ a ≤ 1) (hb : 0 ≤ b ∧ b ≤ 1)
    (hc : 0 ≤ c ∧ c ≤ 1) (hd : 0 ≤ d ∧ d ≤ 1) :
    0 ≤ quarterSum a b c d ∧ quarterSum a b c d ≤ 1
      ∧ |quarterSum a b c d - (a + b + c + d) * (1 / 4)| ≤ 2 ^ (-22 : Int) := by
  unfold quarterSum
  obtain ⟨a0, a1⟩ := float32_le_of_le a 1 (by norm_num) ha.1 (by simpa using ha.2)
  obtain ⟨b0, b1⟩ := float32_le_of_le b 1 (by norm_num) hb.1 (by simpa using hb.2)
  obtain ⟨c0, c1⟩ := float32_le_of_le c 1 (by norm_num) hc.1 (by simpa using hc.2)
  obtain ⟨d0, d1⟩ := float32_le_of_le d 1 (by norm_num) hd.1 (by simpa using hd.2)
  simp only [Nat.cast_one] at a1 b1 c1 d1
  have ea := float32_abs_sub_le a 0 (by norm_num) (by norm_num)
    (by rw [abs_of_nonneg ha.1]; norm_num; linarith [ha.2])
  have eb := float32_abs_sub_le b 0 (by norm_num) (by norm_num)
    (by rw [abs_of_nonneg hb.1]; norm_num; linarith [hb.2])
  have ec := float32_abs_sub_le c 0 (by norm_num) (by norm_num)
    (by rw [abs_of_nonneg hc.1]; norm_num; linarith [hc.2])
  have ed := float32_abs_sub_le d 0 (by norm_num) (by norm_num)
    (by rw [abs_of_nonneg hd.1]; norm_num; linarith [hd.2])
  generalize float32 a = fa at *
  generalize float32 b = fb at *
  generalize float32 c = fc at *
  generalize float32 d = fd at *
  obtain ⟨s0, s1⟩ := float32_le_of_le (fa + fb) 2 (by norm_num) (by linarith)
    (by push_cast; linarith)
  have es := float32_abs_sub_le (fa + fb) 1 (by norm_num) (by norm_num)
    (by rw [abs_of_nonneg (by linarith)]; norm_num; linarith)
  generalize float32 (fa + fb) = s at *
  push_cast at s1
  obtain ⟨t0, t1⟩ := float32_le_of_le (s + fc) 3 (by norm_num) (by linarith)
    (by push_cast; linarith)
  have et := float32_abs_sub_le (s + fc) 1 (by norm_num) (by norm_num)
    (by rw [abs_of_nonneg (by linarith)]; norm_num; linarith)
  generalize float32 (s + fc) = t at *
  push_cast at t1
  obtain ⟨w0, w1⟩ := float32_le_of_le (t + fd) 4 (by norm_num) (by linarith)
    (by push_cast; linarith)
  have ew := float32_abs_sub_le (t + fd) 2 (by norm_num) (by norm_num)
    (by rw [abs_of_nonneg (by linarith)]; norm_num; linarith)
  generalize float32 (t + fd) = w at *
  push_cast at w1
  obtain ⟨r0, r1⟩ := float32_le_of_le (w * (1 / 4)) 1 (by norm_num) (by linarith)
    (by push_cast; linarith)
  have er := float32_abs_sub_le (w * (1 / 4)) 0 (by norm_num) (by norm_num)
    (by rw [abs_of_nonneg (by linarith)]; norm_num; linarith)
  generalize float32 (w * (1 / 4)) = res at *
  push_cast at r1
  refine ⟨r0, r1, ?_⟩
  norm_num at ea eb ec ed es et ew er ⊢
  rw [abs_le] at ea eb ec ed es et ew er ⊢
  constructor <;> linarith

theorem shadedQuad_frame (sc : Scene) (x y z : Int) (tf : Fin 6 → UVRegion) (block : Block)
    (states : Nat) (d : Dir) :
    ∃ region rotated, shadedQuad sc x y z tf block states d
      = litQuad sc (shadedFrame x y z d).1 (shadedFrame x y z d).2.1
          (shadedFrame x y z d).2.2.1 (shadedFrame x y z d).2.2.2 region
          (vec4.splat (shadedTint d)) rotated := by
  cases d <;> exact ⟨_, _, rfl⟩

theorem pickSoftLight_softAverage (sc : Scene) (hd : WindowDefined sc) (c right up : ivec3) :
    pickSoftLight sc c right up
      = some (softAverage (lightAt sc c) (lightAt sc (c - right))
          (lightAt sc (c - right - up)) (lightAt sc (c - up))) := by
  unfold pickSoftLight lightAt
  have h : ∀ p : ivec3, ∃ l, pickLightAt sc p = some l := fun p =>
    Option.isSome_iff_exists.mp (pickLight_isSome sc hd p.x p.y p.z)
  obtain ⟨l0, h0⟩ := h c
  obtain ⟨l1, h1⟩ := h (c - right)
  obtain ⟨l2, h2⟩ := h (c - right - up)
  obtain ⟨l3, h3⟩ := h (c - up)
  rw [h0, h1, h2, h3]
  rfl

theorem lightAt_unit (sc : Scene) (hd : WindowDefined sc) (p : ivec3) :
    (lightAt sc p).Unit := by
  obtain ⟨l, hl⟩ := Option.isSome_iff_exists.mp (pickLight_isSome sc hd p.x p.y p.z)
  have e : lightAt sc p = l := by
    unfold lightAt pickLightAt
    rw [hl]
    rfl
  rw [e]
  exact pickLight_unit sc p.x p.y p.z l hl

theorem lightAt_channels (sc : Scene) (hd : WindowDefined sc) (p : ivec3) :
    ∃ kr kg kb ka : Nat, kr ≤ 15 ∧ kg ≤ 15 ∧ kb ≤ 15 ∧ ka ≤ 15
      ∧ lightAt sc p = ⟨(kr : ℚ) / 15, (kg : ℚ) / 15, (kb : ℚ) / 15, (ka : ℚ) / 15⟩ := by
  obtain ⟨o, ho⟩ := Option.isSome_iff_exists.mp (isOpenForLight_isSome sc hd p.x p.y p.z)
  have e : lightAt sc p = if o = true then
      lightOf (sc.pickLight (sc.chunk.x * sc.CHUNK_W + p.x) p.y (sc.chunk.z * sc.CHUNK_D + p.z))
      else vec4.splat 0 := by
    unfold lightAt pickLightAt
    rw [pickLight_eq, ho]
    rfl
  rw [e]
  cases o
  · exact ⟨0, 0, 0, 0, by norm_num, by norm_num, by norm_num, by norm_num, by
      simp [vec4.splat]⟩
  · exact ⟨_, _, _, _, extract_le _ 0, extract_le _ 1, extract_le _ 2, extract_le _ 3, rfl⟩

theorem softAverage_same (l : vec4) (kr kg kb ka : Nat) (hr : kr ≤ 15) (hg : kg ≤ 15)
    (hb : kb ≤ 15) (ha : ka ≤ 15)
    (hl : l = ⟨(kr : ℚ) / 15, (kg : ℚ) / 15, (kb : ℚ) / 15, (ka : ℚ) / 15⟩) :
    softAverage l l l l = l.toFloat := by
  subst hl
  unfold softAverage vec4.toFloat
  simp only [quarterSum_same kr hr, quarterSum_same kg hg, quarterSum_same kb hb,
    quarterSum_same ka ha]

theorem softAverage_bounds (a b c d : vec4) (ha : a.Unit) (hb : b.Unit) (hc : c.Unit)
    (hd : d.Unit) :
    (softAverage a b c d).Unit
      ∧ vec4.Within (2 ^ (-22 : Int)) (softAverage a b c d) ((a + b + c + d).scale (1 / 4)) := by
  obtain ⟨a1, a2, a3, a4⟩ := ha
  obtain ⟨b1, b2, b3, b4⟩ := hb
  obtain ⟨c1, c2, c3, c4⟩ := hc
  obtain ⟨d1, d2, d3, d4⟩ := hd
  obtain ⟨r1, r2, r3⟩ := quarterSum_bounds a.r b.r c.r d.r a1 b1 c1 d1
  obtain ⟨g1, g2, g3⟩ := quarterSum_bounds a.g b.g c.g d.g a2 b2 c2 d2
  obtain ⟨p1, p2, p3⟩ := quarterSum_bounds a.b b.b c.b d.b a3 b3 c3 d3
  obtain ⟨q1, q2, q3⟩ := quarterSum_bounds a.a b.a c.a d.a a4 b4 c4 d4
  exact ⟨⟨⟨r1, r2⟩, ⟨g1, g2⟩, ⟨p1, p2⟩, ⟨q1, q2⟩⟩, ⟨r3, g3, p3, q3⟩⟩

theorem ivec3_eq_iff (p q : ivec3) : p = q ↔ p.x = q.x ∧ p.y = q.y ∧ p.z = q.z := by
  cases p
  cases q
  simp

theorem shaded_samples_meet_corner (x y z : Int) (d : Dir) :
    ∀ v ∈ faceCorners (shadedFrame x y z d).1 (shadedFrame x y z d).2.1
        (shadedFrame x y z d).2.2.1,
      (sampleCells (v + (shadedFrame x y z d).2.2.2) (shadedFrame x y z d).2.1
          (shadedFrame x y z d).2.2.1).Nodup
        ∧ ∀ cell : ivec3,
          cell ∈ sampleCells (v + (shadedFrame x y z d).2.2.2) (shadedFrame x y z d).2.1
              (shadedFrame x y z d).2.2.1
            ↔ InLayer x y z d cell ∧ MeetsCorner cell v := by
  cases d <;>
    simp only [shadedFrame, faceCorners, sampleCells, List.forall_mem_cons, List.not_mem_nil,
      IsEmpty.forall_iff, implies_true, and_true, List.nodup_cons, List.mem_cons,
      List.nodup_nil, InLayer, MeetsCorner, ivec3_add_def, ivec3_sub_def, ivec3_eq_iff,
      not_or, or_false, not_false_eq_true] <;>
    (intro v hv; refine ⟨by omega, fun cell => by omega⟩)

theorem roundToInt_intCast (n : Int) : roundToInt (n : ℚ) = n := by
  unfold roundToInt
  split_ifs with h
  · rw [Int.floor_eq_iff]
    constructor <;> linarith
  · have e : ⌊-(n : ℚ) + 1 / 2⌋ = -n := by
      rw [Int.floor_eq_iff]
      constructor <;> push_cast <;> linarith
    rw [e]
    ring

theorem roundToInt_intCast_add_one (n : Int) : roundToInt ((n : ℚ) + 1) = n + 1 := by
  have h := roundToInt_intCast (n + 1)
  push_cast at h
  exact h

theorem roundToInt_intCast_sub_one (n : Int) : roundToInt ((n : ℚ) - 1) = n - 1 := by
  have h := roundToInt_intCast (n - 1)
  push_cast at h
  exact h

theorem aabb_samples_meet_corner (x y z : Int) (d : Dir) :
    List.Forall₂
      (fun v c => (sampleCells c (aabbLightFrame x y z d).2.1 (aabbLightFrame x y z d).2.2).Nodup
        ∧ ∀ cell : ivec3,
          cell ∈ sampleCells c (aabbLightFrame x y z d).2.1 (aabbLightFrame x y z d).2.2
            ↔ InLayer x y z d cell ∧ MeetsCorner cell v)
      (faceCorners (shadedFrame x y z d).1 (shadedFrame x y z d).2.1
        (shadedFrame x y z d).2.2.1)
      (aabbLightFrame x y z d).1 := by
  cases d <;>
    simp only [shadedFrame, aabbLightFrame, faceCorners, sampleCells, List.forall₂_cons,
      List.Forall₂.nil, and_true, List.nodup_cons, List.mem_cons, List.not_mem_nil,
      List.nodup_nil, InLayer, MeetsCorner, ivec3_add_def, ivec3_sub_def, ivec3_eq_iff,
      not_or, or_false, not_false_eq_true] <;>
    refine ⟨⟨by omega, fun cell => by omega⟩, ⟨by omega, fun cell => by omega⟩,
      ⟨by omega, fun cell => by omega⟩, ⟨by omega, fun cell => by omega⟩⟩

theorem forall₂_combine {α β : Type} {Q1 : α → Prop} {Q2 R : α → β → Prop} {L : List α}
    {M : List β} (hA : ∀ v ∈ L, Q1 v) (hB : List.Forall₂ Q2 L M)
    (h : ∀ v c, Q1 v → Q2 v c → R v c) : List.Forall₂ R L M := by
  induction hB with
  | nil => exact List.Forall₂.nil
  | cons hab _ ih =>
    exact List.Forall₂.cons (h _ _ (hA _ (List.mem_cons_self _ _)) hab)
      (ih (fun v hv => hA v (List.mem_cons_of_mem _ hv)))

theorem faceRotatedQuad_noLight (sc : Scene) (coord aX aY aZ : ivec3)
    (fcoord faX faY : vec3) (w h : ℚ) (region : UVRegion) (tint : vec4)
    (lights : Fin 4 → vec4)
    (h0 : fcoord = vec3.ofInt coord)
    (h1 : fcoord + faX.scale w = vec3.ofInt (coord + aX))
    (h2 : fcoord + faX.scale w + faY.scale h = vec3.ofInt (coord + aX + aY))
    (h3 : fcoord + faY.scale h = vec3.ofInt (coord + aY)) :
    (faceRotatedQuad fcoord w h faX faY region lights tint false).noLight
      = (litQuad sc coord aX aY aZ region tint false).noLight := by
  unfold faceRotatedQuad litQuad litVtx Quad.noLight Vtx.noLight
  simp only [Bool.false_eq_true, if_false]
  rw [← h1, ← h2, ← h3, ← h0]

theorem aabb_unit_quads (sc : Scene) (x y z : Int)
    (tf : Fin 6 → UVRegion) (block : Block) (states : Nat)
    (hrot : block.rotatable = false) :
    (aabbQuads sc ⟨x, y, z⟩ ⟨1, 1, 1⟩ tf).map Quad.noLight
      = [Dir.pz, Dir.nz, Dir.py, Dir.ny, Dir.nx, Dir.px].map
          (fun d => (shadedQuad sc x y z tf block states d).noLight) := by
  have hr : shadedRot sc block states = 0 := by simp [shadedRot, hrot]
  have ht : shadedTexfaces sc block states tf = tf := by simp [shadedTexfaces, hrot]
  have e1 : ((0 : Nat) == 1) = false := rfl
  have e3 : ((0 : Nat) == 3) = false := rfl
  unfold aabbQuads
  simp only [List.map_cons, List.map_nil, shadedQuad, hr, ht, e1, e3, List.cons.injEq, and_true]
  refine ⟨?_, ?_, ?_, ?_, ?_, ?_⟩ <;>
    apply faceRotatedQuad_noLight <;>
    first
      | rfl
      | (simp only [vec3.ofInt, vec3_add_def, vec3.scale, ivec3_add_def, vec3.mk.injEq]
         push_cast
         refine ⟨?_, ?_, ?_⟩ <;> ring_nf)

theorem aabb_unit_lights (sc : Scene) (x y z : Int) (tf : Fin 6 → UVRegion) :
    (aabbQuads sc ⟨x, y, z⟩ ⟨1, 1, 1⟩ tf).map (fun q => q.vertices.map (fun p => p.light))
      = [Dir.pz, Dir.nz, Dir.py, Dir.ny, Dir.nx, Dir.px].map
          (fun d => (aabbLightFrame x y z d).1.map
            (fun c => softLight sc c (aabbLightFrame x y z d).2.1 (aabbLightFrame x y z d).2.2
              * vec4.splat (shadedTint d))) := by
  unfold aabbQuads
  simp only [List.map_cons, List.map_nil, faceRotatedQuad, Bool.false_eq_true, if_false,
    Quad.vertices, aabbLightFrame, shadedTint, softLightsD, Matrix.cons_val_zero,
    Matrix.cons_val_one, Matrix.head_cons, Matrix.cons_val_two, Matrix.tail_cons,
    Matrix.cons_val_three, roundToInt_intCast, roundToInt_intCast_add_one,
    roundToInt_intCast_sub_one]

theorem average_lightSum (sc : Scene) (c right up : ivec3) :
    (lightAt sc c + lightAt sc (c - right) + lightAt sc (c - right - up)
        + lightAt sc (c - up)).scale (1 / 4)
      = (lightSum sc (sampleCells c right up)).scale (1 / 4) := by
  show (vec4.scale (vec4.add (vec4.add (vec4.add (lightAt sc c) (lightAt sc (c - right)))
      (lightAt sc (c - right - up))) (lightAt sc (c - up))) (1 / 4)) = _
  simp only [lightSum, sampleCells, List.map_cons, List.map_nil, List.sum_cons, List.sum_nil,
    vec4.add, vec4.scale, add_zero, add_assoc]

theorem lightSum_perm (sc : Scene) (l1 l2 : List ivec3) (h : l1.Perm l2) :
    lightSum sc l1 = lightSum sc l2 := by
  unfold lightSum
  rw [(h.map _).sum_eq, (h.map _).sum_eq, (h.map _).sum_eq, (h.map _).sum_eq]

theorem softLight_within (sc : Scene) (hd : WindowDefined sc) (c right up : ivec3) :
    vec4.Within (2 ^ (-22 : Int)) (softLight sc c right up)
      ((lightSum sc (sampleCells c right up)).scale (1 / 4)) := by
  have h1 := pickSoftLight_softAverage sc hd c right up
  have h2 := pickSoftLight_eq sc hd c right up
  have e : softLight sc c right up = softAverage (lightAt sc c) (lightAt sc (c - right))
      (lightAt sc (c - right - up)) (lightAt sc (c - up)) := by
    rw [h1] at h2
    exact (Option.some.inj h2).symm
  rw [e, ← average_lightSum]
  exact (softAverage_bounds _ _ _ _ (lightAt_unit sc hd c) (lightAt_unit sc hd (c - right))
    (lightAt_unit sc hd (c - right - up)) (lightAt_unit sc hd (c - up))).2

theorem within_trans (p q m : vec4) (h1 : vec4.Within (2 ^ (-22 : Int)) p m)
    (h2 : vec4.Within (2 ^ (-22 : Int)) q m) : vec4.Within (2 ^ (-21 : Int)) p q := by
  obtain ⟨a1, a2, a3, a4⟩ := h1
  obtain ⟨b1, b2, b3, b4⟩ := h2
  have e : (2 : ℚ) ^ (-21 : Int) = 2 ^ (-22 : Int) + 2 ^ (-22 : Int) := by norm_num
  unfold vec4.Within
  rw [e]
  rw [abs_le] at a1 a2 a3 a4 b1 b2 b3 b4
  refine ⟨?_, ?_, ?_, ?_⟩ <;> rw [abs_le] <;> constructor <;> linarith

theorem aabb_lights_close (sc : Scene) (hd : WindowDefined sc) (x y z : Int) (d : Dir) :
    List.Forall₂
      (fun v c => (sampleCells c (aabbLightFrame x y z d).2.1 (aabbLightFrame x y z d).2.2).Perm
          (sampleCells (v + (shadedFrame x y z d).2.2.2) (shadedFrame x y z d).2.1
            (shadedFrame x y z d).2.2.1)
        ∧ vec4.Within (2 ^ (-21 : Int))
            (softLight sc c (aabbLightFrame x y z d).2.1 (aabbLightFrame x y z d).2.2)
            (softLight sc (v + (shadedFrame x y z d).2.2.2) (shadedFrame x y z d).2.1
              (shadedFrame x y z d).2.2.1))
      (faceCorners (shadedFrame x y z d).1 (shadedFrame x y z d).2.1
        (shadedFrame x y z d).2.2.1)
      (aabbLightFrame x y z d).1 := by
  refine forall₂_combine (shaded_samples_meet_corner x y z d)
    (aabb_samples_meet_corner x y z d) ?_
  intro v c h1 h2
  have hp : (sampleCells c (aabbLightFrame x y z d).2.1 (aabbLightFrame x y z d).2.2).Perm
      (sampleCells (v + (shadedFrame x y z d).2.2.2) (shadedFrame x y z d).2.1
        (shadedFrame x y z d).2.2.1) :=
    (List.perm_ext_iff_of_nodup h2.1 h1.1).mpr
      (fun cell => (h2.2 cell).trans (h1.2 cell).symm)
  refine ⟨hp, within_trans _ _ _ (softLight_within sc hd _ _ _) ?_⟩
  rw [lightSum_perm sc _ _ hp]
  exact softLight_within sc hd _ _ _

theorem shadedQuads_all_open (sc : Scene) (x y z : Int) (tf : Fin 6 → UVRegion)
    (block : Block) (states : Nat)
    (hopen : ∀ d, openSide sc x y z block.drawGroup d = true) :
    shadedQuads sc x y z tf block states
      = [Dir.pz, Dir.nz, Dir.py, Dir.ny, Dir.px, Dir.nx].map
          (shadedQuad sc x y z tf block states) := by
  unfold shadedQuads
  rw [List.filter_eq_self.mpr (fun d _ => hopen d)]
  rfl

theorem quadsIndices_diag (qs1 qs2 : List Quad)
    (h : qs1.map Quad.diag13 = qs2.map Quad.diag13) (base : Nat) :
    quadsIndices base qs1 = quadsIndices base qs2 := by
  induction qs1 generalizing qs2 base with
  | nil =>
    cases qs2 with
    | nil => rfl
    | cons q qs => cases h
  | cons q1 qs1 ih =>
    cases qs2 with
    | nil => cases h
    | cons q2 qs2 =>
      simp only [List.map_cons, List.cons.injEq] at h
      simp only [quadsIndices, Quad.indices, Quad.pattern, h.1, ih qs2 h.2]

theorem shadedQuad_lights (sc : Scene) (x y z : Int) (tf : Fin 6 → UVRegion) (block : Block)
    (states : Nat) (d : Dir) :
    (shadedQuad sc x y z tf block states d).vertices.map (fun p => p.light)
      = (faceCorners (shadedFrame x y z d).1 (shadedFrame x y z d).2.1
          (shadedFrame x y z d).2.2.1).map
        (fun v => softLight sc (v + (shadedFrame x y z d).2.2.2) (shadedFrame x y z d).2.1
          (shadedFrame x y z d).2.2.1 * vec4.splat (shadedTint d)) := by
  obtain ⟨region, rotated, h⟩ := shadedQuad_frame sc x y z tf block states d
  rw [h]
  cases rotated <;> rfl

theorem softLight_same (sc : Scene) (hd : WindowDefined sc) (c right up : ivec3) (l : vec4)
    (hl : ∀ cell ∈ sampleCells c right up, lightAt sc cell = l) :
    softLight sc c right up = l.toFloat := by
  have h1 := pickSoftLight_softAverage sc hd c right up
  have h2 := pickSoftLight_eq sc hd c right up
  have h0 := hl c (by simp [sampleCells])
  have e1 := hl (c - right) (by simp [sampleCells])
  have e2 := hl (c - right - up) (by simp [sampleCells])
  have e3 := hl (c - up) (by simp [sampleCells])
  obtain ⟨kr, kg, kb, ka, b1, b2, b3, b4, e⟩ := lightAt_channels sc hd c
  rw [h0] at e
  rw [h0, e1, e2, e3, softAverage_same l kr kg kb ka b1 b2 b3 b4 e] at h1
  rw [h1] at h2
  exact (Option.some.inj h2).symm

/-- C30, as the code has it: for a block that is not rotatable, with hitbox
`min = (0, 0, 0)` and `size = (1, 1, 1)`, `render` computes the offset `(0, 0, 0)`, and
at a voxel whose six neighbours are open, with room for six faces,
`blockCubeShaded(vec3 pos, vec3 size, ...)` writes six faces that agree with those of
`blockCubeShaded(int x, int y, int z, ...)` in the vertex positions and their order,
the UV corners, the index pattern and the tints `0.9, 0.75, 1.0, 0.6` for
+Z, -Z, +Y, -Y and `0.8, 0.7` for +X, -X; the first four faces correspond, then the
box path writes -X before +X and the cube path +X before -X.  The soft light of a
vertex is read from the same four cells in both paths, but the box path may add them
in another order: the two soft lights lie within `2 ^ (-21)` of each other in every
channel, and are equal when the four cells hold the same light. -/
theorem aabb_agrees_with_cube_on_unit_box (sc : Scene) (hd : WindowDefined sc)
    (r : BlocksRenderer) (hw : WF r) (x y z : Int) (tf : Fin 6 → UVRegion) (block : Block)
    (states : Nat) (hrot : block.rotatable = false)
    (hmin : block.hitboxMin = ⟨0, 0, 0⟩) (hsize : block.hitboxSize = ⟨1, 1, 1⟩)
    (hopen : ∀ d, openSide sc x y z block.drawGroup d = true)
    (hroom : r.vertexOffset + 144 ≤ r.capacity) :
    ((⟨block.hitboxMin.x, block.hitboxMin.y,
          -1 - block.hitboxMin.z * (-1) + block.hitboxSize.z⟩ : vec3) + ⟨x, y, z⟩
        = (⟨x, y, z⟩ : vec3))
      ∧ (∃ ra rc, blockCubeShadedAABB sc r ⟨x, y, z⟩ block.hitboxSize tf block states = some ra
          ∧ blockCubeShaded sc r x y z tf block states = some rc
          ∧ written ra = written r ++ quadsCells (aabbQuads sc ⟨x, y, z⟩ ⟨1, 1, 1⟩ tf)
          ∧ written rc = written r
              ++ quadsCells ([Dir.pz, Dir.nz, Dir.py, Dir.ny, Dir.px, Dir.nx].map
                  (shadedQuad sc x y z tf block states))
          ∧ indexList ra = indexList rc
          ∧ faceCount ra = faceCount r + 6 ∧ faceCount rc = faceCount r + 6
          ∧ ra.overflow = r.overflow ∧ rc.overflow = r.overflow)
      ∧ (aabbQuads sc ⟨x, y, z⟩ ⟨1, 1, 1⟩ tf).map Quad.noLight
          = [Dir.pz, Dir.nz, Dir.py, Dir.ny, Dir.nx, Dir.px].map
              (fun d => (shadedQuad sc x y z tf block states d).noLight)
      ∧ (aabbQuads sc ⟨x, y, z⟩ ⟨1, 1, 1⟩ tf).map (fun q => q.vertices.map (fun p => p.light))
          = [Dir.pz, Dir.nz, Dir.py, Dir.ny, Dir.nx, Dir.px].map
              (fun d => (aabbLightFrame x y z d).1.map
                (fun c => softLight sc c (aabbLightFrame x y z d).2.1
                  (aabbLightFrame x y z d).2.2 * vec4.splat (shadedTint d)))
      ∧ (∀ d, (shadedQuad sc x y z tf block states d).vertices.map (fun p => p.light)
          = (faceCorners (shadedFrame x y z d).1 (shadedFrame x y z d).2.1
              (shadedFrame x y z d).2.2.1).map
            (fun v => softLight sc (v + (shadedFrame x y z d).2.2.2) (shadedFrame x y z d).2.1
              (shadedFrame x y z d).2.2.1 * vec4.splat (shadedTint d)))
      ∧ (∀ d, (shadedQuad sc x y z tf block states d).uvs = (tf (sideRegion d)).corners)
      ∧ (∀ d, List.Forall₂
          (fun v c =>
            (sampleCells c (aabbLightFrame x y z d).2.1 (aabbLightFrame x y z d).2.2).Perm
              (sampleCells (v + (shadedFrame x y z d).2.2.2) (shadedFrame x y z d).2.1
                (shadedFrame x y z d).2.2.1)
            ∧ vec4.Within (2 ^ (-21 : Int))
                (softLight sc c (aabbLightFrame x y z d).2.1 (aabbLightFrame x y z d).2.2)
                (softLight sc (v + (shadedFrame x y z d).2.2.2) (shadedFrame x y z d).2.1
                  (shadedFrame x y z d).2.2.1))
          (faceCorners (shadedFrame x y z d).1 (shadedFrame x y z d).2.1
            (shadedFrame x y z d).2.2.1)
          (aabbLightFrame x y z d).1)
      ∧ (∀ (c right up : ivec3) (l : vec4),
          (∀ cell ∈ sampleCells c right up, lightAt sc cell = l) →
          softLight sc c right up = l.toFloat) := by
  have hq := aabb_unit_quads sc x y z tf block states hrot
  have hs := shadedQuads_all_open sc x y z tf block states hopen
  have ha := blockCubeShadedAABB_eq sc hd r ⟨x, y, z⟩ ⟨1, 1, 1⟩ tf block states hw
  have hc := blockCubeShaded_eq sc hd r x y z tf block states hw
  rw [hs] at hc
  have hlen : (aabbQuads sc ⟨x, y, z⟩ ⟨1, 1, 1⟩ tf).length = 6 := rfl
  obtain ⟨a1, a2, a3, a4, _⟩ := emitAll_room (aabbQuads sc ⟨x, y, z⟩ ⟨1, 1, 1⟩ tf) r hw
    (by rw [hlen]; exact hroom)
  obtain ⟨c1, c2, c3, c4, _⟩ := emitAll_room
    ([Dir.pz, Dir.nz, Dir.py, Dir.ny, Dir.px, Dir.nx].map
      (shadedQuad sc x y z tf block states)) r hw (by simpa using hroom)
  refine ⟨?_, ⟨_, _, ?_, hc, a1, c1, ?_, ?_, ?_, a4, c4⟩, hq, aabb_unit_lights sc x y z tf,
    shadedQuad_lights sc x y z tf block states,
    shadedQuad_uvs sc x y z tf block states hrot, aabb_lights_close sc hd x y z,
    softLight_same sc hd⟩
  · rw [hmin, hsize]
    simp only [vec3_add_def, vec3.mk.injEq]
    refine ⟨?_, ?_, ?_⟩ <;> norm_num
  · rw [hsize]
    exact ha
  · rw [a2, c2]
    have hp : ∀ d, (shadedQuad sc x y z tf block states d).diag13 = false := by
      intro d
      obtain ⟨region, rotated, h⟩ := shadedQuad_frame sc x y z tf block states d
      rw [h]
      cases rotated <;> rfl
    have hd1 : (aabbQuads sc ⟨x, y, z⟩ ⟨1, 1, 1⟩ tf).map Quad.diag13
        = ((aabbQuads sc ⟨x, y, z⟩ ⟨1, 1, 1⟩ tf).map Quad.noLight).map Quad.diag13 := by
      rw [List.map_map]
      exact List.map_congr_left (fun q _ => rfl)
    refine congrArg (fun l => indexList r ++ l) ?_
    apply quadsIndices_diag
    rw [hd1, hq]
    simp only [List.map_cons, List.map_nil, hp, Quad.noLight]
  · rw [a3, hlen]
  · rw [c3]
    rfl

/-- Witness of C30: the stone cube of the example at `(0, 1, 0)` in a window of air. -/
theorem aabb_agrees_with_cube_on_unit_box_witness :
    (aabbQuads (exampleScene 0 0 []) ⟨((0 : Int) : ℚ), ((1 : Int) : ℚ), ((0 : Int) : ℚ)⟩
        ⟨1, 1, 1⟩ (fun k => ⟨k.val, 0, k.val + 1, 1⟩)).map Quad.noLight
      = [Dir.pz, Dir.nz, Dir.py, Dir.ny, Dir.nx, Dir.px].map
          (fun d => (shadedQuad (exampleScene 0 0 []) 0 1 0 (fun k => ⟨k.val, 0, k.val + 1, 1⟩)
            stoneBlock 0 d).noLight) :=
  (aabb_agrees_with_cube_on_unit_box (exampleScene 0 0 [])
    (exampleScene_windowDefined 0 0 [] (Or.inr (by decide))) (freshRenderer 144)
    (WF_freshRenderer 144) 0 1 0 (fun k => ⟨k.val, 0, k.val + 1, 1⟩) stoneBlock 0 rfl rfl rfl
    (fun d => openSide_air _ (exampleScene_windowDefined 0 0 [] (Or.inr (by decide)))
      0 1 0 _ d rfl (by decide))
    (by decide)).2.2.1

theorem quarterSum_gradient_box :
    quarterSum (7 / 15) (8 / 15) (8 / 15) (9 / 15) = (1118481 / 2097152) := by
  have f0 : float32 (7 / 15) = (15658735 / 33554432) := by
    refine float32_near _ _ (-2) 15658735 ?_ ?_ ?_ ?_ ?_ ?_ <;> norm_num [abs_lt, le_abs]
  have f1 : float32 (8 / 15) = (8947849 / 16777216) := by
    refine float32_near _ _ (-1) 8947849 ?_ ?_ ?_ ?_ ?_ ?_ <;> norm_num [abs_lt, le_abs]
  have f3 : float32 (9 / 15) = (5033165 / 8388608) := by
    refine float32_near _ _ (-1) 10066330 ?_ ?_ ?_ ?_ ?_ ?_ <;> norm_num [abs_lt, le_abs]
  have g1 : float32 ((15658735 / 33554432) + (8947849 / 16777216)) = 1 := by
    refine float32_near _ _ 0 8388608 ?_ ?_ ?_ ?_ ?_ ?_ <;> norm_num [abs_lt, le_abs]
  have g2 : float32 (1 + (8947849 / 16777216)) = (3215633 / 2097152) := by
    refine float32_tie _ _ 0 12862532 ?_ ?_ ?_ ?_ ?_ ?_ ?_ <;> norm_num [abs_lt, le_abs, abs_eq]
  have g3 : float32 ((3215633 / 2097152) + (5033165 / 8388608)) = (1118481 / 524288) := by
    refine float32_tie _ _ 1 8947848 ?_ ?_ ?_ ?_ ?_ ?_ ?_ <;> norm_num [abs_lt, le_abs, abs_eq]
  have g4 : float32 ((1118481 / 524288) * (1 / 4)) = (1118481 / 2097152) := by
    refine float32_near _ _ (-1) 8947848 ?_ ?_ ?_ ?_ ?_ ?_ <;> norm_num [abs_lt, le_abs]
  unfold quarterSum
  rw [f0, f1, f3, g1, g2, g3, g4]

theorem quarterSum_gradient_cube :
    quarterSum (9 / 15) (8 / 15) (8 / 15) (7 / 15) = (8947849 / 16777216) := by
  have f0 : float32 (9 / 15) = (5033165 / 8388608) := by
    refine float32_near _ _ (-1) 10066330 ?_ ?_ ?_ ?_ ?_ ?_ <;> norm_num [abs_lt, le_abs]
  have f1 : float32 (8 / 15) = (8947849 / 16777216) := by
    refine float32_near _ _ (-1) 8947849 ?_ ?_ ?_ ?_ ?_ ?_ <;> norm_num [abs_lt, le_abs]
  have f3 : float32 (7 / 15) = (15658735 / 33554432) := by
    refine float32_near _ _ (-2) 15658735 ?_ ?_ ?_ ?_ ?_ ?_ <;> norm_num [abs_lt, le_abs]
  have g1 : float32 ((5033165 / 8388608) + (8947849 / 16777216)) = (4753545 / 4194304) := by
    refine float32_tie _ _ 0 9507090 ?_ ?_ ?_ ?_ ?_ ?_ ?_ <;> norm_num [abs_lt, le_abs, abs_eq]
  have g2 : float32 ((4753545 / 4194304) + (8947849 / 16777216)) = (6990507 / 4194304) := by
    refine float32_tie _ _ 0 13981014 ?_ ?_ ?_ ?_ ?_ ?_ ?_ <;> norm_num [abs_lt, le_abs, abs_eq]
  have g3 : float32 ((6990507 / 4194304) + (15658735 / 33554432)) = (8947849 / 4194304) := by
    refine float32_near _ _ 1 8947849 ?_ ?_ ?_ ?_ ?_ ?_ <;> norm_num [abs_lt, le_abs]
  have g4 : float32 ((8947849 / 4194304) * (1 / 4)) = (8947849 / 16777216) := by
    refine float32_near _ _ (-1) 8947849 ?_ ?_ ?_ ?_ ?_ ?_ <;> norm_num [abs_lt, le_abs]
  unfold quarterSum
  rw [f0, f1, f3, g1, g2, g3, g4]

theorem gradientScene_windowDefined : WindowDefined gradientScene := by
  intro x y z _
  rfl

theorem gradientScene_lightAt (p : ivec3) :
    lightAt gradientScene p = lightOf (gradientLights p.x p.y p.z) := by
  have ho : isOpenForLight gradientScene p.x p.y p.z = some true := by
    rw [isOpenForLight_eq gradientScene p.x p.y p.z airBlock
      (by show (0 : Nat) ≠ 65535; decide) rfl]
    rfl
  have e : gradientScene.pickLight (gradientScene.chunk.x * gradientScene.CHUNK_W + p.x) p.y
      (gradientScene.chunk.z * gradientScene.CHUNK_D + p.z) = gradientLights p.x p.y p.z := by
    show gradientLights (0 * (2 : Nat) + p.x) p.y (0 * (2 : Nat) + p.z) = _
    simp
  unfold lightAt pickLightAt
  rw [pickLight_eq, ho, e]
  rfl

theorem lightOf_grey (l k : Nat) (h0 : Lightmap.extract l 0 = k) (h1 : Lightmap.extract l 1 = k)
    (h2 : Lightmap.extract l 2 = k) (h3 : Lightmap.extract l 3 = k) :
    lightOf l = vec4.splat ((k : ℚ) / 15) := by
  unfold lightOf
  rw [h0, h1, h2, h3]
  rfl

theorem gradientScene_lights :
    lightAt gradientScene ⟨0, 1, 1⟩ = vec4.splat (7 / 15)
      ∧ lightAt gradientScene ⟨-1, 1, 1⟩ = vec4.splat (8 / 15)
      ∧ lightAt gradientScene ⟨-1, 1, 0⟩ = vec4.splat (8 / 15)
      ∧ lightAt gradientScene ⟨0, 1, 0⟩ = vec4.splat (9 / 15) := by
  have e7 := lightOf_grey 0x7777 7 (by decide) (by decide) (by decide) (by decide)
  have e8 := lightOf_grey 0x8888 8 (by decide) (by decide) (by decide) (by decide)
  have e9 := lightOf_grey 0x9999 9 (by decide) (by decide) (by decide) (by decide)
  simp only [Nat.cast_ofNat] at e7 e8 e9
  refine ⟨?_, ?_, ?_, ?_⟩ <;> rw [gradientScene_lightAt]
  · exact e7
  · exact e8
  · exact e8
  · exact e9

theorem softLight_softAverage (sc : Scene) (hd : WindowDefined sc) (c right up : ivec3) :
    softLight sc c right up = softAverage (lightAt sc c) (lightAt sc (c - right))
      (lightAt sc (c - right - up)) (lightAt sc (c - up)) := by
  have h1 := pickSoftLight_softAverage sc hd c right up
  have h2 := pickSoftLight_eq sc hd c right up
  rw [h1] at h2
  exact (Option.some.inj h2).symm

theorem gradientScene_softLights :
    softLight gradientScene ⟨0, 1, 1⟩ ⟨1, 0, 0⟩ ⟨0, 0, 1⟩ = vec4.splat (1118481 / 2097152)
      ∧ softLight gradientScene ⟨0, 1, 0⟩ ⟨1, 0, 0⟩ ⟨0, 0, -1⟩
        = vec4.splat (8947849 / 16777216) := by
  obtain ⟨l7, l8a, l8b, l9⟩ := gradientScene_lights
  constructor
  · rw [softLight_softAverage gradientScene gradientScene_windowDefined]
    have c1 : (⟨0, 1, 1⟩ : ivec3) - ⟨1, 0, 0⟩ = ⟨-1, 1, 1⟩ := rfl
    have c2 : (⟨-1, 1, 1⟩ : ivec3) - ⟨0, 0, 1⟩ = ⟨-1, 1, 0⟩ := rfl
    have c3 : (⟨0, 1, 1⟩ : ivec3) - ⟨0, 0, 1⟩ = ⟨0, 1, 0⟩ := rfl
    rw [c1, c2, c3, l7, l8a, l8b, l9]
    unfold softAverage vec4.splat
    simp only [quarterSum_gradient_box]
  · rw [softLight_softAverage gradientScene gradientScene_windowDefined]
    have c1 : (⟨0, 1, 0⟩ : ivec3) - ⟨1, 0, 0⟩ = ⟨-1, 1, 0⟩ := rfl
    have c2 : (⟨-1, 1, 0⟩ : ivec3) - ⟨0, 0, -1⟩ = ⟨-1, 1, 1⟩ := rfl
    have c3 : (⟨0, 1, 0⟩ : ivec3) - ⟨0, 0, -1⟩ = ⟨0, 1, 1⟩ := rfl
    rw [c1, c2, c3, l7, l8a, l8b, l9]
    unfold softAverage vec4.splat
    simp only [quarterSum_gradient_cube]

theorem quadsCells_third_light (qs : List Quad) :
    (quadsCells qs)[53]?
      = ((qs.map (fun q => q.vertices.map (fun p => p.light)))[2]?).bind
          (fun ls => ls[0]?.map (fun l => Cell.bits (compress l))) := by
  match qs with
  | [] => rfl
  | [q0] => simp [quadsCells, Quad.cells, Vtx.cells, vertexCells]
  | [q0, q1] => simp [quadsCells, Quad.cells, Vtx.cells, vertexCells]
  | q0 :: q1 :: q2 :: rest =>
    simp [quadsCells, Quad.cells, Vtx.cells, vertexCells, Quad.vertices]

theorem gradientScene_open (d : Dir) :
    openSide gradientScene 0 0 0 stoneBlock.drawGroup d = true :=
  openSide_air _ gradientScene_windowDefined 0 0 0 _ d rfl (by decide)

/-- Counterexample to C30 as stated: the unit stone box at `(0, 0, 0)` in a window of
air, the four cells above its corner `(0, 1, 0)` holding the lights 7, 8, 8 and 9.  The
box path adds them as `7 + 8 + 8 + 9`, the cube path as `9 + 8 + 8 + 7`; in `float`
arithmetic the first vertex of the +Y face gets the packed light bytes 135 in the
box path and 136 in the cube path. -/
theorem aabb_light_order_counterexample :
    stoneBlock.rotatable = false ∧ stoneBlock.hitboxMin = ⟨0, 0, 0⟩
      ∧ stoneBlock.hitboxSize = ⟨1, 1, 1⟩
      ∧ (∀ d, openSide gradientScene 0 0 0 stoneBlock.drawGroup d = true)
      ∧ (freshRenderer 144).vertexOffset + 144 ≤ (freshRenderer 144).capacity
      ∧ ∃ ra rc, blockCubeShadedAABB gradientScene (freshRenderer 144) ⟨0, 0, 0⟩ ⟨1, 1, 1⟩
            (fun k => ⟨k.val, 0, k.val + 1, 1⟩) stoneBlock 0 = some ra
          ∧ blockCubeShaded gradientScene (freshRenderer 144) 0 0 0
            (fun k => ⟨k.val, 0, k.val + 1, 1⟩) stoneBlock 0 = some rc
          ∧ (written ra)[53]? = some (Cell.bits (packGrey 135))
          ∧ (written rc)[53]? = some (Cell.bits (packGrey 136)) := by
  have hd := gradientScene_windowDefined
  have hw := WF_freshRenderer 144
  have hpos : (⟨0, 0, 0⟩ : vec3) = ⟨((0 : Int) : ℚ), ((0 : Int) : ℚ), ((0 : Int) : ℚ)⟩ := by
    simp
  have ha := blockCubeShadedAABB_eq gradientScene hd (freshRenderer 144)
    ⟨((0 : Int) : ℚ), ((0 : Int) : ℚ), ((0 : Int) : ℚ)⟩ ⟨1, 1, 1⟩
    (fun k => ⟨k.val, 0, k.val + 1, 1⟩) stoneBlock 0 hw
  have hc := blockCubeShaded_eq gradientScene hd (freshRenderer 144) 0 0 0
    (fun k => ⟨k.val, 0, k.val + 1, 1⟩) stoneBlock 0 hw
  rw [shadedQuads_all_open gradientScene 0 0 0 _ stoneBlock 0 gradientScene_open] at hc
  have hwr : written (freshRenderer 144) = [] := by simp [written, freshRenderer]
  have hroom : (freshRenderer 144).vertexOffset + 144 ≤ (freshRenderer 144).capacity := by
    decide
  obtain ⟨a1, _⟩ := emitAll_room (aabbQuads gradientScene
      ⟨((0 : Int) : ℚ), ((0 : Int) : ℚ), ((0 : Int) : ℚ)⟩ ⟨1, 1, 1⟩
      (fun k => ⟨k.val, 0, k.val + 1, 1⟩)) (freshRenderer 144) hw hroom
  obtain ⟨c1, _⟩ := emitAll_room
    ([Dir.pz, Dir.nz, Dir.py, Dir.ny, Dir.px, Dir.nx].map
      (shadedQuad gradientScene 0 0 0 (fun k => ⟨k.val, 0, k.val + 1, 1⟩) stoneBlock 0))
    (freshRenderer 144) hw hroom
  obtain ⟨sb, sc2⟩ := gradientScene_softLights
  refine ⟨rfl, rfl, rfl, gradientScene_open, hroom,
    emitAll (freshRenderer 144) (aabbQuads gradientScene
      ⟨((0 : Int) : ℚ), ((0 : Int) : ℚ), ((0 : Int) : ℚ)⟩ ⟨1, 1, 1⟩
      (fun k => ⟨k.val, 0, k.val + 1, 1⟩)), _, ?_, hc, ?_, ?_⟩
  · rw [hpos]
    exact ha
  · rw [a1, hwr, List.nil_append, quadsCells_third_light, aabb_unit_lights]
    simp only [List.map_cons, List.map_nil, aabbLightFrame, shadedTint]
    have e : (⟨0, 0 + 1, 0 + 1⟩ : ivec3) = ⟨0, 1, 1⟩ := rfl
    simp only [List.getElem?_cons_succ, List.getElem?_cons_zero, Option.some_bind,
      Option.map_some', e, sb]
    rw [compress_grey _ 1 135 (by norm_num) (by norm_num) (by norm_num)]
  · rw [c1, hwr, List.nil_append, quadsCells_third_light, List.map_map]
    simp only [List.map_cons, List.map_nil, Function.comp, shadedQuad_lights, shadedFrame,
      faceCorners, shadedTint]
    have e : (⟨0, 0 + 1, 0⟩ : ivec3) + ⟨0, 0, 0⟩ = ⟨0, 1, 0⟩ := rfl
    simp only [List.getElem?_cons_succ, List.getElem?_cons_zero, Option.some_bind,
      Option.map_some', e, sc2]
    rw [compress_grey _ 1 136 (by norm_num) (by norm_num) (by norm_num)]


theorem drawChunk_eq (env : DrawEnv) (W D : Nat) (cs : Chunks) (i : Nat) (occlusion : Bool)
    (hi : (chunkAt cs i).isSome = true) :
    drawChunk env W D cs i occlusion
      = some (visibleAt env W D cs occlusion i, eventsAt env W D cs occlusion i) := by
  obtain ⟨c, hc⟩ := Option.isSome_iff_exists.mp hi
  have ht : translationAt W D cs i = ⟨c.x * W, 0, c.z * D + 1⟩ := by
    unfold translationAt
    rw [hc]
  unfold drawChunk visibleAt eventsAt lightedAt visibleAt
  simp only [hc, ht, Option.bind_eq_bind, Option.some_bind]
  cases hl : env.isLighted c
  · simp
  · cases hm : env.getOrRender c with
    | none => simp
    | some m =>
      cases occlusion
      · simp
      · cases hv : env.isBoxVisible ⟨c.x * W, c.bottom, c.z * D⟩
            ⟨c.x * W + W, c.top, c.z * D + D⟩ <;> simp [hv]

theorem drawLoop_eq (env : DrawEnv) (W D : Nat) (cs : Chunks) (occlusion : Bool)
    (l : List Nat) (hl : ∀ i ∈ l, (chunkAt cs i).isSome = true) (visible : Nat)
    (log : List DrawEvent) :
    drawLoop env W D cs occlusion l visible log
      = some (visible + l.countP (visibleAt env W D cs occlusion),
          log ++ l.flatMap (eventsAt env W D cs occlusion)) := by
  induction l generalizing visible log with
  | nil => simp [drawLoop]
  | cons i rest ih =>
    unfold drawLoop
    rw [drawChunk_eq env W D cs i occlusion (hl i (List.mem_cons_self _ _))]
    simp only
    rw [ih (fun j hj => hl j (List.mem_cons_of_mem _ hj))]
    cases hv : visibleAt env W D cs occlusion i <;>
      simp [List.countP_cons, hv, List.flatMap_cons, Nat.add_assoc, Nat.add_comm]

theorem drawChunks_order (W D : Nat) (cs : Chunks) (camera : Camera) :
    ∃ order, drawChunks W D cs camera = some order ∧ order.Perm (collectIndices cs) := by
  have hsome : ∀ b ∈ collectIndices cs, (chunkAt cs b).isSome = true := by
    intro b hb
    unfold collectIndices at hb
    exact (List.mem_filter.mp hb).2
  exact ⟨_, stdSort_eq cs _ _ (collectIndices cs) hsome, List.perm_insertionSort _ _⟩

theorem mem_eventsAt_getOrRender (env : DrawEnv) (W D : Nat) (cs : Chunks) (occlusion : Bool)
    (i j : Nat) :
    DrawEvent.getOrRender i ∈ eventsAt env W D cs occlusion j
      ↔ i = j ∧ lightedAt env cs j = true := by
  unfold eventsAt
  cases lightedAt env cs j <;> cases visibleAt env W D cs occlusion j <;> simp [eq_comm]

theorem mem_eventsAt_draw (env : DrawEnv) (W D : Nat) (cs : Chunks) (occlusion : Bool)
    (i j : Nat) :
    DrawEvent.draw i ∈ eventsAt env W D cs occlusion j
      ↔ i = j ∧ visibleAt env W D cs occlusion j = true := by
  unfold eventsAt
  cases lightedAt env cs j <;> cases visibleAt env W D cs occlusion j <;> simp [eq_comm]

theorem visibleAt_lighted (env : DrawEnv) (W D : Nat) (cs : Chunks) (occlusion : Bool) (i : Nat)
    (h : visibleAt env W D cs occlusion i = true) : lightedAt env cs i = true := by
  unfold visibleAt at h
  unfold lightedAt
  cases hc : chunkAt cs i with
  | none => rw [hc] at h; cases h
  | some c =>
    rw [hc] at h
    simp only [Bool.and_eq_true] at h
    exact h.1.1

/-- C21: `drawChunks` returns with `chunks->visible` equal to the number of loaded
chunks that are lighted, for which `getOrRender` gave a mesh and which, when
`occlusion` is on, pass the frustum test on the box from
`(x * CHUNK_W, bottom, z * CHUNK_D)` to `(x * CHUNK_W + CHUNK_W, top, z * CHUNK_D + CHUNK_D)`.
The counter is reset at each call: the result does not depend on its value on entry
and never exceeds the number of loaded chunks.  `getOrRender` is called exactly for
the loaded chunks that are lighted, and exactly the counted chunks are drawn: a chunk
that is not lighted is not meshed, not drawn and not counted. -/
theorem visible_chunk_count (env : DrawEnv) (CHUNK_W CHUNK_D : Nat) (cs : Chunks)
    (camera : Camera) (occlusion : Bool) (visible : Nat) :
    ∃ count log, drawChunksFrame env CHUNK_W CHUNK_D cs camera occlusion visible
        = some (count, log)
      ∧ count = (collectIndices cs).countP (visibleAt env CHUNK_W CHUNK_D cs occlusion)
      ∧ count ≤ (collectIndices cs).length
      ∧ (∀ other : Nat, drawChunksFrame env CHUNK_W CHUNK_D cs camera occlusion other
          = some (count, log))
      ∧ (∀ i, DrawEvent.getOrRender i ∈ log
          ↔ i ∈ collectIndices cs ∧ lightedAt env cs i = true)
      ∧ (∀ i, DrawEvent.draw i ∈ log
          ↔ i ∈ collectIndices cs ∧ visibleAt env CHUNK_W CHUNK_D cs occlusion i = true)
      ∧ (∀ i chunk, chunkAt cs i = some chunk → env.isLighted chunk = false →
          DrawEvent.getOrRender i ∉ log ∧ DrawEvent.draw i ∉ log
            ∧ visibleAt env CHUNK_W CHUNK_D cs occlusion i = false)
      ∧ (∀ i chunk, chunkAt cs i = some chunk →
          visibleAt env CHUNK_W CHUNK_D cs occlusion i
            = (env.isLighted chunk && (env.getOrRender chunk).isSome
                && (!occlusion || env.isBoxVisible
                    ⟨chunk.x * CHUNK_W, chunk.bottom, chunk.z * CHUNK_D⟩
                    ⟨chunk.x * CHUNK_W + CHUNK_W, chunk.top, chunk.z * CHUNK_D + CHUNK_D⟩))) := by
  obtain ⟨order, ho, hperm⟩ := drawChunks_order CHUNK_W CHUNK_D cs camera
  have hsome : ∀ i ∈ order, (chunkAt cs i).isSome = true := by
    intro i hi
    have := hperm.subset hi
    unfold collectIndices at this
    exact (List.mem_filter.mp this).2
  have hloop := drawLoop_eq env CHUNK_W CHUNK_D cs occlusion order hsome 0 []
  have hrun : ∀ v : Nat, drawChunksFrame env CHUNK_W CHUNK_D cs camera occlusion v
      = some (order.countP (visibleAt env CHUNK_W CHUNK_D cs occlusion),
          order.flatMap (eventsAt env CHUNK_W CHUNK_D cs occlusion)) := by
    intro v
    unfold drawChunksFrame
    rw [ho]
    simp only [Option.bind_eq_bind, Option.some_bind]
    rw [hloop]
    simp
  have hcount : order.countP (visibleAt env CHUNK_W CHUNK_D cs occlusion)
      = (collectIndices cs).countP (visibleAt env CHUNK_W CHUNK_D cs occlusion) :=
    hperm.countP_eq _
  have hmemG : ∀ i, DrawEvent.getOrRender i
        ∈ order.flatMap (eventsAt env CHUNK_W CHUNK_D cs occlusion)
      ↔ i ∈ collectIndices cs ∧ lightedAt env cs i = true := by
    intro i
    rw [List.mem_flatMap]
    constructor
    · rintro ⟨j, hj, hm⟩
      obtain ⟨e, hl⟩ := (mem_eventsAt_getOrRender env _ _ cs occlusion i j).mp hm
      subst e
      exact ⟨hperm.subset hj, hl⟩
    · rintro ⟨hi, hl⟩
      exact ⟨i, hperm.symm.subset hi,
        (mem_eventsAt_getOrRender env _ _ cs occlusion i i).mpr ⟨rfl, hl⟩⟩
  have hmemD : ∀ i, DrawEvent.draw i
        ∈ order.flatMap (eventsAt env CHUNK_W CHUNK_D cs occlusion)
      ↔ i ∈ collectIndices cs ∧ visibleAt env CHUNK_W CHUNK_D cs occlusion i = true := by
    intro i
    rw [List.mem_flatMap]
    constructor
    · rintro ⟨j, hj, hm⟩
      obtain ⟨e, hl⟩ := (mem_eventsAt_draw env _ _ cs occlusion i j).mp hm
      subst e
      exact ⟨hperm.subset hj, hl⟩
    · rintro ⟨hi, hl⟩
      exact ⟨i, hperm.symm.subset hi,
        (mem_eventsAt_draw env _ _ cs occlusion i i).mpr ⟨rfl, hl⟩⟩
  refine ⟨_, _, hrun visible, hcount, ?_, hrun, hmemG, hmemD, ?_, ?_⟩
  · rw [hcount]
    exact List.countP_le_length _
  · intro i chunk hc hl
    have hnl : lightedAt env cs i = false := by
      unfold lightedAt
      rw [hc]
      exact hl
    have hnv : visibleAt env CHUNK_W CHUNK_D cs occlusion i = false := by
      cases h : visibleAt env CHUNK_W CHUNK_D cs occlusion i
      · rfl
      · have := visibleAt_lighted env _ _ cs occlusion i h
        rw [hnl] at this
        cases this
    refine ⟨?_, ?_, hnv⟩
    · intro hm
      have := ((hmemG i).mp hm).2
      rw [hnl] at this
      cases this
    · intro hm
      have := ((hmemD i).mp hm).2
      rw [hnv] at this
      cases this
  · intro i chunk hc
    unfold visibleAt
    rw [hc]

/-- Witness of C21: of the three loaded chunks of the example only the one at `x = 0`
is lighted, so one chunk is counted, whatever the counter held before. -/
theorem visible_chunk_count_witness :
    ∃ count log, drawChunksFrame exampleEnv 16 16 exampleChunks ⟨⟨8, 0, 8⟩⟩ true 7
        = some (count, log)
      ∧ count = (collectIndices exampleChunks).countP
          (visibleAt exampleEnv 16 16 exampleChunks true)
      ∧ (collectIndices exampleChunks).countP
          (visibleAt exampleEnv 16 16 exampleChunks true) = 1 :=
  have h := visible_chunk_count exampleEnv 16 16 exampleChunks ⟨⟨8, 0, 8⟩⟩ true 7
  ⟨h.choose, h.choose_spec.choose, h.choose_spec.choose_spec.1,
    h.choose_spec.choose_spec.2.1, by decide⟩


end VoxelEngine
